import Mathlib

/-!
# The RPC translator of the node (nano/node/rpc.cpp)

A shallow embedding of `nano::rpc_handler`: every handler is a function over the
members the C++ object mutates (`ec`, `response_l`) together with two traces, the
invocations of the `response` callback and the node or wallet operations performed.
Whatever lives outside `rpc.cpp` (store, ledger, wallets, codecs, hashing, work) is
read through the fields of `node`, one field per call the handlers make.

Three parts of the node whose code is not in `rpc.cpp` are modelled from the
specification, each marked so at its definitions: the endpoint parser, the UDP buffer
pool and the bulk pull server.
-/

namespace nano

/-! ## Error codes -/

/-- Enumerators of `nano::error_common` that `rpc.cpp` uses. -/
inductive error_common
  | account_not_found | account_not_found_wallet | bad_account_number | bad_private_key
  | bad_public_key | bad_seed | bad_threshold | bad_wallet_number | bad_work_format
  | insufficient_balance | invalid_amount | invalid_amount_big | invalid_count | invalid_index
  | invalid_ip_address | invalid_port | invalid_work | wallet_lmdb_max_dbs | wallet_locked
  | wallet_not_found
  deriving DecidableEq, Repr

/-- Enumerators of `nano::error_blocks` that `rpc.cpp` uses. -/
inductive error_blocks
  | bad_hash_number | invalid_block | invalid_block_hash | invalid_type | not_found | work_low
  deriving DecidableEq, Repr

/-- Enumerators of `nano::error_rpc` that `rpc.cpp` uses. -/
inductive error_rpc
  | bad_destination | bad_key | bad_link | bad_previous | bad_representative_number | bad_source
  | bad_timeout | block_create_balance_mismatch | block_create_key_required
  | block_create_public_key_mismatch | block_create_requirements_change
  | block_create_requirements_open | block_create_requirements_receive
  | block_create_requirements_send | block_create_requirements_state | confirmation_not_found
  | invalid_balance | invalid_destinations | invalid_missing_type | invalid_offset | invalid_root
  | invalid_sources | invalid_subtype | invalid_subtype_balance | invalid_subtype_epoch_link
  | invalid_subtype_previous | invalid_timestamp | payment_account_balance
  | payment_unable_create_account | rpc_control_disabled | sign_hash_disabled | source_not_found
  deriving DecidableEq, Repr

/-- Enumerators of `nano::error_process` that `rpc.cpp` uses. -/
inductive error_process
  | bad_signature | balance_mismatch | block_position | fork | gap_previous | gap_source
  | negative_spend | old | other | unreceivable
  deriving DecidableEq, Repr

/-- A set `std::error_code`: one of the four error enums. -/
inductive error_code
  | common (e : error_common)
  | blocks (e : error_blocks)
  | rpc (e : error_rpc)
  | process (e : error_process)
  deriving DecidableEq, Repr

/-! ## Property trees -/

/-- A child of a nested tree: a leaf carrying text, or a tree of text leaves. -/
inductive pchild
  | data (text : String)
  | tree (leaves : List (String × String))
  deriving DecidableEq, Repr

/-- A child of a property tree: a leaf carrying text, an array of text leaves, a tree
whose children are leaves or trees of leaves, or a tree of such trees (the nested shapes
the handlers below build). -/
inductive pvalue
  | data (text : String)
  | array (items : List String)
  | children (items : List (String × pchild))
  | nested (items : List (String × List (String × pchild)))
  deriving DecidableEq, Repr

/-- A `boost::property_tree::ptree` one level deep: its children in order. -/
abbrev ptree := List (String × pvalue)

/-- Text at a child, as `get_value<std::string>` sees it: a container has empty data. -/
def pvalue.text : pvalue → String
  | .data t => t
  | .array _ => ""
  | .children _ => ""
  | .nested _ => ""

/-- The data of the children of a child, in order, as a loop over `get_child (key)` reads
them with `second.data ()`. -/
def pvalue.child_data : pvalue → List String
  | .data _ => []
  | .array items => items
  | .children items => items.map fun item =>
    match item.2 with
    | .data t => t
    | .tree _ => ""
  | .nested items => items.map fun _ => ""

/-- The `get_optional<std::string> (key)` call: the first child under `key`. -/
def ptree.get_optional (t : ptree) (key : String) : Option String :=
  (t.lookup key).map pvalue.text

/-- The `put (key, value)` call: overwrite the first child under `key`, or append one. -/
def ptree.put : ptree → String → String → ptree
  | [], key, value => [(key, .data value)]
  | (k, v) :: rest, key, value =>
    if k = key then (k, .data value) :: rest else (k, v) :: ptree.put rest key value

/-- The `add_child (key, child)` call for an array child: always appends. -/
def ptree.add_child (t : ptree) (key : String) (items : List String) : ptree :=
  t ++ [(key, .array items)]

/-- The `put (key, value)` call on a nested tree: overwrite the first child under `key`, or
append one. -/
def pchild.put : List (String × pchild) → String → String → List (String × pchild)
  | [], key, value => [(key, .data value)]
  | (k, v) :: rest, key, value =>
    if k = key then (k, .data value) :: rest else (k, v) :: pchild.put rest key value

/-- A tree of text leaves as a child of a nested tree. -/
def ptree.as_child (t : ptree) : pchild :=
  .tree (t.map fun leaf => (leaf.1, leaf.2.text))

/-- Boolean translation of property-tree text (`"true"`, `"false"`, `"1"`, `"0"`). -/
def ptree.bool_of_text (text : String) : Option Bool :=
  if text = "true" ∨ text = "1" then some true
  else if text = "false" ∨ text = "0" then some false
  else none

/-- The `get<bool> (key, default)` call: the default when the child is absent or does not
translate. -/
def ptree.get_bool (t : ptree) (key : String) (default : Bool) : Bool :=
  match (t.get_optional key).bind ptree.bool_of_text with
  | some b => b
  | none => default

/-- The `get<std::string> (key, default)` call. -/
def ptree.get_or (t : ptree) (key : String) (default : String) : String :=
  (t.get_optional key).getD default

/-! ## Blocks, configuration and the node -/

/-- Tag of the block variant, `nano::block_type`. -/
inductive block_type
  | send | receive | open_ | change | state
  deriving DecidableEq, Repr

/-- A block with the hashable fields of all five variants (a variant leaves the fields it
does not have at zero), its signature and its work nonce. -/
structure block where
  type : block_type
  account : Nat := 0
  previous : Nat := 0
  representative : Nat := 0
  balance : Nat := 0
  link : Nat := 0
  destination : Nat := 0
  source : Nat := 0
  signature : Nat := 0
  work : Nat := 0
  deriving DecidableEq, Repr

/-- Modelled from the spec: the result enum of ledger processing listed in section 4.2
(the declaration of `nano::process_result` is not among the sources). -/
inductive process_result
  | progress | old | gap_previous | gap_source | bad_signature | negative_spend
  | balance_mismatch | unreceivable | block_position | fork | work_low | other
  deriving DecidableEq, Repr

/-- Fields of `nano::rpc_secure_config`; the defaults are those of its constructor. -/
structure rpc_secure_config where
  enable : Bool := false
  verbose_logging : Bool := false
  server_key_passphrase : String := ""
  server_cert_path : String := ""
  server_key_path : String := ""
  server_dh_path : String := ""
  client_certs_path : String := ""
  deriving DecidableEq, Repr

/-- Fields of `nano::rpc_config`. -/
structure rpc_config where
  address : String
  port : Nat
  enable_control : Bool
  frontier_request_limit : Nat
  chain_request_limit : Nat
  max_json_depth : Nat
  enable_sign_hash : Bool
  secure : rpc_secure_config := {}
  deriving DecidableEq, Repr

/-- The constructor `rpc_config (enable_control_a)`; `rpc_port` is a constant of the
header. -/
def rpc_config.mk_default (rpc_port : Nat) (enable_control_a : Bool) : rpc_config :=
  { address := "::1", port := rpc_port, enable_control := enable_control_a,
    frontier_request_limit := 16384, chain_request_limit := 16384, max_json_depth := 20,
    enable_sign_hash := false }

/-- The `nano::rpc` object as far as the handlers read it. -/
structure rpc where
  config : rpc_config
  deriving DecidableEq, Repr

/-- Outcome of reading the `block` field of a request: `read_json` may throw, and
`deserialize_block_json` may return a null pointer. -/
inductive block_text_result
  | malformed
  | null
  | parsed (b : block)
  deriving DecidableEq, Repr

/-- Node and wallet operations a handler performs, in the order of the trace. -/
inductive node_op
  | keepalive (address : String) (port : Nat)
  | bootstrap (address : Nat) (port : Nat)
  | bootstrap_any
  | bootstrap_lazy (hash : Nat) (force : Bool)
  | block_confirm (hash : Nat)
  | block_arrival_add (hash : Nat)
  | process_one (b : block)
  | active_erase (b : block)
  | block_processor_force (b : block)
  | republish_block_batch (hashes : List Nat)
  | wallet_search_pending (wallet : Nat)
  | search_pending_all
  | wallet_fetch (wallet : Nat) (account : Nat)
  | work_generate_blocking (root : Nat)
  | sign_block (b : block)
  | send_async (wallet source destination amount work : Nat) (generate_work : Bool)
      (id : Option String)
  | receive_async (wallet : Nat) (hash account work : Nat) (generate_work : Bool)
  | change_async (wallet account representative work : Nat) (generate_work : Bool)
  | work_generate (hash : Nat) (use_peers : Bool)
  | work_cancel (hash : Nat)
  | payment_observer_start (account amount timeout : Nat)
  | rpc_stop
  | node_stop
  | unchecked_clear
  | delete_node_id
  | set_receive_minimum (amount : Nat)
  | stats_log_counters
  | stats_log_samples
  | stats_clear
  | other (name : String)
  | deterministic_insert (wallet : Nat) (index : Option Nat) (generate_work : Option Bool)
  | wallet_move (wallet source : Nat) (accounts : List Nat)
  | wallet_erase (wallet account : Nat)
  | insert_watch (wallet account : Nat)
  | insert_adhoc (wallet key : Nat) (generate_work : Bool)
  | change_seed (wallet seed : Nat) (count : Option Nat)
  | wallet_create (id : Nat)
  | wallet_destroy (wallet : Nat)
  | rekey (wallet : Nat) (password : String)
  | enter_password (wallet : Nat) (password : String)
  | wallet_lock (wallet : Nat)
  | representative_set (wallet representative : Nat)
  | init_free_accounts (wallet : Nat)
  | free_accounts_erase (wallet account : Nat)
  | free_accounts_insert (wallet account : Nat)
  | work_put (wallet account work : Nat)
  | work_peer_add (address : String) (port : Nat)
  | work_peers_clear
  deriving DecidableEq, Repr

/-- What leaves a handler as a C++ exception: a `std::runtime_error` (every property-tree
error is one) or anything else. -/
inductive exception
  | runtime_error
  | other
  deriving DecidableEq, Repr

/-- A `nano::pending_key`: the receiving account and the hash of the send block. -/
structure pending_key where
  account : Nat
  hash : Nat
  deriving DecidableEq, Repr

/-- A `nano::pending_info` as the handlers read it; `epoch_1` stands for the test
`info.epoch == nano::epoch::epoch_1`. -/
structure pending_info where
  source : Nat
  amount : Nat
  epoch_1 : Bool
  deriving DecidableEq, Repr

/-- A `nano::account_info` as the handlers read it; `epoch_1` stands for the test
`info.epoch == nano::epoch::epoch_1`. -/
structure account_info where
  head : Nat := 0
  rep_block : Nat := 0
  open_block : Nat := 0
  balance : Nat := 0
  modified : Nat := 0
  block_count : Nat := 0
  epoch_1 : Bool := false
  deriving DecidableEq, Repr

/-- The `nano::key_type` of a wallet entry. -/
inductive key_type
  | not_a_type | unknown | adhoc | deterministic
  deriving DecidableEq, Repr

/-- The `nano::block_counts` that `store.block_count` returns. -/
structure block_counts where
  send : Nat := 0
  receive : Nat := 0
  open_ : Nat := 0
  change : Nat := 0
  state_v0 : Nat := 0
  state_v1 : Nat := 0
  deriving DecidableEq, Repr

/-- The `nano::bootstrap_mode` of a bootstrap attempt. -/
inductive bootstrap_mode
  | legacy | lazy | wallet_lazy
  deriving DecidableEq, Repr

/-- A `nano::bootstrap_attempt` as `bootstrap_status` reads it: the sizes of its
containers, its counters and the keys of `lazy_keys` in order. -/
structure bootstrap_attempt where
  clients : Nat := 0
  pulls : Nat := 0
  pulling : Nat := 0
  connections : Nat := 0
  idle : Nat := 0
  target_connections : Nat := 0
  total_blocks : Nat := 0
  runs_count : Nat := 0
  mode : bootstrap_mode := .legacy
  lazy_blocks : Nat := 0
  lazy_state_unknown : Nat := 0
  lazy_balances : Nat := 0
  lazy_pulls : Nat := 0
  lazy_stopped : Nat := 0
  lazy_keys : List Nat := []
  deriving DecidableEq, Repr

/-- An entry of `node.active.roots` with its election, as the handlers read it: `winner`
is the block `election->status.winner`, `tally` the map `election->tally (transaction)` in
its order (highest tally first) and `last_votes` the representatives of
`election->last_votes` with the hash each voted for. -/
structure election where
  root : Nat
  announcements : Nat
  confirmed : Bool
  stopped : Bool
  winner : block
  tally : List (Nat × block)
  last_votes : List (Nat × Nat)
  deriving DecidableEq, Repr

/-- A `nano::election_status` of `node.active.list_confirmed ()`; the durations are
counts of milliseconds. -/
structure election_status where
  winner : block
  tally : Nat
  election_end : Nat
  election_duration : Nat
  deriving DecidableEq, Repr

/-- A `nano::peer_information` as `peers` reads it; `endpoint` is the text that
`operator<<` writes for the endpoint. -/
structure peer_information where
  endpoint : String
  network_version : Nat
  node_id : Option Nat
  deriving DecidableEq, Repr

/-- An entry of `node.peers.list_probable_rep_weights ()`; `ip_address` is its
`to_string ()`. -/
structure probable_rep where
  probable_rep_account : Nat
  ip_address : String
  rep_weight : Nat
  deriving DecidableEq, Repr

/-- An entry of the unchecked table: the `key ()` and the `hash` of its
`nano::unchecked_key`, and the `nano::unchecked_info` under it. -/
structure unchecked_info where
  key : Nat
  hash : Nat
  modified : Nat
  block : block
  deriving DecidableEq, Repr

/-- Everything the handlers call outside `rpc.cpp`, as the values those calls return. -/
structure node where
  /-- The text of `ec.message ()`. -/
  message : error_code → String
  /-- Result of `uint256_union::decode_hex`, `none` when it reports an error. -/
  decode_hex : String → Option Nat
  /-- Result of `uint256_union::decode_account`, `none` when it reports an error. -/
  decode_account : String → Option Nat
  /-- Result of `uint128_union::decode_dec`, `none` when it reports an error. -/
  decode_dec : String → Option Nat
  /-- Result of `nano::from_string_hex` on a work value, `none` when it reports an error. -/
  from_string_hex : String → Option Nat
  /-- Result of `nano::parse_port`, `none` when it reports an error. -/
  parse_port : String → Option Nat
  /-- Result of `std::stoull`: value and number of characters consumed, `none` when it
  throws. -/
  stoull : String → Option (Nat × Nat)
  /-- Result of `address_v6::from_string`, `none` when it sets the error code. -/
  address_from_string : String → Option Nat
  /-- Reading and deserialising the JSON text of a block. -/
  block_of_text : String → block_text_result
  /-- The `hash ()` of a block (Blake2b over its hashables). -/
  hash : block → Nat
  /-- Text written by `serialize_json`. -/
  serialize_json : block → String
  /-- The `to_string ()` of a 256-bit value (64 hexadecimal digits). -/
  to_string : Nat → String
  /-- Result of `nano::work_validate (block)`: true when the work is NOT sufficient. -/
  work_validate : block → Bool
  /-- Result of `nano::work_validate (root, work)`: true when the work is NOT sufficient. -/
  work_validate_root : Nat → Nat → Bool
  /-- Public key of a private key, `nano::pub_key`. -/
  pub_key : Nat → Nat
  /-- Result of `nano::sign_message (prv, pub, hash)`. -/
  sign_message : Nat → Nat → Nat → Nat
  /-- Result of `work_generate_blocking (root)`. -/
  work_generate_blocking : Nat → Nat
  /-- The `store.block_get`: the stored block, `none` for a null pointer. -/
  block_get : Nat → Option block
  /-- The `store.block_exists`. -/
  block_exists : Nat → Bool
  /-- The `store.block_successor`. -/
  block_successor : Nat → Nat
  /-- The `store.block_balance`. -/
  block_balance : Nat → Nat
  /-- The `store.pending_exists (pending_key (account, hash))`. -/
  pending_exists : Nat → Nat → Bool
  /-- The `store.account_get`: head of the account, `none` when the account is absent. -/
  account_head : Nat → Option Nat
  /-- The `ledger.account_balance`. -/
  account_balance : Nat → Nat
  /-- The `ledger.latest`. -/
  latest : Nat → Nat
  /-- The `ledger.is_epoch_link`. -/
  is_epoch_link : Nat → Bool
  /-- The `ledger.block_source`. -/
  block_source : block → Nat
  /-- The `ledger.block_destination`. -/
  block_destination : block → Nat
  /-- Result code of `block_processor.process_one` on a block. -/
  process_one : block → process_result
  /-- Whether `wallets.items.find (wallet)` finds the wallet. -/
  wallet_exists : Nat → Bool
  /-- The `wallet->store.valid_password`. -/
  valid_password : Nat → Bool
  /-- Whether `wallet->store.find (account)` finds the account. -/
  wallet_find : Nat → Nat → Bool
  /-- Private key that `wallet->store.fetch` reads for an account. -/
  wallet_fetch : Nat → Nat → Nat
  /-- Result of `wallet->search_pending ()`: true on error. -/
  wallet_search_pending : Nat → Bool
  /-- The `node.balance (account)`. -/
  balance : Nat → Nat
  /-- Result of `boost::property_tree::read_json` on a request body, `none` when it
  throws. -/
  read_json : String → Option ptree
  /-- The constant `nano::kFLR_ratio`. -/
  kFLR_ratio : Nat
  /-- The constant `nano::mFLR_ratio`, the default argument of the conversions. -/
  mFLR_ratio : Nat
  /-- The constant `nano::FLR_ratio`. -/
  FLR_ratio : Nat
  /-- The tree `sink->to_object ()` holds after `log_counters` or `log_samples`, with
  `stat_duration_seconds` put into it. -/
  stat_tree : String → ptree
  /-- The children `construct_json` adds to the response for `collect_seq_con_info`. -/
  seq_con_info : ptree
  /-- The exception that leaves `rpc.stop ()` or `node.stop ()`, if any. -/
  stop_throws : Option exception
  /-- The `to_account ()` of a 256-bit value. -/
  to_account : Nat → String
  /-- Decimal text of a 128-bit value, `encode_dec` and `to_string_dec`. -/
  encode_dec : Nat → String
  /-- Text written by `nano::to_string_hex` for a work value. -/
  to_string_hex : Nat → String
  /-- The `to_string ()` of a signature. -/
  signature_to_string : Nat → String
  /-- The `ledger.amount (hash)`. -/
  ledger_amount : Nat → Nat
  /-- The `ledger.account (hash)`. -/
  ledger_account : Nat → Nat
  /-- The `ledger.balance (hash)`. -/
  ledger_balance : Nat → Nat
  /-- The `ledger.weight (account)`. -/
  ledger_weight : Nat → Nat
  /-- The `ledger.account_pending (account)`. -/
  ledger_account_pending : Nat → Nat
  /-- The member `ledger.epoch_link`. -/
  epoch_link : Nat
  /-- The member `ledger.epoch_signer`. -/
  epoch_signer : Nat
  /-- The constant `nano::genesis_account`. -/
  genesis_account : Nat
  /-- The constant `nano::genesis_amount`. -/
  genesis_amount : Nat
  /-- The `timestamp` of the sideband that `store.block_get` fills in for a hash. -/
  sideband_timestamp : Nat → Nat
  /-- The `node.active.active (block)`. -/
  active : block → Bool
  /-- The pending entries an iterator from `store.pending_begin (pending_key (account, 0))`
  visits, in order, up to the end of the table. -/
  pending_begin : Nat → List (pending_key × pending_info)
  /-- The account entries an iterator from `store.latest_begin (start)` visits, in order,
  up to `store.latest_end ()`. -/
  latest_begin : Nat → List (Nat × account_info)
  /-- The `store.account_get (account, info)`: the entry it reads, `none` when it reports
  that the account is absent and leaves `info` as it was (`account_head` above is the
  `head` of this entry, for the handlers that read nothing else). -/
  account_get : Nat → Option account_info
  /-- The `node.balance_pending (account)`: balance and pending. -/
  balance_pending : Nat → Nat × Nat := fun _ => (0, 0)
  /-- The `node.weight (account)`. -/
  weight : Nat → Nat := fun _ => 0
  /-- The account that the `n`-th call of `wallet->deterministic_insert` without an index
  made by a handler returns, counted from zero: the zero key when the wallet is locked. -/
  deterministic_insert : Nat → Nat → Nat := fun _ _ => 0
  /-- The account that `wallet->deterministic_insert (index, generate_work)` returns. -/
  deterministic_insert_at : Nat → Nat → Nat := fun _ _ => 0
  /-- The accounts that an iterator from `wallet->store.begin` visits up to
  `wallet->store.end ()`, each with the `key_type` of its value. -/
  wallet_begin : Nat → List (Nat × key_type) := fun _ => []
  /-- Result of `wallet->store.move (transaction, source->store, accounts)`: true on
  error. -/
  wallet_move : Nat → Nat → List Nat → Bool := fun _ _ _ => false
  /-- The sideband `account` that `store.block_get` fills in for a hash. -/
  sideband_account : Nat → Nat := fun _ => 0
  /-- The sideband `height` that `store.block_get` fills in for a hash. -/
  sideband_height : Nat → Nat := fun _ => 0
  /-- The `store.block_count`. -/
  block_count : block_counts := {}
  /-- The `store.unchecked_count`. -/
  unchecked_count : Nat := 0
  /-- The `store.account_count`. -/
  account_count : Nat := 0
  /-- Reading and deserialising the JSON text of a block after `signature` and `work` were
  put to `"0"` in it, as `block_impl (false)` does. -/
  block_of_text_unsigned : String → block_text_result := fun _ => .malformed
  /-- The `node.bootstrap_initiator.current_attempt ()`, `none` for a null pointer. -/
  current_attempt : Option bootstrap_attempt := none
  /-- Result of `strtoul (text, NULL, 10)`. -/
  strtoul : String → Nat := fun _ => 0
  /-- The entries of `node.active.roots`, in order. -/
  active_roots : List election := []
  /-- The `node.active.list_confirmed ()`. -/
  list_confirmed : List election_status := []
  /-- Result of `uint512_union::decode_hex`, `none` when it reports an error. -/
  decode_hex_512 : String → Option Nat := fun _ => none
  /-- The `store.representation_get (representative)`. -/
  representation_get : Nat → Nat := fun _ => 0
  /-- The accounts that an iterator from `store.representation_begin` visits up to
  `store.representation_end ()`. -/
  representation_begin : List Nat := []
  /-- The `node.delta ()`. -/
  delta : Nat := 0
  /-- The member `node.config.online_weight_quorum`. -/
  online_weight_quorum : Nat := 0
  /-- The member `node.config.online_weight_minimum`. -/
  online_weight_minimum : Nat := 0
  /-- The `node.online_reps.online_stake ()`. -/
  online_stake : Nat := 0
  /-- The `node.peers.total_weight ()`. -/
  peers_total_weight : Nat := 0
  /-- The `node.peers.list_probable_rep_weights ()`. -/
  list_probable_rep_weights : List probable_rep := []
  /-- Result of `std::stoul`, `none` when it throws (a `std::logic_error`). -/
  stoul : String → Option Nat := fun _ => none
  /-- The private key that `nano::deterministic_key (seed, index, prv)` writes. -/
  deterministic_key : Nat → Nat → Nat := fun _ _ => 0
  /-- The private key of the `nano::keypair` a handler constructs. -/
  keypair_prv : Nat := 0
  /-- The private key of `node.node_id`. -/
  node_id_prv : Nat := 0
  /-- Result of `wallet->store.rekey (transaction, password)`: true on error. -/
  rekey : Nat → String → Bool := fun _ _ => false
  /-- Result of `wallet->enter_password (transaction, password)`: true on error. -/
  enter_password : Nat → String → Bool := fun _ _ => false
  /-- The vector `node.peers.list_vector (max)` after `std::sort`. -/
  peers_list : List peer_information := []
  /-- The accounts of `wallet->free_accounts`, in the order of the set. -/
  free_accounts : Nat → List Nat := fun _ => []
  /-- The member `node.config.receive_minimum`. -/
  receive_minimum : Nat := 0
  /-- The `node.online_reps.list ()`. -/
  online_reps : List Nat := []
  /-- The entries that an iterator from `store.unchecked_begin (unchecked_key (key, 0))`
  visits up to `store.unchecked_end ()`; key zero is the start of the table. -/
  unchecked_begin : Nat → List unchecked_info := fun _ => []
  /-- Seconds from `node.startup_time` to `steady_clock::now ()`. -/
  uptime : Nat := 0
  /-- The `node.store_version ()`. -/
  store_version : Nat := 0
  /-- The constant `nano::protocol_version`. -/
  protocol_version : Nat := 0
  /-- The macro `NANO_VERSION_PATCH`. -/
  version_patch : Nat := 0
  /-- The macro `NANO_MAJOR_MINOR_VERSION`. -/
  major_minor_version : String := ""
  /-- The macro `NANO_MAJOR_MINOR_RC_VERSION`. -/
  major_minor_rc_version : String := ""
  /-- The account that `wallet->insert_adhoc (key, generate_work)` returns: the zero key
  when the wallet is locked. -/
  insert_adhoc : Nat → Nat → Nat := fun _ _ => 0
  /-- The `wallet->store.deterministic_index_get`. -/
  deterministic_index_get : Nat → Nat := fun _ => 0
  /-- Whether `wallets.items.find` finds a wallet right after `wallets.create` made it. -/
  wallet_created : Nat → Bool := fun _ => true
  /-- The account that `wallet->change_seed (transaction, seed)` returns for the wallet
  just created. -/
  change_seed : Nat → Nat → Nat := fun _ _ => 0
  /-- Whether `wallets.items.find` no longer finds a wallet right after `wallets.destroy`
  removed it. -/
  wallet_destroyed : Nat → Bool := fun _ => true
  /-- Text written by `wallet->store.serialize_json`. -/
  wallet_serialize_json : Nat → String := fun _ => ""
  /-- The `wallet->store.representative`. -/
  wallet_representative : Nat → Nat := fun _ => 0
  /-- The value `wallet->store.work_get (transaction, account, work)` leaves in `work`. -/
  wallet_work_get : Nat → Nat → Nat := fun _ _ => 0
  /-- The pairs of `node.config.work_peers`. -/
  work_peers : List (String × Nat) := []
  /-- The default argument of `count_optional_impl`, declared in the header. -/
  count_optional_default : Nat := 18446744073709551615

/-! ## The handler object -/

/-- Mutable members of `nano::rpc_handler` and the two traces. -/
structure rpc_handler where
  /-- The member `ec`, `none` while no error is set. -/
  ec : Option error_code := none
  /-- The member `response_l`. -/
  response_l : ptree := []
  /-- Trees passed to the `response` callback, oldest first. -/
  sent : List ptree := []
  /-- Node and wallet operations performed, oldest first. -/
  ops : List node_op := []
  deriving DecidableEq, Repr

/-- How a piece of handler code ends: normally with a value, by an exception, or not at
all (`stuck`: a loop that is still running when its fuel is used up, a null pointer
dereferenced, or an `assert` that fails). The state reached is kept in every case. -/
inductive run (α : Type)
  | done (value : α) (state : rpc_handler)
  | raised (e : exception) (state : rpc_handler)
  | stuck (state : rpc_handler)
  deriving DecidableEq, Repr

/-- State reached at the end of a run. -/
def run.state {α : Type} : run α → rpc_handler
  | .done _ s => s
  | .raised _ s => s
  | .stuck s => s

/-- The exception that left the run, if any. -/
def run.thrown {α : Type} : run α → Option exception
  | .raised e _ => some e
  | _ => none

/-- Whether the run returned normally. -/
def run.returned {α : Type} : run α → Bool
  | .done _ _ => true
  | _ => false

/-- Handler code: a function of the handler object. -/
def rpc_m (α : Type) : Type := rpc_handler → run α

/-- Normal completion. -/
def rpc_m.pure {α : Type} (a : α) : rpc_m α := fun s => .done a s

/-- Sequencing: an exception skips the rest. -/
def rpc_m.bind {α β : Type} (m : rpc_m α) (f : α → rpc_m β) : rpc_m β := fun s =>
  match m s with
  | .done a s' => f a s'
  | .raised e s' => .raised e s'
  | .stuck s' => .stuck s'

instance : Monad rpc_m where
  pure := rpc_m.pure
  bind := rpc_m.bind

/-- Throw an exception. -/
def raise {α : Type} (e : exception) : rpc_m α := fun s => .raised e s

/-- No defined continuation. -/
def get_stuck {α : Type} : rpc_m α := fun s => .stuck s

/-- The test `response_l.empty ()`. -/
def response_empty : rpc_m Bool := fun s => .done s.response_l.isEmpty s

/-- The test `!ec`. -/
def no_error : rpc_m Bool := fun s => .done s.ec.isNone s

/-- Assignment to `ec`. -/
def set_ec (e : error_code) : rpc_m Unit := fun s => .done () { s with ec := some e }

/-- The `response_l.put (key, value)` call. -/
def put (key value : String) : rpc_m Unit := fun s =>
  .done () { s with response_l := s.response_l.put key value }

/-- The `response_l.add_child (key, array)` call. -/
def add_child (key : String) (items : List String) : rpc_m Unit := fun s =>
  .done () { s with response_l := s.response_l.add_child key items }

/-- The `response_l.add_child (key, child)` call for a child with keyed children. -/
def add_children (key : String) (items : List (String × pchild)) : rpc_m Unit := fun s =>
  .done () { s with response_l := s.response_l ++ [(key, .children items)] }

/-- The `response_l.add_child (key, child)` call for a child whose children are trees. -/
def add_nested (key : String) (items : List (String × List (String × pchild))) :
    rpc_m Unit := fun s =>
  .done () { s with response_l := s.response_l ++ [(key, .nested items)] }

/-- A node or wallet operation. -/
def perform (op : node_op) : rpc_m Unit := fun s => .done () { s with ops := s.ops ++ [op] }

/-- Invocation of the `response` callback. -/
def respond (tree : ptree) : rpc_m Unit := fun s => .done () { s with sent := s.sent ++ [tree] }

/-- The call `response (response_l)`. -/
def respond_with_response_l : rpc_m Unit := fun s => respond s.response_l s

/-- An update of `response_l` in place. -/
def modify_response (f : ptree → ptree) : rpc_m Unit := fun s =>
  .done () { s with response_l := f s.response_l }

/-- The `request.get<std::string> (key)` call: throws `ptree_bad_path` when the child is
absent. -/
def request_get (request : ptree) (key : String) : rpc_m String :=
  match request.get_optional key with
  | some text => pure text
  | none => raise .runtime_error

/-- The `request.get_child (key)` call, read by a loop over its children: the data of each
child. It throws `ptree_bad_path` when the child is absent. -/
def request_get_child (request : ptree) (key : String) : rpc_m (List String) :=
  match request.lookup key with
  | some child => pure child.child_data
  | none => raise .runtime_error

/-- A range-based `for` loop over `items` whose body updates the variables `acc`. -/
def rpc_m.for_each {α σ : Type} (body : σ → α → rpc_m σ) : List α → σ → rpc_m σ
  | [], acc => pure acc
  | a :: rest, acc => do
    let acc ← body acc a
    rpc_m.for_each body rest acc

/-- The free function `nano::error_response`. -/
def error_response (message_a : String) : rpc_m Unit :=
  respond [("error", .data message_a)]

/-- The method `rpc_handler::response_errors`. -/
def rpc_handler.response_errors (node : node) : rpc_m Unit := fun s =>
  if s.ec.isSome ∨ s.response_l.isEmpty then
    respond [("error", .data (match s.ec with
      | some e => node.message e
      | none => "Empty response"))] s
  else
    respond s.response_l s

/-! ## Request field helpers (`*_impl`) -/

/-- The method `rpc_handler::wallet_impl`: the wallet found, `none` for a null pointer. -/
def rpc_handler.wallet_impl (node : node) (request : ptree) : rpc_m (Option Nat) := do
  if ← no_error then
    let wallet_text ← request_get request "wallet"
    match node.decode_hex wallet_text with
    | some wallet =>
      if node.wallet_exists wallet then
        return some wallet
      else
        set_ec (.common .wallet_not_found)
    | none => set_ec (.common .bad_wallet_number)
  return none

/-- The method `rpc_handler::wallet_locked_impl`. -/
def rpc_handler.wallet_locked_impl (node : node) (wallet_a : Nat) : rpc_m Bool := do
  if ← no_error then
    if !node.valid_password wallet_a then
      set_ec (.common .wallet_locked)
      return true
  return false

/-- The method `rpc_handler::wallet_account_impl`. -/
def rpc_handler.wallet_account_impl (node : node) (wallet_a account_a : Nat) : rpc_m Bool := do
  if ← no_error then
    if node.wallet_find wallet_a account_a then
      return true
    else
      set_ec (.common .account_not_found_wallet)
  return false

/-- The method `rpc_handler::account_impl`; an empty `account_text` reads the `account`
field. The value is only used while `ec` is clear. -/
def rpc_handler.account_impl (node : node) (request : ptree) (account_text : String) :
    rpc_m Nat := do
  if ← no_error then
    let text ← if account_text = "" then request_get request "account" else pure account_text
    match node.decode_account text with
    | some account => return account
    | none => set_ec (.common .bad_account_number)
  return 0

/-- The method `rpc_handler::amount_impl`. -/
def rpc_handler.amount_impl (node : node) (request : ptree) : rpc_m Nat := do
  if ← no_error then
    let amount_text ← request_get request "amount"
    match node.decode_dec amount_text with
    | some amount => return amount
    | none => set_ec (.common .invalid_amount)
  return 0

/-- The method `rpc_handler::block_impl (true)`: the block, `none` for a null pointer. -/
def rpc_handler.block_impl (node : node) (request : ptree) : rpc_m (Option block) := do
  if ← no_error then
    let block_text ← request_get request "block"
    match node.block_of_text block_text with
    | .malformed => raise .runtime_error
    | .null => set_ec (.blocks .invalid_block)
    | .parsed b => return some b
  return none

/-- The method `rpc_handler::hash_impl`. -/
def rpc_handler.hash_impl (node : node) (request : ptree) (search_text : String) :
    rpc_m Nat := do
  if ← no_error then
    let hash_text ← request_get request search_text
    match node.decode_hex hash_text with
    | some hash => return hash
    | none => set_ec (.blocks .invalid_block_hash)
  return 0

/-- The method `rpc_handler::work_optional_impl`. -/
def rpc_handler.work_optional_impl (node : node) (request : ptree) : rpc_m Nat := do
  match request.get_optional "work" with
  | some work_text =>
    if ← no_error then
      match node.from_string_hex work_text with
      | some work => return work
      | none => set_ec (.common .bad_work_format)
    return 0
  | none => return 0

/-- The method `rpc_handler::threshold_optional_impl`. -/
def rpc_handler.threshold_optional_impl (node : node) (request : ptree) : rpc_m Nat := do
  match request.get_optional "threshold" with
  | some threshold_text =>
    if ← no_error then
      match node.decode_dec threshold_text with
      | some threshold => return threshold
      | none => set_ec (.common .bad_threshold)
    return 0
  | none => return 0

/-- The function `decode_unsigned`: the error flag and the value left in `number`. -/
def decode_unsigned (node : node) (text : String) (number : Nat) : Bool × Nat :=
  match node.stoull text with
  | some (value, end_) => (end_ != text.length, value)
  | none => (true, number)

/-- The method `rpc_handler::count_impl`. -/
def rpc_handler.count_impl (node : node) (request : ptree) : rpc_m Nat := do
  if ← no_error then
    let count_text ← request_get request "count"
    let r := decode_unsigned node count_text 0
    if r.1 || r.2 == 0 then
      set_ec (.common .invalid_count)
    return r.2
  return 0

/-- The method `rpc_handler::count_optional_impl`. -/
def rpc_handler.count_optional_impl (node : node) (request : ptree) (result : Nat) :
    rpc_m Nat := do
  match request.get_optional "count" with
  | some count_text =>
    if ← no_error then
      let r := decode_unsigned node count_text result
      if r.1 then
        set_ec (.common .invalid_count)
      return r.2
    return result
  | none => return result

/-- The method `rpc_handler::offset_optional_impl`. -/
def rpc_handler.offset_optional_impl (node : node) (request : ptree) (result : Nat) :
    rpc_m Nat := do
  match request.get_optional "offset" with
  | some offset_text =>
    if ← no_error then
      let r := decode_unsigned node offset_text result
      if r.1 then
        set_ec (.rpc .invalid_offset)
      return r.2
    return result
  | none => return result

/-- The method `rpc_handler::rpc_control_impl`. -/
def rpc_handler.rpc_control_impl (rpc : rpc) : rpc_m Bool := do
  if ← no_error then
    if !rpc.config.enable_control then
      set_ec (.rpc .rpc_control_disabled)
    else
      return true
  return false

/-! ## Handlers guarded by `rpc_control_impl` -/

/-- The handler `rpc_handler::keepalive`. -/
def rpc_handler.keepalive (rpc : rpc) (node : node) (request : ptree) : rpc_m Unit := do
  let _ ← rpc_handler.rpc_control_impl rpc
  if ← no_error then
    let address_text ← request_get request "address"
    let port_text ← request_get request "port"
    match node.parse_port port_text with
    | some port =>
      perform (.keepalive address_text port)
      put "started" "1"
    | none => set_ec (.common .invalid_port)
  rpc_handler.response_errors node

/-- The handler `rpc_handler::bootstrap_lazy`. -/
def rpc_handler.bootstrap_lazy (rpc : rpc) (node : node) (request : ptree) : rpc_m Unit := do
  let _ ← rpc_handler.rpc_control_impl rpc
  let hash ← rpc_handler.hash_impl node request "hash"
  let force := request.get_bool "force" false
  if ← no_error then
    perform (.bootstrap_lazy hash force)
    put "started" "1"
  rpc_handler.response_errors node

/-- The handler `rpc_handler::search_pending`. -/
def rpc_handler.search_pending (rpc : rpc) (node : node) (request : ptree) : rpc_m Unit := do
  let _ ← rpc_handler.rpc_control_impl rpc
  let wallet ← rpc_handler.wallet_impl node request
  if ← no_error then
    perform (.wallet_search_pending (wallet.getD 0))
    let error := node.wallet_search_pending (wallet.getD 0)
    put "started" (if !error then "true" else "false")
  rpc_handler.response_errors node

/-- The handler `rpc_handler::search_pending_all`. -/
def rpc_handler.search_pending_all (rpc : rpc) (node : node) : rpc_m Unit := do
  let _ ← rpc_handler.rpc_control_impl rpc
  if ← no_error then
    perform .search_pending_all
    put "success" ""
  rpc_handler.response_errors node

/-- The end of `rpc_handler::stop`, behind the response: `if (!ec) { rpc.stop ();
node.stop (); }`. These two calls are the only node operations of this file that are
allowed to throw. -/
def rpc_handler.stop_node (node : node) : rpc_m Unit := do
  if ← no_error then
    perform .rpc_stop
    perform .node_stop
    match node.stop_throws with
    | some e => raise e
    | none => pure ()

/-- The handler `rpc_handler::stop`. -/
def rpc_handler.stop (rpc : rpc) (node : node) : rpc_m Unit := do
  let _ ← rpc_handler.rpc_control_impl rpc
  if ← no_error then
    put "success" ""
  rpc_handler.response_errors node
  rpc_handler.stop_node node

/-- The handler `rpc_handler::unchecked_clear`. -/
def rpc_handler.unchecked_clear (rpc : rpc) (node : node) : rpc_m Unit := do
  let _ ← rpc_handler.rpc_control_impl rpc
  if ← no_error then
    perform .unchecked_clear
    put "success" ""
  rpc_handler.response_errors node

/-- The handler `rpc_handler::node_id_delete`. -/
def rpc_handler.node_id_delete (rpc : rpc) (node : node) : rpc_m Unit := do
  let _ ← rpc_handler.rpc_control_impl rpc
  if ← no_error then
    perform .delete_node_id
    put "deleted" "1"
  rpc_handler.response_errors node

/-- The handler `rpc_handler::receive_minimum_set`. -/
def rpc_handler.receive_minimum_set (rpc : rpc) (node : node) (request : ptree) :
    rpc_m Unit := do
  let _ ← rpc_handler.rpc_control_impl rpc
  let amount ← rpc_handler.amount_impl node request
  if ← no_error then
    perform (.set_receive_minimum amount)
    put "success" ""
  rpc_handler.response_errors node

/-- The handler `rpc_handler::receive`. The completion callback of `receive_async` runs
later, outside the handler. -/
def rpc_handler.receive (rpc : rpc) (node : node) (request : ptree) : rpc_m Unit := do
  let _ ← rpc_handler.rpc_control_impl rpc
  let wallet ← rpc_handler.wallet_impl node request
  let account ← rpc_handler.account_impl node request ""
  let hash ← rpc_handler.hash_impl node request "block"
  if ← no_error then
    let _ ← rpc_handler.wallet_locked_impl node (wallet.getD 0)
    let _ ← rpc_handler.wallet_account_impl node (wallet.getD 0) account
    if ← no_error then
      match node.block_get hash with
      | some _ =>
        if node.pending_exists account hash then
          let work ← rpc_handler.work_optional_impl node request
          if (← no_error) && work != 0 then
            let head := match node.account_head account with
              | some head => head
              | none => account
            if node.work_validate_root head work then
              set_ec (.common .invalid_work)
          if ← no_error then
            let generate_work := work == 0
            perform (.receive_async (wallet.getD 0) hash account work generate_work)
        else
          set_ec (.process .unreceivable)
      | none => set_ec (.blocks .not_found)
  if !(← no_error) then
    rpc_handler.response_errors node

/-- The handler `rpc_handler::send`. The completion callback of `send_async` runs later,
outside the handler. -/
def rpc_handler.send (rpc : rpc) (node : node) (request : ptree) : rpc_m Unit := do
  let _ ← rpc_handler.rpc_control_impl rpc
  let wallet ← rpc_handler.wallet_impl node request
  let amount ← rpc_handler.amount_impl node request
  if (← no_error) && amount == 0 then
    set_ec (.common .invalid_amount)
  if ← no_error then
    let source_text ← request_get request "source"
    match node.decode_account source_text with
    | some source =>
      let destination_text ← request_get request "destination"
      match node.decode_account destination_text with
      | some destination =>
        let work ← rpc_handler.work_optional_impl node request
        if ← no_error then
          if node.valid_password (wallet.getD 0) then
            if node.wallet_find (wallet.getD 0) source then
              if (node.account_head source).isNone then
                set_ec (.common .account_not_found)
              if (← no_error) && work != 0 then
                if node.work_validate_root ((node.account_head source).getD 0) work then
                  set_ec (.common .invalid_work)
            else
              set_ec (.common .account_not_found_wallet)
          else
            set_ec (.common .wallet_locked)
        if ← no_error then
          let generate_work := work == 0
          let send_id := request.get_optional "id"
          perform (.send_async (wallet.getD 0) source destination amount work generate_work
            send_id)
      | none => set_ec (.rpc .bad_destination)
    | none => set_ec (.rpc .bad_source)
  if !(← no_error) then
    rpc_handler.response_errors node

/-- The constructor `nano::state_block (account, previous, representative, balance, link,
prv, pub, work)`: the signature is over the hash of the hashables. -/
def state_block.mk_signed (node : node) (account previous representative balance link prv pub
    work : Nat) : block :=
  let hashables : block :=
    { type := .state, account := account, previous := previous,
      representative := representative, balance := balance, link := link }
  { hashables with signature := node.sign_message prv pub (node.hash hashables), work := work }

/-- The constructor `nano::open_block (source, representative, account, prv, pub, work)`. -/
def open_block.mk_signed (node : node) (source representative account prv pub work : Nat) :
    block :=
  let hashables : block :=
    { type := .open_, source := source, representative := representative, account := account }
  { hashables with signature := node.sign_message prv pub (node.hash hashables), work := work }

/-- The constructor `nano::receive_block (previous, source, prv, pub, work)`. -/
def receive_block.mk_signed (node : node) (previous source prv pub work : Nat) : block :=
  let hashables : block := { type := .receive, previous := previous, source := source }
  { hashables with signature := node.sign_message prv pub (node.hash hashables), work := work }

/-- The constructor `nano::change_block (previous, representative, prv, pub, work)`. -/
def change_block.mk_signed (node : node) (previous representative prv pub work : Nat) :
    block :=
  let hashables : block :=
    { type := .change, previous := previous, representative := representative }
  { hashables with signature := node.sign_message prv pub (node.hash hashables), work := work }

/-- The constructor `nano::send_block (previous, destination, balance, prv, pub, work)`. -/
def send_block.mk_signed (node : node) (previous destination balance prv pub work : Nat) :
    block :=
  let hashables : block :=
    { type := .send, previous := previous, destination := destination, balance := balance }
  { hashables with signature := node.sign_message prv pub (node.hash hashables), work := work }

/-- The tail shared by the five branches of `block_create`: generate work when none was
given, build and sign the block, and put `hash` and `block` into the response. -/
def rpc_handler.block_create_emit (node : node) (work root : Nat) (build : Nat → block) :
    rpc_m Unit := do
  if work == 0 then
    perform (.work_generate_blocking root)
  let b := build (if work == 0 then node.work_generate_blocking root else work)
  perform (.sign_block b)
  put "hash" (node.to_string (node.hash b))
  put "block" (node.serialize_json b)

/-- The recurring step of `block_create` for an optional field,
`if (!ec && text.is_initialized ()) { if (target.decode (text.get ())) ec = e; }`:
the value of the target afterwards. A decoder that reports an error leaves its target
unchanged. -/
def rpc_handler.decode_optional (text : Option String) (decode : String → Option Nat)
    (e : error_code) (target : Nat) : rpc_m Nat := do
  match text with
  | some t =>
    if ← no_error then
      match decode t with
      | some value => return value
      | none =>
        set_ec e
        return target
    else
      return target
  | none => return target

/-- The wallet step of `block_create` (the body of `if (!ec && wallet != 0 && account !=
0)`): the values of `prv`, `previous` and `balance` afterwards, all zero before. -/
def rpc_handler.block_create_wallet (node : node) (wallet account : Nat) :
    rpc_m (Nat × Nat × Nat) := do
  if (← no_error) && wallet != 0 && account != 0 then
    if node.wallet_exists wallet then
      let _ ← rpc_handler.wallet_locked_impl node wallet
      let _ ← rpc_handler.wallet_account_impl node wallet account
      if ← no_error then
        perform (.wallet_fetch wallet account)
        return (node.wallet_fetch wallet account, node.latest account,
          node.account_balance account)
      else
        return (0, 0, 0)
    else
      set_ec (.common .wallet_not_found)
      return (0, 0, 0)
  else
    return (0, 0, 0)

/-- The link step of `block_create`: the value of `link` afterwards. -/
def rpc_handler.block_create_link (node : node) (link_text : Option String)
    (source destination : Nat) : rpc_m Nat := do
  if (← no_error) && link_text.isSome then
    match node.decode_account (link_text.getD "") with
    | some link => return link
    | none =>
      match node.decode_hex (link_text.getD "") with
      | some link => return link
      | none =>
        set_ec (.rpc .bad_link)
        return 0
  else
    return (if source == 0 then destination else source)

/-- The ledger step of `block_create` once a private key is there: fetch `previous` and
`balance` when neither was given, or check the balance at a given previous for a send.
The values of `previous` and `balance` afterwards. -/
def rpc_handler.block_create_ledger (node : node) (type : String) (pub previous balance : Nat)
    (previous_text balance_text : Option String) : rpc_m (Nat × Nat) := do
  if previous_text.isNone && balance_text.isNone then
    return (node.latest pub, node.account_balance pub)
  else if previous_text.isSome && balance_text.isSome && type == "send" then
    if node.block_exists previous && node.block_balance previous != balance then
      set_ec (.rpc .block_create_balance_mismatch)
    return (previous, balance)
  else
    return (previous, balance)

/-- The account check of `block_create`, `if (!ec && account_text.is_initialized ())`. -/
def rpc_handler.block_create_account_check (account_text : Option String)
    (account pub : Nat) : rpc_m Unit := do
  if (← no_error) && account_text.isSome then
    if account != pub then
      set_ec (.rpc .block_create_public_key_mismatch)

/-- The locals of `block_create` as they stand when the handler turns to the private
key. -/
structure block_create_locals where
  type : String
  account_text : Option String
  account : Nat
  representative : Nat
  destination : Nat
  source : Nat
  amount : Nat
  work : Nat
  prv : Nat
  previous_text : Option String
  previous : Nat
  balance_text : Option String
  balance : Nat
  link_text : Option String
  link : Nat
  deriving DecidableEq, Repr

/-- The first part of `rpc_handler::block_create`, from reading `type` to the link: the
steps on its locals in source order. The `wallet` field is decoded right behind the test
`!ec`, where the guard of `decode_optional` holds anyway. -/
def rpc_handler.block_create_read (node : node) (request : ptree) :
    rpc_m block_create_locals := do
  let type ← request_get request "type"
  let wallet ← rpc_handler.decode_optional (request.get_optional "wallet") node.decode_hex
    (.common .bad_wallet_number) 0
  let account_text := request.get_optional "account"
  let account ← rpc_handler.decode_optional account_text node.decode_account
    (.common .bad_account_number) 0
  let representative ← rpc_handler.decode_optional (request.get_optional "representative")
    node.decode_account (.rpc .bad_representative_number) 0
  let destination ← rpc_handler.decode_optional (request.get_optional "destination")
    node.decode_account (.rpc .bad_destination) 0
  let source ← rpc_handler.decode_optional (request.get_optional "source") node.decode_hex
    (.rpc .bad_source) 0
  let amount ← rpc_handler.decode_optional (request.get_optional "amount") node.decode_dec
    (.common .invalid_amount) 0
  let work ← rpc_handler.work_optional_impl node request
  let from_wallet ← rpc_handler.block_create_wallet node wallet account
  let prv ← rpc_handler.decode_optional (request.get_optional "key") node.decode_hex
    (.common .bad_private_key) from_wallet.1
  let previous_text := request.get_optional "previous"
  let previous ← rpc_handler.decode_optional previous_text node.decode_hex
    (.rpc .bad_previous) from_wallet.2.1
  let balance_text := request.get_optional "balance"
  let balance ← rpc_handler.decode_optional balance_text node.decode_dec
    (.rpc .invalid_balance) from_wallet.2.2
  let link_text := request.get_optional "link"
  let link ← rpc_handler.block_create_link node link_text source destination
  return { type := type, account_text := account_text, account := account,
           representative := representative, destination := destination, source := source,
           amount := amount, work := work, prv := prv, previous_text := previous_text,
           previous := previous, balance_text := balance_text, balance := balance,
           link_text := link_text, link := link }

/-- The second part of `rpc_handler::block_create`, from `if (prv.data != 0)` on: the
ledger step, the account check and the branch of the block type. -/
def rpc_handler.block_create_build (node : node) (l : block_create_locals) : rpc_m Unit := do
  if l.prv != 0 then
    let pub := node.pub_key l.prv
    let from_ledger ← rpc_handler.block_create_ledger node l.type pub l.previous l.balance
      l.previous_text l.balance_text
    let previous := from_ledger.1
    let balance := from_ledger.2
    rpc_handler.block_create_account_check l.account_text l.account pub
    if l.type == "state" then
      if l.previous_text.isSome && l.representative != 0
          && (l.link != 0 || l.link_text.isSome) then
        rpc_handler.block_create_emit node l.work (if previous == 0 then pub else previous)
          (state_block.mk_signed node pub previous l.representative balance l.link l.prv pub)
      else
        set_ec (.rpc .block_create_requirements_state)
    else if l.type == "open" then
      if l.representative != 0 && l.source != 0 then
        rpc_handler.block_create_emit node l.work pub
          (open_block.mk_signed node l.source l.representative pub l.prv pub)
      else
        set_ec (.rpc .block_create_requirements_open)
    else if l.type == "receive" then
      if l.source != 0 && previous != 0 then
        rpc_handler.block_create_emit node l.work previous
          (receive_block.mk_signed node previous l.source l.prv pub)
      else
        set_ec (.rpc .block_create_requirements_receive)
    else if l.type == "change" then
      if l.representative != 0 && previous != 0 then
        rpc_handler.block_create_emit node l.work previous
          (change_block.mk_signed node previous l.representative l.prv pub)
      else
        set_ec (.rpc .block_create_requirements_change)
    else if l.type == "send" then
      if l.destination != 0 && previous != 0 && balance != 0 && l.amount != 0 then
        if balance >= l.amount then
          rpc_handler.block_create_emit node l.work previous
            (send_block.mk_signed node previous l.destination (balance - l.amount) l.prv pub)
        else
          set_ec (.common .insufficient_balance)
      else
        set_ec (.rpc .block_create_requirements_send)
    else
      set_ec (.blocks .invalid_type)
  else
    set_ec (.rpc .block_create_key_required)

/-- The handler `rpc_handler::block_create`. -/
def rpc_handler.block_create (rpc : rpc) (node : node) (request : ptree) : rpc_m Unit := do
  let _ ← rpc_handler.rpc_control_impl rpc
  if ← no_error then
    let l ← rpc_handler.block_create_read node request
    rpc_handler.block_create_build node l
  rpc_handler.response_errors node

/-! ## `process` and the other verbs without `rpc_control_impl` -/

/-- The subtype check of `rpc_handler::process` on a state block with a non-empty
`subtype` (the body of `if (!subtype_text.empty ())`): the error it sets, if any. -/
def rpc_handler.process_subtype_check (node : node) (block_state : block)
    (subtype_text : String) : Option error_code :=
  if block_state.previous != 0 && !node.block_exists block_state.previous then
    some (.process .gap_previous)
  else
    let balance := node.account_balance block_state.account
    if subtype_text == "send" then
      if balance <= block_state.balance then some (.rpc .invalid_subtype_balance) else none
    else if subtype_text == "receive" then
      if balance > block_state.balance then some (.rpc .invalid_subtype_balance) else none
    else if subtype_text == "open" then
      if block_state.previous != 0 then some (.rpc .invalid_subtype_previous) else none
    else if subtype_text == "change" then
      if balance != block_state.balance then some (.rpc .invalid_subtype_balance)
      else if block_state.previous == 0 then some (.rpc .invalid_subtype_previous)
      else none
    else if subtype_text == "epoch" then
      if balance != block_state.balance then some (.rpc .invalid_subtype_balance)
      else if !node.is_epoch_link block_state.link then some (.rpc .invalid_subtype_epoch_link)
      else none
    else
      some (.rpc .invalid_subtype)

/-- The second half of `rpc_handler::process` (the body of the last `if (!ec)`): work
validation, the block processor and the translation of its result code. -/
def rpc_handler.process_submit (rpc : rpc) (node : node) (request : ptree) (b : block) :
    rpc_m Unit := do
  if !node.work_validate b then
    let hash := node.hash b
    perform (.block_arrival_add hash)
    perform (.process_one b)
    match node.process_one b with
    | .progress => put "hash" (node.to_string hash)
    | .gap_previous => set_ec (.process .gap_previous)
    | .gap_source => set_ec (.process .gap_source)
    | .old => set_ec (.process .old)
    | .bad_signature => set_ec (.process .bad_signature)
    | .negative_spend => set_ec (.process .negative_spend)
    | .balance_mismatch => set_ec (.process .balance_mismatch)
    | .unreceivable => set_ec (.process .unreceivable)
    | .block_position => set_ec (.process .block_position)
    | .fork =>
      let force := request.get_bool "force" false
      if force && rpc.config.enable_control then
        perform (.active_erase b)
        perform (.block_processor_force b)
        put "hash" (node.to_string hash)
      else
        set_ec (.process .fork)
    | _ => set_ec (.process .other)
  else
    set_ec (.blocks .work_low)

/-- The handler `rpc_handler::process`. A null block only comes with `ec` set, so the
two guarded parts never see one. -/
def rpc_handler.process (rpc : rpc) (node : node) (request : ptree) : rpc_m Unit := do
  let block ← rpc_handler.block_impl node request
  match block with
  | some b =>
    if (← no_error) && b.type == .state then
      let subtype_text := request.get_or "subtype" ""
      if subtype_text != "" then
        match rpc_handler.process_subtype_check node b subtype_text with
        | some e => set_ec e
        | none => pure ()
    if ← no_error then
      rpc_handler.process_submit rpc node request b
  | none => pure ()
  rpc_handler.response_errors node

/-- The handler `rpc_handler::bootstrap`. -/
def rpc_handler.bootstrap (node : node) (request : ptree) : rpc_m Unit := do
  let address_text ← request_get request "address"
  let port_text ← request_get request "port"
  match node.address_from_string address_text with
  | some address =>
    match node.parse_port port_text with
    | some port =>
      perform (.bootstrap address port)
      put "success" ""
    | none => set_ec (.common .invalid_port)
  | none => set_ec (.common .invalid_ip_address)
  rpc_handler.response_errors node

/-- The handler `rpc_handler::bootstrap_any`. -/
def rpc_handler.bootstrap_any (node : node) : rpc_m Unit := do
  perform .bootstrap_any
  put "success" ""
  rpc_handler.response_errors node

/-- The handler `rpc_handler::block_confirm`. -/
def rpc_handler.block_confirm (node : node) (request : ptree) : rpc_m Unit := do
  let hash ← rpc_handler.hash_impl node request "hash"
  if ← no_error then
    match node.block_get hash with
    | some _ =>
      perform (.block_confirm hash)
      put "started" "1"
    | none => set_ec (.blocks .not_found)
  rpc_handler.response_errors node

/-- The source-chain loop of `republish`: the hashes pushed, in push order, while the
block exists and fewer than `sources` (the first argument counts what is left) were
pushed. -/
def rpc_handler.republish_sources (node : node) : Nat → Nat → List Nat
  | 0, _ => []
  | left + 1, source =>
    match node.block_get source with
    | some block_a => source :: rpc_handler.republish_sources node left block_a.previous
    | none => []

/-- The destination-chain loop of `republish`, `while (block_d != nullptr && hash !=
source)`: the hashes pushed, in push order; `none` when the loop needs more than `fuel`
further iterations. -/
def rpc_handler.republish_destinations (node : node) (hash : Nat) :
    Nat → Nat → Nat → Option (List Nat)
  | fuel, previous, source =>
    match node.block_get previous with
    | some block_d =>
      if hash != source then
        match fuel with
        | 0 => none
        | fuel + 1 =>
          (rpc_handler.republish_destinations node hash fuel block_d.previous
            (node.block_source block_d)).map (fun hashes => previous :: hashes)
      else some []
    | none => some []

/-- The `for` loop of `republish` from iteration `i = count - left` on: the hashes
appended to `blocks` (and, as blocks, to `republish_bundle`); `none` when an inner loop
runs out of fuel or the block under `hash` is a null pointer. `source_0` is the
indeterminate initial value of the local `source`. -/
def rpc_handler.republish_loop (node : node) (sources destinations source_0 fuel : Nat) :
    Nat → Nat → Option (List Nat)
  | 0, _ => some []
  | left + 1, hash =>
    if hash = 0 then some []
    else
      match node.block_get hash with
      | none => none
      | some block =>
        let from_sources :=
          if sources != 0 then
            (rpc_handler.republish_sources node sources (node.block_source block)).reverse
          else []
        let from_destinations : Option (List Nat) :=
          if destinations != 0 then
            let destination := node.block_destination block
            if destination != 0 then
              if !node.pending_exists destination hash then
                (rpc_handler.republish_destinations node hash fuel (node.latest destination)
                  source_0).map (fun hashes => hashes.reverse.take destinations)
              else some []
            else some []
          else some []
        match from_destinations,
          rpc_handler.republish_loop node sources destinations source_0 fuel left
            (node.block_successor hash) with
        | some ds, some rest => some (from_sources ++ [hash] ++ ds ++ rest)
        | _, _ => none

/-- The handler `rpc_handler::republish`. -/
def rpc_handler.republish (node : node) (request : ptree) (source_0 fuel : Nat) :
    rpc_m Unit := do
  let count ← rpc_handler.count_optional_impl node request 1024
  let mut sources := 0
  let mut destinations := 0
  if let some sources_text := request.get_optional "sources" then
    if ← no_error then
      let r := decode_unsigned node sources_text sources
      sources := r.2
      if r.1 then
        set_ec (.rpc .invalid_sources)
  if let some destinations_text := request.get_optional "destinations" then
    if ← no_error then
      let r := decode_unsigned node destinations_text destinations
      destinations := r.2
      if r.1 then
        set_ec (.rpc .invalid_destinations)
  let hash ← rpc_handler.hash_impl node request "hash"
  if ← no_error then
    match node.block_get hash with
    | some _ =>
      match rpc_handler.republish_loop node sources destinations source_0 fuel count hash with
      | some blocks =>
        perform (.republish_block_batch blocks)
        put "success" ""
        add_child "blocks" (blocks.map node.to_string)
      | none => get_stuck
    | none => set_ec (.blocks .not_found)
  rpc_handler.response_errors node

/-! ## `chain` and `successors` -/

/-- The `while` loop of `rpc_handler::chain`, started with `blocks` holding `size`
entries: the hashes appended. The condition, not the fuel, ends the loop (see
`chain_loop_ne_none`); `none` marks fuel used up. -/
def rpc_handler.chain_loop (node : node) (successors : Bool) (count : Nat) :
    Nat → Nat → Nat → Nat → Option (List Nat)
  | 0, hash, size, _ => if hash != 0 && size < count then none else some []
  | fuel + 1, hash, size, offset =>
    if hash != 0 && size < count then
      match node.block_get hash with
      | some block_l =>
        let next := if successors then node.block_successor hash else block_l.previous
        if offset > 0 then
          rpc_handler.chain_loop node successors count fuel next size (offset - 1)
        else
          (rpc_handler.chain_loop node successors count fuel next (size + 1) offset).map
            (fun rest => hash :: rest)
      | none => rpc_handler.chain_loop node successors count fuel 0 size offset
    else some []

/-- The handler `rpc_handler::chain (successors)`. -/
def rpc_handler.chain (node : node) (request : ptree) (successors : Bool) : rpc_m Unit := do
  let successors := successors != request.get_bool "reverse" false
  let hash ← rpc_handler.hash_impl node request "block"
  let count ← rpc_handler.count_impl node request
  let offset ← rpc_handler.offset_optional_impl node request 0
  if ← no_error then
    match rpc_handler.chain_loop node successors count (offset + count + 1) hash 0 offset with
    | some blocks => add_child "blocks" (blocks.map node.to_string)
    | none => get_stuck
  rpc_handler.response_errors node

/-! ## Unit conversion -/

/-- The handler `rpc_handler::mFLR_from_raw (ratio)`: division of 128-bit unsigned
integers. Division by zero throws `std::overflow_error`, a `std::runtime_error`. -/
def rpc_handler.mFLR_from_raw (node : node) (request : ptree) (ratio : Nat) : rpc_m Unit := do
  let amount ← rpc_handler.amount_impl node request
  if ← no_error then
    if ratio % 2 ^ 128 = 0 then
      raise .runtime_error
    else
      let result := (amount % 2 ^ 128) / (ratio % 2 ^ 128)
      put "amount" (toString result)
  rpc_handler.response_errors node

/-- The handler `rpc_handler::mFLR_to_raw (ratio)`: the product wraps at 128 bits. -/
def rpc_handler.mFLR_to_raw (node : node) (request : ptree) (ratio : Nat) : rpc_m Unit := do
  let amount ← rpc_handler.amount_impl node request
  if ← no_error then
    let result := ((amount % 2 ^ 128) * (ratio % 2 ^ 128)) % 2 ^ 128
    if result > amount % 2 ^ 128 then
      put "amount" (toString result)
    else
      set_ec (.common .invalid_amount_big)
  rpc_handler.response_errors node

/-! ## Handlers that answer from a completion callback -/

/-- The handler `rpc_handler::account_representative_set`. The completion callback of
`change_async` runs later, outside the handler. -/
def rpc_handler.account_representative_set (rpc : rpc) (node : node) (request : ptree) :
    rpc_m Unit := do
  let _ ← rpc_handler.rpc_control_impl rpc
  let wallet ← rpc_handler.wallet_impl node request
  let account ← rpc_handler.account_impl node request ""
  if ← no_error then
    let representative_text ← request_get request "representative"
    match node.decode_account representative_text with
    | some representative =>
      let work ← rpc_handler.work_optional_impl node request
      if (← no_error) && work != 0 then
        let _ ← rpc_handler.wallet_locked_impl node (wallet.getD 0)
        if ← no_error then
          match node.account_head account with
          | some head =>
            if node.work_validate_root head work then
              set_ec (.common .invalid_work)
          | none => set_ec (.common .account_not_found)
      if ← no_error then
        let generate_work := work == 0
        perform (.change_async (wallet.getD 0) account representative work generate_work)
    | none => set_ec (.rpc .bad_representative_number)
  if !(← no_error) then
    rpc_handler.response_errors node

/-- The handler `rpc_handler::work_generate`. The work callback runs later, outside the
handler. -/
def rpc_handler.work_generate (rpc : rpc) (node : node) (request : ptree) : rpc_m Unit := do
  let _ ← rpc_handler.rpc_control_impl rpc
  let hash ← rpc_handler.hash_impl node request "hash"
  if ← no_error then
    let use_peers := (request.get_optional "use_peers").bind ptree.bool_of_text == some true
    perform (.work_generate hash use_peers)
  if !(← no_error) then
    rpc_handler.response_errors node

/-- The handler `rpc_handler::payment_wait` with `rpc::observer_action` and
`payment_observer::observe`: the observer answers at once when the balance is already
there, and from the alarm or a block observer otherwise. -/
def rpc_handler.payment_wait (node : node) (request : ptree) : rpc_m Unit := do
  let timeout_text ← request_get request "timeout"
  let account ← rpc_handler.account_impl node request ""
  let amount ← rpc_handler.amount_impl node request
  if ← no_error then
    let r := decode_unsigned node timeout_text 0
    if !r.1 then
      perform (.payment_observer_start account amount r.2)
      if node.balance account >= amount then
        respond [("status", .data "success")]
    else
      set_ec (.rpc .bad_timeout)
  if !(← no_error) then
    rpc_handler.response_errors node

/-! ## `account_history` -/

/-- The method `history_visitor::send_block`. -/
def history_visitor.send_block (node : node) (raw : Bool) (hash : Nat) (block_a : block)
    (tree : ptree) : ptree :=
  let tree := tree.put "type" "send"
  let account := node.to_account block_a.destination
  let tree := tree.put "account" account
  let tree := tree.put "amount" (toString (node.ledger_amount hash))
  if raw then
    ((tree.put "destination" account).put "balance" (node.encode_dec block_a.balance)).put
      "previous" (node.to_string block_a.previous)
  else tree

/-- The method `history_visitor::receive_block`. -/
def history_visitor.receive_block (node : node) (raw : Bool) (hash : Nat) (block_a : block)
    (tree : ptree) : ptree :=
  let tree := tree.put "type" "receive"
  let tree := tree.put "account" (node.to_account (node.ledger_account block_a.source))
  let tree := tree.put "amount" (toString (node.ledger_amount hash))
  if raw then
    (tree.put "source" (node.to_string block_a.source)).put "previous"
      (node.to_string block_a.previous)
  else tree

/-- The method `history_visitor::open_block`. -/
def history_visitor.open_block (node : node) (raw : Bool) (hash : Nat) (block_a : block)
    (tree : ptree) : ptree :=
  let tree :=
    if raw then
      (((tree.put "type" "open").put "representative"
        (node.to_account block_a.representative)).put "source"
        (node.to_string block_a.source)).put "opened" (node.to_account block_a.account)
    else
      tree.put "type" "receive"
  if block_a.source != node.genesis_account then
    (tree.put "account" (node.to_account (node.ledger_account block_a.source))).put "amount"
      (toString (node.ledger_amount hash))
  else
    (tree.put "account" (node.to_account node.genesis_account)).put "amount"
      (toString node.genesis_amount)

/-- The method `history_visitor::change_block`. -/
def history_visitor.change_block (node : node) (raw : Bool) (block_a : block)
    (tree : ptree) : ptree :=
  if raw then
    ((tree.put "type" "change").put "representative"
      (node.to_account block_a.representative)).put "previous"
      (node.to_string block_a.previous)
  else tree

/-- The method `history_visitor::state_block`. -/
def history_visitor.state_block (node : node) (raw : Bool) (block_a : block)
    (tree : ptree) : ptree :=
  let tree :=
    if raw then
      ((((tree.put "type" "state").put "representative"
        (node.to_account block_a.representative)).put "link"
        (node.to_string block_a.link)).put "balance" (node.encode_dec block_a.balance)).put
        "previous" (node.to_string block_a.previous)
    else tree
  let balance := block_a.balance
  let previous_balance := node.ledger_balance block_a.previous
  if balance < previous_balance then
    let tree := if raw then tree.put "subtype" "send" else tree.put "type" "send"
    (tree.put "account" (node.to_account block_a.link)).put "amount"
      (toString (previous_balance - balance))
  else
    if block_a.link == 0 then
      if raw then tree.put "subtype" "change" else tree
    else if balance == previous_balance && node.epoch_link != 0
        && node.is_epoch_link block_a.link then
      if raw then
        (tree.put "subtype" "epoch").put "account" (node.to_account node.epoch_signer)
      else tree
    else
      let tree := if raw then tree.put "subtype" "receive" else tree.put "type" "receive"
      (tree.put "account" (node.to_account (node.ledger_account block_a.link))).put "amount"
        (toString (balance - previous_balance))

/-- The call `block->visit (visitor)` on a fresh entry: the entry afterwards. -/
def history_visitor.visit (node : node) (raw : Bool) (hash : Nat) (block_a : block) : ptree :=
  match block_a.type with
  | .send => history_visitor.send_block node raw hash block_a []
  | .receive => history_visitor.receive_block node raw hash block_a []
  | .open_ => history_visitor.open_block node raw hash block_a []
  | .change => history_visitor.change_block node raw block_a []
  | .state => history_visitor.state_block node raw block_a []

/-- One turn of the loop of `account_history` past the offset: the entry pushed onto
`history` for the block under `hash`, `none` when the visitor leaves the entry empty. -/
def rpc_handler.history_entry (node : node) (output_raw : Bool) (hash : Nat) (block_a : block) :
    Option ptree :=
  let entry := history_visitor.visit node output_raw hash block_a
  if entry != [] then
    let entry := entry.put "local_timestamp" (toString (node.sideband_timestamp hash))
    let entry := entry.put "hash" (node.to_string hash)
    some (if output_raw then
      (entry.put "work" (node.to_string_hex block_a.work)).put "signature"
        (node.signature_to_string block_a.signature)
    else entry)
  else none

/-- The `while` loop of `rpc_handler::account_history`: the entries of `history` and the
hash the loop ends at; `none` marks fuel used up while the loop goes on. -/
def rpc_handler.account_history_loop (node : node) (output_raw : Bool) :
    Nat → Nat → Nat → Nat → List ptree → Option (List ptree × Nat)
  | fuel, hash, count, offset, history =>
    match node.block_get hash with
    | some block_l =>
      if count > 0 then
        match fuel with
        | 0 => none
        | fuel + 1 =>
          if offset > 0 then
            rpc_handler.account_history_loop node output_raw fuel block_l.previous count
              (offset - 1) history
          else
            match rpc_handler.history_entry node output_raw hash block_l with
            | some entry =>
              rpc_handler.account_history_loop node output_raw fuel block_l.previous
                (count - 1) offset (history ++ [entry])
            | none =>
              rpc_handler.account_history_loop node output_raw fuel block_l.previous count
                offset history
      else some (history, hash)
    | none => some (history, hash)

/-- The first part of `rpc_handler::account_history`: the account and the hash to start
at, from `head` or from `account`. Both are only used while `ec` is clear. -/
def rpc_handler.account_history_start (node : node) (request : ptree) : rpc_m (Nat × Nat) := do
  match request.get_optional "head" with
  | some head_str =>
    match node.decode_hex head_str with
    | some hash =>
      if node.block_exists hash then
        return (node.ledger_account hash, hash)
      else
        set_ec (.blocks .not_found)
        return (0, hash)
    | none =>
      set_ec (.blocks .bad_hash_number)
      return (0, 0)
  | none =>
    let account ← rpc_handler.account_impl node request ""
    if ← no_error then
      return (account, node.latest account)
    else
      return (account, 0)

/-- The handler `rpc_handler::account_history`. -/
def rpc_handler.account_history (node : node) (request : ptree) (fuel : Nat) :
    rpc_m Unit := do
  let output_raw := (request.get_optional "raw").bind ptree.bool_of_text == some true
  let start ← rpc_handler.account_history_start node request
  let count ← rpc_handler.count_impl node request
  let offset ← rpc_handler.offset_optional_impl node request 0
  if ← no_error then
    put "account" (node.to_account start.1)
    match rpc_handler.account_history_loop node output_raw fuel start.2 count offset [] with
    | some (history, hash) =>
      add_children "history" (history.map fun entry => ("", entry.as_child))
      if hash != 0 then
        put "previous" (node.to_string hash)
    | none => get_stuck
  rpc_handler.response_errors node

/-! ## `pending` -/

/-- The entry `pending` builds when `source` or `min_version` is asked for. -/
def rpc_handler.pending_tree (node : node) (source min_version : Bool) (info : pending_info) :
    ptree :=
  let pending_tree := ptree.put [] "amount" (toString info.amount)
  let pending_tree :=
    if source then pending_tree.put "source" (node.to_account info.source) else pending_tree
  if min_version then pending_tree.put "min_version" (if info.epoch_1 then "1" else "0")
  else pending_tree

/-- The test `include_active || (block && !node.active.active (*block))` in the loop of
`pending`, where `block` is null with `include_active` and read from the store without. -/
def rpc_handler.pending_shown (node : node) (include_active : Bool) (key : pending_key) :
    Bool :=
  let block := if include_active then none else node.block_get key.hash
  include_active || (match block with
    | some b => !node.active b
    | none => false)

/-- The body of the loop of `pending` for an entry that is shown: the children of
`peers_l` afterwards. -/
def rpc_handler.pending_push (node : node) (threshold : Nat) (source min_version : Bool)
    (key : pending_key) (info : pending_info) (peers_l : List (String × pchild)) :
    List (String × pchild) :=
  if threshold == 0 && !source && !min_version then
    peers_l ++ [("", .data (node.to_string key.hash))]
  else if info.amount >= threshold then
    if source || min_version then
      peers_l ++ [(node.to_string key.hash,
        (rpc_handler.pending_tree node source min_version info).as_child)]
    else
      pchild.put peers_l (node.to_string key.hash) (toString info.amount)
  else peers_l

/-- The `for` loop of `rpc_handler::pending` over the entries the iterator visits, started
with `peers_l`: the children of `peers_l` afterwards. The loop ends where the key read is
no longer of the account, where `peers_l` has reached `count` children, and at the end of
the table. -/
def rpc_handler.pending_loop (node : node) (account count threshold : Nat)
    (source min_version include_active : Bool) :
    List (pending_key × pending_info) → List (String × pchild) → List (String × pchild)
  | [], peers_l => peers_l
  | (key, info) :: rest, peers_l =>
    if key.account == account && peers_l.length < count then
      rpc_handler.pending_loop node account count threshold source min_version include_active
        rest
        (if rpc_handler.pending_shown node include_active key then
          rpc_handler.pending_push node threshold source min_version key info peers_l
        else peers_l)
    else peers_l

/-- The handler `rpc_handler::pending`; `count_default` is the default argument of
`count_optional_impl`, declared in the header. -/
def rpc_handler.pending (node : node) (request : ptree) (count_default : Nat) :
    rpc_m Unit := do
  let account ← rpc_handler.account_impl node request ""
  let count ← rpc_handler.count_optional_impl node request count_default
  let threshold ← rpc_handler.threshold_optional_impl node request
  let source := request.get_bool "source" false
  let min_version := request.get_bool "min_version" false
  let include_active := request.get_bool "include_active" false
  if ← no_error then
    add_children "blocks" (rpc_handler.pending_loop node account count threshold source
      min_version include_active (node.pending_begin account) [])
  rpc_handler.response_errors node

/-! ## `ledger` -/

/-- The entry `response_a` that `ledger` builds for an account, with the balance text at
hand; `none` where the assertion on the representative block fails. -/
def rpc_handler.ledger_entry (node : node) (representative weight pending : Bool)
    (account : Nat) (info : account_info) (balance : String) : Option ptree :=
  let response_a := ptree.put [] "frontier" (node.to_string info.head)
  let response_a := response_a.put "open_block" (node.to_string info.open_block)
  let response_a := response_a.put "representative_block" (node.to_string info.rep_block)
  let response_a := response_a.put "balance" balance
  let response_a := response_a.put "modified_timestamp" (toString info.modified)
  let response_a := response_a.put "block_count" (toString info.block_count)
  let with_representative :=
    if representative then
      (node.block_get info.rep_block).map fun block_l =>
        response_a.put "representative" (node.to_account block_l.representative)
    else some response_a
  with_representative.map fun response_a =>
    let response_a :=
      if weight then response_a.put "weight" (toString (node.ledger_weight account))
      else response_a
    if pending then response_a.put "pending" (toString (node.ledger_account_pending account))
    else response_a

/-- The loop of the simple branch of `ledger` over the entries the iterator visits: the
children of `accounts` afterwards, `none` where an assertion fails. -/
def rpc_handler.ledger_simple_loop (node : node) (count modified_since : Nat)
    (representative weight pending : Bool) :
    List (Nat × account_info) → List (String × pchild) → Option (List (String × pchild))
  | [], accounts => some accounts
  | (account, info) :: rest, accounts =>
    if accounts.length < count then
      if info.modified >= modified_since then
        match rpc_handler.ledger_entry node representative weight pending account info
            (node.encode_dec info.balance) with
        | some response_a =>
          rpc_handler.ledger_simple_loop node count modified_since representative weight
            pending rest (accounts ++ [(node.to_account account, response_a.as_child)])
        | none => none
      else
        rpc_handler.ledger_simple_loop node count modified_since representative weight
          pending rest accounts
    else some accounts

/-- The order of `std::pair<nano::uint128_union, nano::account>` that `std::sort` uses:
by balance, then by account. -/
def rpc_handler.ledger_le (a b : Nat × Nat) : Prop :=
  a.1 < b.1 ∨ (a.1 = b.1 ∧ a.2 ≤ b.2)

instance : DecidableRel rpc_handler.ledger_le := fun a b =>
  inferInstanceAs (Decidable (a.1 < b.1 ∨ (a.1 = b.1 ∧ a.2 ≤ b.2)))

/-- The vector `ledger_l` of the sorting branch after `std::sort` and `std::reverse`: the
pairs of balance and account of the entries modified since `modified_since`, highest
first. -/
def rpc_handler.ledger_l (modified_since : Nat) (entries : List (Nat × account_info)) :
    List (Nat × Nat) :=
  (((entries.filter fun item => item.2.modified >= modified_since).map fun item =>
    (item.2.balance, item.1)).insertionSort rpc_handler.ledger_le).reverse

/-- The second loop of the sorting branch of `ledger`, over `ledger_l`, with the `info`
that `account_get` last filled in: the children of `accounts` afterwards, `none` where an
assertion fails. -/
def rpc_handler.ledger_sorted_loop (node : node) (count : Nat)
    (representative weight pending : Bool) :
    List (Nat × Nat) → account_info → List (String × pchild)
      → Option (List (String × pchild))
  | [], _, accounts => some accounts
  | (balance, account) :: rest, info, accounts =>
    if accounts.length < count then
      let info := (node.account_get account).getD info
      match rpc_handler.ledger_entry node representative weight pending account info
          (node.encode_dec balance) with
      | some response_a =>
        rpc_handler.ledger_sorted_loop node count representative weight pending rest info
          (accounts ++ [(node.to_account account, response_a.as_child)])
      | none => none
    else some accounts

/-- The handler `rpc_handler::ledger`; `count_default` is the default argument of
`count_optional_impl`, declared in the header. -/
def rpc_handler.ledger (rpc : rpc) (node : node) (request : ptree) (count_default : Nat) :
    rpc_m Unit := do
  let _ ← rpc_handler.rpc_control_impl rpc
  let count ← rpc_handler.count_optional_impl node request count_default
  if ← no_error then
    let start ← match request.get_optional "account" with
      | some account_text =>
        match node.decode_account account_text with
        | some start => pure start
        | none => do
          set_ec (.common .bad_account_number)
          pure 0
      | none => pure 0
    let modified_since ← match request.get_optional "modified_since" with
      | some modified_since_text =>
        let r := decode_unsigned node modified_since_text 0
        if r.1 then do
          set_ec (.rpc .invalid_timestamp)
          pure r.2
        else pure r.2
      | none => pure 0
    let sorting := request.get_bool "sorting" false
    let representative := request.get_bool "representative" false
    let weight := request.get_bool "weight" false
    let pending := request.get_bool "pending" false
    let accounts ←
      if (← no_error) && !sorting then
        match rpc_handler.ledger_simple_loop node count modified_since representative weight
            pending (node.latest_begin start) [] with
        | some accounts => pure accounts
        | none => get_stuck
      else if ← no_error then
        match rpc_handler.ledger_sorted_loop node count representative weight pending
            (rpc_handler.ledger_l modified_since (node.latest_begin start)) {} [] with
        | some accounts => pure accounts
        | none => get_stuck
      else pure []
    add_children "accounts" accounts
  rpc_handler.response_errors node

/-- The entry of an account in the `accounts` result, in the words of the specification:
under the account, the six fields of its `account_info`, and the representative of its
representative block, its weight and its pending balance where asked for. -/
def rpc_handler.ledger_report (node : node) (representative weight pending : Bool)
    (item : Nat × account_info) : String × pchild :=
  (node.to_account item.1,
    .tree ([("frontier", node.to_string item.2.head),
        ("open_block", node.to_string item.2.open_block),
        ("representative_block", node.to_string item.2.rep_block),
        ("balance", node.encode_dec item.2.balance),
        ("modified_timestamp", toString item.2.modified),
        ("block_count", toString item.2.block_count)]
      ++ (if representative then
            [("representative", node.to_account
              (((node.block_get item.2.rep_block).map fun b => b.representative).getD 0))]
          else [])
      ++ (if weight then [("weight", toString (node.ledger_weight item.1))] else [])
      ++ (if pending then [("pending", toString (node.ledger_account_pending item.1))]
          else [])))

/-- The accounts the sorting branch of `ledger` lists, each with the `account_info` that
`account_get` reads for it: the first `count` of `ledger_l`. -/
def rpc_handler.ledger_listed (node : node) (count modified_since : Nat)
    (entries : List (Nat × account_info)) : List (Nat × account_info) :=
  ((rpc_handler.ledger_l modified_since entries).take count).map fun p =>
    (p.2, (node.account_get p.2).getD {})

/-! ## `sign` -/

/-- The first part of `rpc_handler::sign`: the hash to sign and the block it belongs to
(`none` for a null pointer), with the two checks on them. -/
def rpc_handler.sign_hash (rpc : rpc) (node : node) (request : ptree) :
    rpc_m (Nat × Option block) := do
  let hash_text := request.get_optional "hash"
  let hash ← if hash_text.isSome then rpc_handler.hash_impl node request "hash" else pure 0
  let block_text := request.get_optional "block"
  let block ← if (← no_error) && block_text.isSome then rpc_handler.block_impl node request
    else pure none
  let hash := match block with
    | some b => node.hash b
    | none => hash
  if (← no_error) && hash == 0 then
    set_ec (.blocks .invalid_block)
  else if (← no_error) && hash != 0 && block.isNone && !rpc.config.enable_sign_hash then
    set_ec (.rpc .sign_hash_disabled)
  return (hash, block)

/-- The middle part of `rpc_handler::sign`: the private key, from the request or from the
wallet; zero when none is found. A decoder that reports an error leaves the key cleared. -/
def rpc_handler.sign_key (node : node) (request : ptree) : rpc_m Nat := do
  match request.get_optional "key" with
  | some key_text =>
    match node.decode_hex key_text with
    | some prv => return prv
    | none =>
      set_ec (.common .bad_private_key)
      return 0
  | none =>
    if (request.get_optional "wallet").isSome && (request.get_optional "account").isSome then
      let account ← rpc_handler.account_impl node request ""
      let wallet ← rpc_handler.wallet_impl node request
      if ← no_error then
        let _ ← rpc_handler.wallet_locked_impl node (wallet.getD 0)
        let _ ← rpc_handler.wallet_account_impl node (wallet.getD 0) account
        if ← no_error then
          perform (.wallet_fetch (wallet.getD 0) account)
          return node.wallet_fetch (wallet.getD 0) account
        else
          return 0
      else
        return 0
    else
      return 0

/-- The handler `rpc_handler::sign`. -/
def rpc_handler.sign (rpc : rpc) (node : node) (request : ptree) : rpc_m Unit := do
  let signed ← rpc_handler.sign_hash rpc node request
  if ← no_error then
    let prv ← rpc_handler.sign_key node request
    if prv != 0 then
      let pub := node.pub_key prv
      let signature := node.sign_message prv pub signed.1
      put "signature" (node.signature_to_string signature)
      match signed.2 with
      | some b => put "block" (node.serialize_json { b with signature := signature })
      | none => pure ()
    else
      set_ec (.rpc .block_create_key_required)
  rpc_handler.response_errors node

/-! ## The handlers of accounts -/

/-- The handler `rpc_handler::account_balance`. -/
def rpc_handler.account_balance (node : node) (request : ptree) : rpc_m Unit := do
  let account ← rpc_handler.account_impl node request ""
  if ← no_error then
    let balance := node.balance_pending account
    put "balance" (toString balance.1)
    put "pending" (toString balance.2)
  rpc_handler.response_errors node

/-- The handler `rpc_handler::account_block_count`. -/
def rpc_handler.account_block_count (node : node) (request : ptree) : rpc_m Unit := do
  let account ← rpc_handler.account_impl node request ""
  if ← no_error then
    match node.account_get account with
    | some info => put "block_count" (toString info.block_count)
    | none => set_ec (.common .account_not_found)
  rpc_handler.response_errors node

/-- The `index` branch and the branch without an index of `rpc_handler::account_create`: the key that
`deterministic_insert` returns. It is only used while `ec` is clear. -/
def rpc_handler.account_create_insert (node : node) (request : ptree) (wallet : Nat)
    (generate_work : Bool) : rpc_m Nat := do
  match request.get_optional "index" with
  | some index_text =>
    let r := decode_unsigned node index_text 0
    if r.1 || r.2 > 4294967295 then
      set_ec (.common .invalid_index)
      return 0
    else
      perform (.deterministic_insert wallet (some r.2) (some generate_work))
      return node.deterministic_insert_at wallet r.2
  | none =>
    perform (.deterministic_insert wallet none (some generate_work))
    return node.deterministic_insert wallet 0

/-- The handler `rpc_handler::account_create`. -/
def rpc_handler.account_create (rpc : rpc) (node : node) (request : ptree) : rpc_m Unit := do
  let _ ← rpc_handler.rpc_control_impl rpc
  let wallet ← rpc_handler.wallet_impl node request
  if ← no_error then
    let generate_work := request.get_bool "work" true
    let new_key ← rpc_handler.account_create_insert node request (wallet.getD 0) generate_work
    if ← no_error then
      if new_key != 0 then
        put "account" (node.to_account new_key)
      else
        set_ec (.common .wallet_locked)
  rpc_handler.response_errors node

/-- The handler `rpc_handler::account_get`. -/
def rpc_handler.account_get (node : node) (request : ptree) : rpc_m Unit := do
  let key_text ← request_get request "key"
  match node.decode_hex key_text with
  | some pub => put "account" (node.to_account pub)
  | none => set_ec (.common .bad_public_key)
  rpc_handler.response_errors node

/-- The handler `rpc_handler::account_info`. The assertion on the representative block
leaves the handler stuck where it fails. -/
def rpc_handler.account_info (node : node) (request : ptree) : rpc_m Unit := do
  let account ← rpc_handler.account_impl node request ""
  if ← no_error then
    let representative := request.get_bool "representative" false
    let weight := request.get_bool "weight" false
    let pending := request.get_bool "pending" false
    match node.account_get account with
    | some info =>
      put "frontier" (node.to_string info.head)
      put "open_block" (node.to_string info.open_block)
      put "representative_block" (node.to_string info.rep_block)
      put "balance" (node.encode_dec info.balance)
      put "modified_timestamp" (toString info.modified)
      put "block_count" (toString info.block_count)
      put "account_version" (if info.epoch_1 then "1" else "0")
      if representative then
        match node.block_get info.rep_block with
        | some block_l => put "representative" (node.to_account block_l.representative)
        | none => get_stuck
      if weight then
        put "weight" (toString (node.ledger_weight account))
      if pending then
        put "pending" (toString (node.ledger_account_pending account))
    | none => set_ec (.common .account_not_found)
  rpc_handler.response_errors node

/-- The handler `rpc_handler::account_key`. -/
def rpc_handler.account_key (node : node) (request : ptree) : rpc_m Unit := do
  let account ← rpc_handler.account_impl node request ""
  if ← no_error then
    put "key" (node.to_string account)
  rpc_handler.response_errors node

/-- The handler `rpc_handler::account_list`. -/
def rpc_handler.account_list (node : node) (request : ptree) : rpc_m Unit := do
  let wallet ← rpc_handler.wallet_impl node request
  if ← no_error then
    add_child "accounts"
      ((node.wallet_begin (wallet.getD 0)).map fun entry => node.to_account entry.1)
  rpc_handler.response_errors node

/-- The handler `rpc_handler::account_move`. The result of `decode_account` is not looked
at there; an account that does not decode is taken as zero. -/
def rpc_handler.account_move (rpc : rpc) (node : node) (request : ptree) : rpc_m Unit := do
  let _ ← rpc_handler.rpc_control_impl rpc
  let wallet ← rpc_handler.wallet_impl node request
  if ← no_error then
    let source_text ← request_get request "source"
    let accounts_text ← request_get_child request "accounts"
    match node.decode_hex source_text with
    | some source =>
      if node.wallet_exists source then
        let accounts := accounts_text.map fun text => (node.decode_account text).getD 0
        perform (.wallet_move (wallet.getD 0) source accounts)
        let error := node.wallet_move (wallet.getD 0) source accounts
        put "moved" (if error then "0" else "1")
      else
        set_ec (.rpc .source_not_found)
    | none => set_ec (.rpc .bad_source)
  rpc_handler.response_errors node

/-- The handler `rpc_handler::account_remove`. -/
def rpc_handler.account_remove (rpc : rpc) (node : node) (request : ptree) : rpc_m Unit := do
  let _ ← rpc_handler.rpc_control_impl rpc
  let wallet ← rpc_handler.wallet_impl node request
  let account ← rpc_handler.account_impl node request ""
  if ← no_error then
    let _ ← rpc_handler.wallet_locked_impl node (wallet.getD 0)
    let _ ← rpc_handler.wallet_account_impl node (wallet.getD 0) account
    if ← no_error then
      perform (.wallet_erase (wallet.getD 0) account)
      put "removed" "1"
  rpc_handler.response_errors node

/-- The handler `rpc_handler::account_representative`. The assertion on the representative
block leaves the handler stuck where it fails. -/
def rpc_handler.account_representative (node : node) (request : ptree) : rpc_m Unit := do
  let account ← rpc_handler.account_impl node request ""
  if ← no_error then
    match node.account_get account with
    | some info =>
      match node.block_get info.rep_block with
      | some block_l => put "representative" (node.to_account block_l.representative)
      | none => get_stuck
    | none => set_ec (.common .account_not_found)
  rpc_handler.response_errors node

/-- The handler `rpc_handler::account_weight`. -/
def rpc_handler.account_weight (node : node) (request : ptree) : rpc_m Unit := do
  let account ← rpc_handler.account_impl node request ""
  if ← no_error then
    put "weight" (toString (node.weight account))
  rpc_handler.response_errors node

/-- The body of the loop of `accounts_balances` for one child of `accounts`: the children
of `balances` afterwards. -/
def rpc_handler.accounts_balances_step (node : node) (request : ptree)
    (balances : List (String × pchild)) (text : String) : rpc_m (List (String × pchild)) := do
  let account ← rpc_handler.account_impl node request text
  if ← no_error then
    let balance := node.balance_pending account
    let entry := (ptree.put [] "balance" (toString balance.1)).put "pending"
      (toString balance.2)
    return balances ++ [(node.to_account account, entry.as_child)]
  else
    return balances

/-- The handler `rpc_handler::accounts_balances`. -/
def rpc_handler.accounts_balances (node : node) (request : ptree) : rpc_m Unit := do
  let accounts ← request_get_child request "accounts"
  let balances ← rpc_m.for_each (rpc_handler.accounts_balances_step node request) accounts []
  add_children "balances" balances
  rpc_handler.response_errors node

/-- The loop of `accounts_create`, `for (auto i (0); accounts.size () < count; ++i)`, from
turn `i` on with the children of `accounts` so far: a turn whose key is zero adds nothing.
The loop is stuck when it is still running after `fuel` turns. -/
def rpc_handler.accounts_create_loop (node : node) (wallet : Nat) (generate_work : Bool)
    (count : Nat) : Nat → Nat → List String → rpc_m (List String)
  | fuel, i, accounts =>
    if accounts.length < count then
      match fuel with
      | 0 => get_stuck
      | fuel + 1 => do
        perform (.deterministic_insert wallet none (some generate_work))
        let new_key := node.deterministic_insert wallet i
        if new_key != 0 then
          rpc_handler.accounts_create_loop node wallet generate_work count fuel (i + 1)
            (accounts ++ [node.to_account new_key])
        else
          rpc_handler.accounts_create_loop node wallet generate_work count fuel (i + 1)
            accounts
    else pure accounts

/-- The handler `rpc_handler::accounts_create`. -/
def rpc_handler.accounts_create (rpc : rpc) (node : node) (request : ptree) (fuel : Nat) :
    rpc_m Unit := do
  let _ ← rpc_handler.rpc_control_impl rpc
  let wallet ← rpc_handler.wallet_impl node request
  let count ← rpc_handler.count_impl node request
  if ← no_error then
    let generate_work := request.get_bool "work" false
    let accounts ← rpc_handler.accounts_create_loop node (wallet.getD 0) generate_work count
      fuel 0 []
    add_child "accounts" accounts
  rpc_handler.response_errors node

/-- The body of the loop of `accounts_frontiers` for one child of `accounts`: the children
of `frontiers` afterwards. -/
def rpc_handler.accounts_frontiers_step (node : node) (request : ptree)
    (frontiers : List (String × pchild)) (text : String) : rpc_m (List (String × pchild)) := do
  let account ← rpc_handler.account_impl node request text
  if ← no_error then
    let latest := node.latest account
    if latest != 0 then
      return pchild.put frontiers (node.to_account account) (node.to_string latest)
    else
      return frontiers
  else
    return frontiers

/-- The handler `rpc_handler::accounts_frontiers`. -/
def rpc_handler.accounts_frontiers (node : node) (request : ptree) : rpc_m Unit := do
  let accounts ← request_get_child request "accounts"
  let frontiers ← rpc_m.for_each (rpc_handler.accounts_frontiers_step node request) accounts []
  add_children "frontiers" frontiers
  rpc_handler.response_errors node

/-- The body of the outer loop of `accounts_pending` for one child of `accounts`: the
children of `pending` afterwards. The inner loop is the loop of `pending` without
`min_version`. -/
def rpc_handler.accounts_pending_step (node : node) (request : ptree) (count threshold : Nat)
    (source include_active : Bool) (pending : List (String × List (String × pchild)))
    (text : String) : rpc_m (List (String × List (String × pchild))) := do
  let account ← rpc_handler.account_impl node request text
  if ← no_error then
    let peers_l := rpc_handler.pending_loop node account count threshold source false
      include_active (node.pending_begin account) []
    return pending ++ [(node.to_account account, peers_l)]
  else
    return pending

/-- The handler `rpc_handler::accounts_pending`. -/
def rpc_handler.accounts_pending (node : node) (request : ptree) : rpc_m Unit := do
  let count ← rpc_handler.count_optional_impl node request node.count_optional_default
  let threshold ← rpc_handler.threshold_optional_impl node request
  let source := request.get_bool "source" false
  let include_active := request.get_bool "include_active" false
  let accounts ← request_get_child request "accounts"
  let pending ← rpc_m.for_each
    (rpc_handler.accounts_pending_step node request count threshold source include_active)
    accounts []
  add_nested "blocks" pending
  rpc_handler.response_errors node

/-- The handler `rpc_handler::available_supply`; the subtractions are those of
`nano::uint128_t`, which wrap. -/
def rpc_handler.available_supply (node : node) : rpc_m Unit := do
  let genesis_balance := node.balance node.genesis_account
  let landing_balance :=
    node.balance 0x059F68AAB29DE0D3A27443625C7EA9CDDB6517A8B76FE37727EF6A4D76832AD5
  let faucet_balance :=
    node.balance 0x8E319CE6F3025E5B2DF66DA7AB1467FE48F1679C13DD43BFDB29FA2E9FC40D3B
  let burned_balance := (node.balance_pending 0).2
  let available : Int := ((node.genesis_amount : Int) - genesis_balance - landing_balance
    - faucet_balance - burned_balance) % 2 ^ 128
  put "available" (toString available.toNat)
  rpc_handler.response_errors node

/-! ## The handlers of blocks, elections and representatives -/

/-- The handler `rpc_handler::block_info`. -/
def rpc_handler.block_info (node : node) (request : ptree) : rpc_m Unit := do
  let hash ← rpc_handler.hash_impl node request "hash"
  if ← no_error then
    match node.block_get hash with
    | some block_l =>
      let account := if block_l.account = 0 then node.sideband_account hash else block_l.account
      put "block_account" (node.to_account account)
      put "amount" (toString (node.ledger_amount hash))
      put "balance" (toString (node.ledger_balance hash))
      put "height" (toString (node.sideband_height hash))
      put "local_timestamp" (toString (node.sideband_timestamp hash))
      put "contents" (node.serialize_json block_l)
    | none => set_ec (.blocks .not_found)
  rpc_handler.response_errors node

/-- The body of the loop of `blocks` for one child of `hashes`: the children of `blocks`
afterwards. -/
def rpc_handler.blocks_step (node : node) (blocks : List (String × pchild))
    (hash_text : String) : rpc_m (List (String × pchild)) := do
  if ← no_error then
    match node.decode_hex hash_text with
    | some hash =>
      match node.block_get hash with
      | some block_l => return pchild.put blocks hash_text (node.serialize_json block_l)
      | none =>
        set_ec (.blocks .not_found)
        return blocks
    | none =>
      set_ec (.blocks .bad_hash_number)
      return blocks
  else
    return blocks

/-- The handler `rpc_handler::blocks`. -/
def rpc_handler.blocks (node : node) (request : ptree) : rpc_m Unit := do
  let hashes ← request_get_child request "hashes"
  let blocks ← rpc_m.for_each (rpc_handler.blocks_step node) hashes []
  add_children "blocks" blocks
  rpc_handler.response_errors node

/-- The entry that `blocks_info` builds for a stored block. -/
def rpc_handler.blocks_info_entry (node : node) (pending source : Bool) (hash : Nat)
    (block_l : block) : ptree :=
  let account := if block_l.account = 0 then node.sideband_account hash else block_l.account
  let entry := ptree.put [] "block_account" (node.to_account account)
  let entry := entry.put "amount" (toString (node.ledger_amount hash))
  let entry := entry.put "balance" (toString (node.ledger_balance hash))
  let entry := entry.put "height" (toString (node.sideband_height hash))
  let entry := entry.put "local_timestamp" (toString (node.sideband_timestamp hash))
  let entry := entry.put "contents" (node.serialize_json block_l)
  let entry :=
    if pending then
      let destination := node.block_destination block_l
      let exists_ := destination != 0 && node.pending_exists destination hash
      entry.put "pending" (if exists_ then "1" else "0")
    else entry
  if source then
    let source_hash := node.block_source block_l
    match node.block_get source_hash with
    | some _ => entry.put "source_account" (node.to_account (node.ledger_account source_hash))
    | none => entry.put "source_account" "0"
  else entry

/-- The body of the loop of `blocks_info` for one child of `hashes`: the children of
`blocks` afterwards. -/
def rpc_handler.blocks_info_step (node : node) (pending source : Bool)
    (blocks : List (String × pchild)) (hash_text : String) :
    rpc_m (List (String × pchild)) := do
  if ← no_error then
    match node.decode_hex hash_text with
    | some hash =>
      match node.block_get hash with
      | some block_l =>
        return blocks ++ [(hash_text,
          (rpc_handler.blocks_info_entry node pending source hash block_l).as_child)]
      | none =>
        set_ec (.blocks .not_found)
        return blocks
    | none =>
      set_ec (.blocks .bad_hash_number)
      return blocks
  else
    return blocks

/-- The handler `rpc_handler::blocks_info`. -/
def rpc_handler.blocks_info (node : node) (request : ptree) : rpc_m Unit := do
  let pending := request.get_bool "pending" false
  let source := request.get_bool "source" false
  let hashes ← request_get_child request "hashes"
  let blocks ← rpc_m.for_each (rpc_handler.blocks_info_step node pending source) hashes []
  add_children "blocks" blocks
  rpc_handler.response_errors node

/-- The handler `rpc_handler::block_account`. -/
def rpc_handler.block_account (node : node) (request : ptree) : rpc_m Unit := do
  let hash ← rpc_handler.hash_impl node request "hash"
  if ← no_error then
    if node.block_exists hash then
      put "account" (node.to_account (node.ledger_account hash))
    else
      set_ec (.blocks .not_found)
  rpc_handler.response_errors node

/-- The handler `rpc_handler::block_count`; `sum ()` adds the six counts. -/
def rpc_handler.block_count (node : node) : rpc_m Unit := do
  let count := node.block_count
  put "count" (toString (count.send + count.receive + count.open_ + count.change
    + count.state_v0 + count.state_v1))
  put "unchecked" (toString node.unchecked_count)
  rpc_handler.response_errors node

/-- The handler `rpc_handler::block_count_type`. -/
def rpc_handler.block_count_type (node : node) : rpc_m Unit := do
  let count := node.block_count
  put "send" (toString count.send)
  put "receive" (toString count.receive)
  put "open" (toString count.open_)
  put "change" (toString count.change)
  put "state_v0" (toString count.state_v0)
  put "state_v1" (toString count.state_v1)
  put "state" (toString (count.state_v0 + count.state_v1))
  rpc_handler.response_errors node

/-- The method `rpc_handler::block_impl (false)`: the block, `none` for a null pointer. -/
def rpc_handler.block_impl_unsigned (node : node) (request : ptree) :
    rpc_m (Option block) := do
  if ← no_error then
    let block_text ← request_get request "block"
    match node.block_of_text_unsigned block_text with
    | .malformed => raise .runtime_error
    | .null => set_ec (.blocks .invalid_block)
    | .parsed b => return some b
  return none

/-- The handler `rpc_handler::block_hash`. -/
def rpc_handler.block_hash (node : node) (request : ptree) : rpc_m Unit := do
  let block ← rpc_handler.block_impl_unsigned node request
  match block with
  | some b =>
    if ← no_error then
      put "hash" (node.to_string (node.hash b))
  | none => pure ()
  rpc_handler.response_errors node

/-- The handler `rpc_handler::bootstrap_status`. -/
def rpc_handler.bootstrap_status (node : node) : rpc_m Unit := do
  match node.current_attempt with
  | some attempt =>
    put "clients" (toString attempt.clients)
    put "pulls" (toString attempt.pulls)
    put "pulling" (toString attempt.pulling)
    put "connections" (toString attempt.connections)
    put "idle" (toString attempt.idle)
    put "target_connections" (toString attempt.target_connections)
    put "total_blocks" (toString attempt.total_blocks)
    put "runs_count" (toString attempt.runs_count)
    put "mode" (match attempt.mode with
      | .legacy => "legacy"
      | .lazy => "lazy"
      | .wallet_lazy => "wallet_lazy")
    put "lazy_blocks" (toString attempt.lazy_blocks)
    put "lazy_state_unknown" (toString attempt.lazy_state_unknown)
    put "lazy_balances" (toString attempt.lazy_balances)
    put "lazy_pulls" (toString attempt.lazy_pulls)
    put "lazy_stopped" (toString attempt.lazy_stopped)
    put "lazy_keys" (toString attempt.lazy_keys.length)
    match attempt.lazy_keys with
    | key :: _ => put "lazy_key_1" (node.to_string key)
    | [] => pure ()
  | none => put "active" "0"
  rpc_handler.response_errors node

/-- The handler `rpc_handler::confirmation_active`. -/
def rpc_handler.confirmation_active (node : node) (request : ptree) : rpc_m Unit := do
  let announcements := match request.get_optional "announcements" with
    | some announcements_text => node.strtoul announcements_text
    | none => 0
  let elections := (node.active_roots.filter fun i =>
    i.announcements >= announcements && !i.confirmed && !i.stopped).map fun i =>
      node.to_string i.root
  add_child "confirmations" elections
  rpc_handler.response_errors node

/-- The loop of `confirmation_history` over the confirmed elections: the children of
`elections` and `running_total` afterwards. -/
def rpc_handler.confirmation_history_loop (node : node) (hash : Nat) :
    List election_status → List (String × pchild) → Nat → List (String × pchild) × Nat
  | [], elections, running_total => (elections, running_total)
  | i :: rest, elections, running_total =>
    let elections :=
      if hash == 0 || node.hash i.winner == hash then
        let election := ptree.put [] "hash" (node.to_string (node.hash i.winner))
        let election := election.put "duration" (toString i.election_duration)
        let election := election.put "time" (toString i.election_end)
        let election := election.put "tally" (node.encode_dec i.tally)
        elections ++ [("", election.as_child)]
      else elections
    rpc_handler.confirmation_history_loop node hash rest elections
      (running_total + i.election_duration)

/-- The handler `rpc_handler::confirmation_history`. -/
def rpc_handler.confirmation_history (node : node) (request : ptree) : rpc_m Unit := do
  let hash ← match request.get_optional "hash" with
    | some _ => rpc_handler.hash_impl node request "hash"
    | none => pure 0
  let confirmed ← if ← no_error then
      pure (rpc_handler.confirmation_history_loop node hash node.list_confirmed [] 0)
    else pure ([], 0)
  let elections := confirmed.1
  let running_total := confirmed.2
  let confirmation_stats := ptree.put [] "count" (toString elections.length)
  let confirmation_stats :=
    if elections.length >= 1 then
      confirmation_stats.put "average" (toString (running_total / elections.length))
    else confirmation_stats
  add_children "confirmation_stats" (confirmation_stats.map fun leaf => (leaf.1, .data leaf.2.text))
  add_children "confirmations" elections
  rpc_handler.response_errors node

/-- The multimap `representatives` of `confirmation_info` for one block of the tally: the
weight and the account of every representative whose last vote is for the block, greatest
weight first, equal weights in the order of insertion. -/
def rpc_handler.confirmation_info_representatives (node : node) (hash : Nat)
    (last_votes : List (Nat × Nat)) : List (Nat × Nat) :=
  ((last_votes.filter fun ii => hash == ii.2).map fun ii =>
    (node.representation_get ii.1, ii.1)).insertionSort fun a b => a.1 ≥ b.1

/-- The entry that `confirmation_info` builds for one block of the tally. -/
def rpc_handler.confirmation_info_entry (node : node) (contents representatives : Bool)
    (last_votes : List (Nat × Nat)) (i : Nat × block) : List (String × pchild) :=
  let entry : List (String × pchild) := [("tally", .data (toString i.1))]
  let entry :=
    if contents then pchild.put entry "contents" (node.serialize_json i.2) else entry
  if representatives then
    entry ++ [("representatives", .tree
      ((rpc_handler.confirmation_info_representatives node (node.hash i.2) last_votes).foldl
        (fun representatives_list ii =>
          ptree.put representatives_list (node.to_account ii.2) (toString ii.1)) []
        |>.map fun leaf => (leaf.1, leaf.2.text)))]
  else entry

/-- The handler `rpc_handler::confirmation_info`; the additions to `total` are those of
`nano::uint128_t`, which wrap. -/
def rpc_handler.confirmation_info (node : node) (request : ptree) : rpc_m Unit := do
  let representatives := request.get_bool "representatives" false
  let contents := request.get_bool "contents" true
  let root_text ← request_get request "root"
  match node.decode_hex_512 root_text with
  | some root =>
    match node.active_roots.find? fun conflict_info => conflict_info.root == root with
    | some conflict_info =>
      put "announcements" (toString conflict_info.announcements)
      put "last_winner" (node.to_string (node.hash conflict_info.winner))
      let total := (conflict_info.tally.foldl (fun total i => total + i.1) 0) % 2 ^ 128
      let blocks := conflict_info.tally.foldl (fun blocks i =>
        blocks ++ [(node.to_string (node.hash i.2),
          rpc_handler.confirmation_info_entry node contents representatives
            conflict_info.last_votes i)]) []
      put "total_tally" (toString total)
      add_nested "blocks" blocks
    | none => set_ec (.rpc .confirmation_not_found)
  | none => set_ec (.rpc .invalid_root)
  rpc_handler.response_errors node

/-- The handler `rpc_handler::confirmation_quorum`. -/
def rpc_handler.confirmation_quorum (node : node) (request : ptree) : rpc_m Unit := do
  put "quorum_delta" (toString node.delta)
  put "online_weight_quorum_percent" (toString node.online_weight_quorum)
  put "online_weight_minimum" (node.encode_dec node.online_weight_minimum)
  put "online_stake_total" (toString node.online_stake)
  put "peers_stake_total" (toString node.peers_total_weight)
  if request.get_bool "peer_details" false then
    add_children "peers" (node.list_probable_rep_weights.map fun peer =>
      ("", (((ptree.put [] "account" (node.to_account peer.probable_rep_account)).put "ip"
        peer.ip_address).put "weight" (node.encode_dec peer.rep_weight)).as_child))
  rpc_handler.response_errors node

/-- The loop of `delegators` over the account table: the children of `delegators`
afterwards, `none` where the assertion on a representative block fails. -/
def rpc_handler.delegators_loop (node : node) (account : Nat) :
    List (Nat × nano.account_info) → List (String × pchild) → Option (List (String × pchild))
  | [], delegators => some delegators
  | (i, info) :: rest, delegators =>
    match node.block_get info.rep_block with
    | some block_l =>
      rpc_handler.delegators_loop node account rest
        (if block_l.representative == account then
          pchild.put delegators (node.to_account i) (node.encode_dec info.balance)
        else delegators)
    | none => none

/-- The handler `rpc_handler::delegators`. -/
def rpc_handler.delegators (node : node) (request : ptree) : rpc_m Unit := do
  let account ← rpc_handler.account_impl node request ""
  if ← no_error then
    match rpc_handler.delegators_loop node account (node.latest_begin 0) [] with
    | some delegators => add_children "delegators" delegators
    | none => get_stuck
  rpc_handler.response_errors node

/-- The loop of `delegators_count` over the account table: `count` afterwards, `none`
where the assertion on a representative block fails. -/
def rpc_handler.delegators_count_loop (node : node) (account : Nat) :
    List (Nat × nano.account_info) → Nat → Option Nat
  | [], count => some count
  | (_, info) :: rest, count =>
    match node.block_get info.rep_block with
    | some block_l =>
      rpc_handler.delegators_count_loop node account rest
        (if block_l.representative == account then count + 1 else count)
    | none => none

/-- The handler `rpc_handler::delegators_count`. -/
def rpc_handler.delegators_count (node : node) (request : ptree) : rpc_m Unit := do
  let account ← rpc_handler.account_impl node request ""
  if ← no_error then
    match rpc_handler.delegators_count_loop node account (node.latest_begin 0) 0 with
    | some count => put "count" (toString count)
    | none => get_stuck
  rpc_handler.response_errors node

/-- The handler `rpc_handler::deterministic_key`; the index is cut to 32 bits. -/
def rpc_handler.deterministic_key (node : node) (request : ptree) : rpc_m Unit := do
  let seed_text ← request_get request "seed"
  let index_text ← request_get request "index"
  match node.decode_hex seed_text with
  | some seed =>
    match node.stoul index_text with
    | some index =>
      let prv := node.deterministic_key seed (index % 4294967296)
      let pub := node.pub_key prv
      put "private" (node.to_string prv)
      put "public" (node.to_string pub)
      put "account" (node.to_account pub)
    | none => set_ec (.common .invalid_index)
  | none => set_ec (.common .bad_seed)
  rpc_handler.response_errors node

/-- The loop of `frontiers` over the entries the iterator visits: the children of
`frontiers` afterwards. -/
def rpc_handler.frontiers_loop (node : node) (count : Nat) :
    List (Nat × nano.account_info) → List (String × pchild) → List (String × pchild)
  | [], frontiers => frontiers
  | (i, info) :: rest, frontiers =>
    if frontiers.length < count then
      rpc_handler.frontiers_loop node count rest
        (pchild.put frontiers (node.to_account i) (node.to_string info.head))
    else frontiers

/-- The handler `rpc_handler::frontiers`. -/
def rpc_handler.frontiers (node : node) (request : ptree) : rpc_m Unit := do
  let start ← rpc_handler.account_impl node request ""
  let count ← rpc_handler.count_impl node request
  if ← no_error then
    add_children "frontiers" (rpc_handler.frontiers_loop node count (node.latest_begin start) [])
  rpc_handler.response_errors node

/-- The handler `rpc_handler::account_count`. -/
def rpc_handler.account_count (node : node) : rpc_m Unit := do
  put "count" (toString node.account_count)
  rpc_handler.response_errors node

/-- The handler `rpc_handler::key_create`. -/
def rpc_handler.key_create (node : node) : rpc_m Unit := do
  let prv := node.keypair_prv
  let pub := node.pub_key prv
  put "private" (node.to_string prv)
  put "public" (node.to_string pub)
  put "account" (node.to_account pub)
  rpc_handler.response_errors node

/-- The handler `rpc_handler::key_expand`. -/
def rpc_handler.key_expand (node : node) (request : ptree) : rpc_m Unit := do
  let key_text ← request_get request "key"
  match node.decode_hex key_text with
  | some prv =>
    let pub := node.pub_key prv
    put "private" (node.to_string prv)
    put "public" (node.to_string pub)
    put "account" (node.to_account pub)
  | none => set_ec (.common .bad_private_key)
  rpc_handler.response_errors node

/-- The handler `rpc_handler::node_id`. -/
def rpc_handler.node_id (rpc : rpc) (node : node) : rpc_m Unit := do
  let _ ← rpc_handler.rpc_control_impl rpc
  if ← no_error then
    put "private" (node.to_string node.node_id_prv)
    put "public" (node.to_string (node.pub_key node.node_id_prv))
    put "as_account" (node.to_account (node.pub_key node.node_id_prv))
  rpc_handler.response_errors node

/-- The handler `rpc_handler::password_change`. -/
def rpc_handler.password_change (rpc : rpc) (node : node) (request : ptree) : rpc_m Unit := do
  let _ ← rpc_handler.rpc_control_impl rpc
  let wallet ← rpc_handler.wallet_impl node request
  if ← no_error then
    let password_text ← request_get request "password"
    perform (.rekey (wallet.getD 0) password_text)
    let error := node.rekey (wallet.getD 0) password_text
    put "changed" (if error then "0" else "1")
  rpc_handler.response_errors node

/-- The handler `rpc_handler::password_enter`. -/
def rpc_handler.password_enter (node : node) (request : ptree) : rpc_m Unit := do
  let wallet ← rpc_handler.wallet_impl node request
  if ← no_error then
    let password_text ← request_get request "password"
    perform (.enter_password (wallet.getD 0) password_text)
    let error := node.enter_password (wallet.getD 0) password_text
    put "valid" (if error then "0" else "1")
  rpc_handler.response_errors node

/-- The handler `rpc_handler::password_valid`. -/
def rpc_handler.password_valid (node : node) (request : ptree) (wallet_locked : Bool) :
    rpc_m Unit := do
  let wallet ← rpc_handler.wallet_impl node request
  if ← no_error then
    let valid := node.valid_password (wallet.getD 0)
    if !wallet_locked then
      put "valid" (if valid then "1" else "0")
    else
      put "locked" (if valid then "0" else "1")
  rpc_handler.response_errors node

/-- The handler `rpc_handler::peers`. -/
def rpc_handler.peers (node : node) (request : ptree) : rpc_m Unit := do
  let peer_details := request.get_bool "peer_details" false
  add_children "peers" (node.peers_list.map fun i =>
    if peer_details then
      (i.endpoint, ((ptree.put [] "protocol_version" (toString i.network_version)).put
        "node_id" (match i.node_id with
          | some id => node.to_account id
          | none => "")).as_child)
    else
      (i.endpoint, .data (toString i.network_version)))
  rpc_handler.response_errors node

/-- The handler `rpc_handler::pending_exists`. -/
def rpc_handler.pending_exists (node : node) (request : ptree) : rpc_m Unit := do
  let hash ← rpc_handler.hash_impl node request "hash"
  let include_active := request.get_bool "include_active" false
  if ← no_error then
    match node.block_get hash with
    | some block_l =>
      let destination := node.block_destination block_l
      let exists_ := destination != 0 && node.pending_exists destination hash
      let exists_ := exists_ && (include_active || !node.active block_l)
      put "exists" (if exists_ then "1" else "0")
    | none => set_ec (.blocks .not_found)
  rpc_handler.response_errors node

/-! ## The handlers of payments, representatives and unchecked blocks -/

/-- The `do`/`while` loop of `payment_begin` over the free accounts of the wallet: the
account it ends with. A free account that is no longer in the wallet, or that has a
balance, is dropped and the loop goes on; with no free account left the wallet makes a
new one. -/
def rpc_handler.payment_begin_loop (node : node) (wallet : Nat) : List Nat → rpc_m Nat
  | [] => do
    perform (.deterministic_insert wallet none none)
    return node.deterministic_insert wallet 0
  | existing :: rest => do
    perform (.free_accounts_erase wallet existing)
    let account :=
      if !node.wallet_find wallet existing then 0
      else if node.account_balance existing != 0 then 0
      else existing
    if account == 0 then
      rpc_handler.payment_begin_loop node wallet rest
    else
      return account

/-- The handler `rpc_handler::payment_begin`. -/
def rpc_handler.payment_begin (node : node) (request : ptree) : rpc_m Unit := do
  let id_text ← request_get request "wallet"
  match node.decode_hex id_text with
  | some id =>
    if node.wallet_exists id then
      if node.valid_password id then
        let account ← rpc_handler.payment_begin_loop node id (node.free_accounts id)
        if account != 0 then
          put "account" (node.to_account account)
        else
          set_ec (.rpc .payment_unable_create_account)
      else
        set_ec (.common .wallet_locked)
    else
      set_ec (.common .wallet_not_found)
  | none => set_ec (.common .bad_wallet_number)
  rpc_handler.response_errors node

/-- The handler `rpc_handler::payment_init`. -/
def rpc_handler.payment_init (node : node) (request : ptree) : rpc_m Unit := do
  let wallet ← rpc_handler.wallet_impl node request
  if ← no_error then
    if node.valid_password (wallet.getD 0) then
      perform (.init_free_accounts (wallet.getD 0))
      put "status" "Ready"
    else
      set_ec (.common .wallet_locked)
  rpc_handler.response_errors node

/-- The handler `rpc_handler::payment_end`. -/
def rpc_handler.payment_end (node : node) (request : ptree) : rpc_m Unit := do
  let account ← rpc_handler.account_impl node request ""
  let wallet ← rpc_handler.wallet_impl node request
  if ← no_error then
    let _ ← rpc_handler.wallet_account_impl node (wallet.getD 0) account
    if ← no_error then
      if node.account_balance account == 0 then
        perform (.free_accounts_insert (wallet.getD 0) account)
        put "ended" "1"
      else
        set_ec (.rpc .payment_account_balance)
  rpc_handler.response_errors node

/-- The handler `rpc_handler::receive_minimum`. -/
def rpc_handler.receive_minimum (rpc : rpc) (node : node) : rpc_m Unit := do
  let _ ← rpc_handler.rpc_control_impl rpc
  if ← no_error then
    put "amount" (node.encode_dec node.receive_minimum)
  rpc_handler.response_errors node

/-- A loop of `representatives` that puts pairs of account text and amount into
`representatives` while it has fewer than `count` children: the children afterwards. -/
def rpc_handler.representatives_loop (count : Nat) :
    List (String × Nat) → List (String × pchild) → List (String × pchild)
  | [], representatives => representatives
  | i :: rest, representatives =>
    if representatives.length < count then
      rpc_handler.representatives_loop count rest
        (pchild.put representatives i.1 (toString i.2))
    else representatives

/-- The order of `std::pair<nano::uint128_union, std::string>` that `std::sort` uses: by
amount, then by text. -/
def rpc_handler.representation_le (a b : Nat × String) : Prop :=
  a.1 < b.1 ∨ (a.1 = b.1 ∧ ¬ b.2 < a.2)

instance : DecidableRel rpc_handler.representation_le := fun a b =>
  inferInstanceAs (Decidable (a.1 < b.1 ∨ (a.1 = b.1 ∧ ¬ b.2 < a.2)))

/-- The handler `rpc_handler::representatives`. -/
def rpc_handler.representatives (node : node) (request : ptree) : rpc_m Unit := do
  let count ← rpc_handler.count_optional_impl node request node.count_optional_default
  if ← no_error then
    let sorting := request.get_bool "sorting" false
    let representatives :=
      if !sorting then
        rpc_handler.representatives_loop count
          (node.representation_begin.map fun account =>
            (node.to_account account, node.representation_get account)) []
      else
        let representation := ((node.representation_begin.map fun account =>
          (node.representation_get account, node.to_account account)).insertionSort
            rpc_handler.representation_le).reverse
        rpc_handler.representatives_loop count (representation.map fun i => (i.2, i.1)) []
    add_children "representatives" representatives
  rpc_handler.response_errors node

/-- The first loop of `representatives_online`: the accounts of `accounts_to_filter`,
`none` where a text does not decode and the loop breaks with an error. -/
def rpc_handler.representatives_online_filter (node : node) :
    List String → List Nat → Option (List Nat)
  | [], accounts_to_filter => some accounts_to_filter
  | a :: rest, accounts_to_filter =>
    match node.decode_account a with
    | some account =>
      rpc_handler.representatives_online_filter node rest (accounts_to_filter ++ [account])
    | none => none

/-- The second loop of `representatives_online`, over the online representatives: the
children of `representatives` afterwards. With a filter the loop breaks when the filter
is used up, skips an account that is not in it and takes a listed account out of it. -/
def rpc_handler.representatives_online_loop (node : node) (filtered weight : Bool) :
    List Nat → List Nat → List (String × pchild) → List (String × pchild)
  | [], _, representatives => representatives
  | i :: rest, accounts_to_filter, representatives =>
    if filtered && accounts_to_filter.isEmpty then representatives
    else if filtered && !accounts_to_filter.contains i then
      rpc_handler.representatives_online_loop node filtered weight rest accounts_to_filter
        representatives
    else
      rpc_handler.representatives_online_loop node filtered weight rest
        (if filtered then accounts_to_filter.erase i else accounts_to_filter)
        (if weight then
          representatives ++ [(node.to_account i,
            (ptree.put [] "weight" (toString (node.ledger_weight i))).as_child)]
        else
          representatives ++ [("", .data (node.to_account i))])

/-- The handler `rpc_handler::representatives_online`. -/
def rpc_handler.representatives_online (node : node) (request : ptree) : rpc_m Unit := do
  let accounts_node := (request.lookup "accounts").map pvalue.child_data
  let weight := request.get_bool "weight" false
  let accounts_to_filter ← match accounts_node with
    | some accounts =>
      match rpc_handler.representatives_online_filter node accounts [] with
      | some accounts_to_filter => pure accounts_to_filter
      | none => do
        set_ec (.common .bad_account_number)
        pure []
    | none => pure []
  if ← no_error then
    add_children "representatives" (rpc_handler.representatives_online_loop node
      accounts_node.isSome weight node.online_reps accounts_to_filter [])
  rpc_handler.response_errors node

/-- The loop of `unchecked` over the entries the iterator visits: the children of
`unchecked` afterwards. -/
def rpc_handler.unchecked_loop (node : node) (count : Nat) :
    List unchecked_info → List (String × pchild) → List (String × pchild)
  | [], unchecked => unchecked
  | info :: rest, unchecked =>
    if unchecked.length < count then
      rpc_handler.unchecked_loop node count rest
        (pchild.put unchecked (node.to_string (node.hash info.block))
          (node.serialize_json info.block))
    else unchecked

/-- The handler `rpc_handler::unchecked`. -/
def rpc_handler.unchecked (node : node) (request : ptree) : rpc_m Unit := do
  let count ← rpc_handler.count_optional_impl node request node.count_optional_default
  if ← no_error then
    add_children "blocks" (rpc_handler.unchecked_loop node count (node.unchecked_begin 0) [])
  rpc_handler.response_errors node

/-- The handler `rpc_handler::unchecked_get`. -/
def rpc_handler.unchecked_get (node : node) (request : ptree) : rpc_m Unit := do
  let hash ← rpc_handler.hash_impl node request "hash"
  if ← no_error then
    match (node.unchecked_begin 0).find? fun i => i.hash == hash with
    | some info =>
      put "modified_timestamp" (toString info.modified)
      put "contents" (node.serialize_json info.block)
    | none => pure ()
    if ← response_empty then
      set_ec (.blocks .not_found)
  rpc_handler.response_errors node

/-- The loop of `unchecked_keys` over the entries the iterator visits: the children of
`unchecked` afterwards. -/
def rpc_handler.unchecked_keys_loop (node : node) (count : Nat) :
    List unchecked_info → List (String × pchild) → List (String × pchild)
  | [], unchecked => unchecked
  | info :: rest, unchecked =>
    if unchecked.length < count then
      rpc_handler.unchecked_keys_loop node count rest
        (unchecked ++ [("", ((((ptree.put [] "key" (node.to_string info.key)).put "hash"
          (node.to_string (node.hash info.block))).put "modified_timestamp"
          (toString info.modified)).put "contents" (node.serialize_json info.block)).as_child)])
    else unchecked

/-- The handler `rpc_handler::unchecked_keys`. -/
def rpc_handler.unchecked_keys (node : node) (request : ptree) : rpc_m Unit := do
  let count ← rpc_handler.count_optional_impl node request node.count_optional_default
  let key ← match request.get_optional "key" with
    | some hash_text =>
      if ← no_error then
        match node.decode_hex hash_text with
        | some key => pure key
        | none => do
          set_ec (.rpc .bad_key)
          pure 0
      else pure 0
    | none => pure 0
  if ← no_error then
    add_children "unchecked"
      (rpc_handler.unchecked_keys_loop node count (node.unchecked_begin key) [])
  rpc_handler.response_errors node

/-- The handler `rpc_handler::uptime`. -/
def rpc_handler.uptime (node : node) : rpc_m Unit := do
  put "seconds" (toString node.uptime)
  rpc_handler.response_errors node

/-- The handler `rpc_handler::version`. -/
def rpc_handler.version (node : node) : rpc_m Unit := do
  put "rpc_version" "1"
  put "store_version" (toString node.store_version)
  put "protocol_version" (toString node.protocol_version)
  if node.version_patch == 0 then
    put "node_vendor" ("Flairrcoin " ++ node.major_minor_version)
  else
    put "node_vendor" ("Flairrcoin " ++ node.major_minor_rc_version)
  rpc_handler.response_errors node

/-- The handler `rpc_handler::validate_account_number`. -/
def rpc_handler.validate_account_number (node : node) (request : ptree) : rpc_m Unit := do
  let account_text ← request_get request "account"
  let error := (node.decode_account account_text).isNone
  put "valid" (if error then "0" else "1")
  rpc_handler.response_errors node

/-! ## The handlers of wallets and work -/

/-- The handler `rpc_handler::wallet_add`. -/
def rpc_handler.wallet_add (rpc : rpc) (node : node) (request : ptree) : rpc_m Unit := do
  let _ ← rpc_handler.rpc_control_impl rpc
  let wallet ← rpc_handler.wallet_impl node request
  if ← no_error then
    let key_text ← request_get request "key"
    match node.decode_hex key_text with
    | some key =>
      let generate_work := request.get_bool "work" true
      perform (.insert_adhoc (wallet.getD 0) key generate_work)
      let pub := node.insert_adhoc (wallet.getD 0) key
      if pub != 0 then
        put "account" (node.to_account pub)
      else
        set_ec (.common .wallet_locked)
    | none => set_ec (.common .bad_private_key)
  rpc_handler.response_errors node

/-- The body of the loop of `wallet_add_watch` for one child of `accounts`. -/
def rpc_handler.wallet_add_watch_step (node : node) (request : ptree) (wallet : Nat)
    (_ : Unit) (text : String) : rpc_m Unit := do
  let account ← rpc_handler.account_impl node request text
  if ← no_error then
    perform (.insert_watch wallet account)

/-- The handler `rpc_handler::wallet_add_watch`. -/
def rpc_handler.wallet_add_watch (rpc : rpc) (node : node) (request : ptree) :
    rpc_m Unit := do
  let _ ← rpc_handler.rpc_control_impl rpc
  let wallet ← rpc_handler.wallet_impl node request
  if ← no_error then
    if node.valid_password (wallet.getD 0) then
      let accounts ← request_get_child request "accounts"
      rpc_m.for_each (rpc_handler.wallet_add_watch_step node request (wallet.getD 0))
        accounts ()
      put "success" ""
    else
      set_ec (.common .wallet_locked)
  rpc_handler.response_errors node

/-- The handler `rpc_handler::wallet_info`; the sums are those of `nano::uint128_t`, which
wrap. -/
def rpc_handler.wallet_info (node : node) (request : ptree) : rpc_m Unit := do
  let wallet ← rpc_handler.wallet_impl node request
  if ← no_error then
    let entries := node.wallet_begin (wallet.getD 0)
    let balance := entries.foldl (fun balance i =>
      (balance + node.account_balance i.1) % 2 ^ 128) 0
    let pending := entries.foldl (fun pending i =>
      (pending + node.ledger_account_pending i.1) % 2 ^ 128) 0
    let count := entries.length
    let deterministic_count := (entries.filter fun i => i.2 == .deterministic).length
    let adhoc_count := (entries.filter fun i => i.2 == .adhoc).length
    let deterministic_index := node.deterministic_index_get (wallet.getD 0)
    put "balance" (toString balance)
    put "pending" (toString pending)
    put "accounts_count" (toString count)
    put "deterministic_count" (toString deterministic_count)
    put "adhoc_count" (toString adhoc_count)
    put "deterministic_index" (toString deterministic_index)
  rpc_handler.response_errors node

/-- The handler `rpc_handler::wallet_balances`. -/
def rpc_handler.wallet_balances (node : node) (request : ptree) : rpc_m Unit := do
  let wallet ← rpc_handler.wallet_impl node request
  let threshold ← rpc_handler.threshold_optional_impl node request
  if ← no_error then
    add_children "balances"
      (((node.wallet_begin (wallet.getD 0)).filter fun i =>
        node.account_balance i.1 >= threshold).map fun i =>
          (node.to_account i.1,
            ((ptree.put [] "balance" (toString (node.account_balance i.1))).put "pending"
              (toString (node.ledger_account_pending i.1))).as_child))
  rpc_handler.response_errors node

/-- The handler `rpc_handler::wallet_change_seed`; the count is cut to 32 bits. -/
def rpc_handler.wallet_change_seed (rpc : rpc) (node : node) (request : ptree) :
    rpc_m Unit := do
  let _ ← rpc_handler.rpc_control_impl rpc
  let wallet ← rpc_handler.wallet_impl node request
  if ← no_error then
    let seed_text ← request_get request "seed"
    match node.decode_hex seed_text with
    | some seed =>
      let count ← rpc_handler.count_optional_impl node request 0
      if node.valid_password (wallet.getD 0) then
        perform (.change_seed (wallet.getD 0) seed (some (count % 4294967296)))
        put "success" ""
      else
        set_ec (.common .wallet_locked)
    | none => set_ec (.common .bad_seed)
  rpc_handler.response_errors node

/-- The handler `rpc_handler::wallet_contains`. -/
def rpc_handler.wallet_contains (node : node) (request : ptree) : rpc_m Unit := do
  let account ← rpc_handler.account_impl node request ""
  let wallet ← rpc_handler.wallet_impl node request
  if ← no_error then
    let exists_ := node.wallet_find (wallet.getD 0) account
    put "exists" (if exists_ then "1" else "0")
  rpc_handler.response_errors node

/-- The handler `rpc_handler::wallet_create`; the identifier of the wallet is the public
key of a fresh key pair. A seed that does not decode is only read behind the error it
sets. -/
def rpc_handler.wallet_create (rpc : rpc) (node : node) (request : ptree) : rpc_m Unit := do
  let _ ← rpc_handler.rpc_control_impl rpc
  if ← no_error then
    let seed_text := request.get_optional "seed"
    let seed := seed_text.bind node.decode_hex
    if seed_text.isSome && seed.isNone then
      set_ec (.common .bad_seed)
    if ← no_error then
      let wallet_id := node.pub_key node.keypair_prv
      perform (.wallet_create wallet_id)
      if node.wallet_created wallet_id then
        put "wallet" (node.to_string wallet_id)
      else
        set_ec (.common .wallet_lmdb_max_dbs)
      if (← no_error) && seed_text.isSome then
        perform (.change_seed wallet_id (seed.getD 0) none)
        put "account" (node.to_account (node.change_seed wallet_id (seed.getD 0)))
  rpc_handler.response_errors node

/-- The handler `rpc_handler::wallet_destroy`. -/
def rpc_handler.wallet_destroy (rpc : rpc) (node : node) (request : ptree) : rpc_m Unit := do
  let _ ← rpc_handler.rpc_control_impl rpc
  if ← no_error then
    let wallet_text ← request_get request "wallet"
    match node.decode_hex wallet_text with
    | some wallet =>
      if node.wallet_exists wallet then
        perform (.wallet_destroy wallet)
        let destroyed := node.wallet_destroyed wallet
        put "destroyed" (if destroyed then "1" else "0")
      else
        set_ec (.common .wallet_not_found)
    | none => set_ec (.common .bad_wallet_number)
  rpc_handler.response_errors node

/-- The handler `rpc_handler::wallet_export`. -/
def rpc_handler.wallet_export (node : node) (request : ptree) : rpc_m Unit := do
  let wallet ← rpc_handler.wallet_impl node request
  if ← no_error then
    put "json" (node.wallet_serialize_json (wallet.getD 0))
  rpc_handler.response_errors node

/-- The handler `rpc_handler::wallet_frontiers`. -/
def rpc_handler.wallet_frontiers (node : node) (request : ptree) : rpc_m Unit := do
  let wallet ← rpc_handler.wallet_impl node request
  if ← no_error then
    add_children "frontiers" ((node.wallet_begin (wallet.getD 0)).foldl (fun frontiers i =>
      if node.latest i.1 != 0 then
        pchild.put frontiers (node.to_account i.1) (node.to_string (node.latest i.1))
      else frontiers) [])
  rpc_handler.response_errors node

/-- The `insert` of the multimap `entries` of `wallet_history`, ordered by
`std::greater<uint64_t>`: behind the entries with a timestamp that is not smaller. -/
def rpc_handler.wallet_history_insert (timestamp : Nat) (entry : ptree) :
    List (Nat × ptree) → List (Nat × ptree)
  | [] => [(timestamp, entry)]
  | head :: rest =>
    if head.1 >= timestamp then head :: rpc_handler.wallet_history_insert timestamp entry rest
    else (timestamp, entry) :: head :: rest

/-- The `while` loop of `wallet_history` for one account, from `timestamp` and `hash`: the
multimap `entries` afterwards, `none` marks fuel used up while the loop goes on. -/
def rpc_handler.wallet_history_walk (node : node) (account modified_since : Nat) :
    Nat → Nat → Nat → List (Nat × ptree) → Option (List (Nat × ptree))
  | fuel, timestamp, hash, entries =>
    if timestamp >= modified_since && hash != 0 then
      let timestamp := node.sideband_timestamp hash
      match node.block_get hash with
      | some block_l =>
        if timestamp >= modified_since then
          match fuel with
          | 0 => none
          | fuel + 1 =>
            let entry := history_visitor.visit node false hash block_l
            let entries :=
              if entry != [] then
                rpc_handler.wallet_history_insert timestamp
                  (((entry.put "block_account" (node.to_account account)).put "hash"
                    (node.to_string hash)).put "local_timestamp" (toString timestamp)) entries
              else entries
            rpc_handler.wallet_history_walk node account modified_since fuel timestamp
              block_l.previous entries
        else some entries
      | none => some entries
    else some entries

/-- The loop of `wallet_history` over the accounts of the wallet: the multimap `entries`
afterwards, `none` marks fuel used up while a walk goes on. -/
def rpc_handler.wallet_history_loop (node : node) (modified_since fuel : Nat) :
    List (Nat × key_type) → List (Nat × ptree) → Option (List (Nat × ptree))
  | [], entries => some entries
  | i :: rest, entries =>
    match node.account_get i.1 with
    | some info =>
      match rpc_handler.wallet_history_walk node i.1 modified_since fuel info.modified
          info.head entries with
      | some entries => rpc_handler.wallet_history_loop node modified_since fuel rest entries
      | none => none
    | none => rpc_handler.wallet_history_loop node modified_since fuel rest entries

/-- The handler `rpc_handler::wallet_history`. -/
def rpc_handler.wallet_history (node : node) (request : ptree) (fuel : Nat) :
    rpc_m Unit := do
  let modified_since ← match request.get_optional "modified_since" with
    | some modified_since_text =>
      let r := decode_unsigned node modified_since_text 1
      if r.1 then do
        set_ec (.rpc .invalid_timestamp)
        pure r.2
      else pure r.2
    | none => pure 1
  let wallet ← rpc_handler.wallet_impl node request
  if ← no_error then
    match rpc_handler.wallet_history_loop node modified_since fuel
        (node.wallet_begin (wallet.getD 0)) [] with
    | some entries => add_children "history" (entries.map fun i => ("", i.2.as_child))
    | none => get_stuck
  rpc_handler.response_errors node

/-- The handler `rpc_handler::wallet_key_valid`. -/
def rpc_handler.wallet_key_valid (node : node) (request : ptree) : rpc_m Unit := do
  let wallet ← rpc_handler.wallet_impl node request
  if ← no_error then
    let valid := node.valid_password (wallet.getD 0)
    put "valid" (if valid then "1" else "0")
  rpc_handler.response_errors node

/-- The loop of `wallet_ledger` over the accounts of the wallet: the children of
`accounts` afterwards, `none` where the assertion on a representative block fails. The
entry of an account is the entry that `ledger` builds. -/
def rpc_handler.wallet_ledger_loop (node : node) (modified_since : Nat)
    (representative weight pending : Bool) :
    List (Nat × key_type) → List (String × pchild) → Option (List (String × pchild))
  | [], accounts => some accounts
  | i :: rest, accounts =>
    match node.account_get i.1 with
    | some info =>
      if info.modified >= modified_since then
        match rpc_handler.ledger_entry node representative weight pending i.1 info
            (node.encode_dec info.balance) with
        | some entry =>
          rpc_handler.wallet_ledger_loop node modified_since representative weight pending rest
            (accounts ++ [(node.to_account i.1, entry.as_child)])
        | none => none
      else
        rpc_handler.wallet_ledger_loop node modified_since representative weight pending rest
          accounts
    | none =>
      rpc_handler.wallet_ledger_loop node modified_since representative weight pending rest
        accounts

/-- The handler `rpc_handler::wallet_ledger`. -/
def rpc_handler.wallet_ledger (node : node) (request : ptree) : rpc_m Unit := do
  let representative := request.get_bool "representative" false
  let weight := request.get_bool "weight" false
  let pending := request.get_bool "pending" false
  let modified_since := match request.get_optional "modified_since" with
    | some modified_since_text => node.strtoul modified_since_text
    | none => 0
  let wallet ← rpc_handler.wallet_impl node request
  if ← no_error then
    match rpc_handler.wallet_ledger_loop node modified_since representative weight pending
        (node.wallet_begin (wallet.getD 0)) [] with
    | some accounts => add_children "accounts" accounts
    | none => get_stuck
  rpc_handler.response_errors node

/-- The handler `rpc_handler::wallet_lock`. -/
def rpc_handler.wallet_lock (rpc : rpc) (node : node) (request : ptree) : rpc_m Unit := do
  let _ ← rpc_handler.rpc_control_impl rpc
  let wallet ← rpc_handler.wallet_impl node request
  if ← no_error then
    perform (.wallet_lock (wallet.getD 0))
    put "locked" "1"
  rpc_handler.response_errors node

/-- The body of the inner loop of `wallet_pending` for an entry that is shown: the
children of `peers_l` afterwards. Unlike `pending`, the first test does not look at
`min_version`. -/
def rpc_handler.wallet_pending_push (node : node) (threshold : Nat)
    (source min_version : Bool) (key : pending_key) (info : pending_info)
    (peers_l : List (String × pchild)) : List (String × pchild) :=
  if threshold == 0 && !source then
    peers_l ++ [("", .data (node.to_string key.hash))]
  else if info.amount >= threshold then
    if source || min_version then
      peers_l ++ [(node.to_string key.hash,
        (rpc_handler.pending_tree node source min_version info).as_child)]
    else
      pchild.put peers_l (node.to_string key.hash) (toString info.amount)
  else peers_l

/-- The inner loop of `wallet_pending` over the entries the iterator visits, started with
`peers_l`: the children of `peers_l` afterwards. -/
def rpc_handler.wallet_pending_loop (node : node) (account count threshold : Nat)
    (source min_version include_active : Bool) :
    List (pending_key × pending_info) → List (String × pchild) → List (String × pchild)
  | [], peers_l => peers_l
  | (key, info) :: rest, peers_l =>
    if key.account == account && peers_l.length < count then
      rpc_handler.wallet_pending_loop node account count threshold source min_version
        include_active rest
        (if rpc_handler.pending_shown node include_active key then
          rpc_handler.wallet_pending_push node threshold source min_version key info peers_l
        else peers_l)
    else peers_l

/-- The handler `rpc_handler::wallet_pending`. -/
def rpc_handler.wallet_pending (node : node) (request : ptree) : rpc_m Unit := do
  let wallet ← rpc_handler.wallet_impl node request
  let count ← rpc_handler.count_optional_impl node request node.count_optional_default
  let threshold ← rpc_handler.threshold_optional_impl node request
  let source := request.get_bool "source" false
  let min_version := request.get_bool "min_version" false
  let include_active := request.get_bool "include_active" false
  if ← no_error then
    add_nested "blocks" ((node.wallet_begin (wallet.getD 0)).foldl (fun pending i =>
      let peers_l := rpc_handler.wallet_pending_loop node i.1 count threshold source
        min_version include_active (node.pending_begin i.1) []
      if !peers_l.isEmpty then pending ++ [(node.to_account i.1, peers_l)] else pending) [])
  rpc_handler.response_errors node

/-- The handler `rpc_handler::wallet_representative`. -/
def rpc_handler.wallet_representative (node : node) (request : ptree) : rpc_m Unit := do
  let wallet ← rpc_handler.wallet_impl node request
  if ← no_error then
    put "representative" (node.to_account (node.wallet_representative (wallet.getD 0)))
  rpc_handler.response_errors node

/-- The first loop of the second part of `wallet_representative_set`, over the accounts of
the wallet: the vector `accounts` afterwards, `none` where the assertion on a
representative block fails. -/
def rpc_handler.wallet_representative_set_loop (node : node) (representative : Nat) :
    List (Nat × key_type) → List Nat → Option (List Nat)
  | [], accounts => some accounts
  | i :: rest, accounts =>
    match node.account_get i.1 with
    | some info =>
      match node.block_get info.rep_block with
      | some block_l =>
        rpc_handler.wallet_representative_set_loop node representative rest
          (if block_l.representative != representative then accounts ++ [i.1] else accounts)
      | none => none
    | none => rpc_handler.wallet_representative_set_loop node representative rest accounts

/-- The handler `rpc_handler::wallet_representative_set`. The completion callback handed to
`change_async` does nothing. -/
def rpc_handler.wallet_representative_set (rpc : rpc) (node : node) (request : ptree) :
    rpc_m Unit := do
  let _ ← rpc_handler.rpc_control_impl rpc
  let wallet ← rpc_handler.wallet_impl node request
  if ← no_error then
    let representative_text ← request_get request "representative"
    match node.decode_account representative_text with
    | some representative =>
      let update_existing_accounts := request.get_bool "update_existing_accounts" false
      if node.valid_password (wallet.getD 0) || !update_existing_accounts then
        perform (.representative_set (wallet.getD 0) representative)
        put "set" "1"
      else
        set_ec (.common .wallet_locked)
      if (← no_error) && update_existing_accounts then
        match rpc_handler.wallet_representative_set_loop node representative
            (node.wallet_begin (wallet.getD 0)) [] with
        | some accounts =>
          rpc_m.for_each (fun (_ : Unit) account =>
            perform (.change_async (wallet.getD 0) account representative 0 false)) accounts ()
        | none => get_stuck
    | none => set_ec (.rpc .bad_representative_number)
  rpc_handler.response_errors node

/-- The `while` loop of `wallet_republish` for one account, with `left` turns to go before
`hashes` has `count` entries: the vector `hashes` afterwards, `none` where the block under
a hash of the chain is missing and a null pointer is dereferenced. -/
def rpc_handler.wallet_republish_walk (node : node) : Nat → Nat → List Nat → Option (List Nat)
  | 0, _, hashes => some hashes
  | left + 1, latest, hashes =>
    if latest != 0 then
      match node.block_get latest with
      | some block_l =>
        rpc_handler.wallet_republish_walk node left block_l.previous (hashes ++ [latest])
      | none => none
    else some hashes

/-- The loop of `wallet_republish` over the accounts of the wallet: the hashes of
`republish_bundle` afterwards, `none` where a null pointer is dereferenced. -/
def rpc_handler.wallet_republish_loop (node : node) (count : Nat) :
    List (Nat × key_type) → List Nat → Option (List Nat)
  | [], blocks => some blocks
  | i :: rest, blocks =>
    match rpc_handler.wallet_republish_walk node count (node.latest i.1) [] with
    | some hashes => rpc_handler.wallet_republish_loop node count rest (blocks ++ hashes.reverse)
    | none => none

/-- The handler `rpc_handler::wallet_republish`. -/
def rpc_handler.wallet_republish (rpc : rpc) (node : node) (request : ptree) :
    rpc_m Unit := do
  let _ ← rpc_handler.rpc_control_impl rpc
  let wallet ← rpc_handler.wallet_impl node request
  let count ← rpc_handler.count_impl node request
  if ← no_error then
    match rpc_handler.wallet_republish_loop node count (node.wallet_begin (wallet.getD 0))
        [] with
    | some blocks =>
      perform (.republish_block_batch blocks)
      add_child "blocks" (blocks.map node.to_string)
    | none => get_stuck
  rpc_handler.response_errors node

/-- The handler `rpc_handler::wallet_work_get`. -/
def rpc_handler.wallet_work_get (rpc : rpc) (node : node) (request : ptree) :
    rpc_m Unit := do
  let _ ← rpc_handler.rpc_control_impl rpc
  let wallet ← rpc_handler.wallet_impl node request
  if ← no_error then
    add_children "works" ((node.wallet_begin (wallet.getD 0)).foldl (fun works i =>
      pchild.put works (node.to_account i.1)
        (node.to_string_hex (node.wallet_work_get (wallet.getD 0) i.1))) [])
  rpc_handler.response_errors node

/-- The handler `rpc_handler::work_cancel`. -/
def rpc_handler.work_cancel (rpc : rpc) (node : node) (request : ptree) : rpc_m Unit := do
  let _ ← rpc_handler.rpc_control_impl rpc
  let hash ← rpc_handler.hash_impl node request "hash"
  if ← no_error then
    perform (.work_cancel hash)
  rpc_handler.response_errors node

/-- The handler `rpc_handler::work_get`. -/
def rpc_handler.work_get (rpc : rpc) (node : node) (request : ptree) : rpc_m Unit := do
  let _ ← rpc_handler.rpc_control_impl rpc
  let wallet ← rpc_handler.wallet_impl node request
  let account ← rpc_handler.account_impl node request ""
  if ← no_error then
    let _ ← rpc_handler.wallet_account_impl node (wallet.getD 0) account
    if ← no_error then
      put "work" (node.to_string_hex (node.wallet_work_get (wallet.getD 0) account))
  rpc_handler.response_errors node

/-- The handler `rpc_handler::work_set`. -/
def rpc_handler.work_set (rpc : rpc) (node : node) (request : ptree) : rpc_m Unit := do
  let _ ← rpc_handler.rpc_control_impl rpc
  let wallet ← rpc_handler.wallet_impl node request
  let account ← rpc_handler.account_impl node request ""
  let work ← rpc_handler.work_optional_impl node request
  if ← no_error then
    let _ ← rpc_handler.wallet_account_impl node (wallet.getD 0) account
    if ← no_error then
      perform (.work_put (wallet.getD 0) account work)
      put "success" ""
  rpc_handler.response_errors node

/-- The handler `rpc_handler::work_validate`. -/
def rpc_handler.work_validate (node : node) (request : ptree) : rpc_m Unit := do
  let hash ← rpc_handler.hash_impl node request "hash"
  let work ← rpc_handler.work_optional_impl node request
  if ← no_error then
    let validate := node.work_validate_root hash work
    put "valid" (if validate then "0" else "1")
  rpc_handler.response_errors node

/-- The handler `rpc_handler::work_peer_add`. -/
def rpc_handler.work_peer_add (rpc : rpc) (node : node) (request : ptree) : rpc_m Unit := do
  let _ ← rpc_handler.rpc_control_impl rpc
  if ← no_error then
    let address_text ← request_get request "address"
    let port_text ← request_get request "port"
    match node.parse_port port_text with
    | some port =>
      perform (.work_peer_add address_text port)
      put "success" ""
    | none => set_ec (.common .invalid_port)
  rpc_handler.response_errors node

/-- The handler `rpc_handler::work_peers`. -/
def rpc_handler.work_peers (rpc : rpc) (node : node) : rpc_m Unit := do
  let _ ← rpc_handler.rpc_control_impl rpc
  if ← no_error then
    add_child "work_peers" (node.work_peers.map fun i => i.1 ++ ":" ++ toString i.2)
  rpc_handler.response_errors node

/-- The handler `rpc_handler::work_peers_clear`. -/
def rpc_handler.work_peers_clear (rpc : rpc) (node : node) : rpc_m Unit := do
  let _ ← rpc_handler.rpc_control_impl rpc
  if ← no_error then
    perform .work_peers_clear
    put "success" ""
  rpc_handler.response_errors node

/-! ## `stats` and `stats_clear` -/

/-- The handler `rpc_handler::stats`. -/
def rpc_handler.stats (rpc : rpc) (node : node) (request : ptree) : rpc_m Unit := do
  let type := request.get_or "type" ""
  let mut use_sink := false
  if type == "counters" then
    perform .stats_log_counters
    use_sink := true
  else if type == "objects" then
    let _ ← rpc_handler.rpc_control_impl rpc
    if ← no_error then
      modify_response (fun response_l => response_l ++ node.seq_con_info)
  else if type == "samples" then
    perform .stats_log_samples
    use_sink := true
  else
    set_ec (.rpc .invalid_missing_type)
  if (← no_error) && use_sink then
    respond (node.stat_tree type)
  else
    rpc_handler.response_errors node

/-- The handler `rpc_handler::stats_clear`. -/
def rpc_handler.stats_clear : rpc_m Unit := do
  perform .stats_clear
  put "success" ""
  respond_with_response_l

/-! ## `process_request` -/

/-- The depth loop of `process_request` from a given value of `max_depth_possible`:
whether `max_depth_exceeded` gets set. -/
def rpc_handler.max_depth_exceeded (max_json_depth : Nat) : List Char → Nat → Bool
  | [], _ => false
  | ch :: rest, max_depth_possible =>
    if ch = '[' ∨ ch = '{' then
      if max_depth_possible >= max_json_depth then true
      else rpc_handler.max_depth_exceeded max_json_depth rest (max_depth_possible + 1)
    else rpc_handler.max_depth_exceeded max_json_depth rest max_depth_possible

/-- The `if`/`else if` chain of `process_request` as the list of its arms in source order:
the action compared against and the call made. The first arm that matches is taken. -/
def rpc_handler.actions (rpc : rpc) (node : node) (request : ptree) (source_0 fuel : Nat) :
    List (String × rpc_m Unit) :=
  [ ("account_balance", rpc_handler.account_balance node request),
    ("account_block_count", rpc_handler.account_block_count node request),
    ("account_count", rpc_handler.account_count node),
    ("account_create", rpc_handler.account_create rpc node request),
    ("account_get", rpc_handler.account_get node request),
    ("account_history", rpc_handler.account_history node request fuel),
    ("account_info", rpc_handler.account_info node request),
    ("account_key", rpc_handler.account_key node request),
    ("account_list", rpc_handler.account_list node request),
    ("account_move", rpc_handler.account_move rpc node request),
    ("account_remove", rpc_handler.account_remove rpc node request),
    ("account_representative", rpc_handler.account_representative node request),
    ("account_representative_set", rpc_handler.account_representative_set rpc node request),
    ("account_weight", rpc_handler.account_weight node request),
    ("accounts_balances", rpc_handler.accounts_balances node request),
    ("accounts_create", rpc_handler.accounts_create rpc node request fuel),
    ("accounts_frontiers", rpc_handler.accounts_frontiers node request),
    ("accounts_pending", rpc_handler.accounts_pending node request),
    ("available_supply", rpc_handler.available_supply node),
    ("block", rpc_handler.block_info node request),
    ("block_info", rpc_handler.block_info node request),
    ("block_confirm", rpc_handler.block_confirm node request),
    ("blocks", rpc_handler.blocks node request),
    ("blocks_info", rpc_handler.blocks_info node request),
    ("block_account", rpc_handler.block_account node request),
    ("block_count", rpc_handler.block_count node),
    ("block_count_type", rpc_handler.block_count_type node),
    ("block_create", rpc_handler.block_create rpc node request),
    ("block_hash", rpc_handler.block_hash node request),
    ("successors", rpc_handler.chain node request true),
    ("bootstrap", rpc_handler.bootstrap node request),
    ("bootstrap_any", rpc_handler.bootstrap_any node),
    ("bootstrap_lazy", rpc_handler.bootstrap_lazy rpc node request),
    ("bootstrap_status", rpc_handler.bootstrap_status node),
    ("chain", rpc_handler.chain node request false),
    ("delegators", rpc_handler.delegators node request),
    ("delegators_count", rpc_handler.delegators_count node request),
    ("deterministic_key", rpc_handler.deterministic_key node request),
    ("confirmation_active", rpc_handler.confirmation_active node request),
    ("confirmation_history", rpc_handler.confirmation_history node request),
    ("confirmation_info", rpc_handler.confirmation_info node request),
    ("confirmation_quorum", rpc_handler.confirmation_quorum node request),
    ("frontiers", rpc_handler.frontiers node request),
    ("frontier_count", rpc_handler.account_count node),
    ("history", do
      let hash_text ← request_get request "hash"
      rpc_handler.account_history node (request.put "head" hash_text) fuel),
    ("keepalive", rpc_handler.keepalive rpc node request),
    ("key_create", rpc_handler.key_create node),
    ("key_expand", rpc_handler.key_expand node request),
    ("k_from_raw", rpc_handler.mFLR_from_raw node request node.kFLR_ratio),
    ("kflr_from_raw", rpc_handler.mFLR_from_raw node request node.kFLR_ratio),
    ("k_to_raw", rpc_handler.mFLR_to_raw node request node.kFLR_ratio),
    ("kflr_to_raw", rpc_handler.mFLR_to_raw node request node.kFLR_ratio),
    ("ledger", rpc_handler.ledger rpc node request node.count_optional_default),
    ("m_from_raw", rpc_handler.mFLR_from_raw node request node.mFLR_ratio),
    ("flr_from_raw", rpc_handler.mFLR_from_raw node request node.mFLR_ratio),
    ("m_to_raw", rpc_handler.mFLR_to_raw node request node.mFLR_ratio),
    ("flr_to_raw", rpc_handler.mFLR_to_raw node request node.mFLR_ratio),
    ("node_id", rpc_handler.node_id rpc node),
    ("node_id_delete", rpc_handler.node_id_delete rpc node),
    ("password_change", rpc_handler.password_change rpc node request),
    ("password_enter", rpc_handler.password_enter node request),
    ("password_valid", rpc_handler.password_valid node request false),
    ("payment_begin", rpc_handler.payment_begin node request),
    ("payment_init", rpc_handler.payment_init node request),
    ("payment_end", rpc_handler.payment_end node request),
    ("payment_wait", rpc_handler.payment_wait node request),
    ("peers", rpc_handler.peers node request),
    ("pending", rpc_handler.pending node request node.count_optional_default),
    ("pending_exists", rpc_handler.pending_exists node request),
    ("process", rpc_handler.process rpc node request),
    ("nano_from_raw", rpc_handler.mFLR_from_raw node request node.FLR_ratio),
    ("raw_from_raw", rpc_handler.mFLR_from_raw node request node.FLR_ratio),
    ("nano_to_raw", rpc_handler.mFLR_to_raw node request node.FLR_ratio),
    ("raw_to_raw", rpc_handler.mFLR_to_raw node request node.FLR_ratio),
    ("receive", rpc_handler.receive rpc node request),
    ("receive_minimum", rpc_handler.receive_minimum rpc node),
    ("receive_minimum_set", rpc_handler.receive_minimum_set rpc node request),
    ("representatives", rpc_handler.representatives node request),
    ("representatives_online", rpc_handler.representatives_online node request),
    ("republish", rpc_handler.republish node request source_0 fuel),
    ("search_pending", rpc_handler.search_pending rpc node request),
    ("search_pending_all", rpc_handler.search_pending_all rpc node),
    ("send", rpc_handler.send rpc node request),
    ("sign", rpc_handler.sign rpc node request),
    ("stats", rpc_handler.stats rpc node request),
    ("stats_clear", rpc_handler.stats_clear),
    ("stop", rpc_handler.stop rpc node),
    ("unchecked", rpc_handler.unchecked node request),
    ("unchecked_clear", rpc_handler.unchecked_clear rpc node),
    ("unchecked_get", rpc_handler.unchecked_get node request),
    ("unchecked_keys", rpc_handler.unchecked_keys node request),
    ("uptime", rpc_handler.uptime node),
    ("validate_account_number", rpc_handler.validate_account_number node request),
    ("version", rpc_handler.version node),
    ("wallet_add", rpc_handler.wallet_add rpc node request),
    ("wallet_add_watch", rpc_handler.wallet_add_watch rpc node request),
    ("wallet_balance_total", rpc_handler.wallet_info node request),
    ("wallet_balances", rpc_handler.wallet_balances node request),
    ("wallet_change_seed", rpc_handler.wallet_change_seed rpc node request),
    ("wallet_contains", rpc_handler.wallet_contains node request),
    ("wallet_create", rpc_handler.wallet_create rpc node request),
    ("wallet_destroy", rpc_handler.wallet_destroy rpc node request),
    ("wallet_export", rpc_handler.wallet_export node request),
    ("wallet_frontiers", rpc_handler.wallet_frontiers node request),
    ("wallet_history", rpc_handler.wallet_history node request fuel),
    ("wallet_info", rpc_handler.wallet_info node request),
    ("wallet_key_valid", rpc_handler.wallet_key_valid node request),
    ("wallet_ledger", rpc_handler.wallet_ledger node request),
    ("wallet_lock", rpc_handler.wallet_lock rpc node request),
    ("wallet_locked", rpc_handler.password_valid node request true),
    ("wallet_pending", rpc_handler.wallet_pending node request),
    ("wallet_representative", rpc_handler.wallet_representative node request),
    ("wallet_representative_set", rpc_handler.wallet_representative_set rpc node request),
    ("wallet_republish", rpc_handler.wallet_republish rpc node request),
    ("wallet_unlock", rpc_handler.password_enter node request),
    ("wallet_work_get", rpc_handler.wallet_work_get rpc node request),
    ("work_generate", rpc_handler.work_generate rpc node request),
    ("work_cancel", rpc_handler.work_cancel rpc node request),
    ("work_get", rpc_handler.work_get rpc node request),
    ("work_set", rpc_handler.work_set rpc node request),
    ("work_validate", rpc_handler.work_validate node request),
    ("work_peer_add", rpc_handler.work_peer_add rpc node request),
    ("work_peers", rpc_handler.work_peers rpc node),
    ("work_peers_clear", rpc_handler.work_peers_clear rpc node) ]

/-- The two `catch` clauses of `process_request`. -/
def rpc_handler.catch_all (m : rpc_m Unit) : rpc_m Unit := fun s =>
  match m s with
  | .raised .runtime_error s' => error_response "Unable to parse JSON" s'
  | .raised .other s' => error_response "Internal server error in RPC" s'
  | r => r

/-- The `else` branch of the depth check in `process_request`: parse the body, read the
action and take the matching arm. -/
def rpc_handler.dispatch (rpc : rpc) (node : node) (body : String) (source_0 fuel : Nat) :
    rpc_m Unit :=
  match node.read_json body with
  | none => raise .runtime_error
  | some request => do
    let action ← request_get request "action"
    match (rpc_handler.actions rpc node request source_0 fuel).lookup action with
    | some call => call
    | none => error_response "Unknown command"

/-- The method `rpc_handler::process_request` on a request body. `source_0` is handed to
`republish`, and `fuel` to the handlers with a loop that may not come to an end. -/
def rpc_handler.process_request (rpc : rpc) (node : node) (body : String)
    (source_0 fuel : Nat) : rpc_m Unit :=
  rpc_handler.catch_all do
    if rpc_handler.max_depth_exceeded rpc.config.max_json_depth body.toList 0 then
      error_response "Max JSON depth exceeded"
    else
      rpc_handler.dispatch rpc node body source_0 fuel

/-- The handler object as `process_request` finds it: no error, empty response, nothing
sent, nothing done. -/
def rpc_handler.init : rpc_handler := {}

/-! ## Endpoints -/

/-- A `nano::endpoint`: address and port. -/
structure endpoint where
  address : Nat
  port : Nat
  deriving DecidableEq, Repr

/-- The number a list of decimal digits denotes. -/
def decimal_value (digits : List Char) : Nat :=
  digits.foldl (fun value c => 10 * value + (c.toNat - 48)) 0

/-- Modelled from the spec: `nano::parse_port`, whose definition is not among the sources.
A port is a non-empty text of decimal digits that denotes a 16-bit number (section 8: the
port `24000` is accepted, the empty port and `24a00` are not). -/
def parse_port (text : List Char) : Option Nat :=
  if text ≠ [] ∧ text.all Char.isDigit ∧ decimal_value text < 65536 then
    some (decimal_value text)
  else none

/-- The text before and the text after the last colon, `none` without a colon. -/
def split_last_colon : List Char → Option (List Char × List Char)
  | [] => none
  | c :: rest =>
    match split_last_colon rest with
    | some (before, after) => some (c :: before, after)
    | none => if c = ':' then some ([], rest) else none

/-- Modelled from the spec: `nano::parse_endpoint`, whose definition is not among the
sources (its tests are). The text is an address and a port around the last colon (section
8: `::1:24000` is accepted, a text without address, without port or without a colon that
leaves both is not); the address is read by the IPv6 parser of the library, a parameter.
The endpoint parsed, `none` where the source returns the error flag. -/
def parse_endpoint (address_from_string : String → Option Nat) (text : String) :
    Option endpoint :=
  match split_last_colon text.toList with
  | some (address_text, port_text) =>
    if address_text = [] then none
    else
      match parse_port port_text with
      | some port =>
        match address_from_string (String.mk address_text) with
        | some address => some { address := address, port := port }
        | none => none
      | none => none
  | none => none

/-! ## The UDP buffer pool -/

/-- Modelled from the spec: the state of `nano::udp_buffer`, whose definition is not among
the sources (its tests are). Section 4.7: a pool of slots with a free list, the queue of
enqueued slots, an overflow counter and a stopped flag. Slots are numbered. -/
structure udp_buffer where
  free : List Nat
  full : List Nat
  overflow : Nat
  stopped : Bool
  deriving DecidableEq, Repr

/-- Modelled from the spec: the constructor `udp_buffer (stats, size, count)`, a pool of
`count` slots, all free. -/
def udp_buffer.mk_pool (count : Nat) : udp_buffer :=
  { free := List.range count, full := [], overflow := 0, stopped := false }

/-- Modelled from the spec: `udp_buffer::allocate`. Section 4.7: a free slot when there is
one; when no slots are free, the least recently used of the slots waiting in the queue is
recycled and the overflow counter incremented; after `stop` allocates are refused. The
slot handed out (`none` for nil: refused, or nothing to hand out) and the pool
afterwards. -/
def udp_buffer.allocate (pool : udp_buffer) : Option Nat × udp_buffer :=
  if pool.stopped then (none, pool)
  else
    match pool.free with
    | slot :: rest => (some slot, { pool with free := rest })
    | [] =>
      match pool.full with
      | slot :: rest => (some slot, { pool with full := rest, overflow := pool.overflow + 1 })
      | [] => (none, pool)

/-- Modelled from the spec: `udp_buffer::enqueue`, the slot joins the queue at its end. -/
def udp_buffer.enqueue (pool : udp_buffer) (slot : Nat) : udp_buffer :=
  { pool with full := pool.full ++ [slot] }

/-- Modelled from the spec: `udp_buffer::dequeue`, the slot at the head of the queue
(`none` for nil: nothing is enqueued, or the pool is stopped) and the pool afterwards. -/
def udp_buffer.dequeue (pool : udp_buffer) : Option Nat × udp_buffer :=
  if pool.stopped then (none, pool)
  else
    match pool.full with
    | slot :: rest => (some slot, { pool with full := rest })
    | [] => (none, pool)

/-- Modelled from the spec: `udp_buffer::release`, the slot returns to the free list. -/
def udp_buffer.release (pool : udp_buffer) (slot : Nat) : udp_buffer :=
  { pool with free := pool.free ++ [slot] }

/-- Modelled from the spec: `udp_buffer::stop`. -/
def udp_buffer.stop (pool : udp_buffer) : udp_buffer :=
  { pool with stopped := true }

/-- The slots that `n` successive calls of `dequeue` return, and the pool afterwards. -/
def udp_buffer.dequeue_many : Nat → udp_buffer → List (Option Nat) × udp_buffer
  | 0, pool => ([], pool)
  | n + 1, pool =>
    let first := pool.dequeue
    let others := udp_buffer.dequeue_many n first.2
    (first.1 :: others.1, others.2)

/-! ## The bulk pull server -/

/-- Modelled from the spec: the state of `nano::bulk_pull_server`, whose definition is not
among the sources (its tests in `core_test/network.cpp` are). Section 4.8: the walk is at
`current` and goes back to the hash `end_`; `include_start` is set while the walk stands
on a block hash that the request gave as its start; `max_count` is the count cap of the
request when it has one, `sent_count` the number of blocks returned. -/
structure bulk_pull_server where
  current : Nat
  end_ : Nat
  include_start : Bool
  max_count : Option Nat
  sent_count : Nat
  deriving DecidableEq, Repr

/-- Modelled from the spec: the constructor of `bulk_pull_server` for the request `(start,
end, count?)`. An end that is not the hash of a stored block is cleared (test `no_end`).
Section 4.8: the walk starts at `start` itself if it is a block hash (tests `by_block`,
`by_block_single`) and at the latest block of `start` if it is an account (test
`genesis_to_end`); for an account that does not exist, and for an end that belongs to
another account, it starts on the end, so that nothing is streamed (tests `no_address`,
`end_not_owned`). -/
def bulk_pull_server.mk_request (node : node) (start end_ : Nat) (count : Option Nat) :
    bulk_pull_server :=
  let end_ := if node.block_exists end_ then end_ else 0
  if node.block_exists start then
    { current := start, end_ := end_, include_start := true, max_count := count,
      sent_count := 0 }
  else
    { current :=
        if node.latest start = 0 then end_
        else if end_ ≠ 0 ∧ node.ledger_account end_ ≠ start then end_
        else node.latest start,
      end_ := end_, include_start := false, max_count := count, sent_count := 0 }

/-- Whether the count cap of the request is reached. -/
def bulk_pull_server.capped (server : bulk_pull_server) : Bool :=
  match server.max_count with
  | some count => decide (count ≤ server.sent_count)
  | none => false

/-- Modelled from the spec: `bulk_pull_server::get_next`. With the walk on the end the
result is nil (test `none`), unless the walk stands there on the start of the request,
which is streamed (test `by_block_single`); nil as well when the count cap is reached
(test `count_limit`). Otherwise the block at the walk's position, after which the walk
moves to its previous block, or onto the end when there is none (test
`get_next_on_open`). The block returned (`none` for nil) and the server afterwards. -/
def bulk_pull_server.get_next (node : node) (server : bulk_pull_server) :
    Option block × bulk_pull_server :=
  if (server.current = server.end_ ∧ server.include_start = false) ∨ server.capped = true then
    (none, { server with include_start := false })
  else
    match node.block_get server.current with
    | some block_l =>
      (some block_l,
        { server with
          current :=
            if server.current = server.end_ ∨ block_l.previous = 0 then server.end_
            else block_l.previous,
          include_start := false,
          sent_count := server.sent_count + 1 })
    | none => (none, { server with current := server.end_, include_start := false })

/-- What `n` successive calls of `get_next` return. -/
def bulk_pull_server.get_next_many (node : node) : Nat → bulk_pull_server → List (Option block)
  | 0, _ => []
  | n + 1, server =>
    (server.get_next node).1 :: bulk_pull_server.get_next_many node n (server.get_next node).2

/-! ## Configuration as JSON -/

/-- The text conversions behind `nano::jsonconfig::put` and `get_required` or
`get_optional` for the field types of the configuration. The header of `nano::jsonconfig`
is not among the sources, so they are parameters: how a value is written, and the value
read back from a text, `none` when the text is not accepted. -/
structure jsonconfig_text where
  address_to_string : String → String
  address_from_string : String → Option String
  put_bool : Bool → String
  get_bool : String → Option Bool
  put_uint8 : Nat → String
  get_uint8 : String → Option Nat
  put_uint16 : Nat → String
  get_uint16 : String → Option Nat
  put_uint64 : Nat → String
  get_uint64 : String → Option Nat
  get_string : String → Option String

/-- A `nano::jsonconfig`: the property tree it wraps and whether an error is recorded. -/
structure jsonconfig where
  tree : ptree := []
  error : Bool := false
  deriving DecidableEq, Repr

/-- The `json.put (key, value)` call, with the value already written as text. -/
def jsonconfig.put (json : jsonconfig) (key value : String) : jsonconfig :=
  { json with tree := json.tree.put key value }

/-- The `json.get_required<T> (key, target)` call: a missing key or a text that is not
accepted records an error and leaves the target as it was. -/
def jsonconfig.get_required {α : Type} (json : jsonconfig) (key : String)
    (read : String → Option α) (target : α) : jsonconfig × α :=
  match json.tree.get_optional key with
  | some text =>
    match read text with
    | some value => (json, value)
    | none => ({ json with error := true }, target)
  | none => ({ json with error := true }, target)

/-- The `json.get_optional<T> (key, target)` call: a missing key leaves the target as it
was, a text that is not accepted records an error as well. -/
def jsonconfig.get_optional {α : Type} (json : jsonconfig) (key : String)
    (read : String → Option α) (target : α) : jsonconfig × α :=
  match json.tree.get_optional key with
  | some text =>
    match read text with
    | some value => (json, value)
    | none => ({ json with error := true }, target)
  | none => (json, target)

/-- A child of a nested tree as a child of a property tree. -/
def pchild.to_pvalue : pchild → pvalue
  | .data text => .data text
  | .tree leaves => .children (leaves.map fun leaf => (leaf.1, .data leaf.2))

/-- The `json.get_optional_child (key)` call: the child under `key` as a configuration
tree of its own, which shares the error of its parent. -/
def jsonconfig.get_optional_child (json : jsonconfig) (key : String) : Option jsonconfig :=
  match json.tree.lookup key with
  | some (.data _) => some { tree := [], error := json.error }
  | some (.array items) =>
    some { tree := items.map fun item => ("", .data item), error := json.error }
  | some (.children items) =>
    some { tree := items.map fun item => (item.1, item.2.to_pvalue), error := json.error }
  | some (.nested items) =>
    some { tree := items.map fun item => (item.1, .children item.2), error := json.error }
  | none => none

/-- The method `rpc_secure_config::deserialize_json`: the configuration read and the tree
with the error recorded on the way. -/
def rpc_secure_config.deserialize_json (target : rpc_secure_config) (text : jsonconfig_text)
    (json : jsonconfig) : rpc_secure_config × jsonconfig :=
  let r1 := json.get_required "enable" text.get_bool target.enable
  let r2 := r1.1.get_required "verbose_logging" text.get_bool target.verbose_logging
  let r3 := r2.1.get_required "server_key_passphrase" text.get_string
    target.server_key_passphrase
  let r4 := r3.1.get_required "server_cert_path" text.get_string target.server_cert_path
  let r5 := r4.1.get_required "server_key_path" text.get_string target.server_key_path
  let r6 := r5.1.get_required "server_dh_path" text.get_string target.server_dh_path
  let r7 := r6.1.get_required "client_certs_path" text.get_string target.client_certs_path
  ({ enable := r1.2, verbose_logging := r2.2, server_key_passphrase := r3.2,
     server_cert_path := r4.2, server_key_path := r5.2, server_dh_path := r6.2,
     client_certs_path := r7.2 }, r7.1)

/-- The method `rpc_config::serialize_json`: the tree after the seven `put` calls; the
error returned is the one the tree records. -/
def rpc_config.serialize_json (c : rpc_config) (text : jsonconfig_text) (json : jsonconfig) :
    jsonconfig :=
  let json := json.put "address" (text.address_to_string c.address)
  let json := json.put "port" (text.put_uint16 c.port)
  let json := json.put "enable_control" (text.put_bool c.enable_control)
  let json := json.put "frontier_request_limit" (text.put_uint64 c.frontier_request_limit)
  let json := json.put "chain_request_limit" (text.put_uint64 c.chain_request_limit)
  let json := json.put "max_json_depth" (text.put_uint8 c.max_json_depth)
  json.put "enable_sign_hash" (text.put_bool c.enable_sign_hash)

/-- The method `rpc_config::deserialize_json`: the configuration read into the target and
the tree with the error recorded on the way; the error returned is the one the tree
records. -/
def rpc_config.deserialize_json (target : rpc_config) (text : jsonconfig_text)
    (json : jsonconfig) : rpc_config × jsonconfig :=
  let secure : rpc_secure_config × jsonconfig :=
    match json.get_optional_child "secure" with
    | some rpc_secure_l =>
      let r := target.secure.deserialize_json text rpc_secure_l
      (r.1, { json with error := r.2.error })
    | none => (target.secure, json)
  let r1 := secure.2.get_required "address" text.address_from_string target.address
  let r2 := r1.1.get_optional "port" text.get_uint16 target.port
  let r3 := r2.1.get_optional "enable_control" text.get_bool target.enable_control
  let r4 := r3.1.get_optional "frontier_request_limit" text.get_uint64
    target.frontier_request_limit
  let r5 := r4.1.get_optional "chain_request_limit" text.get_uint64 target.chain_request_limit
  let r6 := r5.1.get_optional "max_json_depth" text.get_uint8 target.max_json_depth
  let r7 := r6.1.get_optional "enable_sign_hash" text.get_bool target.enable_sign_hash
  ({ address := r1.2, port := r2.2, enable_control := r3.2, frontier_request_limit := r4.2,
     chain_request_limit := r5.2, max_json_depth := r6.2, enable_sign_hash := r7.2,
     secure := secure.1 }, r7.1)

/-! ## A small node for evaluating the definitions -/

/-- The state block stored under hash `n` of the sample store: account 7, previous
`n - 1`, balance `10 * n`. -/
def sample_block (n : Nat) : block :=
  { type := .state, account := 7, previous := n - 1, representative := 7, balance := 10 * n,
    link := 9 }

/-- A node whose store holds the chain 1, 2, 3 of account 7 (head 3, balance 30) and which
decodes the texts `"0"` to `"5"` as those numbers. Its wallet 1 is unlocked and holds
account 7. Block text `"b4"` is a state block on top of the chain with balance 30, and
`"s4"` a legacy send block. -/
def sample_node : node where
  message := fun e => match e with
    | .rpc .rpc_control_disabled => "RPC control is disabled"
    | .common .invalid_amount_big => "Amount too big"
    | _ => "Error"
  decode_hex := fun t => [("0", 0), ("1", 1), ("2", 2), ("3", 3), ("4", 4), ("5", 5)].lookup t
  decode_account := fun t => [("0", 0), ("7", 7), ("8", 8)].lookup t
  decode_dec := fun t => [("0", 0), ("1", 1), ("2", 2), ("30", 30),
    ("1000000000000000", 1000000000000000),
    ("319435266158123073073250785136463577088",
      319435266158123073073250785136463577088)].lookup t
  from_string_hex := fun t => [("0", 0), ("1", 1)].lookup t
  parse_port := fun t => [("24000", 24000)].lookup t
  stoull := fun t => [("0", (0, 1)), ("1", (1, 1)), ("2", (2, 1)), ("3", (3, 1)),
    ("2x", (2, 1))].lookup t
  address_from_string := fun t => [("::1", 1)].lookup t
  block_of_text := fun t =>
    if t = "b4" then .parsed { sample_block 4 with balance := 30, link := 0 }
    else if t = "s4" then .parsed { type := .send, previous := 3, destination := 8, balance := 5 }
    else if t = "null" then .null
    else .malformed
  hash := fun b => b.previous + 1
  serialize_json := fun _ => "block"
  to_string := fun n => toString n
  work_validate := fun b => b.work == 1
  work_validate_root := fun _ work => work == 1
  pub_key := fun prv => prv + 1
  sign_message := fun prv _ hash => prv + hash
  work_generate_blocking := fun root => root + 2
  block_get := fun h => if 1 ≤ h ∧ h ≤ 3 then some (sample_block h) else none
  block_exists := fun h => 1 ≤ h && h ≤ 3
  block_successor := fun h => if 1 ≤ h ∧ h ≤ 2 then h + 1 else 0
  block_balance := fun h => 10 * h
  pending_exists := fun _ _ => false
  account_head := fun a => if a = 7 then some 3 else none
  account_balance := fun a => if a = 7 then 30 else 0
  latest := fun a => if a = 7 then 3 else 0
  is_epoch_link := fun l => l == 99
  block_source := fun _ => 0
  block_destination := fun _ => 0
  process_one := fun b => if b.previous = 3 then .progress else .fork
  wallet_exists := fun w => w == 1
  valid_password := fun _ => true
  wallet_find := fun _ a => a == 7
  wallet_fetch := fun _ _ => 11
  wallet_search_pending := fun _ => false
  balance := fun a => if a = 7 then 30 else 0
  read_json := fun body =>
    if body = "stop" then some [("action", .data "stop")]
    else if body = "chain" then
      some [("action", .data "chain"), ("block", .data "3"), ("count", .data "2")]
    else if body = "nothing" then some []
    else if body = "accounts_create" then
      some [("action", .data "accounts_create"), ("wallet", .data "1"), ("count", .data "1")]
    else if body = "account_create" then
      some [("action", .data "account_create"), ("wallet", .data "1")]
    else none
  kFLR_ratio := 10 ^ 27
  mFLR_ratio := 10 ^ 30
  FLR_ratio := 10 ^ 24
  stat_tree := fun _ => [("stat_duration_seconds", .data "0")]
  seq_con_info := [("node", .data "")]
  stop_throws := none
  to_account := fun a => toString a
  encode_dec := fun n => toString n
  to_string_hex := fun n => toString n
  signature_to_string := fun n => toString n
  ledger_amount := fun _ => 10
  ledger_account := fun _ => 7
  ledger_balance := fun h => 10 * h
  ledger_weight := fun _ => 0
  ledger_account_pending := fun _ => 0
  epoch_link := 99
  epoch_signer := 9
  genesis_account := 9
  genesis_amount := 2 ^ 128 - 1
  sideband_timestamp := fun h => 1000 + h
  active := fun _ => false
  pending_begin := fun a =>
    ([(⟨7, 1⟩, ⟨8, 5, false⟩), (⟨7, 2⟩, ⟨8, 50, true⟩), (⟨8, 3⟩, ⟨7, 500, false⟩)] :
      List (pending_key × pending_info)).filter fun entry => a ≤ entry.1.account
  latest_begin := fun start =>
    ([(7, { head := 3, rep_block := 1, open_block := 1, balance := 30, modified := 100,
            block_count := 3 }),
      (8, { head := 5, rep_block := 2, open_block := 4, balance := 70, modified := 50,
            block_count := 2 }),
      (9, { head := 6, rep_block := 3, open_block := 6, balance := 30, modified := 200,
            block_count := 1 })] : List (Nat × account_info)).filter fun entry =>
        start ≤ entry.1
  account_get := fun a =>
    ([(7, { head := 3, rep_block := 1, open_block := 1, balance := 30, modified := 100,
            block_count := 3 }),
      (8, { head := 5, rep_block := 2, open_block := 4, balance := 70, modified := 50,
            block_count := 2 }),
      (9, { head := 6, rep_block := 3, open_block := 6, balance := 30, modified := 200,
            block_count := 1 })] : List (Nat × account_info)).lookup a
  deterministic_insert := fun _ n => 100 + n
  wallet_begin := fun w => if w = 1 then [(7, .deterministic)] else []

/-- The sample node with its wallet locked: the password is not valid and
`deterministic_insert` returns the zero key, as the test `insert_deterministic_locked` of
`core_test/wallet.cpp` has it. -/
def sample_node_locked : node :=
  { sample_node with valid_password := fun _ => false, deterministic_insert := fun _ _ => 0 }

/-- The configuration `rpc_config (false)`. -/
def sample_rpc_disabled : rpc := { config := rpc_config.mk_default 7076 false }

/-- The configuration `rpc_config (true)`. -/
def sample_rpc_enabled : rpc := { config := rpc_config.mk_default 7076 true }

/-- The number a text of decimal digits denotes, `none` for any other text. -/
def sample_decimal (text : String) : Option Nat :=
  if text.toList = [] then none
  else text.toList.foldl (fun value c => value.bind fun n =>
    if c.isDigit then some (10 * n + (c.toNat - 48)) else none) (some 0)

/-- Booleans as `true` and `false`, numbers in decimal and addresses as they are. -/
def sample_text : jsonconfig_text where
  address_to_string := fun address => address
  address_from_string := fun text => if text = "::q" then none else some text
  put_bool := fun b => if b then "true" else "false"
  get_bool := ptree.bool_of_text
  put_uint8 := toString
  get_uint8 := fun text => (sample_decimal text).bind fun n =>
    if n < 256 then some n else none
  put_uint16 := toString
  get_uint16 := fun text => (sample_decimal text).bind fun n =>
    if n < 65536 then some n else none
  put_uint64 := toString
  get_uint64 := fun text => (sample_decimal text).bind fun n =>
    if n < 2 ^ 64 then some n else none
  get_string := some

/-- The configuration of the test `rpc_config.serialization`. -/
def sample_config : rpc_config :=
  { address := "::", port := 10, enable_control := true, frontier_request_limit := 8192,
    chain_request_limit := 4096, max_json_depth := 20, enable_sign_hash := false }

/-- Verification for the signatures of the sample node, where a signature is the sum of
the private key and the hash and the public key is the private key plus one. -/
def sample_verify (pub hash signature : Nat) : Bool :=
  signature == pub - 1 + hash

/-- An address parser that knows the loopback address `::1` and the unspecified address
`::`. -/
def sample_address_from_string (text : String) : Option Nat :=
  if text = "::1" then some 1 else if text = "::" then some 0 else none

/-! ## Outcomes and properties named in the statements -/

/-- The state every refused request ends in: the control-disabled error set, nothing put
into the response, the error sent once, no operation performed. -/
def rpc_handler.refused (node : node) : rpc_handler :=
  { ec := some (.rpc .rpc_control_disabled), response_l := [],
    sent := [[("error", .data (node.message (.rpc .rpc_control_disabled)))]], ops := [] }

/-- Handler code keeps a property of the handler object: from any state that has it, the
state at the end of the run has it too, however the run ends. -/
structure rpc_m.keeps {α : Type} (P : rpc_handler → Prop) (m : rpc_m α) : Prop where
  holds : ∀ s, P s → P (m s).state

/-- The member `ec` does not hold the control-disabled error. -/
def rpc_handler.not_refused (s : rpc_handler) : Prop :=
  s.ec ≠ some (.rpc .rpc_control_disabled)

/-- No block has been forced over a fork. -/
def rpc_handler.nothing_forced (s : rpc_handler) : Prop :=
  ∀ b, node_op.block_processor_force b ∉ s.ops

/-- The request passes the subtype check of `process`: the block is not a state block, or
no subtype is given, or the check sets no error. -/
def rpc_handler.passes_subtype_check (node : node) (request : ptree) (b : block) : Prop :=
  b.type ≠ .state ∨ request.get_or "subtype" "" = ""
    ∨ rpc_handler.process_subtype_check node b (request.get_or "subtype" "") = none

/-- The tree `response_errors` sends for a set error code. -/
def error_tree (node : node) (e : error_code) : ptree := [("error", .data (node.message e))]

/-- A run that ends with error `e` as its one response and nothing else done. -/
def rpc_handler.rejected (node : node) (e : error_code) : run Unit :=
  .done () { ec := some e, response_l := [], sent := [error_tree node e], ops := [] }

/-- The run of the part of `process` behind the subtype check: work validation, the block
processor, and the response. -/
def rpc_handler.goes_on (rpc : rpc) (node : node) (request : ptree) (b : block) : run Unit :=
  (rpc_handler.process_submit rpc node request b >>= fun _ =>
    rpc_handler.response_errors node) rpc_handler.init

/-- Modelled from the spec: step 5 of section 4.2, the subtype the ledger derives for a
state block from (previous, balance, link) against the balance before the block. -/
def ledger_state_subtype (is_epoch_link : Nat → Bool) (previous balance link
    previous_balance : Nat) : Option String :=
  if previous = 0 ∧ link ≠ 0 ∧ balance > 0 then some "open"
  else if balance < previous_balance then some "send"
  else if balance > previous_balance ∧ link ≠ 0 then some "receive"
  else if balance = previous_balance ∧ link = 0 then some "change"
  else if balance = previous_balance ∧ is_epoch_link link = true then some "epoch"
  else none

/-- The hash the loop of `chain` moves to from a stored block. -/
def rpc_handler.chain_next (node : node) (successors : Bool) (hash : Nat) (block_l : block) :
    Nat :=
  if successors then node.block_successor hash else block_l.previous

/-- The walk `h, next h, next (next h), ...` cut at the first zero hash or hash missing
from the store, up to `n` entries. -/
def rpc_handler.walk (node : node) (successors : Bool) : Nat → Nat → List Nat
  | 0, _ => []
  | n + 1, hash =>
    if hash = 0 then []
    else
      match node.block_get hash with
      | some block_l =>
        hash :: rpc_handler.walk node successors n
          (rpc_handler.chain_next node successors hash block_l)
      | none => []

/-- The walk from `hash` ends by itself within `n` steps, so `walk n hash` is all of it.
On a store without cycles every walk ends (see `walk_ends_of_rank`). -/
def rpc_handler.walk_ends (node : node) (successors : Bool) (n hash : Nat) : Prop :=
  (rpc_handler.walk node successors n hash).length < n

/-- The fields of a valid chain request: `block` decodes to `hash`, `count` is the number
`count` written in full, and `offset` is absent (then zero) or the number `offset`. -/
def rpc_handler.chain_request (node : node) (request : ptree) (hash count offset : Nat) :
    Prop :=
  (∃ hash_text, request.get_optional "block" = some hash_text
      ∧ node.decode_hex hash_text = some hash)
  ∧ (∃ count_text, request.get_optional "count" = some count_text
      ∧ node.stoull count_text = some (count, count_text.length))
  ∧ ((request.get_optional "offset" = none ∧ offset = 0)
      ∨ ∃ offset_text, request.get_optional "offset" = some offset_text
          ∧ node.stoull offset_text = some (offset, offset_text.length))

/-- The run of a conversion that answers `amount` with the decimal text of `result`. -/
def rpc_handler.converted (result : Nat) : run Unit :=
  .done ()
    { ec := none, response_l := [("amount", .data (toString result))],
      sent := [[("amount", .data (toString result))]], ops := [] }

/-- Number of `[` and `{` characters of a request body, wherever they stand. -/
def opening_brackets (body : List Char) : Nat :=
  (body.filter (fun ch => ch = '[' ∨ ch = '{')).length

/-- The nesting depth of a JSON text: the largest number of arrays and objects open at the
same time, reading on from `depth` open ones; brackets inside string literals (with
backslash escapes) do not count. -/
def json_nesting_depth : List Char → Nat → Bool → Bool → Nat
  | [], depth, _, _ => depth
  | ch :: rest, depth, in_string, escaped =>
    if in_string then
      if escaped then json_nesting_depth rest depth true false
      else if ch = Char.ofNat 92 then json_nesting_depth rest depth true true
      else if ch = Char.ofNat 34 then json_nesting_depth rest depth false false
      else json_nesting_depth rest depth true false
    else if ch = Char.ofNat 34 then json_nesting_depth rest depth true false
    else if ch = '[' ∨ ch = '{' then
      max (depth + 1) (json_nesting_depth rest (depth + 1) false false)
    else if ch = ']' ∨ ch = '}' then
      max depth (json_nesting_depth rest (depth - 1) false false)
    else json_nesting_depth rest depth false false

/-- The run that answers `Max JSON depth exceeded` and does nothing else. -/
def rpc_handler.depth_rejected : run Unit :=
  .done ()
    { ec := none, response_l := [], sent := [[("error", .data "Max JSON depth exceeded")]],
      ops := [] }

/-- A body of twenty-one empty arrays side by side inside one array: nesting depth 2. -/
def shallow_body : String :=
  "[[],[],[],[],[],[],[],[],[],[],[],[],[],[],[],[],[],[],[],[],[]]"

/-- The public key `block_create` derives from the private key at hand. -/
def block_create_locals.pub (node : node) (l : block_create_locals) : Nat :=
  node.pub_key l.prv

/-- The `previous` a branch of `block_create` works with: the one at hand (given in the
request or read for the wallet account), or the ledger's latest block of the public key
when the request gives neither `previous` nor `balance`. -/
def block_create_locals.previous_used (node : node) (l : block_create_locals) : Nat :=
  if l.previous_text.isNone && l.balance_text.isNone then node.latest (l.pub node)
  else l.previous

/-- The balance a branch of `block_create` works with: the one at hand (given in the
request or read for the wallet account), or the ledger's balance of the public key when
the request gives neither `previous` nor `balance`. -/
def block_create_locals.balance_used (node : node) (l : block_create_locals) : Nat :=
  if l.previous_text.isNone && l.balance_text.isNone then node.account_balance (l.pub node)
  else l.balance

/-- The send block `block_create` builds from its locals with a work value. -/
def block_create_locals.send_block (node : node) (l : block_create_locals) : Nat → block :=
  send_block.mk_signed node (l.previous_used node) l.destination
    (l.balance_used node - l.amount) l.prv (l.pub node)

/-- The work value of the send block: the one given, or the one generated for `previous`
when none or zero was given. -/
def block_create_locals.send_work (node : node) (l : block_create_locals) : Nat :=
  if l.work == 0 then node.work_generate_blocking (l.previous_used node) else l.work

/-- Nothing is in the response yet, nothing has been sent and `ec` does not hold the
insufficient-balance error. -/
def rpc_handler.nothing_built (s : rpc_handler) : Prop :=
  s.response_l = [] ∧ s.sent = [] ∧ s.ec ≠ some (.common .insufficient_balance)

/-- The error `sign` ends with for a bare hash it may not sign: the text does not decode,
it decodes to zero, or signing of hashes is not enabled. -/
def rpc_handler.sign_hash_error (node : node) (hash_text : String) : error_code :=
  match node.decode_hex hash_text with
  | none => .blocks .invalid_block_hash
  | some hash => if hash = 0 then .blocks .invalid_block else .rpc .sign_hash_disabled

/-- The blocks of a chain with their hashes, newest first: from `hash` along previous
links up to the first hash without a stored block, at most `n` of them. -/
def rpc_handler.history_chain (node : node) : Nat → Nat → List (Nat × block)
  | 0, _ => []
  | n + 1, hash =>
    match node.block_get hash with
    | some block_l => (hash, block_l) :: rpc_handler.history_chain node n block_l.previous
    | none => []

/-- The history a request asks for, in the words of the specification: walk the chain
from the head, skip `offset` blocks, report each further block that has an entry, and stop
after `count` entries. -/
def rpc_handler.history_of (node : node) (raw : Bool) (chain : List (Nat × block))
    (count offset : Nat) : List ptree :=
  ((chain.drop offset).filterMap fun item =>
    rpc_handler.history_entry node raw item.1 item.2).take count

/-- The fields of a valid `account_history` request: `head` decodes to the hash of a stored
block of `account`, or is absent and `account` decodes to an account with head `hash`;
`count` is the non-zero number `count` written in full; `offset` is absent (then zero) or
the number `offset`. -/
def rpc_handler.history_request (node : node) (request : ptree)
    (account hash count offset : Nat) : Prop :=
  ((∃ head_text, request.get_optional "head" = some head_text
        ∧ node.decode_hex head_text = some hash ∧ node.block_exists hash = true
        ∧ account = node.ledger_account hash)
    ∨ (request.get_optional "head" = none
        ∧ ∃ account_text, request.get_optional "account" = some account_text
            ∧ node.decode_account account_text = some account ∧ hash = node.latest account))
  ∧ (∃ count_text, request.get_optional "count" = some count_text
      ∧ node.stoull count_text = some (count, count_text.length) ∧ count ≠ 0)
  ∧ ((request.get_optional "offset" = none ∧ offset = 0)
      ∨ ∃ offset_text, request.get_optional "offset" = some offset_text
          ∧ node.stoull offset_text = some (offset, offset_text.length))

/-- The response of `account_history` with the entries `history`, where the loop ended at
hash `final`: `previous` is there when that hash is not zero. -/
def rpc_handler.history_response (node : node) (account : Nat) (history : List ptree)
    (final : Nat) : ptree :=
  [("account", .data (node.to_account account)),
    ("history", .children (history.map fun entry => ("", entry.as_child)))]
  ++ if final = 0 then [] else [("previous", .data (node.to_string final))]

/-- The entry of a block under `hash` reported with `raw` unset: its type, the other
account and the amount, followed by the timestamp and the hash. -/
def rpc_handler.history_report (node : node) (hash : Nat) (type account amount : String) :
    ptree :=
  [("type", .data type), ("account", .data account), ("amount", .data amount),
    ("local_timestamp", .data (toString (node.sideband_timestamp hash))),
    ("hash", .data (node.to_string hash))]

/-- The fields of a valid `pending` request: `account` decodes to `account`; `count` is
absent (then the default) or the number `count` written in full; `threshold` is absent
(then zero) or decodes to `threshold`. -/
def rpc_handler.pending_request (node : node) (request : ptree)
    (count_default account count threshold : Nat) : Prop :=
  (∃ account_text, request.get_optional "account" = some account_text
      ∧ node.decode_account account_text = some account)
  ∧ ((request.get_optional "count" = none ∧ count = count_default)
      ∨ ∃ count_text, request.get_optional "count" = some count_text
          ∧ node.stoull count_text = some (count, count_text.length))
  ∧ ((request.get_optional "threshold" = none ∧ threshold = 0)
      ∨ ∃ threshold_text, request.get_optional "threshold" = some threshold_text
          ∧ node.decode_dec threshold_text = some threshold)

/-- What an entry of the `blocks` result says of a pending entry, in the words of the
specification: the hash alone when neither a threshold nor `source` nor `min_version` is
asked for; else the amount under the hash, not below the threshold, and next to it
`source` and `min_version` exactly when asked for. -/
def rpc_handler.pending_reports (node : node) (threshold : Nat) (source min_version : Bool)
    (entry : String × pchild) (key : pending_key) (info : pending_info) : Prop :=
  if threshold = 0 ∧ source = false ∧ min_version = false then
    entry = ("", .data (node.to_string key.hash))
  else
    threshold ≤ info.amount
    ∧ entry = (node.to_string key.hash,
        if source = false ∧ min_version = false then .data (toString info.amount)
        else .tree ([("amount", toString info.amount)]
          ++ (if source then [("source", node.to_account info.source)] else [])
          ++ (if min_version then [("min_version", if info.epoch_1 then "1" else "0")]
              else [])))

/-- The fields of a valid `ledger` request with sorting: `count` is absent (then the
default) or the number `count` written in full; `account` is absent (then zero) or decodes
to `start`; `modified_since` is absent (then zero) or the number `modified_since` written
in full; `sorting` is set. -/
def rpc_handler.ledger_request (node : node) (request : ptree)
    (count_default count start modified_since : Nat) : Prop :=
  ((request.get_optional "count" = none ∧ count = count_default)
      ∨ ∃ count_text, request.get_optional "count" = some count_text
          ∧ node.stoull count_text = some (count, count_text.length))
  ∧ ((request.get_optional "account" = none ∧ start = 0)
      ∨ ∃ account_text, request.get_optional "account" = some account_text
          ∧ node.decode_account account_text = some start)
  ∧ ((request.get_optional "modified_since" = none ∧ modified_since = 0)
      ∨ ∃ text, request.get_optional "modified_since" = some text
          ∧ node.stoull text = some (modified_since, text.length))
  ∧ request.get_bool "sorting" false = true

/-- The blocks from the block under `hash` along previous links that come before the
block under `end_`, or else down to the origin of the chain; at most `n` of them. -/
def bulk_pull_before (node : node) (end_ : Nat) : Nat → Nat → List block
  | 0, _ => []
  | n + 1, hash =>
    if hash = end_ then []
    else
      match node.block_get hash with
      | some block_l =>
        block_l :: (if block_l.previous = 0 then []
          else bulk_pull_before node end_ n block_l.previous)
      | none => []

/-- The blocks a bulk pull from the block hash `start` streams, in the words of the
amended claim: the block under `start`, also when it is the end, then the blocks reached
along previous links that come before the block under `end_`, or else down to the origin
of the chain; at most `n` of them. -/
def bulk_pull_walk (node : node) (end_ : Nat) (n start : Nat) : List block :=
  match n, node.block_get start with
  | 0, _ => []
  | _, none => []
  | n + 1, some block_l =>
    block_l :: (if start = end_ ∨ block_l.previous = 0 then []
      else bulk_pull_before node end_ n block_l.previous)

/-- The end a bulk pull server works with: the end of the request when it is the hash of a
stored block, zero when not. -/
def bulk_pull_end (node : node) (end_ : Nat) : Nat :=
  if node.block_exists end_ then end_ else 0

/-- The first `count` blocks of a list when a count is present, all of them when not. -/
def bulk_pull_cap (count : Option Nat) (blocks : List block) : List block :=
  match count with
  | some c => blocks.take c
  | none => blocks

/-- Handler code that never calls the `response` callback and always comes to an end,
normally or by an exception. -/
structure rpc_m.mute {α : Type} (m : rpc_m α) : Prop where
  holds : ∀ s, (m s).state.sent = s.sent ∧ ∀ s', m s ≠ .stuck s'

/-- A run that has answered exactly once when it returns, and not yet when it throws (the
`catch` clause then answers); it comes to an end. -/
def run.answers_once (r : run Unit) : Prop :=
  match r with
  | .done _ s => s.sent.length = 1
  | .raised _ s => s.sent = []
  | .stuck _ => False

/-- Handler code that answers exactly once when started with nothing sent. -/
structure rpc_m.once (m : rpc_m Unit) : Prop where
  holds : ∀ s, s.sent = [] → (m s).answers_once

/-- Handler code that returns normally without calling the `response` callback. -/
structure rpc_m.calm (m : rpc_m Unit) : Prop where
  holds : ∀ s, ∃ s', m s = .done () s' ∧ s'.sent = s.sent

/-- Walking previous links from `hash` reaches a hash without a stored block after at
most `fuel` steps. -/
def rpc_handler.previous_walk_ends (node : node) : Nat → Nat → Bool
  | fuel, hash =>
    match node.block_get hash with
    | some block_l =>
      match fuel with
      | 0 => false
      | fuel + 1 => rpc_handler.previous_walk_ends node fuel block_l.previous
    | none => true

/-- A store in which every account chain reaches its origin within `fuel` steps along
previous links; every successor link that is set points at a stored block; the
representative block of every account entry is stored; the account table reads the same
through its iterator and through `account_get`; the latest block of an account is stored;
and the block before a stored block is stored. -/
def rpc_handler.store_coherent (node : node) (fuel : Nat) : Prop :=
  (∀ hash, rpc_handler.previous_walk_ends node fuel hash = true)
  ∧ (∀ hash, node.block_successor hash = 0
      ∨ (node.block_get (node.block_successor hash)).isSome)
  ∧ (∀ account info, node.account_get account = some info
      → (node.block_get info.rep_block).isSome)
  ∧ (∀ start, ∀ item ∈ node.latest_begin start, node.account_get item.1 = some item.2)
  ∧ (∀ account, node.latest account = 0 ∨ (node.block_get (node.latest account)).isSome)
  ∧ ∀ hash block_l, node.block_get hash = some block_l
      → block_l.previous = 0 ∨ (node.block_get block_l.previous).isSome

/-- The verbs whose handler hands the `response` callback to a completion callback
(`change_async`, the payment observer, `receive_async`, `send_async`, the work pool) and
so answers from there. -/
def rpc_handler.asynchronous_verbs : List String :=
  ["account_representative_set", "payment_wait", "receive", "send", "work_generate"]

/-! # Theorems -/

/-! ## Running handler code -/

theorem rpc_m.bind_run {α β : Type} (m : rpc_m α) (f : α → rpc_m β) (s : rpc_handler) :
    (m >>= f) s = match m s with
      | .done a s' => f a s'
      | .raised e s' => .raised e s'
      | .stuck s' => .stuck s' := rfl

theorem rpc_m.pure_run {α : Type} (a : α) (s : rpc_handler) :
    (Pure.pure a : rpc_m α) s = .done a s := rfl

/-! ## C1: the verbs guarded by the control flag -/

/-- C1. With `enable_control = false`, each of keepalive, bootstrap_lazy, search_pending,
search_pending_all, block_create, send, receive, stop, unchecked_clear, node_id_delete and
receive_minimum_set returns, for every request, with the `rpc_control_disabled` error as its
one response and with no node or wallet operation performed. -/
theorem control_disabled_refuses (rpc : rpc) (node : node) (request : ptree)
    (h : rpc.config.enable_control = false) :
    rpc_handler.keepalive rpc node request rpc_handler.init = .done () (rpc_handler.refused node)
    ∧ rpc_handler.bootstrap_lazy rpc node request rpc_handler.init
        = .done () (rpc_handler.refused node)
    ∧ rpc_handler.search_pending rpc node request rpc_handler.init
        = .done () (rpc_handler.refused node)
    ∧ rpc_handler.search_pending_all rpc node rpc_handler.init
        = .done () (rpc_handler.refused node)
    ∧ rpc_handler.block_create rpc node request rpc_handler.init
        = .done () (rpc_handler.refused node)
    ∧ rpc_handler.send rpc node request rpc_handler.init = .done () (rpc_handler.refused node)
    ∧ rpc_handler.receive rpc node request rpc_handler.init = .done () (rpc_handler.refused node)
    ∧ rpc_handler.stop rpc node rpc_handler.init = .done () (rpc_handler.refused node)
    ∧ rpc_handler.unchecked_clear rpc node rpc_handler.init = .done () (rpc_handler.refused node)
    ∧ rpc_handler.node_id_delete rpc node rpc_handler.init = .done () (rpc_handler.refused node)
    ∧ rpc_handler.receive_minimum_set rpc node request rpc_handler.init
        = .done () (rpc_handler.refused node) := by
  obtain ⟨⟨address, port, enable_control, frl, crl, mjd, esh⟩⟩ := rpc
  simp only at h
  subst h
  exact ⟨rfl, rfl, rfl, rfl, rfl, rfl, rfl, rfl, rfl, rfl, rfl⟩

/-- C1 at the sample node for a keepalive request to port 24000. -/
theorem control_disabled_refuses_witness :
    sample_rpc_disabled.config.enable_control = false
    ∧ rpc_handler.keepalive sample_rpc_disabled sample_node
        [("action", .data "keepalive"), ("address", .data "::1"), ("port", .data "24000")]
        rpc_handler.init = .done () (rpc_handler.refused sample_node) :=
  ⟨rfl, (control_disabled_refuses sample_rpc_disabled sample_node
    [("action", .data "keepalive"), ("address", .data "::1"), ("port", .data "24000")] rfl).1⟩

/-! ## C2: the verbs that do not consult the control flag -/

theorem rpc_m.keeps_pure {α : Type} (P : rpc_handler → Prop) (a : α) :
    rpc_m.keeps P (Pure.pure a : rpc_m α) := ⟨fun _ h => h⟩

theorem rpc_m.keeps_bind {α β : Type} (P : rpc_handler → Prop) (m : rpc_m α)
    (f : α → rpc_m β) (hm : rpc_m.keeps P m) (hf : ∀ a, rpc_m.keeps P (f a)) :
    rpc_m.keeps P (m >>= f) := by
  constructor
  intro s hs
  have h1 := hm.holds s hs
  rw [rpc_m.bind_run]
  cases hr : m s with
  | done a s' => rw [hr] at h1; exact (hf a).holds s' h1
  | raised e s' => rw [hr] at h1; exact h1
  | stuck s' => rw [hr] at h1; exact h1

theorem rpc_m.keeps_raise {α : Type} (P : rpc_handler → Prop) (e : exception) :
    rpc_m.keeps P (raise e : rpc_m α) := ⟨fun _ h => h⟩

theorem rpc_m.keeps_get_stuck {α : Type} (P : rpc_handler → Prop) :
    rpc_m.keeps P (get_stuck : rpc_m α) := ⟨fun _ h => h⟩

theorem rpc_m.keeps_no_error (P : rpc_handler → Prop) : rpc_m.keeps P no_error :=
  ⟨fun _ h => h⟩

theorem rpc_m.keeps_request_get (P : rpc_handler → Prop) (request : ptree) (key : String) :
    rpc_m.keeps P (request_get request key) := by
  unfold request_get
  split
  · exact rpc_m.keeps_pure P _
  · exact rpc_m.keeps_raise P _

theorem not_refused_init : rpc_handler.init.not_refused := by
  simp [rpc_handler.not_refused, rpc_handler.init]

theorem not_refused_set_ec (e : error_code) (he : e ≠ .rpc .rpc_control_disabled) :
    rpc_m.keeps rpc_handler.not_refused (set_ec e) := by
  constructor
  intro s _
  simpa [set_ec, run.state, rpc_handler.not_refused] using he

theorem not_refused_put (key value : String) :
    rpc_m.keeps rpc_handler.not_refused (put key value) := ⟨fun _ h => h⟩

theorem not_refused_add_child (key : String) (items : List String) :
    rpc_m.keeps rpc_handler.not_refused (add_child key items) := ⟨fun _ h => h⟩

theorem not_refused_perform (op : node_op) :
    rpc_m.keeps rpc_handler.not_refused (perform op) := ⟨fun _ h => h⟩

theorem not_refused_response_errors (node : node) :
    rpc_m.keeps rpc_handler.not_refused (rpc_handler.response_errors node) := by
  constructor
  intro s h
  unfold rpc_handler.response_errors
  split <;> exact h

theorem process_subtype_check_not_refused (node : node) (b : block) (subtype_text : String)
    (e : error_code) (h : rpc_handler.process_subtype_check node b subtype_text = some e) :
    e ≠ .rpc .rpc_control_disabled := by
  simp only [rpc_handler.process_subtype_check] at h
  split_ifs at h <;> first
    | exact absurd h (by decide)
    | (rintro rfl; exact absurd h (by decide))

theorem process_keeps_not_refused (rpc : rpc) (node : node) (request : ptree) :
    rpc_m.keeps rpc_handler.not_refused (rpc_handler.process rpc node request) := by
  unfold rpc_handler.process rpc_handler.block_impl rpc_handler.process_submit
  repeat' with_reducible first
    | exact rpc_m.keeps_pure _ _
    | exact rpc_m.keeps_raise _ _
    | exact rpc_m.keeps_no_error _
    | exact rpc_m.keeps_request_get _ _ _
    | exact not_refused_put _ _
    | exact not_refused_perform _
    | exact not_refused_response_errors _
    | exact not_refused_set_ec _ (by decide)
    | exact not_refused_set_ec _ (process_subtype_check_not_refused _ _ _ _ (by assumption))
    | apply rpc_m.keeps_bind
    | intro _
    | split
    | dsimp only

theorem bootstrap_keeps_not_refused (node : node) (request : ptree) :
    rpc_m.keeps rpc_handler.not_refused (rpc_handler.bootstrap node request) := by
  unfold rpc_handler.bootstrap
  repeat' with_reducible first
    | exact rpc_m.keeps_pure _ _
    | exact rpc_m.keeps_request_get _ _ _
    | exact not_refused_put _ _
    | exact not_refused_perform _
    | exact not_refused_response_errors _
    | exact not_refused_set_ec _ (by decide)
    | apply rpc_m.keeps_bind
    | intro _
    | split

theorem block_confirm_keeps_not_refused (node : node) (request : ptree) :
    rpc_m.keeps rpc_handler.not_refused (rpc_handler.block_confirm node request) := by
  unfold rpc_handler.block_confirm rpc_handler.hash_impl
  repeat' with_reducible first
    | exact rpc_m.keeps_pure _ _
    | exact rpc_m.keeps_no_error _
    | exact rpc_m.keeps_request_get _ _ _
    | exact not_refused_put _ _
    | exact not_refused_perform _
    | exact not_refused_response_errors _
    | exact not_refused_set_ec _ (by decide)
    | apply rpc_m.keeps_bind
    | intro _
    | split

theorem republish_keeps_not_refused (node : node) (request : ptree) (source_0 fuel : Nat) :
    rpc_m.keeps rpc_handler.not_refused
      (rpc_handler.republish node request source_0 fuel) := by
  unfold rpc_handler.republish rpc_handler.count_optional_impl rpc_handler.hash_impl
  repeat' with_reducible first
    | exact rpc_m.keeps_pure _ _
    | exact rpc_m.keeps_get_stuck _
    | exact rpc_m.keeps_no_error _
    | exact rpc_m.keeps_request_get _ _ _
    | exact not_refused_put _ _
    | exact not_refused_add_child _ _
    | exact not_refused_perform _
    | exact not_refused_response_errors _
    | exact not_refused_set_ec _ (by decide)
    | apply rpc_m.keeps_bind
    | intro _
    | split
    | dsimp only

theorem nothing_forced_perform (op : node_op) (h : ∀ b, op ≠ .block_processor_force b) :
    rpc_m.keeps rpc_handler.nothing_forced (perform op) := by
  constructor
  intro s hs b
  simp only [perform, run.state, List.mem_append, List.mem_singleton, not_or]
  exact ⟨hs b, fun hb => h b hb.symm⟩

theorem nothing_forced_set_ec (e : error_code) :
    rpc_m.keeps rpc_handler.nothing_forced (set_ec e) := ⟨fun _ h => h⟩

theorem nothing_forced_put (key value : String) :
    rpc_m.keeps rpc_handler.nothing_forced (put key value) := ⟨fun _ h => h⟩

theorem nothing_forced_response_errors (node : node) :
    rpc_m.keeps rpc_handler.nothing_forced (rpc_handler.response_errors node) := by
  constructor
  intro s h
  unfold rpc_handler.response_errors
  split <;> exact h

theorem process_keeps_nothing_forced (rpc : rpc) (node : node) (request : ptree)
    (h : rpc.config.enable_control = false) :
    rpc_m.keeps rpc_handler.nothing_forced (rpc_handler.process rpc node request) := by
  unfold rpc_handler.process rpc_handler.block_impl rpc_handler.process_submit
  repeat' with_reducible first
    | exact rpc_m.keeps_pure _ _
    | exact rpc_m.keeps_raise _ _
    | exact rpc_m.keeps_no_error _
    | exact rpc_m.keeps_request_get _ _ _
    | exact nothing_forced_put _ _
    | exact nothing_forced_set_ec _
    | exact nothing_forced_response_errors _
    | exact nothing_forced_perform _ (by intro b; simp)
    | exact absurd ‹(_ && rpc.config.enable_control) = true› (by simp [h])
    | apply rpc_m.keeps_bind
    | intro _
    | split
    | dsimp only

/-- C2 as stated fails: with `enable_control = false` the sample node processes a block,
starts both kinds of bootstrap, starts an election and republishes a chain, and answers
each request with its normal response. -/
theorem control_disabled_does_not_refuse :
    sample_rpc_disabled.config.enable_control = false
    ∧ rpc_handler.process sample_rpc_disabled sample_node [("block", .data "b4")]
        rpc_handler.init
      = .done ()
          { ec := none, response_l := [("hash", .data "4")], sent := [[("hash", .data "4")]],
            ops := [.block_arrival_add 4,
              .process_one { sample_block 4 with balance := 30, link := 0 }] }
    ∧ rpc_handler.bootstrap sample_node [("address", .data "::1"), ("port", .data "24000")]
        rpc_handler.init
      = .done ()
          { ec := none, response_l := [("success", .data "")],
            sent := [[("success", .data "")]], ops := [.bootstrap 1 24000] }
    ∧ rpc_handler.bootstrap_any sample_node rpc_handler.init
      = .done ()
          { ec := none, response_l := [("success", .data "")],
            sent := [[("success", .data "")]], ops := [.bootstrap_any] }
    ∧ rpc_handler.block_confirm sample_node [("hash", .data "3")] rpc_handler.init
      = .done ()
          { ec := none, response_l := [("started", .data "1")],
            sent := [[("started", .data "1")]], ops := [.block_confirm 3] }
    ∧ rpc_handler.republish sample_node [("hash", .data "1")] 0 8 rpc_handler.init
      = .done ()
          { ec := none,
            response_l := [("success", .data ""), ("blocks", .array ["1", "2", "3"])],
            sent := [[("success", .data ""), ("blocks", .array ["1", "2", "3"])]],
            ops := [.republish_block_batch [1, 2, 3]] } := by
  refine ⟨rfl, ?_, ?_, ?_, ?_, ?_⟩ <;> decide

/-- C2, amended. With `enable_control = false`, none of process, bootstrap, bootstrap_any,
block_confirm and republish ever sets the control-disabled error (the last four do not
read the flag at all); bootstrap_any starts its bootstrap and answers `success` for every
request; and the one thing the flag withholds is forcing a block over a fork in process. -/
theorem control_flag_only_guards_force (rpc : rpc) (node : node) (request : ptree)
    (source_0 fuel : Nat) (h : rpc.config.enable_control = false) :
    (rpc_handler.process rpc node request rpc_handler.init).state.ec
        ≠ some (.rpc .rpc_control_disabled)
    ∧ (rpc_handler.bootstrap node request rpc_handler.init).state.ec
        ≠ some (.rpc .rpc_control_disabled)
    ∧ rpc_handler.bootstrap_any node rpc_handler.init
        = .done ()
            { ec := none, response_l := [("success", .data "")],
              sent := [[("success", .data "")]], ops := [.bootstrap_any] }
    ∧ (rpc_handler.block_confirm node request rpc_handler.init).state.ec
        ≠ some (.rpc .rpc_control_disabled)
    ∧ (rpc_handler.republish node request source_0 fuel rpc_handler.init).state.ec
        ≠ some (.rpc .rpc_control_disabled)
    ∧ ∀ b, node_op.block_processor_force b
        ∉ (rpc_handler.process rpc node request rpc_handler.init).state.ops :=
  ⟨(process_keeps_not_refused rpc node request).holds rpc_handler.init not_refused_init,
   (bootstrap_keeps_not_refused node request).holds rpc_handler.init not_refused_init,
   rfl,
   (block_confirm_keeps_not_refused node request).holds rpc_handler.init not_refused_init,
   (republish_keeps_not_refused node request source_0 fuel).holds rpc_handler.init not_refused_init,
   (process_keeps_nothing_forced rpc node request h).holds rpc_handler.init
     (by intro b; simp [rpc_handler.init])⟩

/-- C2, amended, at the sample node for a process request with `force` set. -/
theorem control_flag_only_guards_force_witness :
    sample_rpc_disabled.config.enable_control = false
    ∧ (rpc_handler.process sample_rpc_disabled sample_node
        [("block", .data "b4"), ("force", .data "true")] rpc_handler.init).state.ec
        ≠ some (.rpc .rpc_control_disabled) :=
  ⟨rfl, (control_flag_only_guards_force sample_rpc_disabled sample_node
    [("block", .data "b4"), ("force", .data "true")] 0 8 rfl).1⟩

/-- The control flag is read by `process` at one place only, the guard of the forced
insertion: for a request without `force`, or on a node whose processor reports no fork,
`process` runs the same under any two configurations. -/
theorem process_reads_flag_only_to_force (rpc : rpc) (other : nano.rpc) (node : node)
    (request : ptree)
    (h : request.get_bool "force" false = false ∨ ∀ b, node.process_one b ≠ .fork) :
    rpc_handler.process rpc node request = rpc_handler.process other node request := by
  have hsubmit : ∀ b, rpc_handler.process_submit rpc node request b
      = rpc_handler.process_submit other node request b := by
    intro b
    unfold rpc_handler.process_submit
    rcases h with h | h
    · simp only [h, Bool.false_and]
    · have hb := h b
      cases hp : node.process_one b <;> first | exact absurd hp hb | rfl
  unfold rpc_handler.process
  simp only [hsubmit]

/-! ## C3: result codes of `process` -/

theorem process_after_check (rpc : rpc) (node : node) (request : ptree) (text : String)
    (b : block) (htext : request.get_optional "block" = some text)
    (hblock : node.block_of_text text = .parsed b)
    (hcheck : rpc_handler.passes_subtype_check node request b) :
    rpc_handler.process rpc node request rpc_handler.init
      = (rpc_handler.process_submit rpc node request b >>= fun _ =>
          rpc_handler.response_errors node) rpc_handler.init := by
  rcases hcheck with h | h | h
  · simp [rpc_handler.process, rpc_handler.block_impl, request_get, htext, hblock,
      rpc_m.bind_run, rpc_m.pure_run, no_error, rpc_handler.init, h]
  · simp [rpc_handler.process, rpc_handler.block_impl, request_get, htext, hblock,
      rpc_m.bind_run, rpc_m.pure_run, no_error, rpc_handler.init, h]
  · by_cases h1 : b.type = .state <;> by_cases h2 : request.get_or "subtype" "" = "" <;>
      simp [rpc_handler.process, rpc_handler.block_impl, request_get, htext, hblock,
        rpc_m.bind_run, rpc_m.pure_run, no_error, rpc_handler.init, h, h1, h2]

/-- C3. For every process request whose block parses and passes the subtype check: if the
work is invalid the response is the `work_low` error and nothing is performed (the block
processor is not invoked); otherwise the handler returns after invoking the block
processor, the response is `hash` with the hash of the block exactly when the result is
`progress` or it is `fork` with `force` true and `enable_control` true, each of
gap_previous, gap_source, old, bad_signature, negative_spend, balance_mismatch,
unreceivable, block_position and fork is answered with the error of the same name, and
the remaining result codes with the `other` error. -/
theorem process_result_translation (rpc : rpc) (node : node) (request : ptree) (text : String)
    (b : block) (htext : request.get_optional "block" = some text)
    (hblock : node.block_of_text text = .parsed b)
    (hcheck : rpc_handler.passes_subtype_check node request b) :
    (node.work_validate b = true →
      rpc_handler.process rpc node request rpc_handler.init
        = .done ()
            { ec := some (.blocks .work_low), response_l := [],
              sent := [error_tree node (.blocks .work_low)], ops := [] })
    ∧ (node.work_validate b = false →
      (rpc_handler.process rpc node request rpc_handler.init).returned = true
      ∧ node_op.process_one b
          ∈ (rpc_handler.process rpc node request rpc_handler.init).state.ops
      ∧ ((rpc_handler.process rpc node request rpc_handler.init).state.sent
            = [[("hash", .data (node.to_string (node.hash b)))]]
          ↔ (node.process_one b = .progress
              ∨ (node.process_one b = .fork ∧ request.get_bool "force" false = true
                  ∧ rpc.config.enable_control = true)))
      ∧ (node.process_one b = .gap_previous →
          (rpc_handler.process rpc node request rpc_handler.init).state.sent
            = [error_tree node (.process .gap_previous)])
      ∧ (node.process_one b = .gap_source →
          (rpc_handler.process rpc node request rpc_handler.init).state.sent
            = [error_tree node (.process .gap_source)])
      ∧ (node.process_one b = .old →
          (rpc_handler.process rpc node request rpc_handler.init).state.sent
            = [error_tree node (.process .old)])
      ∧ (node.process_one b = .bad_signature →
          (rpc_handler.process rpc node request rpc_handler.init).state.sent
            = [error_tree node (.process .bad_signature)])
      ∧ (node.process_one b = .negative_spend →
          (rpc_handler.process rpc node request rpc_handler.init).state.sent
            = [error_tree node (.process .negative_spend)])
      ∧ (node.process_one b = .balance_mismatch →
          (rpc_handler.process rpc node request rpc_handler.init).state.sent
            = [error_tree node (.process .balance_mismatch)])
      ∧ (node.process_one b = .unreceivable →
          (rpc_handler.process rpc node request rpc_handler.init).state.sent
            = [error_tree node (.process .unreceivable)])
      ∧ (node.process_one b = .block_position →
          (rpc_handler.process rpc node request rpc_handler.init).state.sent
            = [error_tree node (.process .block_position)])
      ∧ (node.process_one b = .fork →
          ¬ (request.get_bool "force" false = true ∧ rpc.config.enable_control = true) →
          (rpc_handler.process rpc node request rpc_handler.init).state.sent
            = [error_tree node (.process .fork)])
      ∧ (node.process_one b = .work_low ∨ node.process_one b = .other →
          (rpc_handler.process rpc node request rpc_handler.init).state.sent
            = [error_tree node (.process .other)])) := by
  rw [process_after_check rpc node request text b htext hblock hcheck]
  constructor
  · intro hw
    simp [rpc_handler.process_submit, hw, rpc_m.bind_run, rpc_m.pure_run, set_ec,
      rpc_handler.response_errors, respond, rpc_handler.init, error_tree]
  · intro hw
    by_cases hf : request.get_bool "force" false = true <;>
      by_cases hc : rpc.config.enable_control = true <;>
      cases hr : node.process_one b <;>
      simp [rpc_handler.process_submit, hw, hr, hf, hc, rpc_m.bind_run, rpc_m.pure_run, set_ec,
        rpc_handler.response_errors, respond, rpc_handler.init, error_tree, perform, put,
        run.returned, run.state, ptree.put]

/-- C3 at the sample node: the state block `b4` on top of the chain, submitted without a
subtype, is processed with result `progress`. -/
theorem process_result_translation_witness :
    (ptree.get_optional [("block", .data "b4")] "block" = some "b4"
      ∧ sample_node.block_of_text "b4" = .parsed { sample_block 4 with balance := 30, link := 0 }
      ∧ rpc_handler.passes_subtype_check sample_node [("block", .data "b4")]
          { sample_block 4 with balance := 30, link := 0 })
    ∧ (rpc_handler.process sample_rpc_disabled sample_node [("block", .data "b4")]
        rpc_handler.init).state.sent = [[("hash", .data "4")]] :=
  ⟨⟨rfl, rfl, Or.inr (Or.inl rfl)⟩,
   ((process_result_translation sample_rpc_disabled sample_node [("block", .data "b4")] "b4"
      { sample_block 4 with balance := 30, link := 0 } rfl rfl (Or.inr (Or.inl rfl))).2
      rfl).2.2.1.mpr (Or.inl rfl)⟩

/-! ## C4 and C5: the subtype check of `process` -/

theorem process_check_rejects (rpc : rpc) (node : node) (request : ptree) (text : String)
    (b : block) (e : error_code) (htext : request.get_optional "block" = some text)
    (hblock : node.block_of_text text = .parsed b) (hstate : b.type = .state)
    (hsub : request.get_or "subtype" "" ≠ "")
    (hcheck : rpc_handler.process_subtype_check node b (request.get_or "subtype" "") = some e) :
    rpc_handler.process rpc node request rpc_handler.init = rpc_handler.rejected node e := by
  simp [rpc_handler.process, rpc_handler.block_impl, request_get, htext, hblock,
    rpc_m.bind_run, rpc_m.pure_run, no_error, rpc_handler.init, hstate, hsub, hcheck, set_ec,
    rpc_handler.response_errors, respond, rpc_handler.rejected, error_tree]

/-- C4. A state block submitted to process with a non-empty subtype, `B` being the ledger
balance of its account and `b` its own balance: gap_previous when previous is non-zero and
not stored; otherwise invalid_subtype_balance for send with `B <= b`, receive with `B > b`,
change or epoch with `B != b`; invalid_subtype_previous for open with previous non-zero
and for change with `B = b` and previous zero; invalid_subtype_epoch_link for epoch with
`B = b` and a link that is not the epoch link; invalid_subtype for any other subtype word;
in each of these cases the error is the only response and nothing is performed. In every
other case the block goes on to work validation and the ledger, as do blocks that are not
state blocks and requests with an empty subtype. -/
theorem process_subtype_table (rpc : rpc) (node : node) (request : ptree) (text : String)
    (b : block) (htext : request.get_optional "block" = some text)
    (hblock : node.block_of_text text = .parsed b) :
    (b.type = .state → request.get_or "subtype" "" ≠ "" →
      (b.previous ≠ 0 ∧ node.block_exists b.previous = false →
        rpc_handler.process rpc node request rpc_handler.init
          = rpc_handler.rejected node (.process .gap_previous))
      ∧ (¬ (b.previous ≠ 0 ∧ node.block_exists b.previous = false) →
        ((request.get_or "subtype" "" = "send" ∧ node.account_balance b.account ≤ b.balance)
          ∨ (request.get_or "subtype" "" = "receive"
              ∧ node.account_balance b.account > b.balance)
          ∨ ((request.get_or "subtype" "" = "change" ∨ request.get_or "subtype" "" = "epoch")
              ∧ node.account_balance b.account ≠ b.balance) →
          rpc_handler.process rpc node request rpc_handler.init
            = rpc_handler.rejected node (.rpc .invalid_subtype_balance))
        ∧ ((request.get_or "subtype" "" = "open" ∧ b.previous ≠ 0)
          ∨ (request.get_or "subtype" "" = "change"
              ∧ node.account_balance b.account = b.balance ∧ b.previous = 0) →
          rpc_handler.process rpc node request rpc_handler.init
            = rpc_handler.rejected node (.rpc .invalid_subtype_previous))
        ∧ (request.get_or "subtype" "" = "epoch"
            ∧ node.account_balance b.account = b.balance
            ∧ node.is_epoch_link b.link = false →
          rpc_handler.process rpc node request rpc_handler.init
            = rpc_handler.rejected node (.rpc .invalid_subtype_epoch_link))
        ∧ (request.get_or "subtype" "" ∉ ["send", "receive", "open", "change", "epoch"] →
          rpc_handler.process rpc node request rpc_handler.init
            = rpc_handler.rejected node (.rpc .invalid_subtype))
        ∧ ((request.get_or "subtype" "" = "send" ∧ node.account_balance b.account > b.balance)
          ∨ (request.get_or "subtype" "" = "receive"
              ∧ node.account_balance b.account ≤ b.balance)
          ∨ (request.get_or "subtype" "" = "open" ∧ b.previous = 0)
          ∨ (request.get_or "subtype" "" = "change"
              ∧ node.account_balance b.account = b.balance ∧ b.previous ≠ 0)
          ∨ (request.get_or "subtype" "" = "epoch"
              ∧ node.account_balance b.account = b.balance
              ∧ node.is_epoch_link b.link = true) →
          rpc_handler.process rpc node request rpc_handler.init
            = rpc_handler.goes_on rpc node request b)))
    ∧ (b.type ≠ .state ∨ request.get_or "subtype" "" = "" →
        rpc_handler.process rpc node request rpc_handler.init
          = rpc_handler.goes_on rpc node request b) := by
  refine ⟨fun hstate hsub => ⟨fun hgap => ?_, fun hgap => ⟨fun h => ?_, fun h => ?_, fun h => ?_,
    fun h => ?_, fun h => ?_⟩⟩, fun h => ?_⟩
  · apply process_check_rejects rpc node request text b _ htext hblock hstate hsub
    simp [rpc_handler.process_subtype_check, hgap.1, hgap.2]
  · apply process_check_rejects rpc node request text b _ htext hblock hstate hsub
    have hg : (b.previous != 0 && !node.block_exists b.previous) = false := by
      by_cases hp : b.previous = 0 <;> simp_all
    rcases h with ⟨hs, hb⟩ | ⟨hs, hb⟩ | ⟨hs | hs, hb⟩ <;>
      simp [rpc_handler.process_subtype_check, hg, hs, hb]
  · apply process_check_rejects rpc node request text b _ htext hblock hstate hsub
    have hg : (b.previous != 0 && !node.block_exists b.previous) = false := by
      by_cases hp : b.previous = 0 <;> simp_all
    rcases h with ⟨hs, hb⟩ | ⟨hs, hb, hp⟩ <;>
      simp [rpc_handler.process_subtype_check, hg, *]
  · apply process_check_rejects rpc node request text b _ htext hblock hstate hsub
    have hg : (b.previous != 0 && !node.block_exists b.previous) = false := by
      by_cases hp : b.previous = 0 <;> simp_all
    obtain ⟨hs, hb, hl⟩ := h
    simp [rpc_handler.process_subtype_check, hg, hs, hb, hl]
  · apply process_check_rejects rpc node request text b _ htext hblock hstate hsub
    have hg : (b.previous != 0 && !node.block_exists b.previous) = false := by
      by_cases hp : b.previous = 0 <;> simp_all
    simp only [List.mem_cons, List.mem_singleton, List.not_mem_nil, or_false, not_or] at h
    simp [rpc_handler.process_subtype_check, hg, h.1, h.2.1, h.2.2.1, h.2.2.2.1, h.2.2.2.2]
  · apply process_after_check rpc node request text b htext hblock
    right; right
    have hg : (b.previous != 0 && !node.block_exists b.previous) = false := by
      by_cases hp : b.previous = 0 <;> simp_all
    rcases h with ⟨hs, hb⟩ | ⟨hs, hb⟩ | ⟨hs, hp⟩ | ⟨hs, hb, hp⟩ | ⟨hs, hb, hl⟩ <;>
      simp [rpc_handler.process_subtype_check, hg, *]
  · apply process_after_check rpc node request text b htext hblock
    rcases h with h | h
    · exact Or.inl h
    · exact Or.inr (Or.inl h)

/-- C4 at the sample node: the block `b4` (balance 30 on an account holding 30) declared
as a send is answered with invalid_subtype_balance. -/
theorem process_subtype_table_witness :
    (ptree.get_optional [("block", .data "b4"), ("subtype", .data "send")] "block" = some "b4"
      ∧ sample_node.block_of_text "b4" = .parsed { sample_block 4 with balance := 30, link := 0 })
    ∧ rpc_handler.process sample_rpc_enabled sample_node
        [("block", .data "b4"), ("subtype", .data "send")] rpc_handler.init
      = rpc_handler.rejected sample_node (.rpc .invalid_subtype_balance) :=
  ⟨⟨rfl, rfl⟩,
   (((process_subtype_table sample_rpc_enabled sample_node
      [("block", .data "b4"), ("subtype", .data "send")] "b4"
      { sample_block 4 with balance := 30, link := 0 } rfl rfl).1 rfl (by decide)).2
      (by decide)).1 (Or.inl ⟨rfl, by decide⟩)⟩

/-- C5 as stated fails at the sample node (account 7 holds 30, account 8 holds nothing).
The check accepts as receive a block with equal balance and non-zero link, and one with a
larger balance and zero link; as open a block with zero link, and one with zero balance;
as change a block with a non-zero link. The first of them is a block for which section
4.2 derives no receive. -/
theorem subtype_check_accepts_underived :
    (rpc_handler.process_subtype_check sample_node
        { type := .state, account := 7, previous := 3, balance := 30, link := 9 } "receive"
          = none
      ∧ ¬ (30 > sample_node.account_balance 7 ∧ 9 ≠ 0)
      ∧ ledger_state_subtype sample_node.is_epoch_link 3 30 9 (sample_node.account_balance 7)
          ≠ some "receive")
    ∧ (rpc_handler.process_subtype_check sample_node
        { type := .state, account := 7, previous := 3, balance := 31, link := 0 } "receive"
          = none
      ∧ ¬ (31 > sample_node.account_balance 7 ∧ 0 ≠ 0))
    ∧ (rpc_handler.process_subtype_check sample_node
        { type := .state, account := 8, previous := 0, balance := 5, link := 0 } "open" = none
      ∧ ¬ (0 = 0 ∧ 0 ≠ 0 ∧ 5 > 0))
    ∧ (rpc_handler.process_subtype_check sample_node
        { type := .state, account := 8, previous := 0, balance := 0, link := 9 } "open" = none
      ∧ ¬ (0 = 0 ∧ 9 ≠ 0 ∧ 0 > 0))
    ∧ (rpc_handler.process_subtype_check sample_node
        { type := .state, account := 7, previous := 3, balance := 30, link := 9 } "change"
          = none
      ∧ ¬ (sample_node.account_balance 7 = 30 ∧ 9 = 0)) := by
  decide

theorem subtype_check_receive (node : node) (b : block)
    (h : rpc_handler.process_subtype_check node b "receive" = none) :
    b.balance ≥ node.account_balance b.account := by
  simp [rpc_handler.process_subtype_check] at h
  split_ifs at h with h1 h2
  exact Nat.le_of_not_lt h2

theorem subtype_check_send (node : node) (b : block)
    (h : rpc_handler.process_subtype_check node b "send" = none) :
    b.balance < node.account_balance b.account := by
  simp [rpc_handler.process_subtype_check] at h
  split_ifs at h with h1 h2
  exact Nat.lt_of_not_le h2

theorem subtype_check_open (node : node) (b : block)
    (h : rpc_handler.process_subtype_check node b "open" = none) :
    b.previous = 0 := by
  simp [rpc_handler.process_subtype_check] at h
  split_ifs at h with h1 h2
  exact h2

theorem subtype_check_change (node : node) (b : block)
    (h : rpc_handler.process_subtype_check node b "change" = none) :
    node.account_balance b.account = b.balance := by
  simp [rpc_handler.process_subtype_check] at h
  split_ifs at h with h1 h2 h3
  exact h2

theorem subtype_check_link (node : node) (b : block) (subtype_text : String) (link : Nat)
    (he : subtype_text ≠ "epoch") :
    rpc_handler.process_subtype_check node { b with link := link } subtype_text
      = rpc_handler.process_subtype_check node b subtype_text := by
  simp [rpc_handler.process_subtype_check, he]

/-- C5, amended. Whenever the subtype check accepts a state block under a declared
subtype: receive only if the block balance is at least the current balance of the account,
send only if it is strictly smaller, open only if previous is zero, change only if the two
balances are equal. The link is not examined for any of the four: the same block with any
other link is accepted too. -/
theorem subtype_check_accepts_only (node : node) (b : block) (subtype_text : String)
    (h : rpc_handler.process_subtype_check node b subtype_text = none) :
    (subtype_text = "receive" → b.balance ≥ node.account_balance b.account)
    ∧ (subtype_text = "send" → b.balance < node.account_balance b.account)
    ∧ (subtype_text = "open" → b.previous = 0)
    ∧ (subtype_text = "change" → node.account_balance b.account = b.balance)
    ∧ (subtype_text ≠ "epoch" → ∀ link,
        rpc_handler.process_subtype_check node { b with link := link } subtype_text = none) :=
  ⟨fun hs => subtype_check_receive node b (hs ▸ h),
   fun hs => subtype_check_send node b (hs ▸ h),
   fun hs => subtype_check_open node b (hs ▸ h),
   fun hs => subtype_check_change node b (hs ▸ h),
   fun he link => (subtype_check_link node b subtype_text link he).trans h⟩

/-- C5, amended, at the sample node: a receive accepted at equal balance. -/
theorem subtype_check_accepts_only_witness :
    rpc_handler.process_subtype_check sample_node
        { type := .state, account := 7, previous := 3, balance := 30, link := 9 } "receive"
      = none
    ∧ (30 : Nat) ≥ sample_node.account_balance 7 :=
  ⟨by decide,
   (subtype_check_accepts_only sample_node
      { type := .state, account := 7, previous := 3, balance := 30, link := 9 } "receive"
      (by decide)).1 rfl⟩

/-! ## C6: `chain` and `successors` -/

theorem chain_loop_zero (node : node) (successors : Bool) (count fuel size offset : Nat) :
    rpc_handler.chain_loop node successors count fuel 0 size offset = some [] := by
  cases fuel <;> simp [rpc_handler.chain_loop]

theorem chain_loop_full (node : node) (successors : Bool) (count fuel hash size offset : Nat)
    (h : count ≤ size) :
    rpc_handler.chain_loop node successors count fuel hash size offset = some [] := by
  have h' : ¬ size < count := Nat.not_lt.mpr h
  cases fuel <;> simp [rpc_handler.chain_loop, h']

theorem walk_zero (node : node) (successors : Bool) (n : Nat) :
    rpc_handler.walk node successors n 0 = [] := by
  cases n <;> simp [rpc_handler.walk]

/-- The loop of `chain` with enough fuel is the cut of the walk: it never runs out of fuel
and collects `count - size` entries after skipping `offset`. -/
theorem chain_loop_eq (node : node) (successors : Bool) (count : Nat) :
    ∀ (fuel hash size offset n : Nat), offset + (count - size) < fuel →
      rpc_handler.walk_ends node successors n hash →
      rpc_handler.chain_loop node successors count fuel hash size offset
        = some (((rpc_handler.walk node successors n hash).drop offset).take (count - size)) := by
  intro fuel
  induction fuel with
  | zero => intro hash size offset n h; exact absurd h (Nat.not_lt_zero _)
  | succ fuel ih =>
    intro hash size offset n hfuel hends
    by_cases hz : hash = 0
    · subst hz
      rw [chain_loop_zero, walk_zero]
      simp
    by_cases hs : size < count
    · cases n with
      | zero => exact absurd hends (Nat.not_lt_zero _)
      | succ n =>
        cases hb : node.block_get hash with
        | none =>
          simp [rpc_handler.chain_loop, rpc_handler.walk, hz, hs, hb, chain_loop_zero]
        | some block_l =>
          have hends' : rpc_handler.walk_ends node successors n
              (rpc_handler.chain_next node successors hash block_l) := by
            unfold rpc_handler.walk_ends at hends ⊢
            simp only [rpc_handler.walk, hz, hb, if_false, List.length_cons] at hends
            omega
          by_cases ho : offset > 0
          · have := ih (rpc_handler.chain_next node successors hash block_l) size (offset - 1) n
              (by omega) hends'
            obtain ⟨k, rfl⟩ : ∃ k, offset = k + 1 := ⟨offset - 1, by omega⟩
            simp only [Nat.add_sub_cancel] at this
            simp [rpc_handler.chain_loop, rpc_handler.walk, hz, hs, hb]
            simpa [rpc_handler.chain_next] using this
          · have ho0 : offset = 0 := by omega
            subst ho0
            have := ih (rpc_handler.chain_next node successors hash block_l) (size + 1) 0 n
              (by omega) hends'
            obtain ⟨k, hk⟩ : ∃ k, count - size = k + 1 := ⟨count - size - 1, by omega⟩
            have hk' : count - (size + 1) = k := by omega
            rw [hk'] at this
            simp [rpc_handler.chain_loop, rpc_handler.walk, hz, hs, hb, hk]
            simpa [rpc_handler.chain_next] using this
    · rw [chain_loop_full node successors count _ hash size offset (Nat.le_of_not_lt hs)]
      have : count - size = 0 := by omega
      simp [this]

/-- A store without cycles: some rank strictly decreases along the links of stored
blocks. The walk from any hash then ends within `rank hash + 1` steps. -/
theorem walk_ends_of_rank (node : node) (successors : Bool) (rank : Nat → Nat)
    (hrank : ∀ hash block_l, hash ≠ 0 → node.block_get hash = some block_l →
      rank (rpc_handler.chain_next node successors hash block_l) < rank hash) :
    ∀ (n hash : Nat), rank hash < n → rpc_handler.walk_ends node successors n hash := by
  intro n
  induction n with
  | zero => intro hash h; exact absurd h (Nat.not_lt_zero _)
  | succ n ih =>
    intro hash h
    unfold rpc_handler.walk_ends
    by_cases hz : hash = 0
    · simp [rpc_handler.walk, hz]
    · cases hb : node.block_get hash with
      | none => simp [rpc_handler.walk, hz, hb]
      | some block_l =>
        have := ih (rpc_handler.chain_next node successors hash block_l)
          (by have := hrank hash block_l hz hb; omega)
        unfold rpc_handler.walk_ends at this
        simp [rpc_handler.walk, hz, hb]
        exact this

theorem chain_run (node : node) (request : ptree) (successors : Bool)
    (hash count offset n : Nat) (hrequest : rpc_handler.chain_request node request hash count offset)
    (hcount : 1 ≤ count)
    (hends : rpc_handler.walk_ends node (successors != request.get_bool "reverse" false) n hash) :
    rpc_handler.chain node request successors rpc_handler.init
      = .done ()
          { ec := none,
            response_l := [("blocks", .array ((((rpc_handler.walk node
              (successors != request.get_bool "reverse" false) n hash).drop offset).take
                count).map node.to_string))],
            sent := [[("blocks", .array ((((rpc_handler.walk node
              (successors != request.get_bool "reverse" false) n hash).drop offset).take
                count).map node.to_string))]],
            ops := [] } := by
  obtain ⟨⟨hash_text, hh1, hh2⟩, ⟨count_text, hc1, hc2⟩, ho⟩ := hrequest
  have hloop := chain_loop_eq node (successors != request.get_bool "reverse" false) count
    (offset + count + 1) hash 0 offset n (by omega) hends
  have hc0 : count ≠ 0 := by omega
  rcases ho with ⟨ho1, ho2⟩ | ⟨offset_text, ho1, ho2⟩
  · subst ho2
    simp [rpc_handler.chain, rpc_handler.hash_impl, rpc_handler.count_impl,
      rpc_handler.offset_optional_impl, request_get, decode_unsigned, hh1, hh2, hc1, hc2, ho1,
      hc0, rpc_m.bind_run, rpc_m.pure_run, no_error, rpc_handler.init, add_child,
      ptree.add_child, rpc_handler.response_errors, respond] at hloop ⊢
    rw [hloop]
    simp [rpc_m.bind_run, add_child, ptree.add_child, rpc_handler.response_errors, respond]
  · simp [rpc_handler.chain, rpc_handler.hash_impl, rpc_handler.count_impl,
      rpc_handler.offset_optional_impl, request_get, decode_unsigned, hh1, hh2, hc1, hc2, ho1,
      ho2, hc0, rpc_m.bind_run, rpc_m.pure_run, no_error, rpc_handler.init, add_child,
      ptree.add_child, rpc_handler.response_errors, respond] at hloop ⊢
    rw [hloop]
    simp [rpc_m.bind_run, add_child, ptree.add_child, rpc_handler.response_errors, respond]

/-- C6. For a request with valid block `hash`, count `count >= 1` and offset `offset`, on a
store where the walk from `hash` ends (as it does when the links have no cycle), `chain`
and `successors` return, and the `blocks` list is `take count (drop offset walk)`, the walk
following previous links for chain and stored successors for successors, with `reverse`
swapping the two. So a request of either verb with the same fields and the same resulting
direction, such as chain with reverse=true against successors, gets the same response. -/
theorem chain_is_cut_of_walk (node : node) (request : ptree) (successors : Bool)
    (hash count offset n : Nat)
    (hrequest : rpc_handler.chain_request node request hash count offset)
    (hcount : 1 ≤ count)
    (hends : rpc_handler.walk_ends node (successors != request.get_bool "reverse" false) n hash) :
    rpc_handler.chain node request successors rpc_handler.init
      = .done ()
          { ec := none,
            response_l := [("blocks", .array ((((rpc_handler.walk node
              (successors != request.get_bool "reverse" false) n hash).drop offset).take
                count).map node.to_string))],
            sent := [[("blocks", .array ((((rpc_handler.walk node
              (successors != request.get_bool "reverse" false) n hash).drop offset).take
                count).map node.to_string))]],
            ops := [] }
    ∧ ∀ (request' : ptree) (successors' : Bool),
        rpc_handler.chain_request node request' hash count offset →
        (successors' != request'.get_bool "reverse" false)
          = (successors != request.get_bool "reverse" false) →
        rpc_handler.chain node request' successors' rpc_handler.init
          = rpc_handler.chain node request successors rpc_handler.init := by
  refine ⟨chain_run node request successors hash count offset n hrequest hcount hends, ?_⟩
  intro request' successors' hrequest' hdir
  rw [chain_run node request successors hash count offset n hrequest hcount hends,
    chain_run node request' successors' hash count offset n hrequest' hcount (hdir ▸ hends),
    hdir]

/-- C6 at the sample node: chain from block 3 with count 2 lists 3 and 2, and successors
with reverse=true answers the same. -/
theorem chain_is_cut_of_walk_witness :
    (rpc_handler.chain_request sample_node [("block", .data "3"), ("count", .data "2")] 3 2 0
      ∧ 1 ≤ 2
      ∧ rpc_handler.walk_ends sample_node
          (false != ptree.get_bool [("block", .data "3"), ("count", .data "2")] "reverse" false)
          4 3)
    ∧ (rpc_handler.chain sample_node [("block", .data "3"), ("count", .data "2")] false
        rpc_handler.init).state.sent = [[("blocks", .array ["3", "2"])]]
    ∧ rpc_handler.chain sample_node
        [("block", .data "3"), ("count", .data "2"), ("reverse", .data "true")] true
        rpc_handler.init
      = rpc_handler.chain sample_node [("block", .data "3"), ("count", .data "2")] false
        rpc_handler.init := by
  have hrequest : rpc_handler.chain_request sample_node
      [("block", .data "3"), ("count", .data "2")] 3 2 0 :=
    ⟨⟨"3", by decide, by decide⟩, ⟨"2", by decide, by decide⟩, Or.inl ⟨by decide, rfl⟩⟩
  have hrequest' : rpc_handler.chain_request sample_node
      [("block", .data "3"), ("count", .data "2"), ("reverse", .data "true")] 3 2 0 :=
    ⟨⟨"3", by decide, by decide⟩, ⟨"2", by decide, by decide⟩, Or.inl ⟨by decide, rfl⟩⟩
  have hends : rpc_handler.walk_ends sample_node
      (false != ptree.get_bool [("block", .data "3"), ("count", .data "2")] "reverse" false)
      4 3 := by
    unfold rpc_handler.walk_ends
    decide
  have h := chain_is_cut_of_walk sample_node [("block", .data "3"), ("count", .data "2")] false
    3 2 0 4 hrequest (by decide) hends
  refine ⟨⟨hrequest, by decide, hends⟩, ?_, h.2 _ true hrequest' (by decide)⟩
  rw [h.1]
  decide

/-! ## C7 and C8: unit conversion -/

theorem to_raw_run (node : node) (request : ptree) (amount_text : String) (a r : Nat)
    (htext : request.get_optional "amount" = some amount_text)
    (hdec : node.decode_dec amount_text = some a) (ha : a < 2 ^ 128) (hr : r < 2 ^ 128) :
    rpc_handler.mFLR_to_raw node request r rpc_handler.init
      = if a * r % 2 ^ 128 > a then rpc_handler.converted (a * r % 2 ^ 128)
        else rpc_handler.rejected node (.common .invalid_amount_big) := by
  have ha' : a % 2 ^ 128 = a := Nat.mod_eq_of_lt ha
  have hr' : r % 2 ^ 128 = r := Nat.mod_eq_of_lt hr
  have h128 : (2 : Nat) ^ 128 = 340282366920938463463374607431768211456 := by norm_num
  rw [h128] at ha' hr'
  by_cases h : a * r % 340282366920938463463374607431768211456 > a
  · simp [rpc_handler.mFLR_to_raw, rpc_handler.amount_impl, request_get, htext, hdec,
      rpc_m.bind_run, rpc_m.pure_run, no_error, rpc_handler.init, ha', hr', h, put, ptree.put,
      rpc_handler.response_errors, respond, rpc_handler.converted]
  · simp [rpc_handler.mFLR_to_raw, rpc_handler.amount_impl, request_get, htext, hdec,
      rpc_m.bind_run, rpc_m.pure_run, no_error, rpc_handler.init, ha', hr', h, set_ec,
      rpc_handler.response_errors, respond, rpc_handler.rejected, error_tree]

theorem from_raw_run (node : node) (request : ptree) (amount_text : String) (a r : Nat)
    (htext : request.get_optional "amount" = some amount_text)
    (hdec : node.decode_dec amount_text = some a) (ha : a < 2 ^ 128) (hr : r < 2 ^ 128)
    (hr0 : r ≠ 0) :
    rpc_handler.mFLR_from_raw node request r rpc_handler.init
      = rpc_handler.converted (a / r) := by
  have ha' : a % 2 ^ 128 = a := Nat.mod_eq_of_lt ha
  have hr' : r % 2 ^ 128 = r := Nat.mod_eq_of_lt hr
  have h128 : (2 : Nat) ^ 128 = 340282366920938463463374607431768211456 := by norm_num
  rw [h128] at ha' hr'
  simp [rpc_handler.mFLR_from_raw, rpc_handler.amount_impl, request_get, htext, hdec,
    rpc_m.bind_run, rpc_m.pure_run, no_error, rpc_handler.init, ha', hr', hr0, put, ptree.put,
    rpc_handler.response_errors, respond, rpc_handler.converted]

/-- Where the product does not wrap and is larger than the amount (amount at least 1,
ratio at least 2), the to-raw conversion answers the exact product. -/
theorem to_raw_exact (node : node) (request : ptree) (amount_text : String) (a r : Nat)
    (htext : request.get_optional "amount" = some amount_text)
    (hdec : node.decode_dec amount_text = some a) (ha : 1 ≤ a) (hr : 2 ≤ r)
    (hfit : a * r ≤ 2 ^ 128 - 1) :
    rpc_handler.mFLR_to_raw node request r rpc_handler.init
      = rpc_handler.converted (a * r) := by
  have hlt : a * r < 2 ^ 128 := by
    have : 0 < 2 ^ 128 := by norm_num
    omega
  have ha1 : a ≤ a * r := Nat.le_mul_of_pos_right a (by omega)
  have hr1 : r ≤ a * r := Nat.le_mul_of_pos_left r (by omega)
  have hgt : a < a * r := by
    have : a * 2 ≤ a * r := Nat.mul_le_mul_left a hr
    omega
  rw [to_raw_run node request amount_text a r htext hdec (by omega) (by omega),
    Nat.mod_eq_of_lt hlt, if_pos hgt]

/-- The to-raw conversion answers `Amount too big` for amount 0, whatever the ratio. -/
theorem to_raw_zero (node : node) (request : ptree) (amount_text : String) (r : Nat)
    (htext : request.get_optional "amount" = some amount_text)
    (hdec : node.decode_dec amount_text = some 0) :
    rpc_handler.mFLR_to_raw node request r rpc_handler.init
      = rpc_handler.rejected node (.common .invalid_amount_big) := by
  simp [rpc_handler.mFLR_to_raw, rpc_handler.amount_impl, request_get, htext, hdec,
    rpc_m.bind_run, rpc_m.pure_run, no_error, rpc_handler.init, set_ec,
    rpc_handler.response_errors, respond, rpc_handler.rejected, error_tree]

/-- C7, the code at the failing input: amount `0` (with `0 * r = 0` far below the 128-bit
limit) is answered with `Amount too big` by all three to-raw conversions of the sample
node, while the from-raw conversion on the same amount answers `0`. -/
theorem to_raw_rejects_amount_zero :
    rpc_handler.mFLR_to_raw sample_node [("amount", .data "0")] sample_node.mFLR_ratio
        rpc_handler.init
      = rpc_handler.rejected sample_node (.common .invalid_amount_big)
    ∧ rpc_handler.mFLR_to_raw sample_node [("amount", .data "0")] sample_node.kFLR_ratio
        rpc_handler.init
      = rpc_handler.rejected sample_node (.common .invalid_amount_big)
    ∧ rpc_handler.mFLR_to_raw sample_node [("amount", .data "0")] sample_node.FLR_ratio
        rpc_handler.init
      = rpc_handler.rejected sample_node (.common .invalid_amount_big)
    ∧ 0 * sample_node.mFLR_ratio ≤ 2 ^ 128 - 1
    ∧ rpc_handler.mFLR_from_raw sample_node [("amount", .data "0")] sample_node.mFLR_ratio
        rpc_handler.init
      = rpc_handler.converted 0 :=
  ⟨to_raw_zero sample_node _ "0" _ rfl rfl, to_raw_zero sample_node _ "0" _ rfl rfl,
   to_raw_zero sample_node _ "0" _ rfl rfl, by decide, by decide⟩

/-- Without a wrap the round trip holds: a successful to-raw result divided by the ratio
is the amount again. -/
theorem from_raw_of_exact (a r : Nat) (hr : 2 ≤ r) : a * r / r = a :=
  Nat.mul_div_cancel a (by omega)

/-- C8, the code at the failing input, with the ratio `10 ^ 24` of the sample node: the
product `10 ^ 15 * 10 ^ 24` does not fit 128 bits, the to-raw conversion still succeeds
with the wrapped value, and the from-raw conversion of that value is not `10 ^ 15`. -/
theorem to_raw_wrap_breaks_round_trip :
    ¬ (1000000000000000 * sample_node.FLR_ratio ≤ 2 ^ 128 - 1)
    ∧ rpc_handler.mFLR_to_raw sample_node [("amount", .data "1000000000000000")]
        sample_node.FLR_ratio rpc_handler.init
      = rpc_handler.converted 319435266158123073073250785136463577088
    ∧ rpc_handler.mFLR_from_raw sample_node
        [("amount", .data "319435266158123073073250785136463577088")] sample_node.FLR_ratio
        rpc_handler.init
      = rpc_handler.converted 319435266158123
    ∧ (319435266158123 : Nat) ≠ 1000000000000000 := by
  refine ⟨by decide, ?_, ?_, by decide⟩
  · rw [to_raw_run sample_node [("amount", .data "1000000000000000")] "1000000000000000"
      1000000000000000 sample_node.FLR_ratio rfl rfl (by decide) (by decide)]
    rfl
  · rw [from_raw_run sample_node [("amount", .data "319435266158123073073250785136463577088")]
      "319435266158123073073250785136463577088" 319435266158123073073250785136463577088
      sample_node.FLR_ratio rfl rfl (by decide) (by decide) (by decide)]
    rfl

/-! ## C10: the depth check of `process_request` -/

theorem max_depth_exceeded_iff (max_json_depth : Nat) :
    ∀ (body : List Char) (max_depth_possible : Nat), max_depth_possible ≤ max_json_depth →
      (rpc_handler.max_depth_exceeded max_json_depth body max_depth_possible = true
        ↔ max_json_depth < max_depth_possible + opening_brackets body) := by
  intro body
  induction body with
  | nil => intro d hd; simp [rpc_handler.max_depth_exceeded, opening_brackets]; omega
  | cons ch rest ih =>
    intro d hd
    by_cases hch : ch = '[' ∨ ch = '{'
    · by_cases hlim : d ≥ max_json_depth
      · simp [rpc_handler.max_depth_exceeded, opening_brackets, hch, hlim]
        omega
      · have := ih (d + 1) (by omega)
        simp only [opening_brackets] at this
        simp [rpc_handler.max_depth_exceeded, opening_brackets, hch, hlim, this]
        omega
    · have := ih d hd
      simp only [opening_brackets] at this
      simp [rpc_handler.max_depth_exceeded, opening_brackets, hch, this]

theorem json_nesting_depth_le :
    ∀ (body : List Char) (depth : Nat) (in_string escaped : Bool),
      json_nesting_depth body depth in_string escaped ≤ depth + opening_brackets body := by
  intro body
  induction body with
  | nil => intro d s e; simp [json_nesting_depth, opening_brackets]
  | cons ch rest ih =>
    intro d s e
    have h1 := ih d true false
    have h2 := ih d true true
    have h3 := ih d false false
    have h4 := ih (d + 1) false false
    have h5 := ih (d - 1) false false
    simp only [opening_brackets] at h1 h2 h3 h4 h5
    by_cases hch : ch = '[' ∨ ch = '{'
    · have hlen : opening_brackets (ch :: rest) = opening_brackets rest + 1 := by
        simp [opening_brackets, hch]
      rw [hlen]
      simp only [opening_brackets, json_nesting_depth, hch, if_true]
      split_ifs <;> omega
    · have hlen : opening_brackets (ch :: rest) = opening_brackets rest := by
        simp [opening_brackets, hch]
      rw [hlen]
      simp only [opening_brackets, json_nesting_depth, hch, if_false]
      split_ifs <;> omega

theorem process_request_depth (rpc : rpc) (node : node) (body : String)
    (source_0 fuel : Nat) :
    rpc_handler.process_request rpc node body source_0 fuel rpc_handler.init
      = (if rpc.config.max_json_depth < opening_brackets body.toList then
          rpc_handler.depth_rejected
        else
          rpc_handler.catch_all (rpc_handler.dispatch rpc node body source_0 fuel)
            rpc_handler.init) := by
  have h := max_depth_exceeded_iff rpc.config.max_json_depth body.toList 0 (Nat.zero_le _)
  simp only [Nat.zero_add] at h
  unfold rpc_handler.process_request rpc_handler.catch_all
  by_cases hlt : rpc.config.max_json_depth < opening_brackets body.toList
  · have he := h.mpr hlt
    simp only [he, hlt, ↓reduceIte]
    rfl
  · have he : rpc_handler.max_depth_exceeded rpc.config.max_json_depth body.toList 0 = false := by
      cases hx : rpc_handler.max_depth_exceeded rpc.config.max_json_depth body.toList 0
      · rfl
      · exact absurd (h.mp hx) hlt
    simp only [he, hlt, ↓reduceIte]
    rfl

theorem shallow_body_brackets : opening_brackets shallow_body.toList = 22 := by
  decide

set_option maxRecDepth 8000 in
theorem shallow_body_depth : json_nesting_depth shallow_body.toList 0 false false = 2 := by
  decide

/-- C10 as stated fails: the body `shallow_body` has nesting depth 2, within the default
limit 20, and is answered with `Max JSON depth exceeded`. -/
theorem depth_check_rejects_shallow_body :
    json_nesting_depth shallow_body.toList 0 false false = 2
    ∧ sample_rpc_enabled.config.max_json_depth = 20
    ∧ rpc_handler.process_request sample_rpc_enabled sample_node shallow_body 0 8
        rpc_handler.init
      = rpc_handler.depth_rejected := by
  refine ⟨shallow_body_depth, rfl, ?_⟩
  rw [process_request_depth, shallow_body_brackets]
  rfl

/-- C10, amended. `process_request` answers `Max JSON depth exceeded`, before parsing,
exactly for the bodies that hold more than `max_json_depth` characters `[` or `{`; every
other body goes to parsing and dispatch. The nesting depth of a body never exceeds that
number of characters, so every body nested deeper than the limit is rejected. -/
theorem depth_check_counts_brackets (rpc : rpc) (node : node) (body : String)
    (source_0 fuel : Nat) :
    rpc_handler.process_request rpc node body source_0 fuel rpc_handler.init
      = (if rpc.config.max_json_depth < opening_brackets body.toList then
          rpc_handler.depth_rejected
        else
          rpc_handler.catch_all (rpc_handler.dispatch rpc node body source_0 fuel)
            rpc_handler.init)
    ∧ json_nesting_depth body.toList 0 false false ≤ opening_brackets body.toList :=
  ⟨process_request_depth rpc node body source_0 fuel,
   by simpa using json_nesting_depth_le body.toList 0 false false⟩

set_option linter.unusedTactic false

set_option linter.unreachableTactic false

/-! ## C11: the configuration written and read back -/

theorem ptree.lookup_put (t : ptree) (key value key2 : String) :
    List.lookup key2 (ptree.put t key value)
      = if key = key2 then some (.data value) else List.lookup key2 t := by
  induction t with
  | nil =>
    by_cases h : key = key2
    · subst h; simp [ptree.put, List.lookup]
    · have h2 : (key2 == key) = false := by simpa using fun h3 => h h3.symm
      simp [ptree.put, List.lookup, h, h2]
  | cons head rest ih =>
    obtain ⟨k, v⟩ := head
    simp only [ptree.put]
    by_cases hk : k = key
    · subst hk
      by_cases h : k = key2
      · subst h; simp [List.lookup]
      · have h2 : (key2 == k) = false := by simpa using fun h3 => h h3.symm
        simp [List.lookup, h, h2]
    · simp only [hk, if_false]
      by_cases h : key2 = k
      · subst h
        have : ¬ key = key2 := fun h3 => hk h3.symm
        simp [List.lookup, this]
      · have h2 : (key2 == k) = false := by simpa using h
        simp only [List.lookup, h2]
        exact ih

theorem ptree.get_optional_put (t : ptree) (key value key2 : String) :
    ptree.get_optional (ptree.put t key value) key2
      = if key = key2 then some value else ptree.get_optional t key2 := by
  unfold ptree.get_optional
  rw [ptree.lookup_put]
  split <;> simp [pvalue.text]

/-- C11: reading back the tree that `serialize_json` wrote for a configuration `c`
succeeds and yields the seven serialised fields of `c`, whatever the target held before
(its `secure` member, which is not written, stays as it was). The tree written into is any
tree without an error and without a `secure` child, and the text conversions of
`nano::jsonconfig` are taken to read back the values of `c` they wrote. -/
theorem rpc_config_round_trip (text : jsonconfig_text) (c target : rpc_config)
    (json : jsonconfig) (herror : json.error = false)
    (hsecure : List.lookup "secure" json.tree = none)
    (haddress : text.address_from_string (text.address_to_string c.address) = some c.address)
    (hport : text.get_uint16 (text.put_uint16 c.port) = some c.port)
    (hcontrol : text.get_bool (text.put_bool c.enable_control) = some c.enable_control)
    (hfrontier : text.get_uint64 (text.put_uint64 c.frontier_request_limit)
      = some c.frontier_request_limit)
    (hchain : text.get_uint64 (text.put_uint64 c.chain_request_limit)
      = some c.chain_request_limit)
    (hdepth : text.get_uint8 (text.put_uint8 c.max_json_depth) = some c.max_json_depth)
    (hsign : text.get_bool (text.put_bool c.enable_sign_hash) = some c.enable_sign_hash) :
    (c.serialize_json text json).error = false
      ∧ (target.deserialize_json text (c.serialize_json text json)).2.error = false
      ∧ (target.deserialize_json text (c.serialize_json text json)).1
          = { c with secure := target.secure } := by
  have hchild : (c.serialize_json text json).get_optional_child "secure" = none := by
    simp [rpc_config.serialize_json, jsonconfig.get_optional_child, jsonconfig.put,
      ptree.lookup_put, hsecure]
  simp only [rpc_config.deserialize_json, hchild]
  simp [rpc_config.serialize_json, jsonconfig.put, jsonconfig.get_required,
    jsonconfig.get_optional, ptree.get_optional_put, herror, haddress, hport, hcontrol,
    hfrontier, hchain, hdepth, hsign]

/-- C11 for the configuration of the test `rpc_config.serialization`, read into a
default configuration. -/
theorem rpc_config_round_trip_witness :
    sample_text.get_uint8 (sample_text.put_uint8 sample_config.max_json_depth)
        = some sample_config.max_json_depth
      ∧ (sample_config.serialize_json sample_text {}).error = false
      ∧ ((rpc_config.mk_default 7076 false).deserialize_json sample_text
          (sample_config.serialize_json sample_text {})).2.error = false
      ∧ ((rpc_config.mk_default 7076 false).deserialize_json sample_text
          (sample_config.serialize_json sample_text {})).1
        = { sample_config with secure := (rpc_config.mk_default 7076 false).secure } :=
  ⟨by decide, rpc_config_round_trip sample_text sample_config (rpc_config.mk_default 7076 false)
    {} rfl rfl (by decide) (by decide) (by decide) (by decide) (by decide) (by decide)
    (by decide)⟩

/-! ## C16: the send branch of `block_create` -/

theorem block_create_run (rpc : rpc) (node : node) (request : ptree) (l : block_create_locals)
    (s1 : rpc_handler) (hcontrol : rpc.config.enable_control = true)
    (hread : rpc_handler.block_create_read node request rpc_handler.init = .done l s1) :
    rpc_handler.block_create rpc node request rpc_handler.init
      = (rpc_handler.block_create_build node l >>= fun _ => rpc_handler.response_errors node)
          s1 := by
  have h0 : rpc_handler.block_create_read node request
      { ec := none, response_l := [], sent := [], ops := [] } = .done l s1 := hread
  simp [rpc_handler.block_create, rpc_m.bind_run, rpc_m.pure_run, rpc_handler.rpc_control_impl,
    no_error, hcontrol, rpc_handler.init, h0]

theorem block_create_ledger_run (node : node) (l : block_create_locals) (s : rpc_handler) :
    ∃ s2 : rpc_handler, s2.response_l = s.response_l ∧ s2.sent = s.sent
      ∧ (s2.ec = s.ec ∨ s2.ec = some (.rpc .block_create_balance_mismatch))
      ∧ (s2.ec = none → s.ec = none)
      ∧ rpc_handler.block_create_ledger node l.type (node.pub_key l.prv) l.previous l.balance
          l.previous_text l.balance_text s
        = .done (l.previous_used node, l.balance_used node) s2 := by
  simp only [rpc_handler.block_create_ledger, block_create_locals.previous_used,
    block_create_locals.balance_used, block_create_locals.pub]
  by_cases hf : (l.previous_text.isNone && l.balance_text.isNone) = true
  · exact ⟨s, rfl, rfl, Or.inl rfl, id, by simp only [hf, if_true]; rfl⟩
  · simp only [hf, if_false, Bool.false_eq_true]
    by_cases hg : (l.previous_text.isSome && l.balance_text.isSome && l.type == "send") = true
    · simp only [hg, if_true]
      by_cases hm : (node.block_exists l.previous && node.block_balance l.previous != l.balance)
          = true
      · exact ⟨{ s with ec := some (.rpc .block_create_balance_mismatch) }, rfl, rfl,
          Or.inr rfl, fun h => by simp at h, by simp [hm, rpc_m.bind_run, set_ec, rpc_m.pure_run]⟩
      · refine ⟨s, rfl, rfl, Or.inl rfl, id, ?_⟩
        simp only [hm, if_false, Bool.false_eq_true, rpc_m.bind_run]
        rfl
    · exact ⟨s, rfl, rfl, Or.inl rfl, id, by simp only [hg, if_false, Bool.false_eq_true]; rfl⟩

theorem block_create_account_check_run (account_text : Option String) (account pub : Nat)
    (s : rpc_handler) :
    ∃ s2 : rpc_handler, s2.response_l = s.response_l ∧ s2.sent = s.sent
      ∧ (s2.ec = s.ec ∨ s2.ec = some (.rpc .block_create_public_key_mismatch))
      ∧ (s2.ec = none → s.ec = none ∧ (account_text.isSome = true → account = pub))
      ∧ rpc_handler.block_create_account_check account_text account pub s = .done () s2 := by
  simp only [rpc_handler.block_create_account_check, rpc_m.bind_run, no_error]
  by_cases hc : (s.ec.isNone && account_text.isSome) = true
  · simp only [hc, if_true]
    by_cases ha : account = pub
    · refine ⟨s, rfl, rfl, Or.inl rfl, fun h => ⟨h, fun _ => ha⟩, ?_⟩
      simp [ha, rpc_m.pure_run]
    · refine ⟨{ s with ec := some (.rpc .block_create_public_key_mismatch) }, rfl, rfl,
        Or.inr rfl, fun h => by simp at h, ?_⟩
      simp [ha, set_ec]
  · refine ⟨s, rfl, rfl, Or.inl rfl, fun h => ⟨h, fun h2 => ?_⟩, ?_⟩
    · exact absurd (by simp [h, h2]) hc
    · simp only [hc, if_false, Bool.false_eq_true]
      rfl

theorem block_create_build_send (node : node) (l : block_create_locals) (s1 : rpc_handler)
    (htype : l.type = "send") (hprv : l.prv ≠ 0) :
    ∃ s2 : rpc_handler, s2.response_l = s1.response_l ∧ s2.sent = s1.sent
      ∧ (s2.ec = s1.ec ∨ s2.ec = some (.rpc .block_create_balance_mismatch)
          ∨ s2.ec = some (.rpc .block_create_public_key_mismatch))
      ∧ (s2.ec = none → s1.ec = none ∧ (l.account_text.isSome = true → l.account = l.pub node))
      ∧ rpc_handler.block_create_build node l s1
        = (if l.destination != 0 && l.previous_used node != 0 && l.balance_used node != 0
              && l.amount != 0 then
            if l.balance_used node >= l.amount then
              rpc_handler.block_create_emit node l.work (l.previous_used node)
                (l.send_block node)
            else set_ec (.common .insufficient_balance)
          else set_ec (.rpc .block_create_requirements_send)) s2 := by
  obtain ⟨sa, ha1, ha2, ha3, ha4, ha5⟩ := block_create_ledger_run node l s1
  obtain ⟨sb, hb1, hb2, hb3, hb4, hb5⟩ :=
    block_create_account_check_run l.account_text l.account (node.pub_key l.prv) sa
  refine ⟨sb, hb1.trans ha1, hb2.trans ha2, ?_, fun h => ⟨ha4 (hb4 h).1, (hb4 h).2⟩, ?_⟩
  · rcases hb3 with h | h
    · rcases ha3 with h2 | h2
      · exact Or.inl (h.trans h2)
      · exact Or.inr (Or.inl (h.trans h2))
    · exact Or.inr (Or.inr h)
  · have hp : (l.prv != 0) = true := by simpa using hprv
    rw [htype] at ha5
    simp only [rpc_handler.block_create_build, hp, if_true, rpc_m.bind_run, htype, ha5, hb5]
    simp [block_create_locals.send_block, block_create_locals.pub]

theorem rpc_m.bind_done {α β : Type} (m : rpc_m α) (f : α → rpc_m β) (s : rpc_handler) (b : β)
    (s2 : rpc_handler) (h : (m >>= f) s = .done b s2) :
    ∃ a s1, m s = .done a s1 ∧ f a s1 = .done b s2 := by
  rw [rpc_m.bind_run] at h
  cases hm : m s with
  | done a s1 => rw [hm] at h; exact ⟨a, s1, rfl, h⟩
  | raised e s1 => rw [hm] at h; cases h
  | stuck s1 => rw [hm] at h; cases h

theorem nothing_built_set_ec (e : error_code) (he : e ≠ .common .insufficient_balance) :
    rpc_m.keeps rpc_handler.nothing_built (set_ec e) := by
  constructor
  intro s h
  exact ⟨h.1, h.2.1, by simpa [set_ec, run.state] using he⟩

theorem nothing_built_perform (op : node_op) :
    rpc_m.keeps rpc_handler.nothing_built (perform op) := ⟨fun _ h => h⟩

theorem block_create_read_keeps (node : node) (request : ptree) :
    rpc_m.keeps rpc_handler.nothing_built (rpc_handler.block_create_read node request) := by
  unfold rpc_handler.block_create_read rpc_handler.decode_optional
    rpc_handler.work_optional_impl rpc_handler.block_create_wallet
    rpc_handler.wallet_locked_impl rpc_handler.wallet_account_impl
    rpc_handler.block_create_link
  repeat' with_reducible first
    | exact rpc_m.keeps_pure _ _
    | exact rpc_m.keeps_raise _ _
    | exact rpc_m.keeps_no_error _
    | exact rpc_m.keeps_request_get _ _ _
    | exact nothing_built_perform _
    | exact nothing_built_set_ec _ (by decide)
    | apply rpc_m.keeps_bind
    | intro _
    | split
    | dsimp only

theorem decode_optional_ok (text : Option String) (decode : String → Option Nat)
    (e : error_code) (target : Nat) (s : rpc_handler) (v : Nat) (s2 : rpc_handler)
    (h : rpc_handler.decode_optional text decode e target s = .done v s2)
    (hok : s2.ec = none) :
    s.ec = none ∧ (∀ t, text = some t → decode t = some v) ∧ (text = none → v = target) := by
  unfold rpc_handler.decode_optional at h
  cases text with
  | none =>
    simp only [rpc_m.pure_run] at h
    cases h
    exact ⟨hok, fun t ht => (by cases ht), fun _ => rfl⟩
  | some t =>
    simp only [rpc_m.bind_run, no_error] at h
    cases hs : s.ec with
    | some e2 =>
      simp [hs, rpc_m.pure_run] at h
      rw [← h.2, hs] at hok
      cases hok
    | none =>
      cases hd : decode t with
      | some value =>
        simp [hs, hd, rpc_m.pure_run] at h
        refine ⟨rfl, fun t2 ht => ?_, fun hn => (by cases hn)⟩
        cases ht
        rw [hd, h.1]
      | none =>
        simp [hs, hd, rpc_m.pure_run, rpc_m.bind_run, set_ec] at h
        rw [← h.2] at hok
        cases hok

theorem request_get_done (request : ptree) (key : String) (s : rpc_handler) (t : String)
    (s2 : rpc_handler) (h : request_get request key s = .done t s2) :
    s2 = s ∧ request.get_optional key = some t := by
  unfold request_get at h
  cases hk : request.get_optional key with
  | none => simp [hk, raise] at h
  | some text =>
    simp [hk, rpc_m.pure_run] at h
    exact ⟨h.2.symm, by rw [h.1]⟩

theorem work_optional_ok (node : node) (request : ptree) (s : rpc_handler) (v : Nat)
    (s2 : rpc_handler) (h : rpc_handler.work_optional_impl node request s = .done v s2)
    (hok : s2.ec = none) : s.ec = none := by
  unfold rpc_handler.work_optional_impl at h
  cases hs : s.ec with
  | none => rfl
  | some e2 =>
    cases hw : request.get_optional "work" with
    | none =>
      simp [hw, rpc_m.pure_run] at h
      rw [← h.2, hs] at hok
      cases hok
    | some t =>
      simp [hw, rpc_m.pure_run, rpc_m.bind_run, no_error, hs] at h
      rw [← h.2, hs] at hok
      cases hok

theorem block_create_wallet_ok (node : node) (wallet account : Nat) (s : rpc_handler)
    (v : Nat × Nat × Nat) (s2 : rpc_handler)
    (h : rpc_handler.block_create_wallet node wallet account s = .done v s2)
    (hok : s2.ec = none) :
    s.ec = none ∧ (v.2 = (0, 0)
      ∨ (account ≠ 0 ∧ v.2 = (node.latest account, node.account_balance account))) := by
  unfold rpc_handler.block_create_wallet rpc_handler.wallet_locked_impl
    rpc_handler.wallet_account_impl at h
  cases hs : s.ec with
  | some e2 =>
    simp [hs, rpc_m.pure_run, rpc_m.bind_run, no_error] at h
    rw [← h.2, hs] at hok
    cases hok
  | none =>
    refine ⟨rfl, ?_⟩
    by_cases hw : wallet = 0
    · simp [hs, hw, rpc_m.pure_run, rpc_m.bind_run, no_error] at h
      exact Or.inl (by rw [← h.1]; rfl)
    · by_cases ha : account = 0
      · simp [hs, ha, rpc_m.pure_run, rpc_m.bind_run, no_error] at h
        exact Or.inl (by rw [← h.1]; rfl)
      · by_cases he : node.wallet_exists wallet = true
        · by_cases hv : node.valid_password wallet = true
          · by_cases hf : node.wallet_find wallet account = true
            · simp [hs, hw, ha, he, hv, hf, rpc_m.pure_run, rpc_m.bind_run, no_error, perform]
                at h
              exact Or.inr ⟨ha, by rw [← h.1]⟩
            · simp [hs, hw, ha, he, hv, hf, rpc_m.pure_run, rpc_m.bind_run, no_error, set_ec]
                at h
              exact Or.inl (by rw [← h.1]; rfl)
          · simp [hs, hw, ha, he, hv, rpc_m.pure_run, rpc_m.bind_run, no_error, set_ec] at h
            exact Or.inl (by rw [← h.1]; rfl)
        · simp [hs, hw, ha, he, rpc_m.pure_run, rpc_m.bind_run, no_error, set_ec] at h
          exact Or.inl (by rw [← h.1]; rfl)

theorem sticky_set_ec (e : error_code) : rpc_m.keeps (fun s => s.ec ≠ none) (set_ec e) :=
  ⟨fun _ _ => by simp [set_ec, run.state]⟩

theorem block_create_link_ok (node : node) (link_text : Option String) (source destination : Nat)
    (s : rpc_handler) (v : Nat) (s2 : rpc_handler)
    (h : rpc_handler.block_create_link node link_text source destination s = .done v s2)
    (hok : s2.ec = none) : s.ec = none := by
  have hk : rpc_m.keeps (fun s => s.ec ≠ none)
      (rpc_handler.block_create_link node link_text source destination) := by
    unfold rpc_handler.block_create_link
    repeat' with_reducible first
      | exact rpc_m.keeps_pure _ _
      | exact rpc_m.keeps_no_error _
      | exact sticky_set_ec _
      | apply rpc_m.keeps_bind
      | intro _
      | split
      | dsimp only
  by_contra hs
  have h2 := hk.holds s hs
  rw [h] at h2
  exact h2 hok

/-- What a run of the first part of `block_create` that ends without an error has read. -/
theorem block_create_read_ok (node : node) (request : ptree) (s : rpc_handler)
    (l : block_create_locals) (s1 : rpc_handler)
    (hread : rpc_handler.block_create_read node request s = .done l s1)
    (hok : s1.ec = none) :
    l.account_text = request.get_optional "account"
      ∧ l.previous_text = request.get_optional "previous"
      ∧ l.balance_text = request.get_optional "balance"
      ∧ request.get_optional "type" = some l.type
      ∧ (l.account ≠ 0 → l.account_text.isSome = true)
      ∧ (∀ t, request.get_optional "destination" = some t
          → node.decode_account t = some l.destination)
      ∧ (request.get_optional "destination" = none → l.destination = 0)
      ∧ (∀ t, request.get_optional "amount" = some t → node.decode_dec t = some l.amount)
      ∧ (request.get_optional "amount" = none → l.amount = 0)
      ∧ (∀ t, request.get_optional "previous" = some t → node.decode_hex t = some l.previous)
      ∧ (request.get_optional "previous" = none
          → l.previous = 0 ∨ (l.account ≠ 0 ∧ l.previous = node.latest l.account))
      ∧ (∀ t, request.get_optional "balance" = some t → node.decode_dec t = some l.balance)
      ∧ (request.get_optional "balance" = none
          → l.balance = 0 ∨ (l.account ≠ 0 ∧ l.balance = node.account_balance l.account)) := by
  unfold rpc_handler.block_create_read at hread
  obtain ⟨type, s_1, h1, hread⟩ := rpc_m.bind_done _ _ _ _ _ hread
  obtain ⟨wallet, s_2, h2, hread⟩ := rpc_m.bind_done _ _ _ _ _ hread
  try dsimp only at hread
  obtain ⟨account, s_3, h3, hread⟩ := rpc_m.bind_done _ _ _ _ _ hread
  obtain ⟨representative, s_4, h4, hread⟩ := rpc_m.bind_done _ _ _ _ _ hread
  obtain ⟨destination, s_5, h5, hread⟩ := rpc_m.bind_done _ _ _ _ _ hread
  obtain ⟨source, s_6, h6, hread⟩ := rpc_m.bind_done _ _ _ _ _ hread
  obtain ⟨amount, s_7, h7, hread⟩ := rpc_m.bind_done _ _ _ _ _ hread
  obtain ⟨work, s_8, h8, hread⟩ := rpc_m.bind_done _ _ _ _ _ hread
  obtain ⟨from_wallet, s_9, h9, hread⟩ := rpc_m.bind_done _ _ _ _ _ hread
  obtain ⟨prv, s_10, h10, hread⟩ := rpc_m.bind_done _ _ _ _ _ hread
  try dsimp only at hread
  obtain ⟨previous, s_11, h11, hread⟩ := rpc_m.bind_done _ _ _ _ _ hread
  try dsimp only at hread
  obtain ⟨balance, s_12, h12, hread⟩ := rpc_m.bind_done _ _ _ _ _ hread
  try dsimp only at hread
  obtain ⟨link, s_13, h13, hread⟩ := rpc_m.bind_done _ _ _ _ _ hread
  rw [rpc_m.pure_run] at hread
  cases hread
  have e13 := block_create_link_ok _ _ _ _ _ _ _ h13 hok
  obtain ⟨e12, b1, b2⟩ := decode_optional_ok _ _ _ _ _ _ _ h12 e13
  obtain ⟨e11, p1, p2⟩ := decode_optional_ok _ _ _ _ _ _ _ h11 e12
  obtain ⟨e10, -, -⟩ := decode_optional_ok _ _ _ _ _ _ _ h10 e11
  obtain ⟨e9, w9⟩ := block_create_wallet_ok _ _ _ _ _ _ h9 e10
  have e8 := work_optional_ok _ _ _ _ _ h8 e9
  obtain ⟨e7, a1, a2⟩ := decode_optional_ok _ _ _ _ _ _ _ h7 e8
  obtain ⟨e6, -, -⟩ := decode_optional_ok _ _ _ _ _ _ _ h6 e7
  obtain ⟨e5, d1, d2⟩ := decode_optional_ok _ _ _ _ _ _ _ h5 e6
  obtain ⟨e4, -, -⟩ := decode_optional_ok _ _ _ _ _ _ _ h4 e5
  obtain ⟨e3, c1, c2⟩ := decode_optional_ok _ _ _ _ _ _ _ h3 e4
  obtain ⟨-, t1⟩ := request_get_done _ _ _ _ _ h1
  refine ⟨rfl, rfl, rfl, t1, ?_, d1, d2, a1, a2, p1, ?_, b1, ?_⟩
  · intro hne
    cases hq : request.get_optional "account" with
    | some t => rfl
    | none => exact absurd (c2 hq) hne
  · intro hn
    rw [p2 hn]
    rcases w9 with hw | ⟨hw1, hw2⟩
    · exact Or.inl (by rw [hw])
    · exact Or.inr ⟨hw1, by rw [hw2]⟩
  · intro hn
    rw [b2 hn]
    rcases w9 with hw | ⟨hw1, hw2⟩
    · exact Or.inl (by rw [hw])
    · exact Or.inr ⟨hw1, by rw [hw2]⟩

theorem block_create_emit_run (node : node) (work root : Nat) (build : Nat → block)
    (s : rpc_handler) (hs : s.response_l = []) :
    ∃ ops, rpc_handler.block_create_emit node work root build s
      = .done () { s with
          response_l :=
            [("hash", .data (node.to_string (node.hash
                (build (if work == 0 then node.work_generate_blocking root else work))))),
              ("block", .data (node.serialize_json
                (build (if work == 0 then node.work_generate_blocking root else work))))],
          ops := ops } := by
  by_cases hw : (work == 0) = true
  · exact ⟨_, by simp [rpc_handler.block_create_emit, rpc_m.bind_run, rpc_m.pure_run, perform,
      put, ptree.put, hs, hw]; rfl⟩
  · exact ⟨_, by simp [rpc_handler.block_create_emit, rpc_m.bind_run, rpc_m.pure_run, perform,
      put, ptree.put, hs, hw]; rfl⟩

/-- C16, amended: for a request of type `send` that reaches the branch of its type (control
is enabled and a private key is at hand, from `key` or from the wallet; `l` holds the
locals the handler has read). When the request succeeds, the block in the response has as
previous the given one or else the ledger's latest of the account, the requested
destination, and a balance that added to the amount gives the balance `B` at hand (from
the `balance` field or else from the ledger), so nothing wraps. The error is
`insufficient_balance` exactly when destination, previous, `B` and amount are all non-zero
and the amount exceeds `B`, and `block_create_requirements_send` when one is zero. -/
theorem block_create_send (rpc : rpc) (node : node) (request : ptree)
    (l : block_create_locals) (s1 : rpc_handler)
    (hcontrol : rpc.config.enable_control = true)
    (hread : rpc_handler.block_create_read node request rpc_handler.init = .done l s1)
    (htype : l.type = "send") (hprv : l.prv ≠ 0) :
    (rpc_handler.block_create rpc node request rpc_handler.init).returned = true
      ∧ ((rpc_handler.block_create rpc node request rpc_handler.init).state.ec = none →
          (rpc_handler.block_create rpc node request rpc_handler.init).state.sent
              = [[("hash", .data (node.to_string
                    (node.hash (l.send_block node (l.send_work node))))),
                  ("block", .data (node.serialize_json
                    (l.send_block node (l.send_work node))))]]
            ∧ (l.send_block node (l.send_work node)).previous = l.previous_used node
            ∧ (l.send_block node (l.send_work node)).destination = l.destination
            ∧ (l.send_block node (l.send_work node)).balance + l.amount = l.balance_used node
            ∧ (∃ t, request.get_optional "destination" = some t
                ∧ node.decode_account t = some l.destination)
            ∧ (∃ t, request.get_optional "amount" = some t
                ∧ node.decode_dec t = some l.amount)
            ∧ (∀ t, request.get_optional "previous" = some t
                → node.decode_hex t = some (l.previous_used node))
            ∧ (request.get_optional "previous" = none
                → l.previous_used node = node.latest (l.pub node))
            ∧ (∀ t, request.get_optional "balance" = some t
                → node.decode_dec t = some (l.balance_used node))
            ∧ (request.get_optional "balance" = none
                → l.balance_used node = node.account_balance (l.pub node)))
      ∧ ((rpc_handler.block_create rpc node request rpc_handler.init).state.ec
            = some (.common .insufficient_balance)
          ↔ l.destination ≠ 0 ∧ l.previous_used node ≠ 0 ∧ l.balance_used node ≠ 0
              ∧ l.amount ≠ 0 ∧ l.balance_used node < l.amount)
      ∧ ((rpc_handler.block_create rpc node request rpc_handler.init).state.ec
            = some (.common .insufficient_balance)
          → (rpc_handler.block_create rpc node request rpc_handler.init).state.sent
              = [error_tree node (.common .insufficient_balance)])
      ∧ (l.destination = 0 ∨ l.previous_used node = 0 ∨ l.balance_used node = 0
            ∨ l.amount = 0
          → (rpc_handler.block_create rpc node request rpc_handler.init).state.ec
                = some (.rpc .block_create_requirements_send)
              ∧ (rpc_handler.block_create rpc node request rpc_handler.init).state.sent
                = [error_tree node (.rpc .block_create_requirements_send)]) := by
  have hinit : rpc_handler.init.nothing_built := ⟨rfl, rfl, by simp [rpc_handler.init]⟩
  have hs1 := (block_create_read_keeps node request).holds _ hinit
  rw [hread] at hs1
  obtain ⟨hresp, hsent, hec⟩ := hs1
  simp only [run.state] at hresp hsent hec
  obtain ⟨s2, h21, h22, h23, h24, hbuild⟩ := block_create_build_send node l s1 htype hprv
  rw [hresp] at h21
  rw [hsent] at h22
  have hec2 : s2.ec ≠ some (.common .insufficient_balance) := by
    rcases h23 with h | h | h
    · rw [h]; exact hec
    · rw [h]; simp
    · rw [h]; simp
  rw [block_create_run rpc node request l s1 hcontrol hread, rpc_m.bind_run, hbuild]
  by_cases hcond : (l.destination != 0 && l.previous_used node != 0
      && l.balance_used node != 0 && l.amount != 0) = true
  · have hnz : l.destination ≠ 0 ∧ l.previous_used node ≠ 0 ∧ l.balance_used node ≠ 0
        ∧ l.amount ≠ 0 := by
      simpa [and_assoc] using hcond
    by_cases hle : l.balance_used node >= l.amount
    · obtain ⟨ops, hemit⟩ := block_create_emit_run node l.work (l.previous_used node)
        (l.send_block node) s2 h21
      have hnlt : ¬ l.balance_used node < l.amount := Nat.not_lt.mpr hle
      simp only [hcond, hle, if_true, hemit]
      cases hs2 : s2.ec with
      | some e =>
        have hne : e ≠ .common .insufficient_balance := fun h => hec2 (by rw [hs2, h])
        simp only [rpc_handler.response_errors, respond, run.state, run.returned, hs2,
          Option.isSome_some, true_or, if_true]
        simp [hne, hnlt, hnz]
      | none =>
        obtain ⟨hs1, hacc⟩ := h24 hs2
        obtain ⟨r1, r2, r3, -, r5, r6, r7, r8, r9, r10, r11, r12, r13⟩ :=
          block_create_read_ok node request _ l s1 hread hs1
        simp only [rpc_handler.response_errors, respond, run.state, run.returned, hs2,
          Option.isSome_none, List.isEmpty_cons, or_self, if_false, Bool.false_eq_true, h22,
          List.nil_append, block_create_locals.send_work]
        refine ⟨by first | rfl | trivial, fun _ => ⟨by first | rfl | trivial, rfl, rfl,
          ?_, ?_, ?_, ?_, ?_, ?_, ?_⟩, by simp [hnlt],
          fun h => by simp at h, fun h => ?_⟩
        · show l.balance_used node - l.amount + l.amount = l.balance_used node
          exact Nat.sub_add_cancel hle
        · cases hd : request.get_optional "destination" with
          | some t => exact ⟨t, rfl, r6 t hd⟩
          | none => exact absurd (r7 hd) hnz.1
        · cases hd : request.get_optional "amount" with
          | some t => exact ⟨t, rfl, r8 t hd⟩
          | none => exact absurd (r9 hd) hnz.2.2.2
        · intro t ht
          have : l.previous_used node = l.previous := by
            simp [block_create_locals.previous_used, r2, ht]
          rw [this]
          exact r10 t ht
        · intro hn
          by_cases hb : l.balance_text = none
          · simp [block_create_locals.previous_used, r2, hn, hb]
          · have hu : l.previous_used node = l.previous := by
              simp [block_create_locals.previous_used, hb]
            rcases r11 hn with h0 | ⟨h1, h2⟩
            · exact absurd (hu.trans h0) hnz.2.1
            · rw [hu, h2, hacc (r5 h1)]
        · intro t ht
          have : l.balance_used node = l.balance := by
            simp [block_create_locals.balance_used, r3, ht]
          rw [this]
          exact r12 t ht
        · intro hn
          by_cases hb : l.previous_text = none
          · simp [block_create_locals.balance_used, r3, hn, hb]
          · have hu : l.balance_used node = l.balance := by
              simp [block_create_locals.balance_used, hb]
            rcases r13 hn with h0 | ⟨h1, h2⟩
            · exact absurd (hu.trans h0) hnz.2.2.1
            · rw [hu, h2, hacc (r5 h1)]
        · rcases h with h | h | h | h
          · exact absurd h hnz.1
          · exact absurd h hnz.2.1
          · exact absurd h hnz.2.2.1
          · exact absurd h hnz.2.2.2
    · have hlt : l.balance_used node < l.amount := Nat.lt_of_not_le hle
      simp only [hcond, hle, if_true, if_false, set_ec, rpc_handler.response_errors, respond,
        run.state, run.returned, Option.isSome_some, true_or, error_tree, h22, List.nil_append]
      simp [hnz, hlt]
  · have hz : l.destination = 0 ∨ l.previous_used node = 0 ∨ l.balance_used node = 0
        ∨ l.amount = 0 := by
      by_contra hno
      simp only [not_or] at hno
      exact hcond (by simp [hno])
    simp only [hcond, if_false, Bool.false_eq_true, set_ec, rpc_handler.response_errors,
      respond, run.state, run.returned, Option.isSome_some, true_or, if_true, error_tree, h22,
      List.nil_append]
    simp
    intro h1 h2 h3 h4
    rcases hz with h | h | h | h
    · exact absurd h h1
    · exact absurd h h2
    · exact absurd h h3
    · exact absurd h h4

/-- C16 at the sample node: a send of 2 from a balance of 30 given in the request. -/
theorem block_create_send_witness :
    rpc_handler.block_create_read sample_node
        [("type", .data "send"), ("key", .data "1"), ("destination", .data "8"),
          ("previous", .data "3"), ("balance", .data "30"), ("amount", .data "2")]
        rpc_handler.init
      = .done { type := "send", account_text := none, account := 0, representative := 0,
                destination := 8, source := 0, amount := 2, work := 0, prv := 1,
                previous_text := some "3", previous := 3, balance_text := some "30",
                balance := 30, link_text := none, link := 8 } rpc_handler.init
    ∧ (rpc_handler.block_create sample_rpc_enabled sample_node
        [("type", .data "send"), ("key", .data "1"), ("destination", .data "8"),
          ("previous", .data "3"), ("balance", .data "30"), ("amount", .data "2")]
        rpc_handler.init).state.sent = [[("hash", .data "4"), ("block", .data "block")]] :=
  ⟨rfl, ((block_create_send sample_rpc_enabled sample_node
      [("type", .data "send"), ("key", .data "1"), ("destination", .data "8"),
        ("previous", .data "3"), ("balance", .data "30"), ("amount", .data "2")]
      { type := "send", account_text := none, account := 0, representative := 0,
        destination := 8, source := 0, amount := 2, work := 0, prv := 1,
        previous_text := some "3", previous := 3, balance_text := some "30",
        balance := 30, link_text := none, link := 8 } rpc_handler.init rfl rfl rfl
      (by decide)).2.1 rfl).1⟩

/-- C16 as stated fails for a request without a private key: destination, previous,
balance and amount are all non-zero and the amount exceeds the balance, yet the error is
`block_create_key_required`, not `insufficient_balance`. -/
theorem block_create_send_without_key :
    ∃ l s1, rpc_handler.block_create_read sample_node
        [("type", .data "send"), ("destination", .data "8"), ("previous", .data "3"),
          ("balance", .data "1"), ("amount", .data "2")] rpc_handler.init = .done l s1
      ∧ l.type = "send" ∧ l.destination ≠ 0 ∧ l.previous_used sample_node ≠ 0
      ∧ l.balance_used sample_node ≠ 0 ∧ l.amount ≠ 0
      ∧ l.balance_used sample_node < l.amount
      ∧ (rpc_handler.block_create sample_rpc_enabled sample_node
          [("type", .data "send"), ("destination", .data "8"), ("previous", .data "3"),
            ("balance", .data "1"), ("amount", .data "2")] rpc_handler.init).state.ec
        = some (.rpc .block_create_key_required)
      ∧ (rpc_handler.block_create sample_rpc_enabled sample_node
          [("type", .data "send"), ("destination", .data "8"), ("previous", .data "3"),
            ("balance", .data "1"), ("amount", .data "2")] rpc_handler.init).state.ec
        ≠ some (.common .insufficient_balance) :=
  ⟨{ type := "send", account_text := none, account := 0, representative := 0,
     destination := 8, source := 0, amount := 2, work := 0, prv := 0,
     previous_text := some "3", previous := 3, balance_text := some "1",
     balance := 1, link_text := none, link := 8 }, rpc_handler.init, rfl, rfl, by decide,
   by decide, by decide, by decide, by decide, rfl, by decide⟩

/-- The last sentence of the amended C16 for every request: with control enabled, a
request that is read without a private key, neither from `key` nor from the wallet, fails
with `block_create_key_required` as its one response, whatever its type and amounts. -/
theorem block_create_key_required_without_key (rpc : rpc) (node : node) (request : ptree)
    (l : block_create_locals) (s1 : rpc_handler)
    (hcontrol : rpc.config.enable_control = true)
    (hread : rpc_handler.block_create_read node request rpc_handler.init = .done l s1)
    (hprv : l.prv = 0) :
    (rpc_handler.block_create rpc node request rpc_handler.init).state.ec
        = some (.rpc .block_create_key_required)
      ∧ (rpc_handler.block_create rpc node request rpc_handler.init).state.sent
        = [error_tree node (.rpc .block_create_key_required)] := by
  have hinit : rpc_handler.init.nothing_built := ⟨rfl, rfl, by simp [rpc_handler.init]⟩
  have hs1 := (block_create_read_keeps node request).holds _ hinit
  rw [hread] at hs1
  obtain ⟨hresp, hsent, hec⟩ := hs1
  simp only [run.state] at hresp hsent hec
  rw [block_create_run rpc node request l s1 hcontrol hread, rpc_m.bind_run]
  simp [rpc_handler.block_create_build, hprv, set_ec, rpc_handler.response_errors, respond,
    run.state, hsent, error_tree]

/-! ## C15: `sign` -/

theorem sign_hash_ok (rpc : rpc) (node : node) (request : ptree) (s : rpc_handler)
    (v : Nat × Option block) (s1 : rpc_handler)
    (h : rpc_handler.sign_hash rpc node request s = .done v s1)
    (hs : s.ec = none) (hok : s1.ec = none) :
    s1 = s ∧ v.1 ≠ 0
      ∧ (∀ bt, request.get_optional "block" = some bt
          → ∃ b, node.block_of_text bt = .parsed b ∧ v = (node.hash b, some b))
      ∧ (request.get_optional "block" = none
          → v.2 = none ∧ rpc.config.enable_sign_hash = true
            ∧ ∃ t, request.get_optional "hash" = some t ∧ node.decode_hex t = some v.1) := by
  unfold rpc_handler.sign_hash rpc_handler.hash_impl rpc_handler.block_impl request_get at h
  cases hh : request.get_optional "hash" with
  | none =>
    cases hb : request.get_optional "block" with
    | none =>
      simp [hh, hb, rpc_m.bind_run, rpc_m.pure_run, no_error, hs, set_ec] at h
      rw [← h.2] at hok
      simp at hok
    | some bt =>
      cases hp : node.block_of_text bt with
      | malformed => simp [hh, hb, hp, rpc_m.bind_run, rpc_m.pure_run, no_error, hs, raise] at h
      | null =>
        simp [hh, hb, hp, rpc_m.bind_run, rpc_m.pure_run, no_error, hs, set_ec] at h
        rw [← h.2] at hok
        simp at hok
      | parsed b =>
        by_cases hz : node.hash b = 0
        · simp [hh, hb, hp, hz, rpc_m.bind_run, rpc_m.pure_run, no_error, hs, set_ec] at h
          rw [← h.2] at hok
          simp at hok
        · simp [hh, hb, hp, hz, rpc_m.bind_run, rpc_m.pure_run, no_error, hs, set_ec] at h
          obtain ⟨h1, h2⟩ := h
          subst h1 h2
          refine ⟨rfl, hz, fun bt2 hbt => ?_, fun hn => by cases hn⟩
          cases hbt
          exact ⟨b, hp, rfl⟩
  | some t =>
    cases hd : node.decode_hex t with
    | none =>
      cases hb : request.get_optional "block" with
      | none =>
        simp [hh, hb, hd, rpc_m.bind_run, rpc_m.pure_run, no_error, hs, set_ec] at h
        rw [← h.2] at hok
        simp at hok
      | some bt =>
        simp [hh, hb, hd, rpc_m.bind_run, rpc_m.pure_run, no_error, hs, set_ec] at h
        rw [← h.2] at hok
        simp at hok
    | some hash =>
      cases hb : request.get_optional "block" with
      | none =>
        by_cases hz : hash = 0
        · simp [hh, hb, hd, hz, rpc_m.bind_run, rpc_m.pure_run, no_error, hs, set_ec] at h
          rw [← h.2] at hok
          simp at hok
        · by_cases he : rpc.config.enable_sign_hash = true
          · simp [hh, hb, hd, hz, he, rpc_m.bind_run, rpc_m.pure_run, no_error, hs, set_ec] at h
            obtain ⟨h1, h2⟩ := h
            subst h1 h2
            exact ⟨rfl, hz, fun bt2 hbt => (by cases hbt), fun _ => ⟨rfl, he, t, rfl, hd⟩⟩
          · simp [hh, hb, hd, hz, he, rpc_m.bind_run, rpc_m.pure_run, no_error, hs, set_ec] at h
            rw [← h.2] at hok
            simp at hok
      | some bt =>
        cases hp : node.block_of_text bt with
        | malformed =>
          simp [hh, hb, hd, hp, rpc_m.bind_run, rpc_m.pure_run, no_error, hs, raise] at h
        | null =>
          simp [hh, hb, hd, hp, rpc_m.bind_run, rpc_m.pure_run, no_error, hs, set_ec] at h
          rw [← h.2] at hok
          simp at hok
        | parsed b =>
          by_cases hz : node.hash b = 0
          · simp [hh, hb, hd, hp, hz, rpc_m.bind_run, rpc_m.pure_run, no_error, hs, set_ec] at h
            rw [← h.2] at hok
            simp at hok
          · simp [hh, hb, hd, hp, hz, rpc_m.bind_run, rpc_m.pure_run, no_error, hs, set_ec] at h
            obtain ⟨h1, h2⟩ := h
            subst h1 h2
            refine ⟨rfl, hz, fun bt2 hbt => ?_, fun hn => by cases hn⟩
            cases hbt
            exact ⟨b, hp, rfl⟩

theorem sign_hash_keeps (rpc : rpc) (node : node) (request : ptree) :
    rpc_m.keeps rpc_handler.nothing_built (rpc_handler.sign_hash rpc node request) := by
  unfold rpc_handler.sign_hash rpc_handler.hash_impl rpc_handler.block_impl
  repeat' with_reducible first
    | exact rpc_m.keeps_pure _ _
    | exact rpc_m.keeps_raise _ _
    | exact rpc_m.keeps_no_error _
    | exact rpc_m.keeps_request_get _ _ _
    | exact nothing_built_perform _
    | exact nothing_built_set_ec _ (by decide)
    | apply rpc_m.keeps_bind
    | intro _
    | split
    | dsimp only

theorem sign_key_keeps (node : node) (request : ptree) :
    rpc_m.keeps rpc_handler.nothing_built (rpc_handler.sign_key node request) := by
  unfold rpc_handler.sign_key rpc_handler.account_impl rpc_handler.wallet_impl
    rpc_handler.wallet_locked_impl rpc_handler.wallet_account_impl
  repeat' with_reducible first
    | exact rpc_m.keeps_pure _ _
    | exact rpc_m.keeps_raise _ _
    | exact rpc_m.keeps_no_error _
    | exact rpc_m.keeps_request_get _ _ _
    | exact nothing_built_perform _
    | exact nothing_built_set_ec _ (by decide)
    | apply rpc_m.keeps_bind
    | intro _
    | split
    | dsimp only

theorem sign_key_ok (node : node) (request : ptree) (s : rpc_handler) (prv : Nat)
    (s2 : rpc_handler) (h : rpc_handler.sign_key node request s = .done prv s2)
    (hprv : prv ≠ 0) :
    (∀ t, request.get_optional "key" = some t → node.decode_hex t = some prv)
      ∧ (request.get_optional "key" = none
          → ∃ wallet account, prv = node.wallet_fetch wallet account) := by
  unfold rpc_handler.sign_key at h
  cases hk : request.get_optional "key" with
  | some t =>
    refine ⟨fun t2 ht => ?_, fun hn => by cases hn⟩
    cases ht
    cases hd : node.decode_hex t with
    | some v =>
      simp [hk, hd, rpc_m.pure_run] at h
      rw [h.1]
    | none =>
      simp [hk, hd, rpc_m.pure_run, rpc_m.bind_run, set_ec] at h
      exact absurd h.1.symm hprv
  | none =>
    refine ⟨fun t2 ht => (by cases ht), fun _ => ?_⟩
    simp only [hk] at h
    split at h
    · obtain ⟨account, s_1, -, h⟩ := rpc_m.bind_done _ _ _ _ _ h
      obtain ⟨wallet, s_2, -, h⟩ := rpc_m.bind_done _ _ _ _ _ h
      obtain ⟨c1, s_3, -, h⟩ := rpc_m.bind_done _ _ _ _ _ h
      split at h
      · obtain ⟨_, s_4, -, h⟩ := rpc_m.bind_done _ _ _ _ _ h
        obtain ⟨_, s_5, -, h⟩ := rpc_m.bind_done _ _ _ _ _ h
        obtain ⟨c2, s_6, -, h⟩ := rpc_m.bind_done _ _ _ _ _ h
        split at h
        · obtain ⟨_, s_7, -, h⟩ := rpc_m.bind_done _ _ _ _ _ h
          rw [rpc_m.pure_run] at h
          cases h
          exact ⟨_, _, rfl⟩
        · rw [rpc_m.pure_run] at h
          cases h
          exact absurd rfl hprv
      · rw [rpc_m.pure_run] at h
        cases h
        exact absurd rfl hprv
    · rw [rpc_m.pure_run] at h
      cases h
      exact absurd rfl hprv

theorem sign_bare_hash_refused (rpc : rpc) (node : node) (request : ptree) (t : String)
    (hh : request.get_optional "hash" = some t) (hb : request.get_optional "block" = none)
    (he : rpc.config.enable_sign_hash = false) :
    rpc_handler.sign rpc node request rpc_handler.init
      = rpc_handler.rejected node (rpc_handler.sign_hash_error node t) := by
  unfold rpc_handler.sign rpc_handler.sign_hash rpc_handler.hash_impl request_get
    rpc_handler.sign_hash_error rpc_handler.rejected
  cases hd : node.decode_hex t with
  | none =>
    simp [hh, hb, he, hd, rpc_m.bind_run, rpc_m.pure_run, no_error, set_ec, rpc_handler.init,
      rpc_handler.response_errors, respond, error_tree]
  | some hash =>
    by_cases hz : hash = 0
    · simp [hh, hb, he, hd, hz, rpc_m.bind_run, rpc_m.pure_run, no_error, set_ec,
        rpc_handler.init, rpc_handler.response_errors, respond, error_tree]
    · simp [hh, hb, he, hd, hz, rpc_m.bind_run, rpc_m.pure_run, no_error, set_ec,
        rpc_handler.init, rpc_handler.response_errors, respond, error_tree]

theorem sign_signature_origin (rpc : rpc) (node : node) (request : ptree) (tree : ptree)
    (text : String)
    (hsent : tree ∈ (rpc_handler.sign rpc node request rpc_handler.init).state.sent)
    (htext : tree.get_optional "signature" = some text) :
    ∃ prv hash, prv ≠ 0
      ∧ text = node.signature_to_string (node.sign_message prv (node.pub_key prv) hash)
      ∧ (∀ kt, request.get_optional "key" = some kt → node.decode_hex kt = some prv)
      ∧ (request.get_optional "key" = none
          → ∃ wallet account, prv = node.wallet_fetch wallet account)
      ∧ (∀ bt, request.get_optional "block" = some bt
          → ∃ b, node.block_of_text bt = .parsed b ∧ hash = node.hash b)
      ∧ (request.get_optional "block" = none
          → rpc.config.enable_sign_hash = true
            ∧ ∃ t, request.get_optional "hash" = some t ∧ node.decode_hex t = some hash) := by
  have hinit : rpc_handler.init.nothing_built := ⟨rfl, rfl, by simp [rpc_handler.init]⟩
  have k1 := (sign_hash_keeps rpc node request).holds _ hinit
  unfold rpc_handler.sign at hsent
  rw [rpc_m.bind_run] at hsent
  cases h1 : rpc_handler.sign_hash rpc node request rpc_handler.init with
  | raised e s1 =>
    rw [h1] at hsent k1
    have hnone := k1.2.1
    simp only [run.state] at hnone hsent
    rw [hnone] at hsent
    cases hsent
  | stuck s1 =>
    rw [h1] at hsent k1
    have hnone := k1.2.1
    simp only [run.state] at hnone hsent
    rw [hnone] at hsent
    cases hsent
  | done v s1 =>
    rw [h1] at hsent k1
    simp only [run.state] at k1
    obtain ⟨k11, k12, -⟩ := k1
    cases hs1 : s1.ec with
    | some e =>
      simp [rpc_m.bind_run, rpc_m.pure_run, no_error, hs1, rpc_handler.response_errors,
        respond, run.state, k12] at hsent
      rw [hsent] at htext
      simp [ptree.get_optional, List.lookup] at htext
    | none =>
      obtain ⟨-, o2, o3, o4⟩ := sign_hash_ok rpc node request _ v s1 h1 rfl hs1
      have k2 := (sign_key_keeps node request).holds s1 ⟨k11, k12, by simp [hs1]⟩
      simp only [rpc_m.bind_run, no_error, hs1, Option.isNone_none, if_true] at hsent
      cases h2 : rpc_handler.sign_key node request s1 with
      | raised e s2 =>
        rw [h2] at hsent k2
        have hnone := k2.2.1
        simp only [run.state] at hnone hsent
        rw [hnone] at hsent
        cases hsent
      | stuck s2 =>
        rw [h2] at hsent k2
        have hnone := k2.2.1
        simp only [run.state] at hnone hsent
        rw [hnone] at hsent
        cases hsent
      | done prv s2 =>
        rw [h2] at hsent k2
        simp only [run.state] at k2
        obtain ⟨k21, k22, -⟩ := k2
        by_cases hprv : prv = 0
        · simp [hprv, set_ec, rpc_handler.response_errors, respond, run.state, k22,
            rpc_m.bind_run] at hsent
          rw [hsent] at htext
          simp [ptree.get_optional, List.lookup] at htext
        · obtain ⟨q1, q2⟩ := sign_key_ok node request s1 prv s2 h2 hprv
          refine ⟨prv, v.1, hprv, ?_, q1, q2, fun bt hbt => ?_, fun hn => (o4 hn).2⟩
          · have hp : (prv != 0) = true := by simpa using hprv
            cases hs2 : s2.ec with
            | some e =>
              cases hv : v.2 with
              | none =>
                simp [hp, hv, put, rpc_handler.response_errors, respond, run.state, k22,
                  rpc_m.bind_run, rpc_m.pure_run, hs2] at hsent
                rw [hsent] at htext
                simp [ptree.get_optional, List.lookup] at htext
              | some b =>
                simp [hp, hv, put, rpc_handler.response_errors, respond, run.state, k22,
                  rpc_m.bind_run, rpc_m.pure_run, hs2] at hsent
                rw [hsent] at htext
                simp [ptree.get_optional, List.lookup] at htext
            | none =>
              cases hv : v.2 with
              | none =>
                simp [hp, hv, put, rpc_handler.response_errors, respond, run.state, k21, k22,
                  rpc_m.bind_run, rpc_m.pure_run, hs2, ptree.put] at hsent
                rw [hsent] at htext
                simp [ptree.get_optional, List.lookup, pvalue.text] at htext
                exact htext.symm
              | some b =>
                simp [hp, hv, put, rpc_handler.response_errors, respond, run.state, k21, k22,
                  rpc_m.bind_run, rpc_m.pure_run, hs2, ptree.put] at hsent
                rw [hsent] at htext
                simp [ptree.get_optional, List.lookup, pvalue.text] at htext
                exact htext.symm
          · obtain ⟨b, hb1, hb2⟩ := o3 bt hbt
            exact ⟨b, hb1, by rw [hb2]⟩

/-- C15 as stated fails for a hash text that does not decode, and for one that decodes to
zero: without `block` and with `enable_sign_hash` off, the error is `invalid_block_hash`
or `invalid_block`, not `sign_hash_disabled`. -/
theorem sign_bad_hash_is_not_sign_hash_disabled :
    ptree.get_optional [("hash", .data "zz")] "hash" = some "zz"
      ∧ ptree.get_optional [("hash", .data "zz")] "block" = none
      ∧ sample_rpc_enabled.config.enable_sign_hash = false
      ∧ rpc_handler.sign sample_rpc_enabled sample_node [("hash", .data "zz")] rpc_handler.init
        = rpc_handler.rejected sample_node (.blocks .invalid_block_hash)
      ∧ rpc_handler.sign sample_rpc_enabled sample_node [("hash", .data "0")] rpc_handler.init
        = rpc_handler.rejected sample_node (.blocks .invalid_block)
      ∧ (rpc_handler.sign sample_rpc_enabled sample_node [("hash", .data "zz")]
          rpc_handler.init).state.ec ≠ some (.rpc .sign_hash_disabled) := by
  refine ⟨rfl, rfl, rfl, rfl, rfl, ?_⟩
  decide

/-- C15, amended. A request with `hash` and without `block` is answered, while
`enable_sign_hash` is off, by one error and no signature: `sign_hash_disabled` when the
hash text decodes to a non-zero hash, `invalid_block_hash` when it does not decode and
`invalid_block` when it decodes to zero. Whenever a response carries a signature, it is
the signature by a non-zero private key (decoded from `key`, or fetched from a wallet) over
a hash that is the hash of the block when `block` is given, and the decoded `hash` field
with `enable_sign_hash` on when it is not; it verifies against the public key of that
private key, given that signatures made by `sign_message` verify. -/
theorem sign_bare_hash_needs_permission (rpc : rpc) (node : node) (request : ptree)
    (verify : Nat → Nat → Nat → Bool)
    (hverify : ∀ prv hash,
      verify (node.pub_key prv) hash (node.sign_message prv (node.pub_key prv) hash) = true) :
    (∀ t, request.get_optional "hash" = some t → request.get_optional "block" = none
        → rpc.config.enable_sign_hash = false
        → rpc_handler.sign rpc node request rpc_handler.init
            = rpc_handler.rejected node (rpc_handler.sign_hash_error node t))
      ∧ (∀ tree text,
          tree ∈ (rpc_handler.sign rpc node request rpc_handler.init).state.sent
          → tree.get_optional "signature" = some text
          → ∃ prv hash, prv ≠ 0
              ∧ text = node.signature_to_string
                  (node.sign_message prv (node.pub_key prv) hash)
              ∧ verify (node.pub_key prv) hash
                  (node.sign_message prv (node.pub_key prv) hash) = true
              ∧ (∀ kt, request.get_optional "key" = some kt → node.decode_hex kt = some prv)
              ∧ (request.get_optional "key" = none
                  → ∃ wallet account, prv = node.wallet_fetch wallet account)
              ∧ (∀ bt, request.get_optional "block" = some bt
                  → ∃ b, node.block_of_text bt = .parsed b ∧ hash = node.hash b)
              ∧ (request.get_optional "block" = none
                  → rpc.config.enable_sign_hash = true
                    ∧ ∃ t, request.get_optional "hash" = some t
                        ∧ node.decode_hex t = some hash)) := by
  refine ⟨fun t hh hb he => sign_bare_hash_refused rpc node request t hh hb he,
    fun tree text hsent htext => ?_⟩
  obtain ⟨prv, hash, h1, h2, h3, h4, h5, h6⟩ :=
    sign_signature_origin rpc node request tree text hsent htext
  exact ⟨prv, hash, h1, h2, hverify prv hash, h3, h4, h5, h6⟩

/-- C15 at the sample node: the hash 3 alone is refused with `sign_hash_disabled`. -/
theorem sign_bare_hash_needs_permission_witness :
    (∀ prv hash, sample_verify (sample_node.pub_key prv) hash
        (sample_node.sign_message prv (sample_node.pub_key prv) hash) = true)
      ∧ rpc_handler.sign sample_rpc_enabled sample_node
          [("hash", .data "3"), ("key", .data "1")] rpc_handler.init
        = rpc_handler.rejected sample_node (.rpc .sign_hash_disabled) :=
  ⟨fun prv hash => by simp [sample_verify, sample_node],
   (sign_bare_hash_needs_permission sample_rpc_enabled sample_node
      [("hash", .data "3"), ("key", .data "1")] sample_verify
      (fun prv hash => by simp [sample_verify, sample_node])).1 "3" rfl rfl rfl⟩

/-! ## C12: `account_history` -/

theorem account_history_loop_eq (node : node) (raw : Bool) :
    ∀ fuel hash count offset history,
      rpc_handler.previous_walk_ends node fuel hash = true →
      ∃ final, rpc_handler.account_history_loop node raw fuel hash count offset history
        = some (history ++ rpc_handler.history_of node raw
            (rpc_handler.history_chain node fuel hash) count offset, final) := by
  intro fuel
  induction fuel with
  | zero =>
    intro hash count offset history hends
    unfold rpc_handler.previous_walk_ends at hends
    unfold rpc_handler.account_history_loop
    cases hb : node.block_get hash with
    | some b => simp [hb] at hends
    | none =>
      exact ⟨hash, by simp [rpc_handler.history_of, rpc_handler.history_chain]⟩
  | succ fuel ih =>
    intro hash count offset history hends
    unfold rpc_handler.previous_walk_ends at hends
    unfold rpc_handler.account_history_loop
    cases hb : node.block_get hash with
    | none =>
      exact ⟨hash, by simp [rpc_handler.history_of, rpc_handler.history_chain, hb]⟩
    | some b =>
      simp only [hb] at hends
      simp only [rpc_handler.history_chain, hb]
      by_cases hc : count > 0
      · simp only [hc, if_true]
        by_cases ho : offset > 0
        · simp only [ho, if_true]
          obtain ⟨final, hfinal⟩ := ih b.previous count (offset - 1) history hends
          refine ⟨final, ?_⟩
          rw [hfinal]
          obtain ⟨o, rfl⟩ : ∃ o, offset = o + 1 := ⟨offset - 1, by omega⟩
          simp [rpc_handler.history_of]
        · have ho0 : offset = 0 := by omega
          subst ho0
          simp only [gt_iff_lt, lt_self_iff_false, if_false]
          obtain ⟨c, rfl⟩ : ∃ c, count = c + 1 := ⟨count - 1, by omega⟩
          cases he : rpc_handler.history_entry node raw hash b with
          | some entry =>
            obtain ⟨final, hfinal⟩ := ih b.previous c 0 (history ++ [entry]) hends
            refine ⟨final, ?_⟩
            simp only [Nat.add_sub_cancel]
            rw [hfinal]
            simp [rpc_handler.history_of, he]
          | none =>
            obtain ⟨final, hfinal⟩ := ih b.previous (c + 1) 0 history hends
            refine ⟨final, ?_⟩
            simp only []
            rw [hfinal]
            simp [rpc_handler.history_of, he]
      · have hc0 : count = 0 := by omega
        subst hc0
        exact ⟨hash, by simp [rpc_handler.history_of]⟩

theorem account_history_start_run (node : node) (request : ptree)
    (account hash count offset : Nat)
    (hrequest : rpc_handler.history_request node request account hash count offset) :
    rpc_handler.account_history_start node request rpc_handler.init
      = .done (account, hash) rpc_handler.init := by
  obtain ⟨hstart, -, -⟩ := hrequest
  rcases hstart with ⟨head_text, h1, h2, h3, h4⟩ | ⟨h1, account_text, h2, h3, h4⟩
  · simp [rpc_handler.account_history_start, h1, h2, h3, h4, rpc_m.pure_run]
  · simp [rpc_handler.account_history_start, rpc_handler.account_impl, request_get, h1, h2, h3,
      h4, rpc_m.pure_run, rpc_m.bind_run, no_error, rpc_handler.init]

theorem account_history_run (node : node) (request : ptree)
    (account hash count offset fuel : Nat)
    (hrequest : rpc_handler.history_request node request account hash count offset)
    (hends : rpc_handler.previous_walk_ends node fuel hash = true) :
    ∃ final, rpc_handler.account_history node request fuel rpc_handler.init
      = .done ()
          { ec := none,
            response_l := rpc_handler.history_response node account
              (rpc_handler.history_of node
                ((request.get_optional "raw").bind ptree.bool_of_text == some true)
                (rpc_handler.history_chain node fuel hash) count offset) final,
            sent := [rpc_handler.history_response node account
              (rpc_handler.history_of node
                ((request.get_optional "raw").bind ptree.bool_of_text == some true)
                (rpc_handler.history_chain node fuel hash) count offset) final],
            ops := [] } := by
  have hstart := account_history_start_run node request account hash count offset hrequest
  obtain ⟨final, hloop⟩ := account_history_loop_eq node
    ((request.get_optional "raw").bind ptree.bool_of_text == some true) fuel hash count offset []
    hends
  obtain ⟨-, ⟨count_text, hc1, hc2, hc0⟩, ho⟩ := hrequest
  refine ⟨final, ?_⟩
  have hinit : rpc_handler.init = { ec := none, response_l := [], sent := [], ops := [] } := rfl
  rw [hinit] at hstart ⊢
  rcases ho with ⟨ho1, ho2⟩ | ⟨offset_text, ho1, ho2⟩
  · subst ho2
    by_cases hf : final = 0
    · simp [rpc_handler.account_history, hstart, rpc_handler.count_impl,
        rpc_handler.offset_optional_impl, request_get, decode_unsigned, hc1, hc2, hc0, ho1,
        rpc_m.bind_run, rpc_m.pure_run, no_error, put, ptree.put, add_children, hloop,
        rpc_handler.response_errors, respond, rpc_handler.history_response, hf]
    · simp [rpc_handler.account_history, hstart, rpc_handler.count_impl,
        rpc_handler.offset_optional_impl, request_get, decode_unsigned, hc1, hc2, hc0, ho1,
        rpc_m.bind_run, rpc_m.pure_run, no_error, put, ptree.put, add_children, hloop,
        rpc_handler.response_errors, respond, rpc_handler.history_response, hf]
  · by_cases hf : final = 0
    · simp [rpc_handler.account_history, hstart, rpc_handler.count_impl,
        rpc_handler.offset_optional_impl, request_get, decode_unsigned, hc1, hc2, hc0, ho1, ho2,
        rpc_m.bind_run, rpc_m.pure_run, no_error, put, ptree.put, add_children, hloop,
        rpc_handler.response_errors, respond, rpc_handler.history_response, hf]
    · simp [rpc_handler.account_history, hstart, rpc_handler.count_impl,
        rpc_handler.offset_optional_impl, request_get, decode_unsigned, hc1, hc2, hc0, ho1, ho2,
        rpc_m.bind_run, rpc_m.pure_run, no_error, put, ptree.put, add_children, hloop,
        rpc_handler.response_errors, respond, rpc_handler.history_response, hf]

theorem history_entry_change (node : node) (hash : Nat) (b : block) (ht : b.type = .change) :
    rpc_handler.history_entry node false hash b = none := by
  simp [rpc_handler.history_entry, history_visitor.visit, ht, history_visitor.change_block]

theorem history_entry_open (node : node) (hash : Nat) (b : block) (ht : b.type = .open_) :
    rpc_handler.history_entry node false hash b
      = some (if b.source = node.genesis_account then
          rpc_handler.history_report node hash "receive"
            (node.to_account node.genesis_account) (toString node.genesis_amount)
        else
          rpc_handler.history_report node hash "receive"
            (node.to_account (node.ledger_account b.source))
            (toString (node.ledger_amount hash))) := by
  by_cases hs : b.source = node.genesis_account
  · simp [rpc_handler.history_entry, history_visitor.visit, ht, history_visitor.open_block,
      hs, ptree.put, rpc_handler.history_report]
  · simp [rpc_handler.history_entry, history_visitor.visit, ht, history_visitor.open_block,
      hs, ptree.put, rpc_handler.history_report]

theorem history_entry_state_send (node : node) (hash : Nat) (b : block) (ht : b.type = .state)
    (hlt : b.balance < node.ledger_balance b.previous) :
    rpc_handler.history_entry node false hash b
      = some (rpc_handler.history_report node hash "send" (node.to_account b.link)
          (toString (node.ledger_balance b.previous - b.balance))) := by
  simp [rpc_handler.history_entry, history_visitor.visit, ht, history_visitor.state_block,
    hlt, ptree.put, rpc_handler.history_report]

theorem history_entry_state_receive (node : node) (hash : Nat) (b : block)
    (ht : b.type = .state) (hge : ¬ b.balance < node.ledger_balance b.previous)
    (hlink : b.link ≠ 0) (hepoch : node.is_epoch_link b.link = false) :
    rpc_handler.history_entry node false hash b
      = some (rpc_handler.history_report node hash "receive"
          (node.to_account (node.ledger_account b.link))
          (toString (b.balance - node.ledger_balance b.previous))) := by
  simp [rpc_handler.history_entry, history_visitor.visit, ht, history_visitor.state_block,
    hge, hlink, hepoch, ptree.put, rpc_handler.history_report]

theorem history_entry_state_none (node : node) (hash : Nat) (b : block)
    (ht : b.type = .state) (hge : ¬ b.balance < node.ledger_balance b.previous)
    (hlink : b.link = 0 ∨ (b.balance = node.ledger_balance b.previous ∧ node.epoch_link ≠ 0
      ∧ node.is_epoch_link b.link = true)) :
    rpc_handler.history_entry node false hash b = none := by
  rcases hlink with h0 | ⟨h1, h2, h3⟩
  · simp [rpc_handler.history_entry, history_visitor.visit, ht, history_visitor.state_block,
      hge, h0]
  · by_cases h0 : b.link = 0
    · simp [rpc_handler.history_entry, history_visitor.visit, ht, history_visitor.state_block,
        hge, h0]
    · simp [rpc_handler.history_entry, history_visitor.visit, ht, history_visitor.state_block,
        h0, h1, h2, h3]

/-- C12. For a valid `account_history` request with count `count` and offset `offset` on a
store where the chain from the head ends (as it does without cycles), the handler returns
and the `history` list is: the blocks from the head along previous links, `offset` of them
skipped, each further block that has an entry reported, cut after `count` entries; so it
has at most `count` entries and a block without an entry uses up none of the count. With
`raw` unset a legacy change block has no entry; an open block is a `receive` (from the
genesis account with the genesis amount when its source is the genesis account); a state
block with a balance below its predecessor's is a `send` to the link account of the
difference; a state block with a balance not below it and a non-zero link that is no
epoch link is a `receive` of the difference; and a state block with a balance not below it
has no entry when its link is zero or when the balance is equal and the link is the
epoch link of the ledger. -/
theorem account_history_follows_chain (node : node) (request : ptree)
    (account hash count offset fuel : Nat)
    (hrequest : rpc_handler.history_request node request account hash count offset)
    (hends : rpc_handler.previous_walk_ends node fuel hash = true) :
    (∃ final, rpc_handler.account_history node request fuel rpc_handler.init
      = .done ()
          { ec := none,
            response_l := rpc_handler.history_response node account
              (rpc_handler.history_of node
                ((request.get_optional "raw").bind ptree.bool_of_text == some true)
                (rpc_handler.history_chain node fuel hash) count offset) final,
            sent := [rpc_handler.history_response node account
              (rpc_handler.history_of node
                ((request.get_optional "raw").bind ptree.bool_of_text == some true)
                (rpc_handler.history_chain node fuel hash) count offset) final],
            ops := [] })
      ∧ (∀ raw, (rpc_handler.history_of node raw (rpc_handler.history_chain node fuel hash)
          count offset).length ≤ count)
      ∧ (∀ h b, b.type = .change → rpc_handler.history_entry node false h b = none)
      ∧ (∀ h b, b.type = .open_ → b.source = node.genesis_account
          → rpc_handler.history_entry node false h b
            = some (rpc_handler.history_report node h "receive"
                (node.to_account node.genesis_account) (toString node.genesis_amount)))
      ∧ (∀ h b, b.type = .open_ → b.source ≠ node.genesis_account
          → rpc_handler.history_entry node false h b
            = some (rpc_handler.history_report node h "receive"
                (node.to_account (node.ledger_account b.source))
                (toString (node.ledger_amount h))))
      ∧ (∀ h b, b.type = .state → b.balance < node.ledger_balance b.previous
          → rpc_handler.history_entry node false h b
            = some (rpc_handler.history_report node h "send" (node.to_account b.link)
                (toString (node.ledger_balance b.previous - b.balance))))
      ∧ (∀ h b, b.type = .state → ¬ b.balance < node.ledger_balance b.previous
          → b.link ≠ 0 → node.is_epoch_link b.link = false
          → rpc_handler.history_entry node false h b
            = some (rpc_handler.history_report node h "receive"
                (node.to_account (node.ledger_account b.link))
                (toString (b.balance - node.ledger_balance b.previous))))
      ∧ (∀ h b, b.type = .state → ¬ b.balance < node.ledger_balance b.previous
          → b.link = 0 → rpc_handler.history_entry node false h b = none)
      ∧ (∀ h b, b.type = .state → b.balance = node.ledger_balance b.previous
          → node.epoch_link ≠ 0 → node.is_epoch_link b.link = true
          → rpc_handler.history_entry node false h b = none) := by
  refine ⟨account_history_run node request account hash count offset fuel hrequest hends,
    fun raw => ?_, history_entry_change node, fun h b ht hs => ?_, fun h b ht hs => ?_,
    history_entry_state_send node, history_entry_state_receive node,
    fun h b ht hge h0 => history_entry_state_none node h b ht hge (Or.inl h0),
    fun h b ht heq h1 h2 => history_entry_state_none node h b ht (by omega)
      (Or.inr ⟨heq, h1, h2⟩)⟩
  · exact List.length_take_le _ _
  · rw [history_entry_open node h b ht, if_pos hs]
  · rw [history_entry_open node h b ht, if_neg hs]

/-- C12 at the sample node: the last two blocks of account 7, both receives of 10. -/
theorem account_history_follows_chain_witness :
    rpc_handler.history_request sample_node [("account", .data "7"), ("count", .data "2")]
        7 3 2 0
      ∧ rpc_handler.previous_walk_ends sample_node 8 3 = true
      ∧ (rpc_handler.account_history sample_node [("account", .data "7"), ("count", .data "2")]
          8 rpc_handler.init).state.sent
        = [[("account", .data "7"),
            ("history", .children
              [("", .tree [("type", "receive"), ("account", "7"), ("amount", "10"),
                  ("local_timestamp", "1003"), ("hash", "3")]),
               ("", .tree [("type", "receive"), ("account", "7"), ("amount", "10"),
                  ("local_timestamp", "1002"), ("hash", "2")])]),
            ("previous", .data "1")]]
      ∧ ∃ final, rpc_handler.account_history sample_node
          [("account", .data "7"), ("count", .data "2")] 8 rpc_handler.init
        = .done ()
            { ec := none,
              response_l := rpc_handler.history_response sample_node 7
                (rpc_handler.history_of sample_node false
                  (rpc_handler.history_chain sample_node 8 3) 2 0) final,
              sent := [rpc_handler.history_response sample_node 7
                (rpc_handler.history_of sample_node false
                  (rpc_handler.history_chain sample_node 8 3) 2 0) final],
              ops := [] } :=
  have hrequest : rpc_handler.history_request sample_node
      [("account", .data "7"), ("count", .data "2")] 7 3 2 0 :=
    ⟨Or.inr ⟨rfl, "7", rfl, rfl, rfl⟩, ⟨"2", rfl, rfl, by decide⟩, Or.inl ⟨rfl, rfl⟩⟩
  ⟨hrequest, by decide, by decide,
    (account_history_follows_chain sample_node [("account", .data "7"), ("count", .data "2")]
      7 3 2 0 8 hrequest (by decide)).1⟩

/-! ## C13: `pending` -/

theorem pchild.put_length (l : List (String × pchild)) (key value : String) :
    (pchild.put l key value).length ≤ l.length + 1 := by
  induction l with
  | nil => simp [pchild.put]
  | cons head rest ih =>
    obtain ⟨k, v⟩ := head
    simp only [pchild.put]
    split
    · simp
    · simp only [List.length_cons]
      omega

theorem pchild.mem_put (l : List (String × pchild)) (key value : String)
    (e : String × pchild) (he : e ∈ pchild.put l key value) :
    e ∈ l ∨ e = (key, .data value) := by
  induction l with
  | nil =>
    simp only [pchild.put, List.mem_singleton] at he
    exact Or.inr he
  | cons head rest ih =>
    obtain ⟨k, v⟩ := head
    simp only [pchild.put] at he
    split at he
    · rename_i hk
      rcases List.mem_cons.mp he with h | h
      · exact Or.inr (by rw [h, hk])
      · exact Or.inl (List.mem_cons_of_mem _ h)
    · rcases List.mem_cons.mp he with h | h
      · exact Or.inl (by rw [h]; exact List.mem_cons_self _ _)
      · rcases ih h with h2 | h2
        · exact Or.inl (List.mem_cons_of_mem _ h2)
        · exact Or.inr h2

theorem pending_tree_as_child (node : node) (source min_version : Bool) (info : pending_info) :
    (rpc_handler.pending_tree node source min_version info).as_child
      = .tree ([("amount", toString info.amount)]
          ++ (if source then [("source", node.to_account info.source)] else [])
          ++ (if min_version then [("min_version", if info.epoch_1 then "1" else "0")]
              else [])) := by
  cases source <;> cases min_version <;>
    simp [rpc_handler.pending_tree, ptree.as_child, ptree.put, pvalue.text]

theorem pending_push_length (node : node) (threshold : Nat) (source min_version : Bool)
    (key : pending_key) (info : pending_info) (peers_l : List (String × pchild)) :
    (rpc_handler.pending_push node threshold source min_version key info peers_l).length
      ≤ peers_l.length + 1 := by
  have hput := pchild.put_length peers_l (node.to_string key.hash) (toString info.amount)
  unfold rpc_handler.pending_push
  repeat' split
  all_goals (try simp only [List.length_append, List.length_singleton])
  all_goals omega

theorem pending_push_mem (node : node) (threshold : Nat) (source min_version : Bool)
    (key : pending_key) (info : pending_info) (peers_l : List (String × pchild))
    (e : String × pchild)
    (h : e ∈ rpc_handler.pending_push node threshold source min_version key info peers_l) :
    e ∈ peers_l ∨ rpc_handler.pending_reports node threshold source min_version e key info := by
  unfold rpc_handler.pending_push at h
  split at h
  · rename_i hplain
    simp only [Bool.and_eq_true, beq_iff_eq, Bool.not_eq_true'] at hplain
    rcases List.mem_append.mp h with h3 | h3
    · exact Or.inl h3
    · right
      simp only [List.mem_singleton] at h3
      simp [rpc_handler.pending_reports, hplain, h3]
  · rename_i hplain
    have hnot : ¬ (threshold = 0 ∧ source = false ∧ min_version = false) := by
      intro hc
      exact hplain (by simp [hc])
    split at h
    · rename_i hge
      split at h
      · rename_i htree
        have htree2 : ¬ (source = false ∧ min_version = false) := by
          intro hc
          simp [hc] at htree
        rcases List.mem_append.mp h with h3 | h3
        · exact Or.inl h3
        · right
          simp only [List.mem_singleton] at h3
          rw [pending_tree_as_child] at h3
          unfold rpc_handler.pending_reports
          rw [if_neg hnot, if_neg htree2]
          exact ⟨hge, h3⟩
      · rename_i htree
        have htree2 : source = false ∧ min_version = false := by
          cases source <;> cases min_version <;> simp at htree ⊢
        rcases pchild.mem_put _ _ _ _ h with h3 | h3
        · exact Or.inl h3
        · right
          unfold rpc_handler.pending_reports
          rw [if_neg hnot, if_pos htree2]
          exact ⟨hge, h3⟩
    · exact Or.inl h

theorem pending_loop_length (node : node) (account count threshold : Nat)
    (source min_version include_active : Bool) :
    ∀ entries peers_l,
      (rpc_handler.pending_loop node account count threshold source min_version include_active
        entries peers_l).length ≤ max count peers_l.length := by
  intro entries
  induction entries with
  | nil => intro peers_l; simp [rpc_handler.pending_loop]
  | cons head rest ih =>
    intro peers_l
    obtain ⟨key, info⟩ := head
    simp only [rpc_handler.pending_loop]
    split
    · rename_i hcond
      have hlt : peers_l.length < count := by
        simp only [Bool.and_eq_true, decide_eq_true_eq] at hcond
        exact hcond.2
      refine le_trans (ih _) ?_
      have hpush := pending_push_length node threshold source min_version key info peers_l
      split
      · omega
      · omega
    · exact le_max_right _ _

theorem pending_loop_mem (node : node) (account count threshold : Nat)
    (source min_version include_active : Bool) :
    ∀ entries peers_l e,
      e ∈ rpc_handler.pending_loop node account count threshold source min_version
        include_active entries peers_l →
      e ∈ peers_l ∨ ∃ item ∈ entries, item.1.account = account
        ∧ rpc_handler.pending_reports node threshold source min_version e item.1 item.2 := by
  intro entries
  induction entries with
  | nil => intro peers_l e he; exact Or.inl (by simpa [rpc_handler.pending_loop] using he)
  | cons head rest ih =>
    intro peers_l e he
    obtain ⟨key, info⟩ := head
    simp only [rpc_handler.pending_loop] at he
    split at he
    · rename_i hcond
      have hacc : key.account = account := by
        simp only [Bool.and_eq_true, beq_iff_eq] at hcond
        exact hcond.1
      rcases ih _ e he with h | ⟨item, hitem, h1, h2⟩
      · split at h
        · rcases pending_push_mem _ _ _ _ _ _ _ _ h with h3 | h3
          · exact Or.inl h3
          · exact Or.inr ⟨(key, info), List.mem_cons_self _ _, hacc, h3⟩
        · exact Or.inl h
      · exact Or.inr ⟨item, List.mem_cons_of_mem _ hitem, h1, h2⟩
    · exact Or.inl he

theorem pending_run (node : node) (request : ptree)
    (count_default account count threshold : Nat)
    (hrequest : rpc_handler.pending_request node request count_default account count threshold) :
    rpc_handler.pending node request count_default rpc_handler.init
      = .done ()
          { ec := none,
            response_l := [("blocks", .children (rpc_handler.pending_loop node account count
              threshold (request.get_bool "source" false)
              (request.get_bool "min_version" false)
              (request.get_bool "include_active" false) (node.pending_begin account) []))],
            sent := [[("blocks", .children (rpc_handler.pending_loop node account count
              threshold (request.get_bool "source" false)
              (request.get_bool "min_version" false)
              (request.get_bool "include_active" false) (node.pending_begin account) []))]],
            ops := [] } := by
  obtain ⟨⟨account_text, ha1, ha2⟩, hc, ht⟩ := hrequest
  rcases hc with ⟨hc1, hc2⟩ | ⟨count_text, hc1, hc2⟩
  · subst hc2
    rcases ht with ⟨ht1, ht2⟩ | ⟨threshold_text, ht1, ht2⟩
    · subst ht2
      simp [rpc_handler.pending, rpc_handler.account_impl, rpc_handler.count_optional_impl,
        rpc_handler.threshold_optional_impl, request_get, ha1, ha2, hc1, ht1,
        rpc_m.bind_run, rpc_m.pure_run, no_error, rpc_handler.init, add_children,
        rpc_handler.response_errors, respond]
    · simp [rpc_handler.pending, rpc_handler.account_impl, rpc_handler.count_optional_impl,
        rpc_handler.threshold_optional_impl, request_get, ha1, ha2, hc1, ht1, ht2,
        rpc_m.bind_run, rpc_m.pure_run, no_error, rpc_handler.init, add_children,
        rpc_handler.response_errors, respond]
  · rcases ht with ⟨ht1, ht2⟩ | ⟨threshold_text, ht1, ht2⟩
    · subst ht2
      simp [rpc_handler.pending, rpc_handler.account_impl, rpc_handler.count_optional_impl,
        rpc_handler.threshold_optional_impl, request_get, decode_unsigned, ha1, ha2, hc1, hc2,
        ht1, rpc_m.bind_run, rpc_m.pure_run, no_error, rpc_handler.init, add_children,
        rpc_handler.response_errors, respond]
    · simp [rpc_handler.pending, rpc_handler.account_impl, rpc_handler.count_optional_impl,
        rpc_handler.threshold_optional_impl, request_get, decode_unsigned, ha1, ha2, hc1, hc2,
        ht1, ht2, rpc_m.bind_run, rpc_m.pure_run, no_error, rpc_handler.init, add_children,
        rpc_handler.response_errors, respond]

/-- C13. A valid `pending` request for account `account` with count `count` and threshold
`threshold` is answered with a `blocks` result of at most `count` entries. Every entry
reports a pending entry keyed by the account: its hash alone when the threshold is zero and
neither `source` nor `min_version` is set; else its amount under its hash, where the amount
is not below the threshold and `source` and `min_version` stand next to it exactly when the
option is set. A threshold above every pending amount of the account gives an empty
list. -/
theorem pending_lists_entries (node : node) (request : ptree)
    (count_default account count threshold : Nat)
    (hrequest : rpc_handler.pending_request node request count_default account count threshold) :
    rpc_handler.pending node request count_default rpc_handler.init
      = .done ()
          { ec := none,
            response_l := [("blocks", .children (rpc_handler.pending_loop node account count
              threshold (request.get_bool "source" false)
              (request.get_bool "min_version" false)
              (request.get_bool "include_active" false) (node.pending_begin account) []))],
            sent := [[("blocks", .children (rpc_handler.pending_loop node account count
              threshold (request.get_bool "source" false)
              (request.get_bool "min_version" false)
              (request.get_bool "include_active" false) (node.pending_begin account) []))]],
            ops := [] }
      ∧ (rpc_handler.pending_loop node account count threshold
          (request.get_bool "source" false) (request.get_bool "min_version" false)
          (request.get_bool "include_active" false) (node.pending_begin account) []).length
        ≤ count
      ∧ (∀ e ∈ rpc_handler.pending_loop node account count threshold
            (request.get_bool "source" false) (request.get_bool "min_version" false)
            (request.get_bool "include_active" false) (node.pending_begin account) [],
          ∃ item ∈ node.pending_begin account, item.1.account = account
            ∧ rpc_handler.pending_reports node threshold (request.get_bool "source" false)
                (request.get_bool "min_version" false) e item.1 item.2)
      ∧ ((∀ item ∈ node.pending_begin account, item.1.account = account
            → item.2.amount < threshold)
          → rpc_handler.pending_loop node account count threshold
              (request.get_bool "source" false) (request.get_bool "min_version" false)
              (request.get_bool "include_active" false) (node.pending_begin account) []
            = []) := by
  have hmem : ∀ e ∈ rpc_handler.pending_loop node account count threshold
      (request.get_bool "source" false) (request.get_bool "min_version" false)
      (request.get_bool "include_active" false) (node.pending_begin account) [],
      ∃ item ∈ node.pending_begin account, item.1.account = account
        ∧ rpc_handler.pending_reports node threshold (request.get_bool "source" false)
            (request.get_bool "min_version" false) e item.1 item.2 := by
    intro e he
    rcases pending_loop_mem _ _ _ _ _ _ _ _ _ e he with h | h
    · cases h
    · exact h
  refine ⟨pending_run node request count_default account count threshold hrequest, ?_, hmem,
    fun hall => ?_⟩
  · have h := pending_loop_length node account count threshold
      (request.get_bool "source" false) (request.get_bool "min_version" false)
      (request.get_bool "include_active" false) (node.pending_begin account) []
    simpa using h
  · apply List.eq_nil_iff_forall_not_mem.mpr
    intro e he
    obtain ⟨item, hitem, hacc, hrep⟩ := hmem e he
    have hlt := hall item hitem hacc
    unfold rpc_handler.pending_reports at hrep
    have hnot : ¬ (threshold = 0 ∧ request.get_bool "source" false = false
        ∧ request.get_bool "min_version" false = false) := by
      intro hc
      omega
    rw [if_neg hnot] at hrep
    omega

/-- C13 at the sample node: of the two pending entries of account 7, with amounts 5 and
50, a threshold of 30 leaves the second. -/
theorem pending_lists_entries_witness :
    rpc_handler.pending_request sample_node
        [("account", .data "7"), ("threshold", .data "30")] 18446744073709551615 7
        18446744073709551615 30
      ∧ rpc_handler.pending sample_node [("account", .data "7"), ("threshold", .data "30")]
          18446744073709551615 rpc_handler.init
        = .done ()
            { ec := none, response_l := [("blocks", .children [("2", .data "50")])],
              sent := [[("blocks", .children [("2", .data "50")])]], ops := [] } :=
  have hrequest : rpc_handler.pending_request sample_node
      [("account", .data "7"), ("threshold", .data "30")] 18446744073709551615 7
      18446744073709551615 30 :=
    ⟨⟨"7", rfl, rfl⟩, Or.inl ⟨rfl, rfl⟩, Or.inr ⟨"30", rfl, rfl⟩⟩
  ⟨hrequest, (pending_lists_entries sample_node
    [("account", .data "7"), ("threshold", .data "30")] 18446744073709551615 7
    18446744073709551615 30 hrequest).1⟩

/-! ## C14: `ledger` with sorting -/

theorem ledger_entry_eq (node : node) (representative weight pending : Bool)
    (account : Nat) (info : account_info)
    (hrep : representative = true → (node.block_get info.rep_block).isSome = true) :
    ∃ response_a, rpc_handler.ledger_entry node representative weight pending account info
        (node.encode_dec info.balance) = some response_a
      ∧ (node.to_account account, response_a.as_child)
        = rpc_handler.ledger_report node representative weight pending (account, info) := by
  cases representative with
  | false =>
    cases weight <;> cases pending <;>
      exact ⟨_, rfl, by simp [rpc_handler.ledger_report, ptree.as_child, ptree.put,
        pvalue.text]⟩
  | true =>
    have h := hrep rfl
    obtain ⟨b, hb⟩ := Option.isSome_iff_exists.mp h
    cases weight <;> cases pending <;>
      exact ⟨_, by simp [rpc_handler.ledger_entry, hb]; rfl, by
        simp [rpc_handler.ledger_report, ptree.as_child, ptree.put, pvalue.text, hb]⟩

theorem ledger_sorted_loop_eq (node : node) (count : Nat)
    (representative weight pending : Bool) :
    ∀ (pairs : List (Nat × Nat)) (info0 : account_info) (accounts : List (String × pchild)),
      (∀ p ∈ pairs, ∃ info, node.account_get p.2 = some info ∧ info.balance = p.1
        ∧ (representative = true → (node.block_get info.rep_block).isSome = true)) →
      rpc_handler.ledger_sorted_loop node count representative weight pending pairs info0
          accounts
        = some (accounts ++ (pairs.take (count - accounts.length)).map fun p =>
            rpc_handler.ledger_report node representative weight pending
              (p.2, (node.account_get p.2).getD {})) := by
  intro pairs
  induction pairs with
  | nil => intro info0 accounts _; simp [rpc_handler.ledger_sorted_loop]
  | cons head rest ih =>
    intro info0 accounts hall
    obtain ⟨balance, account⟩ := head
    obtain ⟨info, h1, h2, h3⟩ := hall (balance, account) (List.mem_cons_self _ _)
    simp only at h1 h2
    simp only [rpc_handler.ledger_sorted_loop]
    by_cases hlt : accounts.length < count
    · obtain ⟨response_a, he1, he2⟩ :=
        ledger_entry_eq node representative weight pending account info h3
      rw [h2] at he1
      simp only [hlt, if_true, h1, Option.getD_some, he1]
      rw [ih info _ (fun p hp => hall p (List.mem_cons_of_mem _ hp))]
      obtain ⟨k, hk⟩ : ∃ k, count - accounts.length = k + 1 :=
        ⟨count - accounts.length - 1, by omega⟩
      have hk2 : count - (accounts ++ [(node.to_account account, response_a.as_child)]).length
          = k := by
        simp only [List.length_append, List.length_singleton]
        omega
      rw [hk, hk2, he2]
      simp [h1]
    · have h0 : count - accounts.length = 0 := by omega
      simp [hlt, h0]

theorem ledger_l_mem (modified_since : Nat) (entries : List (Nat × account_info))
    (p : Nat × Nat) :
    p ∈ rpc_handler.ledger_l modified_since entries
      ↔ ∃ item ∈ entries, item.2.modified ≥ modified_since ∧ p = (item.2.balance, item.1) := by
  unfold rpc_handler.ledger_l
  rw [List.mem_reverse, List.mem_insertionSort, List.mem_map]
  constructor
  · rintro ⟨item, hitem, rfl⟩
    rw [List.mem_filter] at hitem
    exact ⟨item, hitem.1, by simpa using hitem.2, rfl⟩
  · rintro ⟨item, hitem, hmod, rfl⟩
    exact ⟨item, List.mem_filter.mpr ⟨hitem, by simpa using hmod⟩, rfl⟩

theorem ledger_l_sorted (modified_since : Nat) (entries : List (Nat × account_info)) :
    (rpc_handler.ledger_l modified_since entries).Pairwise
      (fun a b => rpc_handler.ledger_le b a) := by
  haveI : IsTotal (Nat × Nat) rpc_handler.ledger_le := ⟨fun a b => by
    unfold rpc_handler.ledger_le
    omega⟩
  haveI : IsTrans (Nat × Nat) rpc_handler.ledger_le := ⟨fun a b c => by
    unfold rpc_handler.ledger_le
    omega⟩
  unfold rpc_handler.ledger_l
  rw [List.pairwise_reverse]
  exact List.sorted_insertionSort rpc_handler.ledger_le _

theorem ledger_run (rpc : rpc) (node : node) (request : ptree)
    (count_default count start modified_since : Nat)
    (hcontrol : rpc.config.enable_control = true)
    (hrequest : rpc_handler.ledger_request node request count_default count start
      modified_since)
    (hstore : ∀ item ∈ node.latest_begin start,
      start ≤ item.1 ∧ node.account_get item.1 = some item.2)
    (hrep : request.get_bool "representative" false = true
      → ∀ item ∈ node.latest_begin start, (node.block_get item.2.rep_block).isSome = true) :
    rpc_handler.ledger rpc node request count_default rpc_handler.init
      = .done ()
          { ec := none,
            response_l := [("accounts", .children
              ((rpc_handler.ledger_listed node count modified_since
                (node.latest_begin start)).map
                (rpc_handler.ledger_report node (request.get_bool "representative" false)
                  (request.get_bool "weight" false) (request.get_bool "pending" false))))],
            sent := [[("accounts", .children
              ((rpc_handler.ledger_listed node count modified_since
                (node.latest_begin start)).map
                (rpc_handler.ledger_report node (request.get_bool "representative" false)
                  (request.get_bool "weight" false) (request.get_bool "pending" false))))]],
            ops := [] } := by
  have hloop := ledger_sorted_loop_eq node count (request.get_bool "representative" false)
    (request.get_bool "weight" false) (request.get_bool "pending" false)
    (rpc_handler.ledger_l modified_since (node.latest_begin start)) {} [] (by
      intro p hp
      obtain ⟨item, hitem, -, rfl⟩ := (ledger_l_mem _ _ _).mp hp
      exact ⟨item.2, (hstore item hitem).2, rfl, fun h => hrep h item hitem⟩)
  simp only [List.nil_append, List.length_nil, Nat.sub_zero] at hloop
  have hlisted : (rpc_handler.ledger_listed node count modified_since
      (node.latest_begin start)).map
        (rpc_handler.ledger_report node (request.get_bool "representative" false)
          (request.get_bool "weight" false) (request.get_bool "pending" false))
      = ((rpc_handler.ledger_l modified_since (node.latest_begin start)).take count).map
          fun p => rpc_handler.ledger_report node (request.get_bool "representative" false)
            (request.get_bool "weight" false) (request.get_bool "pending" false)
            (p.2, (node.account_get p.2).getD {}) := by
    unfold rpc_handler.ledger_listed
    rw [List.map_map]
    rfl
  rw [hlisted]
  obtain ⟨hc, ha, hm, hsorting⟩ := hrequest
  have hinit : rpc_handler.init = { ec := none, response_l := [], sent := [], ops := [] } := rfl
  rw [hinit]
  rcases hc with ⟨hc1, hc2⟩ | ⟨count_text, hc1, hc2⟩
  · subst hc2
    rcases ha with ⟨ha1, ha2⟩ | ⟨account_text, ha1, ha2⟩
    · subst ha2
      rcases hm with ⟨hm1, hm2⟩ | ⟨text, hm1, hm2⟩
      · subst hm2
        simp [rpc_handler.ledger, rpc_handler.rpc_control_impl,
          rpc_handler.count_optional_impl, decode_unsigned, rpc_m.bind_run, rpc_m.pure_run,
          no_error, add_children, rpc_handler.response_errors, respond, hcontrol, hc1, ha1,
          hm1, hsorting, hloop]
      · simp [rpc_handler.ledger, rpc_handler.rpc_control_impl,
          rpc_handler.count_optional_impl, decode_unsigned, rpc_m.bind_run, rpc_m.pure_run,
          no_error, add_children, rpc_handler.response_errors, respond, hcontrol, hc1, ha1,
          hm1, hm2, hsorting, hloop]
    · rcases hm with ⟨hm1, hm2⟩ | ⟨text, hm1, hm2⟩
      · subst hm2
        simp [rpc_handler.ledger, rpc_handler.rpc_control_impl,
          rpc_handler.count_optional_impl, decode_unsigned, rpc_m.bind_run, rpc_m.pure_run,
          no_error, add_children, rpc_handler.response_errors, respond, hcontrol, hc1, ha1,
          ha2, hm1, hsorting, hloop]
      · simp [rpc_handler.ledger, rpc_handler.rpc_control_impl,
          rpc_handler.count_optional_impl, decode_unsigned, rpc_m.bind_run, rpc_m.pure_run,
          no_error, add_children, rpc_handler.response_errors, respond, hcontrol, hc1, ha1,
          ha2, hm1, hm2, hsorting, hloop]
  · rcases ha with ⟨ha1, ha2⟩ | ⟨account_text, ha1, ha2⟩
    · subst ha2
      rcases hm with ⟨hm1, hm2⟩ | ⟨text, hm1, hm2⟩
      · subst hm2
        simp [rpc_handler.ledger, rpc_handler.rpc_control_impl,
          rpc_handler.count_optional_impl, decode_unsigned, rpc_m.bind_run, rpc_m.pure_run,
          no_error, add_children, rpc_handler.response_errors, respond, hcontrol, hc1, hc2,
          ha1, hm1, hsorting, hloop]
      · simp [rpc_handler.ledger, rpc_handler.rpc_control_impl,
          rpc_handler.count_optional_impl, decode_unsigned, rpc_m.bind_run, rpc_m.pure_run,
          no_error, add_children, rpc_handler.response_errors, respond, hcontrol, hc1, hc2,
          ha1, hm1, hm2, hsorting, hloop]
    · rcases hm with ⟨hm1, hm2⟩ | ⟨text, hm1, hm2⟩
      · subst hm2
        simp [rpc_handler.ledger, rpc_handler.rpc_control_impl,
          rpc_handler.count_optional_impl, decode_unsigned, rpc_m.bind_run, rpc_m.pure_run,
          no_error, add_children, rpc_handler.response_errors, respond, hcontrol, hc1, hc2,
          ha1, ha2, hm1, hsorting, hloop]
      · simp [rpc_handler.ledger, rpc_handler.rpc_control_impl,
          rpc_handler.count_optional_impl, decode_unsigned, rpc_m.bind_run, rpc_m.pure_run,
          no_error, add_children, rpc_handler.response_errors, respond, hcontrol, hc1, hc2,
          ha1, ha2, hm1, hm2, hsorting, hloop]

/-- C14, amended. With control enabled, a valid `ledger` request with sorting set and count
`count` is answered, on a store whose account table reads the same through the iterator
and through `account_get`, with an `accounts` result that lists at most `count` accounts
in non-increasing order of balance; each is an account of the table from `start` on,
modified at or after `modified_since`; when a qualifying account is left out the list is
full and none listed has a smaller balance; and each entry gives the fields of the
account's `account_info`. -/
theorem ledger_sorting_lists_highest (rpc : rpc) (node : node) (request : ptree)
    (count_default count start modified_since : Nat)
    (hcontrol : rpc.config.enable_control = true)
    (hrequest : rpc_handler.ledger_request node request count_default count start
      modified_since)
    (hstore : ∀ item ∈ node.latest_begin start,
      start ≤ item.1 ∧ node.account_get item.1 = some item.2)
    (hrep : request.get_bool "representative" false = true
      → ∀ item ∈ node.latest_begin start, (node.block_get item.2.rep_block).isSome = true) :
    rpc_handler.ledger rpc node request count_default rpc_handler.init
      = .done ()
          { ec := none,
            response_l := [("accounts", .children
              ((rpc_handler.ledger_listed node count modified_since
                (node.latest_begin start)).map
                (rpc_handler.ledger_report node (request.get_bool "representative" false)
                  (request.get_bool "weight" false) (request.get_bool "pending" false))))],
            sent := [[("accounts", .children
              ((rpc_handler.ledger_listed node count modified_since
                (node.latest_begin start)).map
                (rpc_handler.ledger_report node (request.get_bool "representative" false)
                  (request.get_bool "weight" false) (request.get_bool "pending" false))))]],
            ops := [] }
      ∧ (rpc_handler.ledger_listed node count modified_since
          (node.latest_begin start)).length ≤ count
      ∧ (rpc_handler.ledger_listed node count modified_since
          (node.latest_begin start)).Pairwise (fun a b => b.2.balance ≤ a.2.balance)
      ∧ (∀ item ∈ rpc_handler.ledger_listed node count modified_since
            (node.latest_begin start),
          item ∈ node.latest_begin start ∧ modified_since ≤ item.2.modified
            ∧ start ≤ item.1)
      ∧ (∀ item ∈ node.latest_begin start, modified_since ≤ item.2.modified
          → item ∉ rpc_handler.ledger_listed node count modified_since
              (node.latest_begin start)
          → (rpc_handler.ledger_listed node count modified_since
                (node.latest_begin start)).length = count
            ∧ ∀ shown ∈ rpc_handler.ledger_listed node count modified_since
                (node.latest_begin start), item.2.balance ≤ shown.2.balance) := by
  have hback : ∀ p ∈ rpc_handler.ledger_l modified_since (node.latest_begin start),
      (p.2, (node.account_get p.2).getD {}) ∈ node.latest_begin start
        ∧ modified_since ≤ ((node.account_get p.2).getD {}).modified
        ∧ ((node.account_get p.2).getD {}).balance = p.1 := by
    intro p hp
    obtain ⟨item, hitem, hmod, rfl⟩ := (ledger_l_mem _ _ _).mp hp
    simp only [(hstore item hitem).2, Option.getD_some]
    exact ⟨hitem, hmod, trivial⟩
  have hsorted := ledger_l_sorted modified_since (node.latest_begin start)
  have htake : ∀ p ∈ (rpc_handler.ledger_l modified_since (node.latest_begin start)).take
      count, p ∈ rpc_handler.ledger_l modified_since (node.latest_begin start) :=
    fun p hp => List.mem_of_mem_take hp
  refine ⟨ledger_run rpc node request count_default count start modified_since hcontrol
    hrequest hstore hrep, ?_, ?_, ?_, ?_⟩
  · unfold rpc_handler.ledger_listed
    rw [List.length_map]
    exact List.length_take_le _ _
  · unfold rpc_handler.ledger_listed
    rw [List.pairwise_map]
    refine List.Pairwise.imp_of_mem ?_ (hsorted.sublist (List.take_sublist _ _))
    intro p q hp hq hle
    rw [(hback p (htake p hp)).2.2, (hback q (htake q hq)).2.2]
    unfold rpc_handler.ledger_le at hle
    omega
  · intro item hitem
    unfold rpc_handler.ledger_listed at hitem
    obtain ⟨p, hp, rfl⟩ := List.mem_map.mp hitem
    obtain ⟨h1, h2, -⟩ := hback p (htake p hp)
    exact ⟨h1, h2, (hstore _ h1).1⟩
  · intro item hitem hmod hnot
    have hp : (item.2.balance, item.1)
        ∈ rpc_handler.ledger_l modified_since (node.latest_begin start) :=
      (ledger_l_mem _ _ _).mpr ⟨item, hitem, hmod, rfl⟩
    have hnt : (item.2.balance, item.1)
        ∉ (rpc_handler.ledger_l modified_since (node.latest_begin start)).take count := by
      intro hin
      apply hnot
      unfold rpc_handler.ledger_listed
      refine List.mem_map.mpr ⟨_, hin, ?_⟩
      simp only [(hstore item hitem).2, Option.getD_some]
    have hsplit := List.take_append_drop count
      (rpc_handler.ledger_l modified_since (node.latest_begin start))
    have hdrop : (item.2.balance, item.1)
        ∈ (rpc_handler.ledger_l modified_since (node.latest_begin start)).drop count := by
      rw [← hsplit] at hp
      rcases List.mem_append.mp hp with h | h
      · exact absurd h hnt
      · exact h
    rw [← hsplit] at hsorted
    have hcross := (List.pairwise_append.mp hsorted).2.2
    constructor
    · unfold rpc_handler.ledger_listed
      rw [List.length_map, List.length_take]
      have hlen : 0 < ((rpc_handler.ledger_l modified_since
          (node.latest_begin start)).drop count).length := List.length_pos_of_mem hdrop
      rw [List.length_drop] at hlen
      omega
    · intro shown hshown
      unfold rpc_handler.ledger_listed at hshown
      obtain ⟨p, hp2, rfl⟩ := List.mem_map.mp hshown
      have hle := hcross p hp2 _ hdrop
      simp only [(hback p (htake p hp2)).2.2]
      unfold rpc_handler.ledger_le at hle
      simp only at hle
      omega

/-- C14 at the sample node, whose accounts 7, 8 and 9 hold 30, 70 and 30: with control
enabled and count 2 the list is account 8, then account 9. -/
theorem ledger_sorting_lists_highest_witness :
    sample_rpc_enabled.config.enable_control = true
      ∧ rpc_handler.ledger_request sample_node
          [("sorting", .data "true"), ("count", .data "2")] 18446744073709551615 2 0 0
      ∧ (rpc_handler.ledger_listed sample_node 2 0 (sample_node.latest_begin 0)).map
          (fun item => (item.1, item.2.balance)) = [(8, 70), (9, 30)]
      ∧ rpc_handler.ledger sample_rpc_enabled sample_node
          [("sorting", .data "true"), ("count", .data "2")] 18446744073709551615
          rpc_handler.init
        = .done ()
            { ec := none,
              response_l := [("accounts", .children
                ((rpc_handler.ledger_listed sample_node 2 0 (sample_node.latest_begin 0)).map
                  (rpc_handler.ledger_report sample_node false false false)))],
              sent := [[("accounts", .children
                ((rpc_handler.ledger_listed sample_node 2 0 (sample_node.latest_begin 0)).map
                  (rpc_handler.ledger_report sample_node false false false)))]],
              ops := [] } :=
  have hrequest : rpc_handler.ledger_request sample_node
      [("sorting", .data "true"), ("count", .data "2")] 18446744073709551615 2 0 0 :=
    ⟨Or.inr ⟨"2", rfl, rfl⟩, Or.inl ⟨rfl, rfl⟩, Or.inl ⟨rfl, rfl⟩, rfl⟩
  ⟨rfl, hrequest, by decide,
    (ledger_sorting_lists_highest sample_rpc_enabled sample_node
      [("sorting", .data "true"), ("count", .data "2")] 18446744073709551615 2 0 0 rfl
      hrequest (by decide) (fun h => absurd h (by decide))).1⟩

/-- The claim as it stands speaks of every `ledger` request with sorting. With control
disabled the same request at the sample node, whose table holds the accounts 7, 8 and 9,
is answered with the control-disabled error and lists no account. -/
theorem ledger_sorting_refused_without_control :
    sample_rpc_disabled.config.enable_control = false
      ∧ rpc_handler.ledger_request sample_node
          [("sorting", .data "true"), ("count", .data "2")] 18446744073709551615 2 0 0
      ∧ rpc_handler.ledger sample_rpc_disabled sample_node
          [("sorting", .data "true"), ("count", .data "2")] 18446744073709551615
          rpc_handler.init
        = .done ()
            { ec := some (.rpc .rpc_control_disabled),
              response_l := [],
              sent := [[("error", .data "RPC control is disabled")]],
              ops := [] } :=
  ⟨rfl, ⟨Or.inr ⟨"2", rfl, rfl⟩, Or.inl ⟨rfl, rfl⟩, Or.inl ⟨rfl, rfl⟩, rfl⟩, by decide⟩

/-! ## C17: `parse_endpoint` -/

theorem split_last_colon_sound (text : List Char) :
    (∀ before after, split_last_colon text = some (before, after)
        → text = before ++ ':' :: after ∧ ':' ∉ after)
      ∧ (split_last_colon text = none → ':' ∉ text) := by
  induction text with
  | nil => simp [split_last_colon]
  | cons c rest ih =>
    simp only [split_last_colon]
    cases hr : split_last_colon rest with
    | some p =>
      obtain ⟨b2, a2⟩ := p
      obtain ⟨h1, h2⟩ := ih.1 b2 a2 hr
      refine ⟨fun before after h => ?_, fun h => by cases h⟩
      simp only [Option.some.injEq, Prod.mk.injEq] at h
      obtain ⟨rfl, rfl⟩ := h
      exact ⟨by rw [h1]; rfl, h2⟩
    | none =>
      have hnot := ih.2 hr
      by_cases hc : c = ':'
      · subst hc
        refine ⟨fun before after h => ?_, fun h => by simp at h⟩
        simp only [if_true, Option.some.injEq, Prod.mk.injEq] at h
        obtain ⟨rfl, rfl⟩ := h
        exact ⟨rfl, hnot⟩
      · refine ⟨fun before after h => by simp [hc] at h, fun _ => ?_⟩
        intro hin
        rcases List.mem_cons.mp hin with h | h
        · exact hc h.symm
        · exact hnot h

theorem split_last_colon_none (text : List Char) (h : ':' ∉ text) :
    split_last_colon text = none := by
  induction text with
  | nil => rfl
  | cons c rest ih =>
    have h1 : ¬ c = ':' := fun hc => h (by rw [hc]; exact List.mem_cons_self _ _)
    have h2 : ':' ∉ rest := fun hin => h (List.mem_cons_of_mem _ hin)
    simp [split_last_colon, ih h2, h1]

theorem split_last_colon_complete (before after : List Char) (h : ':' ∉ after) :
    split_last_colon (before ++ ':' :: after) = some (before, after) := by
  induction before with
  | nil => simp [split_last_colon, split_last_colon_none after h]
  | cons c rest ih => simp [split_last_colon, ih]

theorem split_last_colon_some (text before after : List Char) :
    split_last_colon text = some (before, after)
      ↔ text = before ++ ':' :: after ∧ ':' ∉ after := by
  constructor
  · exact (split_last_colon_sound text).1 before after
  · rintro ⟨rfl, h⟩
    exact split_last_colon_complete before after h

theorem parse_port_some (text : List Char) (port : Nat) :
    parse_port text = some port
      ↔ text ≠ [] ∧ (∀ c ∈ text, c.isDigit = true) ∧ decimal_value text = port
          ∧ port < 65536 := by
  unfold parse_port
  constructor
  · intro h
    split at h
    · rename_i hc
      simp only [Option.some.injEq] at h
      subst h
      exact ⟨hc.1, by simpa [List.all_eq_true] using hc.2.1, rfl, hc.2.2⟩
    · cases h
  · rintro ⟨h1, h2, rfl, h4⟩
    rw [if_pos ⟨h1, by simpa [List.all_eq_true] using h2, h4⟩]

theorem parse_endpoint_some (address_from_string : String → Option Nat) (text : String)
    (address port : Nat) :
    parse_endpoint address_from_string text = some ⟨address, port⟩
      ↔ ∃ address_text port_text : List Char,
          text.toList = address_text ++ ':' :: port_text ∧ ':' ∉ port_text
            ∧ address_text ≠ [] ∧ address_from_string (String.mk address_text) = some address
            ∧ port_text ≠ [] ∧ (∀ c ∈ port_text, c.isDigit = true)
            ∧ decimal_value port_text = port ∧ port < 65536 := by
  unfold parse_endpoint
  constructor
  · intro h
    cases hs : split_last_colon text.toList with
    | none => rw [hs] at h; cases h
    | some p =>
      obtain ⟨address_text, port_text⟩ := p
      rw [hs] at h
      simp only at h
      obtain ⟨h1, h2⟩ := (split_last_colon_some _ _ _).mp hs
      by_cases he : address_text = []
      · rw [if_pos he] at h; cases h
      · rw [if_neg he] at h
        cases hp : parse_port port_text with
        | none => rw [hp] at h; cases h
        | some port2 =>
          rw [hp] at h
          simp only at h
          cases ha : address_from_string (String.mk address_text) with
          | none => rw [ha] at h; cases h
          | some address2 =>
            rw [ha] at h
            simp only [Option.some.injEq, endpoint.mk.injEq] at h
            obtain ⟨rfl, rfl⟩ := h
            obtain ⟨p1, p2, p3, p4⟩ := (parse_port_some _ _).mp hp
            exact ⟨address_text, port_text, h1, h2, he, ha, p1, p2, p3, p4⟩
  · rintro ⟨address_text, port_text, h1, h2, he, ha, p1, p2, p3, p4⟩
    have hs := (split_last_colon_some _ _ _).mpr ⟨h1, h2⟩
    have hp := (parse_port_some _ _).mpr ⟨p1, p2, p3, p4⟩
    rw [hs]
    simp only
    rw [if_neg he, hp]
    simp only
    rw [ha]

/-- C17. `parse_endpoint` accepts a text exactly when it is an address and a port
around its last colon, the address not empty and accepted by the IPv6 parser, the port a
non-empty text of decimal digits that denotes a number below 65536; the endpoint then
carries that address and that port. With an IPv6 parser that reads `::1` as the loopback
address and rejects `:` and `::q`, the text `::1:24000` is accepted as loopback and port
24000, and `::1`, `:24000`, `::1:`, `::1:24a00` and `::q:24000` are rejected. -/
theorem parse_endpoint_accepts (address_from_string : String → Option Nat) (loopback : Nat)
    (hloopback : address_from_string "::1" = some loopback)
    (hcolon : address_from_string ":" = none)
    (hq : address_from_string "::q" = none) :
    (∀ text address port,
      parse_endpoint address_from_string text = some ⟨address, port⟩
        ↔ ∃ address_text port_text : List Char,
            text.toList = address_text ++ ':' :: port_text ∧ ':' ∉ port_text
              ∧ address_text ≠ []
              ∧ address_from_string (String.mk address_text) = some address
              ∧ port_text ≠ [] ∧ (∀ c ∈ port_text, c.isDigit = true)
              ∧ decimal_value port_text = port ∧ port < 65536)
      ∧ parse_endpoint address_from_string "::1:24000" = some ⟨loopback, 24000⟩
      ∧ parse_endpoint address_from_string "::1" = none
      ∧ parse_endpoint address_from_string ":24000" = none
      ∧ parse_endpoint address_from_string "::1:" = none
      ∧ parse_endpoint address_from_string "::1:24a00" = none
      ∧ parse_endpoint address_from_string "::q:24000" = none := by
  refine ⟨parse_endpoint_some address_from_string, ?_, ?_, ?_, ?_, ?_, ?_⟩
  · have hs : split_last_colon "::1:24000".toList = some ("::1".toList, "24000".toList) := by
      decide
    have hp : parse_port "24000".toList = some 24000 := by decide
    have hm : String.mk "::1".toList = "::1" := by decide
    unfold parse_endpoint
    rw [hs]
    simp only
    rw [if_neg (by decide), hp]
    simp only
    rw [hm, hloopback]
  · have hs : split_last_colon "::1".toList = some (":".toList, "1".toList) := by decide
    have hp : parse_port "1".toList = some 1 := by decide
    have hm : String.mk ":".toList = ":" := by decide
    unfold parse_endpoint
    rw [hs]
    simp only
    rw [if_neg (by decide), hp]
    simp only
    rw [hm, hcolon]
  · have hs : split_last_colon ":24000".toList = some ([], "24000".toList) := by decide
    unfold parse_endpoint
    rw [hs]
    rfl
  · have hs : split_last_colon "::1:".toList = some ("::1".toList, []) := by decide
    have hp : parse_port [] = none := by decide
    unfold parse_endpoint
    rw [hs]
    simp only
    rw [if_neg (by decide), hp]
  · have hs : split_last_colon "::1:24a00".toList = some ("::1".toList, "24a00".toList) := by
      decide
    have hp : parse_port "24a00".toList = none := by decide
    unfold parse_endpoint
    rw [hs]
    simp only
    rw [if_neg (by decide), hp]
  · have hs : split_last_colon "::q:24000".toList = some ("::q".toList, "24000".toList) := by
      decide
    have hp : parse_port "24000".toList = some 24000 := by decide
    have hm : String.mk "::q".toList = "::q" := by decide
    unfold parse_endpoint
    rw [hs]
    simp only
    rw [if_neg (by decide), hp]
    simp only
    rw [hm, hq]

/-- C17 with an address parser that knows `::1` and `::`. -/
theorem parse_endpoint_accepts_witness :
    sample_address_from_string "::1" = some 1
      ∧ parse_endpoint sample_address_from_string "::1:24000" = some ⟨1, 24000⟩
      ∧ parse_endpoint sample_address_from_string "::1" = none
      ∧ parse_endpoint sample_address_from_string ":24000" = none
      ∧ parse_endpoint sample_address_from_string "::1:" = none
      ∧ parse_endpoint sample_address_from_string "::1:24a00" = none
      ∧ parse_endpoint sample_address_from_string "::q:24000" = none :=
  ⟨rfl, (parse_endpoint_accepts sample_address_from_string 1 rfl rfl rfl).2⟩

/-! ## C18: the UDP buffer pool -/

theorem dequeue_many_queue (n : Nat) :
    ∀ pool : udp_buffer, pool.stopped = false →
      (udp_buffer.dequeue_many n pool).1
        = (pool.full.take n).map some ++ List.replicate (n - pool.full.length) none := by
  induction n with
  | zero => intro pool _; simp [udp_buffer.dequeue_many]
  | succ n ih =>
    intro pool hs
    cases hf : pool.full with
    | nil =>
      have hd : pool.dequeue = (none, pool) := by simp [udp_buffer.dequeue, hs, hf]
      simp only [udp_buffer.dequeue_many, hd]
      rw [ih pool hs, hf]
      simp [List.replicate_succ]
    | cons slot rest =>
      have hd : pool.dequeue = (some slot, { pool with full := rest }) := by
        simp [udp_buffer.dequeue, hs, hf]
      simp only [udp_buffer.dequeue_many, hd]
      rw [ih ⟨pool.free, rest, pool.overflow, pool.stopped⟩ hs]
      simp

theorem enqueue_all_queue (slots : List Nat) :
    ∀ pool : udp_buffer, (slots.foldl udp_buffer.enqueue pool).full = pool.full ++ slots
      ∧ (slots.foldl udp_buffer.enqueue pool).stopped = pool.stopped := by
  induction slots with
  | nil => intro pool; simp
  | cons slot rest ih =>
    intro pool
    simp only [List.foldl_cons]
    obtain ⟨h1, h2⟩ := ih (pool.enqueue slot)
    rw [h1, h2]
    simp [udp_buffer.enqueue]

/-- C18. In a pool that is not stopped: when no slot is free and a slot is enqueued,
`allocate` hands out the oldest enqueued slot, takes it off the queue and adds one to the
overflow counter; when a slot is free it hands out a free slot and leaves the queue and
the counter as they are; and slots enqueued one after the other are dequeued in the order
they were enqueued, behind those already in the queue. -/
theorem udp_buffer_back_pressure (pool : udp_buffer) (hstopped : pool.stopped = false) :
    (∀ slot rest, pool.free = [] → pool.full = slot :: rest
        → pool.allocate
          = (some slot, { pool with full := rest, overflow := pool.overflow + 1 }))
      ∧ (∀ slot rest, pool.free = slot :: rest
          → pool.allocate = (some slot, { pool with free := rest })
            ∧ pool.allocate.2.overflow = pool.overflow
            ∧ pool.allocate.2.full = pool.full)
      ∧ (∀ slots : List Nat,
          (udp_buffer.dequeue_many (pool.full.length + slots.length)
            (slots.foldl udp_buffer.enqueue pool)).1 = (pool.full ++ slots).map some) := by
  refine ⟨fun slot rest hfree hfull => ?_, fun slot rest hfree => ?_, fun slots => ?_⟩
  · simp [udp_buffer.allocate, hstopped, hfree, hfull]
  · simp [udp_buffer.allocate, hstopped, hfree]
  · obtain ⟨h1, h2⟩ := enqueue_all_queue slots pool
    rw [dequeue_many_queue _ _ (h2.trans hstopped), h1]
    simp

/-- C18 on the pool of the test `one_overflow`: one slot, allocated and enqueued; the next
`allocate` hands the slot out again and counts one overflow. -/
theorem udp_buffer_back_pressure_witness :
    ((udp_buffer.mk_pool 1).allocate.2.enqueue 0).stopped = false
      ∧ ((udp_buffer.mk_pool 1).allocate.2.enqueue 0).allocate
        = (some 0, { free := [], full := [], overflow := 1, stopped := false }) :=
  ⟨rfl, (udp_buffer_back_pressure ((udp_buffer.mk_pool 1).allocate.2.enqueue 0) rfl).1 0 []
    rfl rfl⟩

/-! ## C19: the bulk pull server -/

theorem bulk_pull_before_end (node : node) (end_ n : Nat) :
    bulk_pull_before node end_ n end_ = [] := by
  cases n <;> simp [bulk_pull_before]

theorem get_next_many_before (node : node) (n : Nat) :
    ∀ server : bulk_pull_server, server.include_start = false →
      bulk_pull_server.get_next_many node n server
        = (bulk_pull_cap (server.max_count.map fun c => c - server.sent_count)
            (bulk_pull_before node server.end_ n server.current)).map some
          ++ List.replicate (n - (bulk_pull_cap (server.max_count.map fun c =>
              c - server.sent_count)
              (bulk_pull_before node server.end_ n server.current)).length) none := by
  induction n with
  | zero =>
    intro server _
    cases hm : server.max_count <;>
      simp [bulk_pull_server.get_next_many, bulk_pull_before, bulk_pull_cap]
  | succ n ih =>
    intro server hflag
    obtain ⟨current, end_, include_start, max_count, sent_count⟩ := server
    simp only at hflag
    subst hflag
    simp only [bulk_pull_server.get_next_many]
    by_cases hstop : current = end_
    · subst hstop
      have hg : bulk_pull_server.get_next node ⟨current, current, false, max_count, sent_count⟩
          = (none, ⟨current, current, false, max_count, sent_count⟩) := by
        simp [bulk_pull_server.get_next]
      rw [hg]
      simp only
      rw [ih _ rfl]
      simp only [bulk_pull_before_end]
      cases max_count <;> simp [bulk_pull_cap, List.replicate_succ]
    by_cases hcap : (bulk_pull_server.capped ⟨current, end_, false, max_count, sent_count⟩)
        = true
    · have hg : bulk_pull_server.get_next node ⟨current, end_, false, max_count, sent_count⟩
          = (none, ⟨current, end_, false, max_count, sent_count⟩) := by
        simp [bulk_pull_server.get_next, hcap]
      rw [hg]
      simp only
      rw [ih _ rfl]
      cases max_count with
      | none => simp [bulk_pull_server.capped] at hcap
      | some c =>
        have hc : c - sent_count = 0 := by
          simp [bulk_pull_server.capped] at hcap
          omega
        simp [bulk_pull_cap, hc, List.replicate_succ]
    · cases hb : node.block_get current with
      | none =>
        have hg : bulk_pull_server.get_next node ⟨current, end_, false, max_count, sent_count⟩
            = (none, ⟨end_, end_, false, max_count, sent_count⟩) := by
          simp [bulk_pull_server.get_next, hstop, hcap, hb]
        rw [hg]
        simp only
        rw [ih _ rfl]
        simp only [bulk_pull_before_end, bulk_pull_before, hstop, if_false, hb]
        cases max_count <;> simp [bulk_pull_cap, List.replicate_succ]
      | some b =>
        have hg : bulk_pull_server.get_next node ⟨current, end_, false, max_count, sent_count⟩
            = (some b, ⟨if b.previous = 0 then end_ else b.previous, end_, false, max_count,
                sent_count + 1⟩) := by
          simp [bulk_pull_server.get_next, hstop, hcap, hb]
        rw [hg]
        simp only
        rw [ih _ rfl]
        have htail : bulk_pull_before node end_ n (if b.previous = 0 then end_ else b.previous)
            = (if b.previous = 0 then [] else bulk_pull_before node end_ n b.previous) := by
          split
          · exact bulk_pull_before_end node _ n
          · rfl
        simp only [htail, bulk_pull_before, hstop, if_false, hb]
        cases max_count with
        | none => simp [bulk_pull_cap]
        | some c =>
          have hlt : sent_count < c := by
            simp [bulk_pull_server.capped] at hcap
            omega
          obtain ⟨k, hk⟩ : ∃ k, c - sent_count = k + 1 := ⟨c - sent_count - 1, by omega⟩
          have hk2 : c - (sent_count + 1) = k := by omega
          simp [bulk_pull_cap, hk, hk2]

theorem get_next_many_walk (node : node) (start end_ : Nat) (count : Option Nat) (b : block)
    (hexists : node.block_exists start = true) (hstored : node.block_get start = some b)
    (n : Nat) :
    bulk_pull_server.get_next_many node n (bulk_pull_server.mk_request node start end_ count)
      = (bulk_pull_cap count (bulk_pull_walk node (bulk_pull_end node end_) n start)).map some
        ++ List.replicate
            (n - (bulk_pull_cap count
              (bulk_pull_walk node (bulk_pull_end node end_) n start)).length) none := by
  have hmk : bulk_pull_server.mk_request node start end_ count
      = ⟨start, bulk_pull_end node end_, true, count, 0⟩ := by
    simp [bulk_pull_server.mk_request, bulk_pull_end, hexists]
  rw [hmk]
  cases n with
  | zero => cases count <;> simp [bulk_pull_server.get_next_many, bulk_pull_walk, bulk_pull_cap]
  | succ n =>
    simp only [bulk_pull_server.get_next_many]
    by_cases hcap : count = some 0
    · subst hcap
      have hg : bulk_pull_server.get_next node ⟨start, bulk_pull_end node end_, true, some 0, 0⟩
          = (none, ⟨start, bulk_pull_end node end_, false, some 0, 0⟩) := by
        simp [bulk_pull_server.get_next, bulk_pull_server.capped]
      rw [hg]
      simp only
      rw [get_next_many_before node n _ rfl]
      simp [bulk_pull_cap, List.replicate_succ]
    · have hnot : bulk_pull_server.capped ⟨start, bulk_pull_end node end_, true, count, 0⟩
          = false := by
        cases count with
        | none => rfl
        | some c =>
          have : c ≠ 0 := fun h => hcap (by rw [h])
          simp [bulk_pull_server.capped]
          omega
      have hg : bulk_pull_server.get_next node ⟨start, bulk_pull_end node end_, true, count, 0⟩
          = (some b, ⟨if start = bulk_pull_end node end_ ∨ b.previous = 0
                then bulk_pull_end node end_ else b.previous,
              bulk_pull_end node end_, false, count, 1⟩) := by
        simp [bulk_pull_server.get_next, hnot, hstored]
      rw [hg]
      simp only
      rw [get_next_many_before node n _ rfl]
      have htail : bulk_pull_before node (bulk_pull_end node end_) n
          (if start = bulk_pull_end node end_ ∨ b.previous = 0
            then bulk_pull_end node end_ else b.previous)
          = (if start = bulk_pull_end node end_ ∨ b.previous = 0 then []
              else bulk_pull_before node (bulk_pull_end node end_) n b.previous) := by
        split
        · exact bulk_pull_before_end node _ n
        · rfl
      simp only [htail, bulk_pull_walk, hstored]
      cases count with
      | none => simp [bulk_pull_cap]
      | some c =>
        obtain ⟨k, hk⟩ : ∃ k, c = k + 1 := ⟨c - 1, by
          have : c ≠ 0 := fun h => hcap (by rw [h])
          omega⟩
        subst hk
        simp [bulk_pull_cap]

/-- The model on the requests of the tests in `core_test/network.cpp`, with account 7 and
its chain 3, 2, 1 in the place of the genesis account: `no_address`, `genesis_to_end`,
`no_end`, `end_not_owned` (the blocks belonging to another account), `none`,
`get_next_on_open` (block 1 as the latest), `by_block`, `by_block_single` and
`count_limit`. -/
theorem bulk_pull_server_tests :
    ((bulk_pull_server.mk_request sample_node 1000 1001 none).current = 0
        ∧ (bulk_pull_server.mk_request sample_node 1000 1001 none).end_ = 0)
      ∧ (bulk_pull_server.mk_request sample_node 7 0 none).current = sample_node.latest 7
      ∧ ((bulk_pull_server.mk_request sample_node 7 1000 none).current = sample_node.latest 7
        ∧ (bulk_pull_server.mk_request sample_node 7 1000 none).end_ = 0)
      ∧ (bulk_pull_server.mk_request { sample_node with ledger_account := fun _ => 8 } 7 1
          none).current = 1
      ∧ ((bulk_pull_server.mk_request sample_node 7 3 none).get_next sample_node).1 = none
      ∧ (((bulk_pull_server.mk_request { sample_node with latest := fun _ => 1 } 7 0
            none).get_next { sample_node with latest := fun _ => 1 }).1
          = some (sample_block 1)
        ∧ ((bulk_pull_server.mk_request { sample_node with latest := fun _ => 1 } 7 0
            none).get_next { sample_node with latest := fun _ => 1 }).2.current = 0)
      ∧ bulk_pull_server.get_next_many sample_node 2
          (bulk_pull_server.mk_request sample_node 1 0 none) = [some (sample_block 1), none]
      ∧ bulk_pull_server.get_next_many sample_node 2
          (bulk_pull_server.mk_request sample_node 1 1 none) = [some (sample_block 1), none]
      ∧ ((bulk_pull_server.mk_request sample_node 3 0 (some 2)).max_count = some 2
        ∧ (bulk_pull_server.mk_request sample_node 3 0 (some 2)).sent_count = 0
        ∧ bulk_pull_server.get_next_many sample_node 3
            (bulk_pull_server.mk_request sample_node 3 0 (some 2))
          = [some (sample_block 3), some (sample_block 2), none]) := by
  decide

/-- C19, amended. For a request whose start is the hash of a stored block, the first `n`
calls of `get_next` return, in this order, the block under `start`, also when it is the
end, and then the blocks reached from it along previous links that come before the block
under `end` (an end that is not a stored block counts as none), or else down to the origin
of the chain, cut after `count` blocks when a count is present, and nil from then on. So
the first call returns the block under `start` (unless the count is zero); for the hash
of an opening block as `start` and zero as `end` the calls return that block, then nil;
the same for `start` as its own end; and when the block before `start` is the one under
`end`, that block is not returned. -/
theorem bulk_pull_get_next_follows_previous (node : node) (start end_ : Nat)
    (count : Option Nat) (n : Nat) (b : block)
    (hexists : node.block_exists start = true) (hstored : node.block_get start = some b) :
    bulk_pull_server.get_next_many node n (bulk_pull_server.mk_request node start end_ count)
        = (bulk_pull_cap count
            (bulk_pull_walk node (bulk_pull_end node end_) n start)).map some
          ++ List.replicate
              (n - (bulk_pull_cap count
                (bulk_pull_walk node (bulk_pull_end node end_) n start)).length) none
      ∧ (count ≠ some 0
          → ((bulk_pull_server.mk_request node start end_ count).get_next node).1 = some b)
      ∧ (b.previous = 0
          → bulk_pull_server.get_next_many node (n + 1)
              (bulk_pull_server.mk_request node start 0 none)
            = some b :: List.replicate n none)
      ∧ bulk_pull_server.get_next_many node (n + 1)
            (bulk_pull_server.mk_request node start start none)
          = some b :: List.replicate n none
      ∧ (node.block_exists end_ = true → b.previous = end_
          → bulk_pull_server.get_next_many node (n + 1)
              (bulk_pull_server.mk_request node start end_ none)
            = some b :: List.replicate n none) := by
  refine ⟨get_next_many_walk node start end_ count b hexists hstored n, fun hcount => ?_,
    fun hprevious => ?_, ?_, fun hend hprevious => ?_⟩
  · have h := get_next_many_walk node start end_ count b hexists hstored 1
    simp only [bulk_pull_server.get_next_many] at h
    cases count with
    | none =>
      simp only [bulk_pull_walk, hstored, bulk_pull_cap] at h
      simp at h
      exact h.1
    | some c =>
      obtain ⟨k, hk⟩ : ∃ k, c = k + 1 := ⟨c - 1, by
        have : c ≠ 0 := fun h0 => hcount (by rw [h0])
        omega⟩
      subst hk
      simp only [bulk_pull_walk, hstored, bulk_pull_cap] at h
      simp at h
      exact h.1
  · rw [get_next_many_walk node start 0 none b hexists hstored]
    simp [bulk_pull_walk, bulk_pull_cap, hstored, hprevious]
  · rw [get_next_many_walk node start start none b hexists hstored]
    simp [bulk_pull_walk, bulk_pull_cap, bulk_pull_end, hstored, hexists]
  · rw [get_next_many_walk node start end_ none b hexists hstored]
    simp [bulk_pull_walk, bulk_pull_cap, bulk_pull_end, hstored, hend, hprevious,
      bulk_pull_before_end]

/-- C19 at the sample node with the chain 3, 2, 1: with a count of 2 the calls return the
blocks under 3 and 2, then nil. -/
theorem bulk_pull_get_next_follows_previous_witness :
    sample_node.block_exists 3 = true
      ∧ sample_node.block_get 3 = some (sample_block 3)
      ∧ bulk_pull_server.get_next_many sample_node 4
          (bulk_pull_server.mk_request sample_node 3 0 (some 2))
        = [some (sample_block 3), some (sample_block 2), none, none]
      ∧ bulk_pull_server.get_next_many sample_node 4
          (bulk_pull_server.mk_request sample_node 3 0 none)
        = [some (sample_block 3), some (sample_block 2), some (sample_block 1), none] :=
  ⟨rfl, rfl,
    (bulk_pull_get_next_follows_previous sample_node 3 0 (some 2) 4 (sample_block 3) rfl
      rfl).1,
    by decide⟩

/-- The claim as it stands has the walk stop after the block equal to `end`. At the sample
node with the chain 3, 2, 1, the request from block 3 back to block 2 gets block 3 and
then nil: the block under `end` is not returned. -/
theorem bulk_pull_stops_before_end :
    bulk_pull_server.get_next_many sample_node 4
        (bulk_pull_server.mk_request sample_node 3 2 none)
      = [some (sample_block 3), none, none, none] := by
  decide

/-! ## C9: one response per request -/

theorem rpc_m.mute_pure {α : Type} (a : α) : rpc_m.mute (Pure.pure a : rpc_m α) :=
  ⟨fun _ => ⟨rfl, fun _ h => by cases h⟩⟩

theorem rpc_m.mute_raise {α : Type} (e : exception) : rpc_m.mute (raise e : rpc_m α) :=
  ⟨fun _ => ⟨rfl, fun _ h => by cases h⟩⟩

theorem rpc_m.mute_no_error : rpc_m.mute no_error :=
  ⟨fun _ => ⟨rfl, fun _ h => by cases h⟩⟩

theorem rpc_m.mute_set_ec (e : error_code) : rpc_m.mute (set_ec e) :=
  ⟨fun _ => ⟨rfl, fun _ h => by cases h⟩⟩

theorem rpc_m.mute_put (key value : String) : rpc_m.mute (put key value) :=
  ⟨fun _ => ⟨rfl, fun _ h => by cases h⟩⟩

theorem rpc_m.mute_add_child (key : String) (items : List String) :
    rpc_m.mute (add_child key items) :=
  ⟨fun _ => ⟨rfl, fun _ h => by cases h⟩⟩

theorem rpc_m.mute_modify_response (f : ptree → ptree) : rpc_m.mute (modify_response f) :=
  ⟨fun _ => ⟨rfl, fun _ h => by cases h⟩⟩

theorem rpc_m.mute_perform (op : node_op) : rpc_m.mute (perform op) :=
  ⟨fun _ => ⟨rfl, fun _ h => by cases h⟩⟩

theorem rpc_m.mute_request_get (request : ptree) (key : String) :
    rpc_m.mute (request_get request key) := by
  unfold request_get
  split
  · exact rpc_m.mute_pure _
  · exact rpc_m.mute_raise _

theorem rpc_m.mute_bind {α β : Type} (m : rpc_m α) (f : α → rpc_m β) (hm : rpc_m.mute m)
    (hf : ∀ a, rpc_m.mute (f a)) : rpc_m.mute (m >>= f) := by
  constructor
  intro s
  have h1 := hm.holds s
  rw [rpc_m.bind_run]
  cases hr : m s with
  | done a s' =>
    rw [hr] at h1
    have h2 := (hf a).holds s'
    exact ⟨h2.1.trans h1.1, h2.2⟩
  | raised e s' =>
    rw [hr] at h1
    exact ⟨h1.1, fun _ h => by cases h⟩
  | stuck s' => exact absurd hr (h1.2 s')

theorem rpc_m.once_raise (e : exception) : rpc_m.once (raise e) :=
  ⟨fun _ h => h⟩

theorem rpc_m.once_respond (tree : ptree) : rpc_m.once (respond tree) :=
  ⟨fun s h => by simp [respond, run.answers_once, h]⟩

theorem rpc_m.once_respond_with_response_l : rpc_m.once respond_with_response_l :=
  ⟨fun s h => by simp [respond_with_response_l, respond, run.answers_once, h]⟩

theorem rpc_m.once_error_response (message_a : String) :
    rpc_m.once (error_response message_a) :=
  rpc_m.once_respond _

theorem rpc_m.once_response_errors (node : node) :
    rpc_m.once (rpc_handler.response_errors node) := by
  constructor
  intro s h
  unfold rpc_handler.response_errors
  split <;> simp [respond, run.answers_once, h]

theorem rpc_m.once_bind {α : Type} (m : rpc_m α) (f : α → rpc_m Unit) (hm : rpc_m.mute m)
    (hf : ∀ a, rpc_m.once (f a)) : rpc_m.once (m >>= f) := by
  constructor
  intro s hs
  have h1 := hm.holds s
  rw [rpc_m.bind_run]
  cases hr : m s with
  | done a s' =>
    rw [hr] at h1
    exact (hf a).holds s' (h1.1.trans hs)
  | raised e s' =>
    rw [hr] at h1
    exact h1.1.trans hs
  | stuck s' => exact absurd hr (h1.2 s')

theorem mute_rpc_control_impl (rpc : rpc) : rpc_m.mute (rpc_handler.rpc_control_impl rpc) := by
  unfold rpc_handler.rpc_control_impl
  repeat' with_reducible first
    | exact rpc_m.mute_pure _
    | exact rpc_m.mute_raise _
    | exact rpc_m.mute_no_error
    | exact rpc_m.mute_set_ec _
    | exact rpc_m.mute_put _ _
    | exact rpc_m.mute_add_child _ _
    | exact rpc_m.mute_modify_response _
    | exact rpc_m.mute_perform _
    | exact rpc_m.mute_request_get _ _
    | apply rpc_m.mute_bind
    | intro _
    | split
    | dsimp only

theorem mute_wallet_impl (node : node) (request : ptree) :
    rpc_m.mute (rpc_handler.wallet_impl node request) := by
  unfold rpc_handler.wallet_impl
  repeat' with_reducible first
    | exact rpc_m.mute_pure _
    | exact rpc_m.mute_raise _
    | exact rpc_m.mute_no_error
    | exact rpc_m.mute_set_ec _
    | exact rpc_m.mute_put _ _
    | exact rpc_m.mute_add_child _ _
    | exact rpc_m.mute_modify_response _
    | exact rpc_m.mute_perform _
    | exact rpc_m.mute_request_get _ _
    | apply rpc_m.mute_bind
    | intro _
    | split
    | dsimp only

theorem mute_wallet_locked_impl (node : node) (wallet_a : Nat) :
    rpc_m.mute (rpc_handler.wallet_locked_impl node wallet_a) := by
  unfold rpc_handler.wallet_locked_impl
  repeat' with_reducible first
    | exact rpc_m.mute_pure _
    | exact rpc_m.mute_raise _
    | exact rpc_m.mute_no_error
    | exact rpc_m.mute_set_ec _
    | exact rpc_m.mute_put _ _
    | exact rpc_m.mute_add_child _ _
    | exact rpc_m.mute_modify_response _
    | exact rpc_m.mute_perform _
    | exact rpc_m.mute_request_get _ _
    | apply rpc_m.mute_bind
    | intro _
    | split
    | dsimp only

theorem mute_wallet_account_impl (node : node) (wallet_a account_a : Nat) :
    rpc_m.mute (rpc_handler.wallet_account_impl node wallet_a account_a) := by
  unfold rpc_handler.wallet_account_impl
  repeat' with_reducible first
    | exact rpc_m.mute_pure _
    | exact rpc_m.mute_raise _
    | exact rpc_m.mute_no_error
    | exact rpc_m.mute_set_ec _
    | exact rpc_m.mute_put _ _
    | exact rpc_m.mute_add_child _ _
    | exact rpc_m.mute_modify_response _
    | exact rpc_m.mute_perform _
    | exact rpc_m.mute_request_get _ _
    | apply rpc_m.mute_bind
    | intro _
    | split
    | dsimp only

theorem mute_account_impl (node : node) (request : ptree) (account_text : String) :
    rpc_m.mute (rpc_handler.account_impl node request account_text) := by
  unfold rpc_handler.account_impl
  repeat' with_reducible first
    | exact rpc_m.mute_pure _
    | exact rpc_m.mute_raise _
    | exact rpc_m.mute_no_error
    | exact rpc_m.mute_set_ec _
    | exact rpc_m.mute_put _ _
    | exact rpc_m.mute_add_child _ _
    | exact rpc_m.mute_modify_response _
    | exact rpc_m.mute_perform _
    | exact rpc_m.mute_request_get _ _
    | apply rpc_m.mute_bind
    | intro _
    | split
    | dsimp only

theorem mute_amount_impl (node : node) (request : ptree) :
    rpc_m.mute (rpc_handler.amount_impl node request) := by
  unfold rpc_handler.amount_impl
  repeat' with_reducible first
    | exact rpc_m.mute_pure _
    | exact rpc_m.mute_raise _
    | exact rpc_m.mute_no_error
    | exact rpc_m.mute_set_ec _
    | exact rpc_m.mute_put _ _
    | exact rpc_m.mute_add_child _ _
    | exact rpc_m.mute_modify_response _
    | exact rpc_m.mute_perform _
    | exact rpc_m.mute_request_get _ _
    | apply rpc_m.mute_bind
    | intro _
    | split
    | dsimp only

theorem mute_block_impl (node : node) (request : ptree) :
    rpc_m.mute (rpc_handler.block_impl node request) := by
  unfold rpc_handler.block_impl
  repeat' with_reducible first
    | exact rpc_m.mute_pure _
    | exact rpc_m.mute_raise _
    | exact rpc_m.mute_no_error
    | exact rpc_m.mute_set_ec _
    | exact rpc_m.mute_put _ _
    | exact rpc_m.mute_add_child _ _
    | exact rpc_m.mute_modify_response _
    | exact rpc_m.mute_perform _
    | exact rpc_m.mute_request_get _ _
    | apply rpc_m.mute_bind
    | intro _
    | split
    | dsimp only

theorem mute_hash_impl (node : node) (request : ptree) (search_text : String) :
    rpc_m.mute (rpc_handler.hash_impl node request search_text) := by
  unfold rpc_handler.hash_impl
  repeat' with_reducible first
    | exact rpc_m.mute_pure _
    | exact rpc_m.mute_raise _
    | exact rpc_m.mute_no_error
    | exact rpc_m.mute_set_ec _
    | exact rpc_m.mute_put _ _
    | exact rpc_m.mute_add_child _ _
    | exact rpc_m.mute_modify_response _
    | exact rpc_m.mute_perform _
    | exact rpc_m.mute_request_get _ _
    | apply rpc_m.mute_bind
    | intro _
    | split
    | dsimp only

theorem mute_work_optional_impl (node : node) (request : ptree) :
    rpc_m.mute (rpc_handler.work_optional_impl node request) := by
  unfold rpc_handler.work_optional_impl
  repeat' with_reducible first
    | exact rpc_m.mute_pure _
    | exact rpc_m.mute_raise _
    | exact rpc_m.mute_no_error
    | exact rpc_m.mute_set_ec _
    | exact rpc_m.mute_put _ _
    | exact rpc_m.mute_add_child _ _
    | exact rpc_m.mute_modify_response _
    | exact rpc_m.mute_perform _
    | exact rpc_m.mute_request_get _ _
    | apply rpc_m.mute_bind
    | intro _
    | split
    | dsimp only

theorem mute_count_impl (node : node) (request : ptree) :
    rpc_m.mute (rpc_handler.count_impl node request) := by
  unfold rpc_handler.count_impl
  repeat' with_reducible first
    | exact rpc_m.mute_pure _
    | exact rpc_m.mute_raise _
    | exact rpc_m.mute_no_error
    | exact rpc_m.mute_set_ec _
    | exact rpc_m.mute_put _ _
    | exact rpc_m.mute_add_child _ _
    | exact rpc_m.mute_modify_response _
    | exact rpc_m.mute_perform _
    | exact rpc_m.mute_request_get _ _
    | apply rpc_m.mute_bind
    | intro _
    | split
    | dsimp only

theorem mute_count_optional_impl (node : node) (request : ptree) (result : Nat) :
    rpc_m.mute (rpc_handler.count_optional_impl node request result) := by
  unfold rpc_handler.count_optional_impl
  repeat' with_reducible first
    | exact rpc_m.mute_pure _
    | exact rpc_m.mute_raise _
    | exact rpc_m.mute_no_error
    | exact rpc_m.mute_set_ec _
    | exact rpc_m.mute_put _ _
    | exact rpc_m.mute_add_child _ _
    | exact rpc_m.mute_modify_response _
    | exact rpc_m.mute_perform _
    | exact rpc_m.mute_request_get _ _
    | apply rpc_m.mute_bind
    | intro _
    | split
    | dsimp only

theorem mute_offset_optional_impl (node : node) (request : ptree) (result : Nat) :
    rpc_m.mute (rpc_handler.offset_optional_impl node request result) := by
  unfold rpc_handler.offset_optional_impl
  repeat' with_reducible first
    | exact rpc_m.mute_pure _
    | exact rpc_m.mute_raise _
    | exact rpc_m.mute_no_error
    | exact rpc_m.mute_set_ec _
    | exact rpc_m.mute_put _ _
    | exact rpc_m.mute_add_child _ _
    | exact rpc_m.mute_modify_response _
    | exact rpc_m.mute_perform _
    | exact rpc_m.mute_request_get _ _
    | apply rpc_m.mute_bind
    | intro _
    | split
    | dsimp only

theorem mute_block_create_emit (node : node) (work root : Nat) (build : Nat → block) :
    rpc_m.mute (rpc_handler.block_create_emit node work root build) := by
  unfold rpc_handler.block_create_emit
  repeat' with_reducible first
    | exact rpc_m.mute_pure _
    | exact rpc_m.mute_raise _
    | exact rpc_m.mute_no_error
    | exact rpc_m.mute_set_ec _
    | exact rpc_m.mute_put _ _
    | exact rpc_m.mute_add_child _ _
    | exact rpc_m.mute_modify_response _
    | exact rpc_m.mute_perform _
    | exact rpc_m.mute_request_get _ _
    | apply rpc_m.mute_bind
    | intro _
    | split
    | dsimp only

theorem mute_decode_optional (text : Option String) (decode : String → Option Nat)
    (e : error_code) (target : Nat) :
    rpc_m.mute (rpc_handler.decode_optional text decode e target) := by
  unfold rpc_handler.decode_optional
  repeat' with_reducible first
    | exact rpc_m.mute_pure _
    | exact rpc_m.mute_raise _
    | exact rpc_m.mute_no_error
    | exact rpc_m.mute_set_ec _
    | exact rpc_m.mute_put _ _
    | exact rpc_m.mute_add_child _ _
    | exact rpc_m.mute_modify_response _
    | exact rpc_m.mute_perform _
    | exact rpc_m.mute_request_get _ _
    | apply rpc_m.mute_bind
    | intro _
    | split
    | dsimp only

theorem mute_block_create_wallet (node : node) (wallet account : Nat) :
    rpc_m.mute (rpc_handler.block_create_wallet node wallet account) := by
  unfold rpc_handler.block_create_wallet
  repeat' with_reducible first
    | exact rpc_m.mute_pure _
    | exact rpc_m.mute_raise _
    | exact rpc_m.mute_no_error
    | exact rpc_m.mute_set_ec _
    | exact rpc_m.mute_put _ _
    | exact rpc_m.mute_add_child _ _
    | exact rpc_m.mute_modify_response _
    | exact rpc_m.mute_perform _
    | exact rpc_m.mute_request_get _ _
    | exact mute_wallet_locked_impl _ _
    | exact mute_wallet_account_impl _ _ _
    | apply rpc_m.mute_bind
    | intro _
    | split
    | dsimp only

theorem mute_block_create_link (node : node) (link_text : Option String)
    (source destination : Nat) :
    rpc_m.mute (rpc_handler.block_create_link node link_text source destination) := by
  unfold rpc_handler.block_create_link
  repeat' with_reducible first
    | exact rpc_m.mute_pure _
    | exact rpc_m.mute_raise _
    | exact rpc_m.mute_no_error
    | exact rpc_m.mute_set_ec _
    | exact rpc_m.mute_put _ _
    | exact rpc_m.mute_add_child _ _
    | exact rpc_m.mute_modify_response _
    | exact rpc_m.mute_perform _
    | exact rpc_m.mute_request_get _ _
    | apply rpc_m.mute_bind
    | intro _
    | split
    | dsimp only

theorem mute_block_create_ledger (node : node) (type : String) (pub previous balance : Nat)
    (previous_text balance_text : Option String) :
    rpc_m.mute (rpc_handler.block_create_ledger node type pub previous balance previous_text
      balance_text) := by
  unfold rpc_handler.block_create_ledger
  repeat' with_reducible first
    | exact rpc_m.mute_pure _
    | exact rpc_m.mute_raise _
    | exact rpc_m.mute_no_error
    | exact rpc_m.mute_set_ec _
    | exact rpc_m.mute_put _ _
    | exact rpc_m.mute_add_child _ _
    | exact rpc_m.mute_modify_response _
    | exact rpc_m.mute_perform _
    | exact rpc_m.mute_request_get _ _
    | apply rpc_m.mute_bind
    | intro _
    | split
    | dsimp only

theorem mute_block_create_account_check (account_text : Option String)
    (account pub : Nat) :
    rpc_m.mute (rpc_handler.block_create_account_check account_text account pub) := by
  unfold rpc_handler.block_create_account_check
  repeat' with_reducible first
    | exact rpc_m.mute_pure _
    | exact rpc_m.mute_raise _
    | exact rpc_m.mute_no_error
    | exact rpc_m.mute_set_ec _
    | exact rpc_m.mute_put _ _
    | exact rpc_m.mute_add_child _ _
    | exact rpc_m.mute_modify_response _
    | exact rpc_m.mute_perform _
    | exact rpc_m.mute_request_get _ _
    | apply rpc_m.mute_bind
    | intro _
    | split
    | dsimp only

theorem mute_block_create_read (node : node) (request : ptree) :
    rpc_m.mute (rpc_handler.block_create_read node request) := by
  unfold rpc_handler.block_create_read
  repeat' with_reducible first
    | exact rpc_m.mute_pure _
    | exact rpc_m.mute_raise _
    | exact rpc_m.mute_no_error
    | exact rpc_m.mute_set_ec _
    | exact rpc_m.mute_put _ _
    | exact rpc_m.mute_add_child _ _
    | exact rpc_m.mute_modify_response _
    | exact rpc_m.mute_perform _
    | exact rpc_m.mute_request_get _ _
    | exact mute_work_optional_impl _ _
    | exact mute_block_create_emit _ _ _ _
    | exact mute_decode_optional _ _ _ _
    | exact mute_block_create_wallet _ _ _
    | exact mute_block_create_link _ _ _ _
    | exact mute_block_create_ledger _ _ _ _ _ _ _
    | exact mute_block_create_account_check _ _ _
    | apply rpc_m.mute_bind
    | intro _
    | split
    | dsimp only

theorem mute_block_create_build (node : node) (l : block_create_locals) :
    rpc_m.mute (rpc_handler.block_create_build node l) := by
  unfold rpc_handler.block_create_build
  repeat' with_reducible first
    | exact rpc_m.mute_pure _
    | exact rpc_m.mute_raise _
    | exact rpc_m.mute_no_error
    | exact rpc_m.mute_set_ec _
    | exact rpc_m.mute_put _ _
    | exact rpc_m.mute_add_child _ _
    | exact rpc_m.mute_modify_response _
    | exact rpc_m.mute_perform _
    | exact rpc_m.mute_request_get _ _
    | exact mute_work_optional_impl _ _
    | exact mute_block_create_emit _ _ _ _
    | exact mute_decode_optional _ _ _ _
    | exact mute_block_create_wallet _ _ _
    | exact mute_block_create_link _ _ _ _
    | exact mute_block_create_ledger _ _ _ _ _ _ _
    | exact mute_block_create_account_check _ _ _
    | apply rpc_m.mute_bind
    | intro _
    | split
    | dsimp only

theorem rpc_m.mute_response_empty : rpc_m.mute response_empty :=
  ⟨fun _ => ⟨rfl, fun _ h => by cases h⟩⟩

theorem rpc_m.mute_add_children (key : String) (items : List (String × pchild)) :
    rpc_m.mute (add_children key items) :=
  ⟨fun _ => ⟨rfl, fun _ h => by cases h⟩⟩

theorem rpc_m.mute_add_nested (key : String)
    (items : List (String × List (String × pchild))) : rpc_m.mute (add_nested key items) :=
  ⟨fun _ => ⟨rfl, fun _ h => by cases h⟩⟩

theorem rpc_m.mute_request_get_child (request : ptree) (key : String) :
    rpc_m.mute (request_get_child request key) := by
  unfold request_get_child
  split
  · exact rpc_m.mute_pure _
  · exact rpc_m.mute_raise _

theorem rpc_m.mute_for_each {α σ : Type} (body : σ → α → rpc_m σ)
    (hbody : ∀ acc a, rpc_m.mute (body acc a)) (items : List α) :
    ∀ acc, rpc_m.mute (rpc_m.for_each body items acc) := by
  induction items with
  | nil => intro acc; exact rpc_m.mute_pure acc
  | cons a rest ih =>
    intro acc
    exact rpc_m.mute_bind _ _ (hbody acc a) (fun acc2 => ih acc2)

theorem mute_threshold_optional_impl (node : node) (request : ptree) :
    rpc_m.mute (rpc_handler.threshold_optional_impl node request) := by
  unfold rpc_handler.threshold_optional_impl
  repeat' with_reducible first
    | exact rpc_m.mute_pure _
    | exact rpc_m.mute_raise _
    | exact rpc_m.mute_no_error
    | exact rpc_m.mute_response_empty
    | exact rpc_m.mute_set_ec _
    | exact rpc_m.mute_put _ _
    | exact rpc_m.mute_add_child _ _
    | exact rpc_m.mute_add_children _ _
    | exact rpc_m.mute_add_nested _ _
    | exact rpc_m.mute_modify_response _
    | exact rpc_m.mute_perform _
    | exact rpc_m.mute_request_get _ _
    | exact rpc_m.mute_request_get_child _ _
    | exact mute_rpc_control_impl _
    | exact mute_wallet_impl _ _
    | exact mute_wallet_locked_impl _ _
    | exact mute_wallet_account_impl _ _ _
    | exact mute_account_impl _ _ _
    | exact mute_amount_impl _ _
    | exact mute_block_impl _ _
    | exact mute_hash_impl _ _ _
    | exact mute_work_optional_impl _ _
    | exact mute_count_impl _ _
    | exact mute_count_optional_impl _ _ _
    | exact mute_offset_optional_impl _ _ _
    | apply rpc_m.mute_for_each
    | apply rpc_m.mute_bind
    | intro _
    | split
    | dsimp only

theorem mute_block_impl_unsigned (node : node) (request : ptree) :
    rpc_m.mute (rpc_handler.block_impl_unsigned node request) := by
  unfold rpc_handler.block_impl_unsigned
  repeat' with_reducible first
    | exact rpc_m.mute_pure _
    | exact rpc_m.mute_raise _
    | exact rpc_m.mute_no_error
    | exact rpc_m.mute_response_empty
    | exact rpc_m.mute_set_ec _
    | exact rpc_m.mute_put _ _
    | exact rpc_m.mute_add_child _ _
    | exact rpc_m.mute_add_children _ _
    | exact rpc_m.mute_add_nested _ _
    | exact rpc_m.mute_modify_response _
    | exact rpc_m.mute_perform _
    | exact rpc_m.mute_request_get _ _
    | exact rpc_m.mute_request_get_child _ _
    | exact mute_rpc_control_impl _
    | exact mute_wallet_impl _ _
    | exact mute_wallet_locked_impl _ _
    | exact mute_wallet_account_impl _ _ _
    | exact mute_account_impl _ _ _
    | exact mute_amount_impl _ _
    | exact mute_block_impl _ _
    | exact mute_hash_impl _ _ _
    | exact mute_work_optional_impl _ _
    | exact mute_count_impl _ _
    | exact mute_count_optional_impl _ _ _
    | exact mute_offset_optional_impl _ _ _
    | apply rpc_m.mute_for_each
    | apply rpc_m.mute_bind
    | intro _
    | split
    | dsimp only

theorem mute_account_create_insert (node : node) (request : ptree) (wallet : Nat) (generate_work : Bool) :
    rpc_m.mute (rpc_handler.account_create_insert node request wallet generate_work) := by
  unfold rpc_handler.account_create_insert
  repeat' with_reducible first
    | exact rpc_m.mute_pure _
    | exact rpc_m.mute_raise _
    | exact rpc_m.mute_no_error
    | exact rpc_m.mute_response_empty
    | exact rpc_m.mute_set_ec _
    | exact rpc_m.mute_put _ _
    | exact rpc_m.mute_add_child _ _
    | exact rpc_m.mute_add_children _ _
    | exact rpc_m.mute_add_nested _ _
    | exact rpc_m.mute_modify_response _
    | exact rpc_m.mute_perform _
    | exact rpc_m.mute_request_get _ _
    | exact rpc_m.mute_request_get_child _ _
    | exact mute_rpc_control_impl _
    | exact mute_wallet_impl _ _
    | exact mute_wallet_locked_impl _ _
    | exact mute_wallet_account_impl _ _ _
    | exact mute_account_impl _ _ _
    | exact mute_amount_impl _ _
    | exact mute_block_impl _ _
    | exact mute_hash_impl _ _ _
    | exact mute_work_optional_impl _ _
    | exact mute_count_impl _ _
    | exact mute_count_optional_impl _ _ _
    | exact mute_offset_optional_impl _ _ _
    | apply rpc_m.mute_for_each
    | apply rpc_m.mute_bind
    | intro _
    | split
    | dsimp only

theorem mute_accounts_balances_step (node : node) (request : ptree) (balances : List (String × pchild)) (text : String) :
    rpc_m.mute (rpc_handler.accounts_balances_step node request balances text) := by
  unfold rpc_handler.accounts_balances_step
  repeat' with_reducible first
    | exact rpc_m.mute_pure _
    | exact rpc_m.mute_raise _
    | exact rpc_m.mute_no_error
    | exact rpc_m.mute_response_empty
    | exact rpc_m.mute_set_ec _
    | exact rpc_m.mute_put _ _
    | exact rpc_m.mute_add_child _ _
    | exact rpc_m.mute_add_children _ _
    | exact rpc_m.mute_add_nested _ _
    | exact rpc_m.mute_modify_response _
    | exact rpc_m.mute_perform _
    | exact rpc_m.mute_request_get _ _
    | exact rpc_m.mute_request_get_child _ _
    | exact mute_rpc_control_impl _
    | exact mute_wallet_impl _ _
    | exact mute_wallet_locked_impl _ _
    | exact mute_wallet_account_impl _ _ _
    | exact mute_account_impl _ _ _
    | exact mute_amount_impl _ _
    | exact mute_block_impl _ _
    | exact mute_hash_impl _ _ _
    | exact mute_work_optional_impl _ _
    | exact mute_count_impl _ _
    | exact mute_count_optional_impl _ _ _
    | exact mute_offset_optional_impl _ _ _
    | apply rpc_m.mute_for_each
    | apply rpc_m.mute_bind
    | intro _
    | split
    | dsimp only

theorem mute_accounts_frontiers_step (node : node) (request : ptree) (frontiers : List (String × pchild)) (text : String) :
    rpc_m.mute (rpc_handler.accounts_frontiers_step node request frontiers text) := by
  unfold rpc_handler.accounts_frontiers_step
  repeat' with_reducible first
    | exact rpc_m.mute_pure _
    | exact rpc_m.mute_raise _
    | exact rpc_m.mute_no_error
    | exact rpc_m.mute_response_empty
    | exact rpc_m.mute_set_ec _
    | exact rpc_m.mute_put _ _
    | exact rpc_m.mute_add_child _ _
    | exact rpc_m.mute_add_children _ _
    | exact rpc_m.mute_add_nested _ _
    | exact rpc_m.mute_modify_response _
    | exact rpc_m.mute_perform _
    | exact rpc_m.mute_request_get _ _
    | exact rpc_m.mute_request_get_child _ _
    | exact mute_rpc_control_impl _
    | exact mute_wallet_impl _ _
    | exact mute_wallet_locked_impl _ _
    | exact mute_wallet_account_impl _ _ _
    | exact mute_account_impl _ _ _
    | exact mute_amount_impl _ _
    | exact mute_block_impl _ _
    | exact mute_hash_impl _ _ _
    | exact mute_work_optional_impl _ _
    | exact mute_count_impl _ _
    | exact mute_count_optional_impl _ _ _
    | exact mute_offset_optional_impl _ _ _
    | apply rpc_m.mute_for_each
    | apply rpc_m.mute_bind
    | intro _
    | split
    | dsimp only

theorem mute_accounts_pending_step (node : node) (request : ptree) (count threshold : Nat) (source include_active : Bool)
    (pending : List (String × List (String × pchild))) (text : String) :
    rpc_m.mute (rpc_handler.accounts_pending_step node request count threshold source include_active pending
      text) := by
  unfold rpc_handler.accounts_pending_step
  repeat' with_reducible first
    | exact rpc_m.mute_pure _
    | exact rpc_m.mute_raise _
    | exact rpc_m.mute_no_error
    | exact rpc_m.mute_response_empty
    | exact rpc_m.mute_set_ec _
    | exact rpc_m.mute_put _ _
    | exact rpc_m.mute_add_child _ _
    | exact rpc_m.mute_add_children _ _
    | exact rpc_m.mute_add_nested _ _
    | exact rpc_m.mute_modify_response _
    | exact rpc_m.mute_perform _
    | exact rpc_m.mute_request_get _ _
    | exact rpc_m.mute_request_get_child _ _
    | exact mute_rpc_control_impl _
    | exact mute_wallet_impl _ _
    | exact mute_wallet_locked_impl _ _
    | exact mute_wallet_account_impl _ _ _
    | exact mute_account_impl _ _ _
    | exact mute_amount_impl _ _
    | exact mute_block_impl _ _
    | exact mute_hash_impl _ _ _
    | exact mute_work_optional_impl _ _
    | exact mute_count_impl _ _
    | exact mute_count_optional_impl _ _ _
    | exact mute_offset_optional_impl _ _ _
    | apply rpc_m.mute_for_each
    | apply rpc_m.mute_bind
    | intro _
    | split
    | dsimp only

theorem mute_blocks_step (node : node) (blocks : List (String × pchild)) (hash_text : String) :
    rpc_m.mute (rpc_handler.blocks_step node blocks hash_text) := by
  unfold rpc_handler.blocks_step
  repeat' with_reducible first
    | exact rpc_m.mute_pure _
    | exact rpc_m.mute_raise _
    | exact rpc_m.mute_no_error
    | exact rpc_m.mute_response_empty
    | exact rpc_m.mute_set_ec _
    | exact rpc_m.mute_put _ _
    | exact rpc_m.mute_add_child _ _
    | exact rpc_m.mute_add_children _ _
    | exact rpc_m.mute_add_nested _ _
    | exact rpc_m.mute_modify_response _
    | exact rpc_m.mute_perform _
    | exact rpc_m.mute_request_get _ _
    | exact rpc_m.mute_request_get_child _ _
    | exact mute_rpc_control_impl _
    | exact mute_wallet_impl _ _
    | exact mute_wallet_locked_impl _ _
    | exact mute_wallet_account_impl _ _ _
    | exact mute_account_impl _ _ _
    | exact mute_amount_impl _ _
    | exact mute_block_impl _ _
    | exact mute_hash_impl _ _ _
    | exact mute_work_optional_impl _ _
    | exact mute_count_impl _ _
    | exact mute_count_optional_impl _ _ _
    | exact mute_offset_optional_impl _ _ _
    | apply rpc_m.mute_for_each
    | apply rpc_m.mute_bind
    | intro _
    | split
    | dsimp only

theorem mute_blocks_info_step (node : node) (pending source : Bool) (blocks : List (String × pchild))
    (hash_text : String) :
    rpc_m.mute (rpc_handler.blocks_info_step node pending source blocks hash_text) := by
  unfold rpc_handler.blocks_info_step
  repeat' with_reducible first
    | exact rpc_m.mute_pure _
    | exact rpc_m.mute_raise _
    | exact rpc_m.mute_no_error
    | exact rpc_m.mute_response_empty
    | exact rpc_m.mute_set_ec _
    | exact rpc_m.mute_put _ _
    | exact rpc_m.mute_add_child _ _
    | exact rpc_m.mute_add_children _ _
    | exact rpc_m.mute_add_nested _ _
    | exact rpc_m.mute_modify_response _
    | exact rpc_m.mute_perform _
    | exact rpc_m.mute_request_get _ _
    | exact rpc_m.mute_request_get_child _ _
    | exact mute_rpc_control_impl _
    | exact mute_wallet_impl _ _
    | exact mute_wallet_locked_impl _ _
    | exact mute_wallet_account_impl _ _ _
    | exact mute_account_impl _ _ _
    | exact mute_amount_impl _ _
    | exact mute_block_impl _ _
    | exact mute_hash_impl _ _ _
    | exact mute_work_optional_impl _ _
    | exact mute_count_impl _ _
    | exact mute_count_optional_impl _ _ _
    | exact mute_offset_optional_impl _ _ _
    | apply rpc_m.mute_for_each
    | apply rpc_m.mute_bind
    | intro _
    | split
    | dsimp only

theorem mute_wallet_add_watch_step (node : node) (request : ptree) (wallet : Nat) (u : Unit) (text : String) :
    rpc_m.mute (rpc_handler.wallet_add_watch_step node request wallet u text) := by
  unfold rpc_handler.wallet_add_watch_step
  repeat' with_reducible first
    | exact rpc_m.mute_pure _
    | exact rpc_m.mute_raise _
    | exact rpc_m.mute_no_error
    | exact rpc_m.mute_response_empty
    | exact rpc_m.mute_set_ec _
    | exact rpc_m.mute_put _ _
    | exact rpc_m.mute_add_child _ _
    | exact rpc_m.mute_add_children _ _
    | exact rpc_m.mute_add_nested _ _
    | exact rpc_m.mute_modify_response _
    | exact rpc_m.mute_perform _
    | exact rpc_m.mute_request_get _ _
    | exact rpc_m.mute_request_get_child _ _
    | exact mute_rpc_control_impl _
    | exact mute_wallet_impl _ _
    | exact mute_wallet_locked_impl _ _
    | exact mute_wallet_account_impl _ _ _
    | exact mute_account_impl _ _ _
    | exact mute_amount_impl _ _
    | exact mute_block_impl _ _
    | exact mute_hash_impl _ _ _
    | exact mute_work_optional_impl _ _
    | exact mute_count_impl _ _
    | exact mute_count_optional_impl _ _ _
    | exact mute_offset_optional_impl _ _ _
    | apply rpc_m.mute_for_each
    | apply rpc_m.mute_bind
    | intro _
    | split
    | dsimp only

theorem mute_sign_hash (rpc : rpc) (node : node) (request : ptree) :
    rpc_m.mute (rpc_handler.sign_hash rpc node request) := by
  unfold rpc_handler.sign_hash
  repeat' with_reducible first
    | exact rpc_m.mute_pure _
    | exact rpc_m.mute_raise _
    | exact rpc_m.mute_no_error
    | exact rpc_m.mute_response_empty
    | exact rpc_m.mute_set_ec _
    | exact rpc_m.mute_put _ _
    | exact rpc_m.mute_add_child _ _
    | exact rpc_m.mute_add_children _ _
    | exact rpc_m.mute_add_nested _ _
    | exact rpc_m.mute_modify_response _
    | exact rpc_m.mute_perform _
    | exact rpc_m.mute_request_get _ _
    | exact rpc_m.mute_request_get_child _ _
    | exact mute_rpc_control_impl _
    | exact mute_wallet_impl _ _
    | exact mute_wallet_locked_impl _ _
    | exact mute_wallet_account_impl _ _ _
    | exact mute_account_impl _ _ _
    | exact mute_amount_impl _ _
    | exact mute_block_impl _ _
    | exact mute_hash_impl _ _ _
    | exact mute_work_optional_impl _ _
    | exact mute_count_impl _ _
    | exact mute_count_optional_impl _ _ _
    | exact mute_offset_optional_impl _ _ _
    | apply rpc_m.mute_for_each
    | apply rpc_m.mute_bind
    | intro _
    | split
    | dsimp only

theorem mute_sign_key (node : node) (request : ptree) :
    rpc_m.mute (rpc_handler.sign_key node request) := by
  unfold rpc_handler.sign_key
  repeat' with_reducible first
    | exact rpc_m.mute_pure _
    | exact rpc_m.mute_raise _
    | exact rpc_m.mute_no_error
    | exact rpc_m.mute_response_empty
    | exact rpc_m.mute_set_ec _
    | exact rpc_m.mute_put _ _
    | exact rpc_m.mute_add_child _ _
    | exact rpc_m.mute_add_children _ _
    | exact rpc_m.mute_add_nested _ _
    | exact rpc_m.mute_modify_response _
    | exact rpc_m.mute_perform _
    | exact rpc_m.mute_request_get _ _
    | exact rpc_m.mute_request_get_child _ _
    | exact mute_rpc_control_impl _
    | exact mute_wallet_impl _ _
    | exact mute_wallet_locked_impl _ _
    | exact mute_wallet_account_impl _ _ _
    | exact mute_account_impl _ _ _
    | exact mute_amount_impl _ _
    | exact mute_block_impl _ _
    | exact mute_hash_impl _ _ _
    | exact mute_work_optional_impl _ _
    | exact mute_count_impl _ _
    | exact mute_count_optional_impl _ _ _
    | exact mute_offset_optional_impl _ _ _
    | apply rpc_m.mute_for_each
    | apply rpc_m.mute_bind
    | intro _
    | split
    | dsimp only

theorem mute_account_history_start (node : node) (request : ptree) :
    rpc_m.mute (rpc_handler.account_history_start node request) := by
  unfold rpc_handler.account_history_start
  repeat' with_reducible first
    | exact rpc_m.mute_pure _
    | exact rpc_m.mute_raise _
    | exact rpc_m.mute_no_error
    | exact rpc_m.mute_response_empty
    | exact rpc_m.mute_set_ec _
    | exact rpc_m.mute_put _ _
    | exact rpc_m.mute_add_child _ _
    | exact rpc_m.mute_add_children _ _
    | exact rpc_m.mute_add_nested _ _
    | exact rpc_m.mute_modify_response _
    | exact rpc_m.mute_perform _
    | exact rpc_m.mute_request_get _ _
    | exact rpc_m.mute_request_get_child _ _
    | exact mute_rpc_control_impl _
    | exact mute_wallet_impl _ _
    | exact mute_wallet_locked_impl _ _
    | exact mute_wallet_account_impl _ _ _
    | exact mute_account_impl _ _ _
    | exact mute_amount_impl _ _
    | exact mute_block_impl _ _
    | exact mute_hash_impl _ _ _
    | exact mute_work_optional_impl _ _
    | exact mute_count_impl _ _
    | exact mute_count_optional_impl _ _ _
    | exact mute_offset_optional_impl _ _ _
    | apply rpc_m.mute_for_each
    | apply rpc_m.mute_bind
    | intro _
    | split
    | dsimp only

theorem mute_payment_begin_loop (node : node) (wallet : Nat) :
    ∀ free_accounts, rpc_m.mute (rpc_handler.payment_begin_loop node wallet free_accounts) := by
  intro free_accounts
  induction free_accounts with
  | nil =>
    unfold rpc_handler.payment_begin_loop
    exact rpc_m.mute_bind _ _ (rpc_m.mute_perform _) (fun _ => rpc_m.mute_pure _)
  | cons existing rest ih =>
    unfold rpc_handler.payment_begin_loop
    refine rpc_m.mute_bind _ _ (rpc_m.mute_perform _) (fun _ => ?_)
    dsimp only
    repeat' split
    all_goals first
      | exact ih
      | exact rpc_m.mute_pure _

/-- On a coherent store the representative block of an account entry is there: the
assertions on it hold. -/
theorem rep_block_stored {node : node} {fuel : Nat}
    (hstore : rpc_handler.store_coherent node fuel) {account : Nat} {info : account_info}
    (hinfo : node.account_get account = some info)
    (hblock : node.block_get info.rep_block = none) : False := by
  have h := hstore.2.2.1 account info hinfo
  rw [hblock] at h
  exact absurd h (by simp)

theorem delegators_loop_ne_none (node : node) (account : Nat) :
    ∀ (items : List (Nat × account_info)) (delegators : List (String × pchild)),
      (∀ item ∈ items, (node.block_get item.2.rep_block).isSome) →
      rpc_handler.delegators_loop node account items delegators ≠ none := by
  intro items
  induction items with
  | nil => intro delegators _; simp [rpc_handler.delegators_loop]
  | cons head rest ih =>
    intro delegators hall
    obtain ⟨i, info⟩ := head
    obtain ⟨b, hb⟩ := Option.isSome_iff_exists.mp (hall (i, info) (List.mem_cons_self _ _))
    simp only at hb
    simp only [rpc_handler.delegators_loop, hb]
    exact ih _ (fun item hitem => hall item (List.mem_cons_of_mem _ hitem))

theorem delegators_count_loop_ne_none (node : node) (account : Nat) :
    ∀ (items : List (Nat × account_info)) (count : Nat),
      (∀ item ∈ items, (node.block_get item.2.rep_block).isSome) →
      rpc_handler.delegators_count_loop node account items count ≠ none := by
  intro items
  induction items with
  | nil => intro count _; simp [rpc_handler.delegators_count_loop]
  | cons head rest ih =>
    intro count hall
    obtain ⟨i, info⟩ := head
    obtain ⟨b, hb⟩ := Option.isSome_iff_exists.mp (hall (i, info) (List.mem_cons_self _ _))
    simp only at hb
    simp only [rpc_handler.delegators_count_loop, hb]
    exact ih _ (fun item hitem => hall item (List.mem_cons_of_mem _ hitem))

/-- On a coherent store every entry the account iterator visits has its representative
block stored. -/
theorem latest_begin_rep_block {node : node} {fuel : Nat}
    (hstore : rpc_handler.store_coherent node fuel) (start : Nat) :
    ∀ item ∈ node.latest_begin start, (node.block_get item.2.rep_block).isSome :=
  fun item hitem => hstore.2.2.1 item.1 item.2 (hstore.2.2.2.1 start item hitem)

theorem ledger_entry_ne_none (node : node) (representative weight pending : Bool)
    (account : Nat) (info : account_info) (balance : String)
    (hrep : (node.block_get info.rep_block).isSome) :
    rpc_handler.ledger_entry node representative weight pending account info balance
      ≠ none := by
  obtain ⟨b, hb⟩ := Option.isSome_iff_exists.mp hrep
  unfold rpc_handler.ledger_entry
  cases representative <;> simp [hb]

theorem ledger_simple_loop_ne_none (node : node) (count modified_since : Nat)
    (representative weight pending : Bool) :
    ∀ (items : List (Nat × account_info)) (accounts : List (String × pchild)),
      (∀ item ∈ items, (node.block_get item.2.rep_block).isSome) →
      rpc_handler.ledger_simple_loop node count modified_since representative weight pending
        items accounts ≠ none := by
  intro items
  induction items with
  | nil => intro accounts _; simp [rpc_handler.ledger_simple_loop]
  | cons head rest ih =>
    intro accounts hall
    obtain ⟨account, info⟩ := head
    have hrest : ∀ item ∈ rest, (node.block_get item.2.rep_block).isSome :=
      fun item hitem => hall item (List.mem_cons_of_mem _ hitem)
    unfold rpc_handler.ledger_simple_loop
    split
    · split
      · have hentry := ledger_entry_ne_none node representative weight pending account info
          (node.encode_dec info.balance) (hall (account, info) (List.mem_cons_self _ _))
        split
        · exact ih _ hrest
        · exact absurd ‹_ = none› hentry
      · exact ih _ hrest
    · simp

theorem ledger_sorted_loop_ne_none (node : node) (count : Nat)
    (representative weight pending : Bool) :
    ∀ (pairs : List (Nat × Nat)) (info0 : account_info) (accounts : List (String × pchild)),
      (∀ p ∈ pairs, ∃ info, node.account_get p.2 = some info
        ∧ (node.block_get info.rep_block).isSome) →
      rpc_handler.ledger_sorted_loop node count representative weight pending pairs info0
        accounts ≠ none := by
  intro pairs
  induction pairs with
  | nil => intro info0 accounts _; simp [rpc_handler.ledger_sorted_loop]
  | cons head rest ih =>
    intro info0 accounts hall
    obtain ⟨balance, account⟩ := head
    obtain ⟨info, hinfo, hrep⟩ := hall (balance, account) (List.mem_cons_self _ _)
    simp only at hinfo
    have hrest : ∀ p ∈ rest, ∃ info, node.account_get p.2 = some info
        ∧ (node.block_get info.rep_block).isSome :=
      fun p hp => hall p (List.mem_cons_of_mem _ hp)
    unfold rpc_handler.ledger_sorted_loop
    split
    · simp only [hinfo, Option.getD_some]
      have hentry := ledger_entry_ne_none node representative weight pending account info
        (node.encode_dec balance) hrep
      split
      · exact ih _ _ hrest
      · exact absurd ‹_ = none› hentry
    · simp

theorem wallet_ledger_loop_ne_none (node : node) (fuel : Nat)
    (hstore : rpc_handler.store_coherent node fuel) (modified_since : Nat)
    (representative weight pending : Bool) :
    ∀ (items : List (Nat × key_type)) (accounts : List (String × pchild)),
      rpc_handler.wallet_ledger_loop node modified_since representative weight pending items
        accounts ≠ none := by
  intro items
  induction items with
  | nil => intro accounts; simp [rpc_handler.wallet_ledger_loop]
  | cons i rest ih =>
    intro accounts
    unfold rpc_handler.wallet_ledger_loop
    split
    · rename_i info hinfo
      split
      · have hentry := ledger_entry_ne_none node representative weight pending i.1 info
          (node.encode_dec info.balance) (hstore.2.2.1 _ _ hinfo)
        split
        · exact ih _
        · exact absurd ‹_ = none› hentry
      · exact ih _
    · exact ih _

theorem wallet_representative_set_loop_ne_none (node : node) (fuel : Nat)
    (hstore : rpc_handler.store_coherent node fuel) (representative : Nat) :
    ∀ (items : List (Nat × key_type)) (accounts : List Nat),
      rpc_handler.wallet_representative_set_loop node representative items accounts
        ≠ none := by
  intro items
  induction items with
  | nil => intro accounts; simp [rpc_handler.wallet_representative_set_loop]
  | cons i rest ih =>
    intro accounts
    unfold rpc_handler.wallet_representative_set_loop
    split
    · rename_i info hinfo
      split
      · exact ih _
      · exact (rep_block_stored hstore hinfo ‹_ = none›).elim
    · exact ih _

theorem wallet_republish_walk_ne_none (node : node) (fuel : Nat)
    (hstore : rpc_handler.store_coherent node fuel) :
    ∀ (left latest : Nat) (hashes : List Nat),
      latest = 0 ∨ (node.block_get latest).isSome →
      rpc_handler.wallet_republish_walk node left latest hashes ≠ none := by
  intro left
  induction left with
  | zero => intro latest hashes _; simp [rpc_handler.wallet_republish_walk]
  | succ left ih =>
    intro latest hashes hlatest
    unfold rpc_handler.wallet_republish_walk
    split
    · rename_i hne
      rcases hlatest with h0 | hsome
      · simp [h0] at hne
      · obtain ⟨b, hb⟩ := Option.isSome_iff_exists.mp hsome
        simp only [hb]
        exact ih _ _ (hstore.2.2.2.2.2 latest b hb)
    · simp

theorem wallet_republish_loop_ne_none (node : node) (fuel : Nat)
    (hstore : rpc_handler.store_coherent node fuel) (count : Nat) :
    ∀ (items : List (Nat × key_type)) (blocks : List Nat),
      rpc_handler.wallet_republish_loop node count items blocks ≠ none := by
  intro items
  induction items with
  | nil => intro blocks; simp [rpc_handler.wallet_republish_loop]
  | cons i rest ih =>
    intro blocks
    unfold rpc_handler.wallet_republish_loop
    split
    · exact ih _
    · exact absurd ‹_ = none›
        (wallet_republish_walk_ne_none node fuel hstore count _ [] (hstore.2.2.2.2.1 i.1))

theorem account_history_loop_ne_none (node : node) (output_raw : Bool) :
    ∀ (fuel hash count offset : Nat) (history : List ptree),
      rpc_handler.previous_walk_ends node fuel hash = true →
      rpc_handler.account_history_loop node output_raw fuel hash count offset history
        ≠ none := by
  intro fuel
  induction fuel with
  | zero =>
    intro hash count offset history h
    unfold rpc_handler.previous_walk_ends at h
    unfold rpc_handler.account_history_loop
    cases hb : node.block_get hash with
    | none => simp
    | some b => simp [hb] at h
  | succ fuel ih =>
    intro hash count offset history h
    unfold rpc_handler.previous_walk_ends at h
    unfold rpc_handler.account_history_loop
    cases hb : node.block_get hash with
    | none => simp
    | some b =>
      simp only [hb] at h
      by_cases hc : count > 0
      · simp only [hc, if_true]
        by_cases ho : offset > 0
        · simp only [ho, if_true]
          exact ih _ _ _ _ h
        · simp only [ho, if_false]
          cases rpc_handler.history_entry node output_raw hash b <;> exact ih _ _ _ _ h
      · simp [hc]

theorem wallet_history_walk_ne_none (node : node) (account modified_since : Nat) :
    ∀ (fuel timestamp hash : Nat) (entries : List (Nat × ptree)),
      rpc_handler.previous_walk_ends node fuel hash = true →
      rpc_handler.wallet_history_walk node account modified_since fuel timestamp hash entries
        ≠ none := by
  intro fuel
  induction fuel with
  | zero =>
    intro timestamp hash entries h
    unfold rpc_handler.previous_walk_ends at h
    unfold rpc_handler.wallet_history_walk
    cases hb : node.block_get hash with
    | none => split <;> simp
    | some b => simp [hb] at h
  | succ fuel ih =>
    intro timestamp hash entries h
    unfold rpc_handler.previous_walk_ends at h
    unfold rpc_handler.wallet_history_walk
    cases hb : node.block_get hash with
    | none => split <;> simp
    | some b =>
      simp only [hb] at h
      split
      · dsimp only
        split
        · exact ih _ _ _ h
        · simp
      · simp

theorem wallet_history_loop_ne_none (node : node) (fuel : Nat)
    (hstore : rpc_handler.store_coherent node fuel) (modified_since : Nat) :
    ∀ (items : List (Nat × key_type)) (entries : List (Nat × ptree)),
      rpc_handler.wallet_history_loop node modified_since fuel items entries ≠ none := by
  intro items
  induction items with
  | nil => intro entries; simp [rpc_handler.wallet_history_loop]
  | cons i rest ih =>
    intro entries
    unfold rpc_handler.wallet_history_loop
    split
    · split
      · exact ih _
      · exact absurd ‹_ = none› (wallet_history_walk_ne_none node _ _ _ _ _ _ (hstore.1 _))
    · exact ih _

theorem ledger_l_account_get {node : node} {fuel : Nat}
    (hstore : rpc_handler.store_coherent node fuel) (modified_since start : Nat) :
    ∀ p ∈ rpc_handler.ledger_l modified_since (node.latest_begin start),
      ∃ info, node.account_get p.2 = some info ∧ (node.block_get info.rep_block).isSome := by
  intro p hp
  obtain ⟨item, hitem, -, rfl⟩ := (ledger_l_mem _ _ _).mp hp
  exact ⟨item.2, hstore.2.2.2.1 start item hitem, latest_begin_rep_block hstore start item hitem⟩

theorem account_history_loop_coherent {node : node} {fuel : Nat}
    (hstore : rpc_handler.store_coherent node fuel) (output_raw : Bool)
    (hash count offset : Nat) (history : List ptree) :
    rpc_handler.account_history_loop node output_raw fuel hash count offset history ≠ none :=
  account_history_loop_ne_none node output_raw fuel hash count offset history (hstore.1 hash)

theorem once_keepalive (rpc : rpc) (node : node) (request : ptree) :
    rpc_m.once (rpc_handler.keepalive rpc node request) := by
  unfold rpc_handler.keepalive
  repeat' with_reducible first
    | exact rpc_m.once_response_errors _
    | exact rpc_m.once_raise _
    | exact rpc_m.once_respond _
    | exact rpc_m.once_respond_with_response_l
    | exact rpc_m.mute_pure _
    | exact rpc_m.mute_raise _
    | exact rpc_m.mute_no_error
    | exact rpc_m.mute_set_ec _
    | exact rpc_m.mute_put _ _
    | exact rpc_m.mute_add_child _ _
    | exact rpc_m.mute_modify_response _
    | exact rpc_m.mute_perform _
    | exact rpc_m.mute_request_get _ _
    | exact mute_rpc_control_impl _
    | exact mute_wallet_impl _ _
    | exact mute_wallet_locked_impl _ _
    | exact mute_wallet_account_impl _ _ _
    | exact mute_account_impl _ _ _
    | exact mute_amount_impl _ _
    | exact mute_block_impl _ _
    | exact mute_hash_impl _ _ _
    | exact mute_work_optional_impl _ _
    | exact mute_count_impl _ _
    | exact mute_count_optional_impl _ _ _
    | exact mute_offset_optional_impl _ _ _
    | apply rpc_m.once_bind
    | apply rpc_m.mute_bind
    | intro _
    | split
    | dsimp only

theorem once_bootstrap_lazy (rpc : rpc) (node : node) (request : ptree) :
    rpc_m.once (rpc_handler.bootstrap_lazy rpc node request) := by
  unfold rpc_handler.bootstrap_lazy
  repeat' with_reducible first
    | exact rpc_m.once_response_errors _
    | exact rpc_m.once_raise _
    | exact rpc_m.once_respond _
    | exact rpc_m.once_respond_with_response_l
    | exact rpc_m.mute_pure _
    | exact rpc_m.mute_raise _
    | exact rpc_m.mute_no_error
    | exact rpc_m.mute_set_ec _
    | exact rpc_m.mute_put _ _
    | exact rpc_m.mute_add_child _ _
    | exact rpc_m.mute_modify_response _
    | exact rpc_m.mute_perform _
    | exact rpc_m.mute_request_get _ _
    | exact mute_rpc_control_impl _
    | exact mute_wallet_impl _ _
    | exact mute_wallet_locked_impl _ _
    | exact mute_wallet_account_impl _ _ _
    | exact mute_account_impl _ _ _
    | exact mute_amount_impl _ _
    | exact mute_block_impl _ _
    | exact mute_hash_impl _ _ _
    | exact mute_work_optional_impl _ _
    | exact mute_count_impl _ _
    | exact mute_count_optional_impl _ _ _
    | exact mute_offset_optional_impl _ _ _
    | apply rpc_m.once_bind
    | apply rpc_m.mute_bind
    | intro _
    | split
    | dsimp only

theorem once_search_pending (rpc : rpc) (node : node) (request : ptree) :
    rpc_m.once (rpc_handler.search_pending rpc node request) := by
  unfold rpc_handler.search_pending
  repeat' with_reducible first
    | exact rpc_m.once_response_errors _
    | exact rpc_m.once_raise _
    | exact rpc_m.once_respond _
    | exact rpc_m.once_respond_with_response_l
    | exact rpc_m.mute_pure _
    | exact rpc_m.mute_raise _
    | exact rpc_m.mute_no_error
    | exact rpc_m.mute_set_ec _
    | exact rpc_m.mute_put _ _
    | exact rpc_m.mute_add_child _ _
    | exact rpc_m.mute_modify_response _
    | exact rpc_m.mute_perform _
    | exact rpc_m.mute_request_get _ _
    | exact mute_rpc_control_impl _
    | exact mute_wallet_impl _ _
    | exact mute_wallet_locked_impl _ _
    | exact mute_wallet_account_impl _ _ _
    | exact mute_account_impl _ _ _
    | exact mute_amount_impl _ _
    | exact mute_block_impl _ _
    | exact mute_hash_impl _ _ _
    | exact mute_work_optional_impl _ _
    | exact mute_count_impl _ _
    | exact mute_count_optional_impl _ _ _
    | exact mute_offset_optional_impl _ _ _
    | apply rpc_m.once_bind
    | apply rpc_m.mute_bind
    | intro _
    | split
    | dsimp only

theorem once_search_pending_all (rpc : rpc) (node : node) :
    rpc_m.once (rpc_handler.search_pending_all rpc node) := by
  unfold rpc_handler.search_pending_all
  repeat' with_reducible first
    | exact rpc_m.once_response_errors _
    | exact rpc_m.once_raise _
    | exact rpc_m.once_respond _
    | exact rpc_m.once_respond_with_response_l
    | exact rpc_m.mute_pure _
    | exact rpc_m.mute_raise _
    | exact rpc_m.mute_no_error
    | exact rpc_m.mute_set_ec _
    | exact rpc_m.mute_put _ _
    | exact rpc_m.mute_add_child _ _
    | exact rpc_m.mute_modify_response _
    | exact rpc_m.mute_perform _
    | exact rpc_m.mute_request_get _ _
    | exact mute_rpc_control_impl _
    | exact mute_wallet_impl _ _
    | exact mute_wallet_locked_impl _ _
    | exact mute_wallet_account_impl _ _ _
    | exact mute_account_impl _ _ _
    | exact mute_amount_impl _ _
    | exact mute_block_impl _ _
    | exact mute_hash_impl _ _ _
    | exact mute_work_optional_impl _ _
    | exact mute_count_impl _ _
    | exact mute_count_optional_impl _ _ _
    | exact mute_offset_optional_impl _ _ _
    | apply rpc_m.once_bind
    | apply rpc_m.mute_bind
    | intro _
    | split
    | dsimp only

theorem once_unchecked_clear (rpc : rpc) (node : node) :
    rpc_m.once (rpc_handler.unchecked_clear rpc node) := by
  unfold rpc_handler.unchecked_clear
  repeat' with_reducible first
    | exact rpc_m.once_response_errors _
    | exact rpc_m.once_raise _
    | exact rpc_m.once_respond _
    | exact rpc_m.once_respond_with_response_l
    | exact rpc_m.mute_pure _
    | exact rpc_m.mute_raise _
    | exact rpc_m.mute_no_error
    | exact rpc_m.mute_set_ec _
    | exact rpc_m.mute_put _ _
    | exact rpc_m.mute_add_child _ _
    | exact rpc_m.mute_modify_response _
    | exact rpc_m.mute_perform _
    | exact rpc_m.mute_request_get _ _
    | exact mute_rpc_control_impl _
    | exact mute_wallet_impl _ _
    | exact mute_wallet_locked_impl _ _
    | exact mute_wallet_account_impl _ _ _
    | exact mute_account_impl _ _ _
    | exact mute_amount_impl _ _
    | exact mute_block_impl _ _
    | exact mute_hash_impl _ _ _
    | exact mute_work_optional_impl _ _
    | exact mute_count_impl _ _
    | exact mute_count_optional_impl _ _ _
    | exact mute_offset_optional_impl _ _ _
    | apply rpc_m.once_bind
    | apply rpc_m.mute_bind
    | intro _
    | split
    | dsimp only

theorem once_node_id_delete (rpc : rpc) (node : node) :
    rpc_m.once (rpc_handler.node_id_delete rpc node) := by
  unfold rpc_handler.node_id_delete
  repeat' with_reducible first
    | exact rpc_m.once_response_errors _
    | exact rpc_m.once_raise _
    | exact rpc_m.once_respond _
    | exact rpc_m.once_respond_with_response_l
    | exact rpc_m.mute_pure _
    | exact rpc_m.mute_raise _
    | exact rpc_m.mute_no_error
    | exact rpc_m.mute_set_ec _
    | exact rpc_m.mute_put _ _
    | exact rpc_m.mute_add_child _ _
    | exact rpc_m.mute_modify_response _
    | exact rpc_m.mute_perform _
    | exact rpc_m.mute_request_get _ _
    | exact mute_rpc_control_impl _
    | exact mute_wallet_impl _ _
    | exact mute_wallet_locked_impl _ _
    | exact mute_wallet_account_impl _ _ _
    | exact mute_account_impl _ _ _
    | exact mute_amount_impl _ _
    | exact mute_block_impl _ _
    | exact mute_hash_impl _ _ _
    | exact mute_work_optional_impl _ _
    | exact mute_count_impl _ _
    | exact mute_count_optional_impl _ _ _
    | exact mute_offset_optional_impl _ _ _
    | apply rpc_m.once_bind
    | apply rpc_m.mute_bind
    | intro _
    | split
    | dsimp only

theorem once_receive_minimum_set (rpc : rpc) (node : node) (request : ptree) :
    rpc_m.once (rpc_handler.receive_minimum_set rpc node request) := by
  unfold rpc_handler.receive_minimum_set
  repeat' with_reducible first
    | exact rpc_m.once_response_errors _
    | exact rpc_m.once_raise _
    | exact rpc_m.once_respond _
    | exact rpc_m.once_respond_with_response_l
    | exact rpc_m.mute_pure _
    | exact rpc_m.mute_raise _
    | exact rpc_m.mute_no_error
    | exact rpc_m.mute_set_ec _
    | exact rpc_m.mute_put _ _
    | exact rpc_m.mute_add_child _ _
    | exact rpc_m.mute_modify_response _
    | exact rpc_m.mute_perform _
    | exact rpc_m.mute_request_get _ _
    | exact mute_rpc_control_impl _
    | exact mute_wallet_impl _ _
    | exact mute_wallet_locked_impl _ _
    | exact mute_wallet_account_impl _ _ _
    | exact mute_account_impl _ _ _
    | exact mute_amount_impl _ _
    | exact mute_block_impl _ _
    | exact mute_hash_impl _ _ _
    | exact mute_work_optional_impl _ _
    | exact mute_count_impl _ _
    | exact mute_count_optional_impl _ _ _
    | exact mute_offset_optional_impl _ _ _
    | apply rpc_m.once_bind
    | apply rpc_m.mute_bind
    | intro _
    | split
    | dsimp only

theorem once_block_create (rpc : rpc) (node : node) (request : ptree) :
    rpc_m.once (rpc_handler.block_create rpc node request) := by
  unfold rpc_handler.block_create
  repeat' with_reducible first
    | exact rpc_m.once_response_errors _
    | exact rpc_m.once_raise _
    | exact rpc_m.once_respond _
    | exact rpc_m.once_respond_with_response_l
    | exact rpc_m.mute_pure _
    | exact rpc_m.mute_raise _
    | exact rpc_m.mute_no_error
    | exact rpc_m.mute_set_ec _
    | exact rpc_m.mute_put _ _
    | exact rpc_m.mute_add_child _ _
    | exact rpc_m.mute_modify_response _
    | exact rpc_m.mute_perform _
    | exact rpc_m.mute_request_get _ _
    | exact mute_rpc_control_impl _
    | exact mute_wallet_impl _ _
    | exact mute_wallet_locked_impl _ _
    | exact mute_wallet_account_impl _ _ _
    | exact mute_account_impl _ _ _
    | exact mute_amount_impl _ _
    | exact mute_block_impl _ _
    | exact mute_hash_impl _ _ _
    | exact mute_work_optional_impl _ _
    | exact mute_count_impl _ _
    | exact mute_count_optional_impl _ _ _
    | exact mute_offset_optional_impl _ _ _
    | exact mute_block_create_emit _ _ _ _
    | exact mute_decode_optional _ _ _ _
    | exact mute_block_create_wallet _ _ _
    | exact mute_block_create_link _ _ _ _
    | exact mute_block_create_ledger _ _ _ _ _ _ _
    | exact mute_block_create_read _ _
    | exact mute_block_create_build _ _
    | apply rpc_m.once_bind
    | apply rpc_m.mute_bind
    | intro _
    | split
    | dsimp only

theorem once_process (rpc : rpc) (node : node) (request : ptree) :
    rpc_m.once (rpc_handler.process rpc node request) := by
  unfold rpc_handler.process rpc_handler.process_submit
  repeat' with_reducible first
    | exact rpc_m.once_response_errors _
    | exact rpc_m.once_raise _
    | exact rpc_m.once_respond _
    | exact rpc_m.once_respond_with_response_l
    | exact rpc_m.mute_pure _
    | exact rpc_m.mute_raise _
    | exact rpc_m.mute_no_error
    | exact rpc_m.mute_set_ec _
    | exact rpc_m.mute_put _ _
    | exact rpc_m.mute_add_child _ _
    | exact rpc_m.mute_modify_response _
    | exact rpc_m.mute_perform _
    | exact rpc_m.mute_request_get _ _
    | exact mute_rpc_control_impl _
    | exact mute_wallet_impl _ _
    | exact mute_wallet_locked_impl _ _
    | exact mute_wallet_account_impl _ _ _
    | exact mute_account_impl _ _ _
    | exact mute_amount_impl _ _
    | exact mute_block_impl _ _
    | exact mute_hash_impl _ _ _
    | exact mute_work_optional_impl _ _
    | exact mute_count_impl _ _
    | exact mute_count_optional_impl _ _ _
    | exact mute_offset_optional_impl _ _ _
    | apply rpc_m.once_bind
    | apply rpc_m.mute_bind
    | intro _
    | split
    | dsimp only

theorem once_bootstrap (node : node) (request : ptree) :
    rpc_m.once (rpc_handler.bootstrap node request) := by
  unfold rpc_handler.bootstrap
  repeat' with_reducible first
    | exact rpc_m.once_response_errors _
    | exact rpc_m.once_raise _
    | exact rpc_m.once_respond _
    | exact rpc_m.once_respond_with_response_l
    | exact rpc_m.mute_pure _
    | exact rpc_m.mute_raise _
    | exact rpc_m.mute_no_error
    | exact rpc_m.mute_set_ec _
    | exact rpc_m.mute_put _ _
    | exact rpc_m.mute_add_child _ _
    | exact rpc_m.mute_modify_response _
    | exact rpc_m.mute_perform _
    | exact rpc_m.mute_request_get _ _
    | exact mute_rpc_control_impl _
    | exact mute_wallet_impl _ _
    | exact mute_wallet_locked_impl _ _
    | exact mute_wallet_account_impl _ _ _
    | exact mute_account_impl _ _ _
    | exact mute_amount_impl _ _
    | exact mute_block_impl _ _
    | exact mute_hash_impl _ _ _
    | exact mute_work_optional_impl _ _
    | exact mute_count_impl _ _
    | exact mute_count_optional_impl _ _ _
    | exact mute_offset_optional_impl _ _ _
    | apply rpc_m.once_bind
    | apply rpc_m.mute_bind
    | intro _
    | split
    | dsimp only

theorem once_bootstrap_any (node : node) : rpc_m.once (rpc_handler.bootstrap_any node) := by
  unfold rpc_handler.bootstrap_any
  repeat' with_reducible first
    | exact rpc_m.once_response_errors _
    | exact rpc_m.once_raise _
    | exact rpc_m.once_respond _
    | exact rpc_m.once_respond_with_response_l
    | exact rpc_m.mute_pure _
    | exact rpc_m.mute_raise _
    | exact rpc_m.mute_no_error
    | exact rpc_m.mute_set_ec _
    | exact rpc_m.mute_put _ _
    | exact rpc_m.mute_add_child _ _
    | exact rpc_m.mute_modify_response _
    | exact rpc_m.mute_perform _
    | exact rpc_m.mute_request_get _ _
    | exact mute_rpc_control_impl _
    | exact mute_wallet_impl _ _
    | exact mute_wallet_locked_impl _ _
    | exact mute_wallet_account_impl _ _ _
    | exact mute_account_impl _ _ _
    | exact mute_amount_impl _ _
    | exact mute_block_impl _ _
    | exact mute_hash_impl _ _ _
    | exact mute_work_optional_impl _ _
    | exact mute_count_impl _ _
    | exact mute_count_optional_impl _ _ _
    | exact mute_offset_optional_impl _ _ _
    | apply rpc_m.once_bind
    | apply rpc_m.mute_bind
    | intro _
    | split
    | dsimp only

theorem once_block_confirm (node : node) (request : ptree) :
    rpc_m.once (rpc_handler.block_confirm node request) := by
  unfold rpc_handler.block_confirm
  repeat' with_reducible first
    | exact rpc_m.once_response_errors _
    | exact rpc_m.once_raise _
    | exact rpc_m.once_respond _
    | exact rpc_m.once_respond_with_response_l
    | exact rpc_m.mute_pure _
    | exact rpc_m.mute_raise _
    | exact rpc_m.mute_no_error
    | exact rpc_m.mute_set_ec _
    | exact rpc_m.mute_put _ _
    | exact rpc_m.mute_add_child _ _
    | exact rpc_m.mute_modify_response _
    | exact rpc_m.mute_perform _
    | exact rpc_m.mute_request_get _ _
    | exact mute_rpc_control_impl _
    | exact mute_wallet_impl _ _
    | exact mute_wallet_locked_impl _ _
    | exact mute_wallet_account_impl _ _ _
    | exact mute_account_impl _ _ _
    | exact mute_amount_impl _ _
    | exact mute_block_impl _ _
    | exact mute_hash_impl _ _ _
    | exact mute_work_optional_impl _ _
    | exact mute_count_impl _ _
    | exact mute_count_optional_impl _ _ _
    | exact mute_offset_optional_impl _ _ _
    | apply rpc_m.once_bind
    | apply rpc_m.mute_bind
    | intro _
    | split
    | dsimp only

theorem once_mFLR_from_raw (node : node) (request : ptree) (ratio : Nat) :
    rpc_m.once (rpc_handler.mFLR_from_raw node request ratio) := by
  unfold rpc_handler.mFLR_from_raw
  repeat' with_reducible first
    | exact rpc_m.once_response_errors _
    | exact rpc_m.once_raise _
    | exact rpc_m.once_respond _
    | exact rpc_m.once_respond_with_response_l
    | exact rpc_m.mute_pure _
    | exact rpc_m.mute_raise _
    | exact rpc_m.mute_no_error
    | exact rpc_m.mute_set_ec _
    | exact rpc_m.mute_put _ _
    | exact rpc_m.mute_add_child _ _
    | exact rpc_m.mute_modify_response _
    | exact rpc_m.mute_perform _
    | exact rpc_m.mute_request_get _ _
    | exact mute_rpc_control_impl _
    | exact mute_wallet_impl _ _
    | exact mute_wallet_locked_impl _ _
    | exact mute_wallet_account_impl _ _ _
    | exact mute_account_impl _ _ _
    | exact mute_amount_impl _ _
    | exact mute_block_impl _ _
    | exact mute_hash_impl _ _ _
    | exact mute_work_optional_impl _ _
    | exact mute_count_impl _ _
    | exact mute_count_optional_impl _ _ _
    | exact mute_offset_optional_impl _ _ _
    | apply rpc_m.once_bind
    | apply rpc_m.mute_bind
    | intro _
    | split
    | dsimp only

theorem once_mFLR_to_raw (node : node) (request : ptree) (ratio : Nat) :
    rpc_m.once (rpc_handler.mFLR_to_raw node request ratio) := by
  unfold rpc_handler.mFLR_to_raw
  repeat' with_reducible first
    | exact rpc_m.once_response_errors _
    | exact rpc_m.once_raise _
    | exact rpc_m.once_respond _
    | exact rpc_m.once_respond_with_response_l
    | exact rpc_m.mute_pure _
    | exact rpc_m.mute_raise _
    | exact rpc_m.mute_no_error
    | exact rpc_m.mute_set_ec _
    | exact rpc_m.mute_put _ _
    | exact rpc_m.mute_add_child _ _
    | exact rpc_m.mute_modify_response _
    | exact rpc_m.mute_perform _
    | exact rpc_m.mute_request_get _ _
    | exact mute_rpc_control_impl _
    | exact mute_wallet_impl _ _
    | exact mute_wallet_locked_impl _ _
    | exact mute_wallet_account_impl _ _ _
    | exact mute_account_impl _ _ _
    | exact mute_amount_impl _ _
    | exact mute_block_impl _ _
    | exact mute_hash_impl _ _ _
    | exact mute_work_optional_impl _ _
    | exact mute_count_impl _ _
    | exact mute_count_optional_impl _ _ _
    | exact mute_offset_optional_impl _ _ _
    | apply rpc_m.once_bind
    | apply rpc_m.mute_bind
    | intro _
    | split
    | dsimp only

theorem once_stats (rpc : rpc) (node : node) (request : ptree) :
    rpc_m.once (rpc_handler.stats rpc node request) := by
  unfold rpc_handler.stats
  repeat' with_reducible first
    | exact rpc_m.once_response_errors _
    | exact rpc_m.once_raise _
    | exact rpc_m.once_respond _
    | exact rpc_m.once_respond_with_response_l
    | exact rpc_m.mute_pure _
    | exact rpc_m.mute_raise _
    | exact rpc_m.mute_no_error
    | exact rpc_m.mute_set_ec _
    | exact rpc_m.mute_put _ _
    | exact rpc_m.mute_add_child _ _
    | exact rpc_m.mute_modify_response _
    | exact rpc_m.mute_perform _
    | exact rpc_m.mute_request_get _ _
    | exact mute_rpc_control_impl _
    | exact mute_wallet_impl _ _
    | exact mute_wallet_locked_impl _ _
    | exact mute_wallet_account_impl _ _ _
    | exact mute_account_impl _ _ _
    | exact mute_amount_impl _ _
    | exact mute_block_impl _ _
    | exact mute_hash_impl _ _ _
    | exact mute_work_optional_impl _ _
    | exact mute_count_impl _ _
    | exact mute_count_optional_impl _ _ _
    | exact mute_offset_optional_impl _ _ _
    | apply rpc_m.once_bind
    | apply rpc_m.mute_bind
    | intro _
    | split
    | dsimp only

theorem once_stats_clear : rpc_m.once rpc_handler.stats_clear := by
  unfold rpc_handler.stats_clear
  repeat' with_reducible first
    | exact rpc_m.once_response_errors _
    | exact rpc_m.once_raise _
    | exact rpc_m.once_respond _
    | exact rpc_m.once_respond_with_response_l
    | exact rpc_m.mute_pure _
    | exact rpc_m.mute_raise _
    | exact rpc_m.mute_no_error
    | exact rpc_m.mute_set_ec _
    | exact rpc_m.mute_put _ _
    | exact rpc_m.mute_add_child _ _
    | exact rpc_m.mute_modify_response _
    | exact rpc_m.mute_perform _
    | exact rpc_m.mute_request_get _ _
    | exact mute_rpc_control_impl _
    | exact mute_wallet_impl _ _
    | exact mute_wallet_locked_impl _ _
    | exact mute_wallet_account_impl _ _ _
    | exact mute_account_impl _ _ _
    | exact mute_amount_impl _ _
    | exact mute_block_impl _ _
    | exact mute_hash_impl _ _ _
    | exact mute_work_optional_impl _ _
    | exact mute_count_impl _ _
    | exact mute_count_optional_impl _ _ _
    | exact mute_offset_optional_impl _ _ _
    | apply rpc_m.once_bind
    | apply rpc_m.mute_bind
    | intro _
    | split
    | dsimp only

theorem once_account_balance (node : node) (request : ptree) :
    rpc_m.once (rpc_handler.account_balance node request) := by
  unfold rpc_handler.account_balance
  repeat' with_reducible first
    | exact rpc_m.once_response_errors _
    | exact rpc_m.once_raise _
    | exact rpc_m.once_respond _
    | exact rpc_m.once_respond_with_response_l
    | exact rpc_m.mute_pure _
    | exact rpc_m.mute_raise _
    | exact rpc_m.mute_no_error
    | exact rpc_m.mute_response_empty
    | exact rpc_m.mute_set_ec _
    | exact rpc_m.mute_put _ _
    | exact rpc_m.mute_add_child _ _
    | exact rpc_m.mute_add_children _ _
    | exact rpc_m.mute_add_nested _ _
    | exact rpc_m.mute_modify_response _
    | exact rpc_m.mute_perform _
    | exact rpc_m.mute_request_get _ _
    | exact rpc_m.mute_request_get_child _ _
    | exact mute_rpc_control_impl _
    | exact mute_wallet_impl _ _
    | exact mute_wallet_locked_impl _ _
    | exact mute_wallet_account_impl _ _ _
    | exact mute_account_impl _ _ _
    | exact mute_amount_impl _ _
    | exact mute_block_impl _ _
    | exact mute_hash_impl _ _ _
    | exact mute_work_optional_impl _ _
    | exact mute_count_impl _ _
    | exact mute_count_optional_impl _ _ _
    | exact mute_offset_optional_impl _ _ _
    | exact mute_threshold_optional_impl _ _
    | exact mute_block_impl_unsigned _ _
    | exact mute_account_create_insert _ _ _ _
    | exact mute_accounts_balances_step _ _ _ _
    | exact mute_accounts_frontiers_step _ _ _ _
    | exact mute_accounts_pending_step _ _ _ _ _ _ _ _
    | exact mute_blocks_step _ _ _
    | exact mute_blocks_info_step _ _ _ _ _
    | exact mute_wallet_add_watch_step _ _ _ _ _
    | exact mute_payment_begin_loop _ _ _
    | exact mute_sign_hash _ _ _
    | exact mute_sign_key _ _
    | exact mute_account_history_start _ _
    | apply rpc_m.mute_for_each
    | apply rpc_m.once_bind
    | apply rpc_m.mute_bind
    | intro _
    | split
    | dsimp only

theorem once_account_block_count (node : node) (request : ptree) :
    rpc_m.once (rpc_handler.account_block_count node request) := by
  unfold rpc_handler.account_block_count
  repeat' with_reducible first
    | exact rpc_m.once_response_errors _
    | exact rpc_m.once_raise _
    | exact rpc_m.once_respond _
    | exact rpc_m.once_respond_with_response_l
    | exact rpc_m.mute_pure _
    | exact rpc_m.mute_raise _
    | exact rpc_m.mute_no_error
    | exact rpc_m.mute_response_empty
    | exact rpc_m.mute_set_ec _
    | exact rpc_m.mute_put _ _
    | exact rpc_m.mute_add_child _ _
    | exact rpc_m.mute_add_children _ _
    | exact rpc_m.mute_add_nested _ _
    | exact rpc_m.mute_modify_response _
    | exact rpc_m.mute_perform _
    | exact rpc_m.mute_request_get _ _
    | exact rpc_m.mute_request_get_child _ _
    | exact mute_rpc_control_impl _
    | exact mute_wallet_impl _ _
    | exact mute_wallet_locked_impl _ _
    | exact mute_wallet_account_impl _ _ _
    | exact mute_account_impl _ _ _
    | exact mute_amount_impl _ _
    | exact mute_block_impl _ _
    | exact mute_hash_impl _ _ _
    | exact mute_work_optional_impl _ _
    | exact mute_count_impl _ _
    | exact mute_count_optional_impl _ _ _
    | exact mute_offset_optional_impl _ _ _
    | exact mute_threshold_optional_impl _ _
    | exact mute_block_impl_unsigned _ _
    | exact mute_account_create_insert _ _ _ _
    | exact mute_accounts_balances_step _ _ _ _
    | exact mute_accounts_frontiers_step _ _ _ _
    | exact mute_accounts_pending_step _ _ _ _ _ _ _ _
    | exact mute_blocks_step _ _ _
    | exact mute_blocks_info_step _ _ _ _ _
    | exact mute_wallet_add_watch_step _ _ _ _ _
    | exact mute_payment_begin_loop _ _ _
    | exact mute_sign_hash _ _ _
    | exact mute_sign_key _ _
    | exact mute_account_history_start _ _
    | apply rpc_m.mute_for_each
    | apply rpc_m.once_bind
    | apply rpc_m.mute_bind
    | intro _
    | split
    | dsimp only

theorem once_account_count (node : node) :
    rpc_m.once (rpc_handler.account_count node) := by
  unfold rpc_handler.account_count
  repeat' with_reducible first
    | exact rpc_m.once_response_errors _
    | exact rpc_m.once_raise _
    | exact rpc_m.once_respond _
    | exact rpc_m.once_respond_with_response_l
    | exact rpc_m.mute_pure _
    | exact rpc_m.mute_raise _
    | exact rpc_m.mute_no_error
    | exact rpc_m.mute_response_empty
    | exact rpc_m.mute_set_ec _
    | exact rpc_m.mute_put _ _
    | exact rpc_m.mute_add_child _ _
    | exact rpc_m.mute_add_children _ _
    | exact rpc_m.mute_add_nested _ _
    | exact rpc_m.mute_modify_response _
    | exact rpc_m.mute_perform _
    | exact rpc_m.mute_request_get _ _
    | exact rpc_m.mute_request_get_child _ _
    | exact mute_rpc_control_impl _
    | exact mute_wallet_impl _ _
    | exact mute_wallet_locked_impl _ _
    | exact mute_wallet_account_impl _ _ _
    | exact mute_account_impl _ _ _
    | exact mute_amount_impl _ _
    | exact mute_block_impl _ _
    | exact mute_hash_impl _ _ _
    | exact mute_work_optional_impl _ _
    | exact mute_count_impl _ _
    | exact mute_count_optional_impl _ _ _
    | exact mute_offset_optional_impl _ _ _
    | exact mute_threshold_optional_impl _ _
    | exact mute_block_impl_unsigned _ _
    | exact mute_account_create_insert _ _ _ _
    | exact mute_accounts_balances_step _ _ _ _
    | exact mute_accounts_frontiers_step _ _ _ _
    | exact mute_accounts_pending_step _ _ _ _ _ _ _ _
    | exact mute_blocks_step _ _ _
    | exact mute_blocks_info_step _ _ _ _ _
    | exact mute_wallet_add_watch_step _ _ _ _ _
    | exact mute_payment_begin_loop _ _ _
    | exact mute_sign_hash _ _ _
    | exact mute_sign_key _ _
    | exact mute_account_history_start _ _
    | apply rpc_m.mute_for_each
    | apply rpc_m.once_bind
    | apply rpc_m.mute_bind
    | intro _
    | split
    | dsimp only

theorem once_account_create (rpc : rpc) (node : node) (request : ptree) :
    rpc_m.once (rpc_handler.account_create rpc node request) := by
  unfold rpc_handler.account_create
  repeat' with_reducible first
    | exact rpc_m.once_response_errors _
    | exact rpc_m.once_raise _
    | exact rpc_m.once_respond _
    | exact rpc_m.once_respond_with_response_l
    | exact rpc_m.mute_pure _
    | exact rpc_m.mute_raise _
    | exact rpc_m.mute_no_error
    | exact rpc_m.mute_response_empty
    | exact rpc_m.mute_set_ec _
    | exact rpc_m.mute_put _ _
    | exact rpc_m.mute_add_child _ _
    | exact rpc_m.mute_add_children _ _
    | exact rpc_m.mute_add_nested _ _
    | exact rpc_m.mute_modify_response _
    | exact rpc_m.mute_perform _
    | exact rpc_m.mute_request_get _ _
    | exact rpc_m.mute_request_get_child _ _
    | exact mute_rpc_control_impl _
    | exact mute_wallet_impl _ _
    | exact mute_wallet_locked_impl _ _
    | exact mute_wallet_account_impl _ _ _
    | exact mute_account_impl _ _ _
    | exact mute_amount_impl _ _
    | exact mute_block_impl _ _
    | exact mute_hash_impl _ _ _
    | exact mute_work_optional_impl _ _
    | exact mute_count_impl _ _
    | exact mute_count_optional_impl _ _ _
    | exact mute_offset_optional_impl _ _ _
    | exact mute_threshold_optional_impl _ _
    | exact mute_block_impl_unsigned _ _
    | exact mute_account_create_insert _ _ _ _
    | exact mute_accounts_balances_step _ _ _ _
    | exact mute_accounts_frontiers_step _ _ _ _
    | exact mute_accounts_pending_step _ _ _ _ _ _ _ _
    | exact mute_blocks_step _ _ _
    | exact mute_blocks_info_step _ _ _ _ _
    | exact mute_wallet_add_watch_step _ _ _ _ _
    | exact mute_payment_begin_loop _ _ _
    | exact mute_sign_hash _ _ _
    | exact mute_sign_key _ _
    | exact mute_account_history_start _ _
    | apply rpc_m.mute_for_each
    | apply rpc_m.once_bind
    | apply rpc_m.mute_bind
    | intro _
    | split
    | dsimp only

theorem once_account_get (node : node) (request : ptree) :
    rpc_m.once (rpc_handler.account_get node request) := by
  unfold rpc_handler.account_get
  repeat' with_reducible first
    | exact rpc_m.once_response_errors _
    | exact rpc_m.once_raise _
    | exact rpc_m.once_respond _
    | exact rpc_m.once_respond_with_response_l
    | exact rpc_m.mute_pure _
    | exact rpc_m.mute_raise _
    | exact rpc_m.mute_no_error
    | exact rpc_m.mute_response_empty
    | exact rpc_m.mute_set_ec _
    | exact rpc_m.mute_put _ _
    | exact rpc_m.mute_add_child _ _
    | exact rpc_m.mute_add_children _ _
    | exact rpc_m.mute_add_nested _ _
    | exact rpc_m.mute_modify_response _
    | exact rpc_m.mute_perform _
    | exact rpc_m.mute_request_get _ _
    | exact rpc_m.mute_request_get_child _ _
    | exact mute_rpc_control_impl _
    | exact mute_wallet_impl _ _
    | exact mute_wallet_locked_impl _ _
    | exact mute_wallet_account_impl _ _ _
    | exact mute_account_impl _ _ _
    | exact mute_amount_impl _ _
    | exact mute_block_impl _ _
    | exact mute_hash_impl _ _ _
    | exact mute_work_optional_impl _ _
    | exact mute_count_impl _ _
    | exact mute_count_optional_impl _ _ _
    | exact mute_offset_optional_impl _ _ _
    | exact mute_threshold_optional_impl _ _
    | exact mute_block_impl_unsigned _ _
    | exact mute_account_create_insert _ _ _ _
    | exact mute_accounts_balances_step _ _ _ _
    | exact mute_accounts_frontiers_step _ _ _ _
    | exact mute_accounts_pending_step _ _ _ _ _ _ _ _
    | exact mute_blocks_step _ _ _
    | exact mute_blocks_info_step _ _ _ _ _
    | exact mute_wallet_add_watch_step _ _ _ _ _
    | exact mute_payment_begin_loop _ _ _
    | exact mute_sign_hash _ _ _
    | exact mute_sign_key _ _
    | exact mute_account_history_start _ _
    | apply rpc_m.mute_for_each
    | apply rpc_m.once_bind
    | apply rpc_m.mute_bind
    | intro _
    | split
    | dsimp only

theorem once_account_key (node : node) (request : ptree) :
    rpc_m.once (rpc_handler.account_key node request) := by
  unfold rpc_handler.account_key
  repeat' with_reducible first
    | exact rpc_m.once_response_errors _
    | exact rpc_m.once_raise _
    | exact rpc_m.once_respond _
    | exact rpc_m.once_respond_with_response_l
    | exact rpc_m.mute_pure _
    | exact rpc_m.mute_raise _
    | exact rpc_m.mute_no_error
    | exact rpc_m.mute_response_empty
    | exact rpc_m.mute_set_ec _
    | exact rpc_m.mute_put _ _
    | exact rpc_m.mute_add_child _ _
    | exact rpc_m.mute_add_children _ _
    | exact rpc_m.mute_add_nested _ _
    | exact rpc_m.mute_modify_response _
    | exact rpc_m.mute_perform _
    | exact rpc_m.mute_request_get _ _
    | exact rpc_m.mute_request_get_child _ _
    | exact mute_rpc_control_impl _
    | exact mute_wallet_impl _ _
    | exact mute_wallet_locked_impl _ _
    | exact mute_wallet_account_impl _ _ _
    | exact mute_account_impl _ _ _
    | exact mute_amount_impl _ _
    | exact mute_block_impl _ _
    | exact mute_hash_impl _ _ _
    | exact mute_work_optional_impl _ _
    | exact mute_count_impl _ _
    | exact mute_count_optional_impl _ _ _
    | exact mute_offset_optional_impl _ _ _
    | exact mute_threshold_optional_impl _ _
    | exact mute_block_impl_unsigned _ _
    | exact mute_account_create_insert _ _ _ _
    | exact mute_accounts_balances_step _ _ _ _
    | exact mute_accounts_frontiers_step _ _ _ _
    | exact mute_accounts_pending_step _ _ _ _ _ _ _ _
    | exact mute_blocks_step _ _ _
    | exact mute_blocks_info_step _ _ _ _ _
    | exact mute_wallet_add_watch_step _ _ _ _ _
    | exact mute_payment_begin_loop _ _ _
    | exact mute_sign_hash _ _ _
    | exact mute_sign_key _ _
    | exact mute_account_history_start _ _
    | apply rpc_m.mute_for_each
    | apply rpc_m.once_bind
    | apply rpc_m.mute_bind
    | intro _
    | split
    | dsimp only

theorem once_account_list (node : node) (request : ptree) :
    rpc_m.once (rpc_handler.account_list node request) := by
  unfold rpc_handler.account_list
  repeat' with_reducible first
    | exact rpc_m.once_response_errors _
    | exact rpc_m.once_raise _
    | exact rpc_m.once_respond _
    | exact rpc_m.once_respond_with_response_l
    | exact rpc_m.mute_pure _
    | exact rpc_m.mute_raise _
    | exact rpc_m.mute_no_error
    | exact rpc_m.mute_response_empty
    | exact rpc_m.mute_set_ec _
    | exact rpc_m.mute_put _ _
    | exact rpc_m.mute_add_child _ _
    | exact rpc_m.mute_add_children _ _
    | exact rpc_m.mute_add_nested _ _
    | exact rpc_m.mute_modify_response _
    | exact rpc_m.mute_perform _
    | exact rpc_m.mute_request_get _ _
    | exact rpc_m.mute_request_get_child _ _
    | exact mute_rpc_control_impl _
    | exact mute_wallet_impl _ _
    | exact mute_wallet_locked_impl _ _
    | exact mute_wallet_account_impl _ _ _
    | exact mute_account_impl _ _ _
    | exact mute_amount_impl _ _
    | exact mute_block_impl _ _
    | exact mute_hash_impl _ _ _
    | exact mute_work_optional_impl _ _
    | exact mute_count_impl _ _
    | exact mute_count_optional_impl _ _ _
    | exact mute_offset_optional_impl _ _ _
    | exact mute_threshold_optional_impl _ _
    | exact mute_block_impl_unsigned _ _
    | exact mute_account_create_insert _ _ _ _
    | exact mute_accounts_balances_step _ _ _ _
    | exact mute_accounts_frontiers_step _ _ _ _
    | exact mute_accounts_pending_step _ _ _ _ _ _ _ _
    | exact mute_blocks_step _ _ _
    | exact mute_blocks_info_step _ _ _ _ _
    | exact mute_wallet_add_watch_step _ _ _ _ _
    | exact mute_payment_begin_loop _ _ _
    | exact mute_sign_hash _ _ _
    | exact mute_sign_key _ _
    | exact mute_account_history_start _ _
    | apply rpc_m.mute_for_each
    | apply rpc_m.once_bind
    | apply rpc_m.mute_bind
    | intro _
    | split
    | dsimp only

theorem once_account_move (rpc : rpc) (node : node) (request : ptree) :
    rpc_m.once (rpc_handler.account_move rpc node request) := by
  unfold rpc_handler.account_move
  repeat' with_reducible first
    | exact rpc_m.once_response_errors _
    | exact rpc_m.once_raise _
    | exact rpc_m.once_respond _
    | exact rpc_m.once_respond_with_response_l
    | exact rpc_m.mute_pure _
    | exact rpc_m.mute_raise _
    | exact rpc_m.mute_no_error
    | exact rpc_m.mute_response_empty
    | exact rpc_m.mute_set_ec _
    | exact rpc_m.mute_put _ _
    | exact rpc_m.mute_add_child _ _
    | exact rpc_m.mute_add_children _ _
    | exact rpc_m.mute_add_nested _ _
    | exact rpc_m.mute_modify_response _
    | exact rpc_m.mute_perform _
    | exact rpc_m.mute_request_get _ _
    | exact rpc_m.mute_request_get_child _ _
    | exact mute_rpc_control_impl _
    | exact mute_wallet_impl _ _
    | exact mute_wallet_locked_impl _ _
    | exact mute_wallet_account_impl _ _ _
    | exact mute_account_impl _ _ _
    | exact mute_amount_impl _ _
    | exact mute_block_impl _ _
    | exact mute_hash_impl _ _ _
    | exact mute_work_optional_impl _ _
    | exact mute_count_impl _ _
    | exact mute_count_optional_impl _ _ _
    | exact mute_offset_optional_impl _ _ _
    | exact mute_threshold_optional_impl _ _
    | exact mute_block_impl_unsigned _ _
    | exact mute_account_create_insert _ _ _ _
    | exact mute_accounts_balances_step _ _ _ _
    | exact mute_accounts_frontiers_step _ _ _ _
    | exact mute_accounts_pending_step _ _ _ _ _ _ _ _
    | exact mute_blocks_step _ _ _
    | exact mute_blocks_info_step _ _ _ _ _
    | exact mute_wallet_add_watch_step _ _ _ _ _
    | exact mute_payment_begin_loop _ _ _
    | exact mute_sign_hash _ _ _
    | exact mute_sign_key _ _
    | exact mute_account_history_start _ _
    | apply rpc_m.mute_for_each
    | apply rpc_m.once_bind
    | apply rpc_m.mute_bind
    | intro _
    | split
    | dsimp only

theorem once_account_remove (rpc : rpc) (node : node) (request : ptree) :
    rpc_m.once (rpc_handler.account_remove rpc node request) := by
  unfold rpc_handler.account_remove
  repeat' with_reducible first
    | exact rpc_m.once_response_errors _
    | exact rpc_m.once_raise _
    | exact rpc_m.once_respond _
    | exact rpc_m.once_respond_with_response_l
    | exact rpc_m.mute_pure _
    | exact rpc_m.mute_raise _
    | exact rpc_m.mute_no_error
    | exact rpc_m.mute_response_empty
    | exact rpc_m.mute_set_ec _
    | exact rpc_m.mute_put _ _
    | exact rpc_m.mute_add_child _ _
    | exact rpc_m.mute_add_children _ _
    | exact rpc_m.mute_add_nested _ _
    | exact rpc_m.mute_modify_response _
    | exact rpc_m.mute_perform _
    | exact rpc_m.mute_request_get _ _
    | exact rpc_m.mute_request_get_child _ _
    | exact mute_rpc_control_impl _
    | exact mute_wallet_impl _ _
    | exact mute_wallet_locked_impl _ _
    | exact mute_wallet_account_impl _ _ _
    | exact mute_account_impl _ _ _
    | exact mute_amount_impl _ _
    | exact mute_block_impl _ _
    | exact mute_hash_impl _ _ _
    | exact mute_work_optional_impl _ _
    | exact mute_count_impl _ _
    | exact mute_count_optional_impl _ _ _
    | exact mute_offset_optional_impl _ _ _
    | exact mute_threshold_optional_impl _ _
    | exact mute_block_impl_unsigned _ _
    | exact mute_account_create_insert _ _ _ _
    | exact mute_accounts_balances_step _ _ _ _
    | exact mute_accounts_frontiers_step _ _ _ _
    | exact mute_accounts_pending_step _ _ _ _ _ _ _ _
    | exact mute_blocks_step _ _ _
    | exact mute_blocks_info_step _ _ _ _ _
    | exact mute_wallet_add_watch_step _ _ _ _ _
    | exact mute_payment_begin_loop _ _ _
    | exact mute_sign_hash _ _ _
    | exact mute_sign_key _ _
    | exact mute_account_history_start _ _
    | apply rpc_m.mute_for_each
    | apply rpc_m.once_bind
    | apply rpc_m.mute_bind
    | intro _
    | split
    | dsimp only

theorem once_account_weight (node : node) (request : ptree) :
    rpc_m.once (rpc_handler.account_weight node request) := by
  unfold rpc_handler.account_weight
  repeat' with_reducible first
    | exact rpc_m.once_response_errors _
    | exact rpc_m.once_raise _
    | exact rpc_m.once_respond _
    | exact rpc_m.once_respond_with_response_l
    | exact rpc_m.mute_pure _
    | exact rpc_m.mute_raise _
    | exact rpc_m.mute_no_error
    | exact rpc_m.mute_response_empty
    | exact rpc_m.mute_set_ec _
    | exact rpc_m.mute_put _ _
    | exact rpc_m.mute_add_child _ _
    | exact rpc_m.mute_add_children _ _
    | exact rpc_m.mute_add_nested _ _
    | exact rpc_m.mute_modify_response _
    | exact rpc_m.mute_perform _
    | exact rpc_m.mute_request_get _ _
    | exact rpc_m.mute_request_get_child _ _
    | exact mute_rpc_control_impl _
    | exact mute_wallet_impl _ _
    | exact mute_wallet_locked_impl _ _
    | exact mute_wallet_account_impl _ _ _
    | exact mute_account_impl _ _ _
    | exact mute_amount_impl _ _
    | exact mute_block_impl _ _
    | exact mute_hash_impl _ _ _
    | exact mute_work_optional_impl _ _
    | exact mute_count_impl _ _
    | exact mute_count_optional_impl _ _ _
    | exact mute_offset_optional_impl _ _ _
    | exact mute_threshold_optional_impl _ _
    | exact mute_block_impl_unsigned _ _
    | exact mute_account_create_insert _ _ _ _
    | exact mute_accounts_balances_step _ _ _ _
    | exact mute_accounts_frontiers_step _ _ _ _
    | exact mute_accounts_pending_step _ _ _ _ _ _ _ _
    | exact mute_blocks_step _ _ _
    | exact mute_blocks_info_step _ _ _ _ _
    | exact mute_wallet_add_watch_step _ _ _ _ _
    | exact mute_payment_begin_loop _ _ _
    | exact mute_sign_hash _ _ _
    | exact mute_sign_key _ _
    | exact mute_account_history_start _ _
    | apply rpc_m.mute_for_each
    | apply rpc_m.once_bind
    | apply rpc_m.mute_bind
    | intro _
    | split
    | dsimp only

theorem once_accounts_balances (node : node) (request : ptree) :
    rpc_m.once (rpc_handler.accounts_balances node request) := by
  unfold rpc_handler.accounts_balances
  repeat' with_reducible first
    | exact rpc_m.once_response_errors _
    | exact rpc_m.once_raise _
    | exact rpc_m.once_respond _
    | exact rpc_m.once_respond_with_response_l
    | exact rpc_m.mute_pure _
    | exact rpc_m.mute_raise _
    | exact rpc_m.mute_no_error
    | exact rpc_m.mute_response_empty
    | exact rpc_m.mute_set_ec _
    | exact rpc_m.mute_put _ _
    | exact rpc_m.mute_add_child _ _
    | exact rpc_m.mute_add_children _ _
    | exact rpc_m.mute_add_nested _ _
    | exact rpc_m.mute_modify_response _
    | exact rpc_m.mute_perform _
    | exact rpc_m.mute_request_get _ _
    | exact rpc_m.mute_request_get_child _ _
    | exact mute_rpc_control_impl _
    | exact mute_wallet_impl _ _
    | exact mute_wallet_locked_impl _ _
    | exact mute_wallet_account_impl _ _ _
    | exact mute_account_impl _ _ _
    | exact mute_amount_impl _ _
    | exact mute_block_impl _ _
    | exact mute_hash_impl _ _ _
    | exact mute_work_optional_impl _ _
    | exact mute_count_impl _ _
    | exact mute_count_optional_impl _ _ _
    | exact mute_offset_optional_impl _ _ _
    | exact mute_threshold_optional_impl _ _
    | exact mute_block_impl_unsigned _ _
    | exact mute_account_create_insert _ _ _ _
    | exact mute_accounts_balances_step _ _ _ _
    | exact mute_accounts_frontiers_step _ _ _ _
    | exact mute_accounts_pending_step _ _ _ _ _ _ _ _
    | exact mute_blocks_step _ _ _
    | exact mute_blocks_info_step _ _ _ _ _
    | exact mute_wallet_add_watch_step _ _ _ _ _
    | exact mute_payment_begin_loop _ _ _
    | exact mute_sign_hash _ _ _
    | exact mute_sign_key _ _
    | exact mute_account_history_start _ _
    | apply rpc_m.mute_for_each
    | apply rpc_m.once_bind
    | apply rpc_m.mute_bind
    | intro _
    | split
    | dsimp only

theorem once_accounts_frontiers (node : node) (request : ptree) :
    rpc_m.once (rpc_handler.accounts_frontiers node request) := by
  unfold rpc_handler.accounts_frontiers
  repeat' with_reducible first
    | exact rpc_m.once_response_errors _
    | exact rpc_m.once_raise _
    | exact rpc_m.once_respond _
    | exact rpc_m.once_respond_with_response_l
    | exact rpc_m.mute_pure _
    | exact rpc_m.mute_raise _
    | exact rpc_m.mute_no_error
    | exact rpc_m.mute_response_empty
    | exact rpc_m.mute_set_ec _
    | exact rpc_m.mute_put _ _
    | exact rpc_m.mute_add_child _ _
    | exact rpc_m.mute_add_children _ _
    | exact rpc_m.mute_add_nested _ _
    | exact rpc_m.mute_modify_response _
    | exact rpc_m.mute_perform _
    | exact rpc_m.mute_request_get _ _
    | exact rpc_m.mute_request_get_child _ _
    | exact mute_rpc_control_impl _
    | exact mute_wallet_impl _ _
    | exact mute_wallet_locked_impl _ _
    | exact mute_wallet_account_impl _ _ _
    | exact mute_account_impl _ _ _
    | exact mute_amount_impl _ _
    | exact mute_block_impl _ _
    | exact mute_hash_impl _ _ _
    | exact mute_work_optional_impl _ _
    | exact mute_count_impl _ _
    | exact mute_count_optional_impl _ _ _
    | exact mute_offset_optional_impl _ _ _
    | exact mute_threshold_optional_impl _ _
    | exact mute_block_impl_unsigned _ _
    | exact mute_account_create_insert _ _ _ _
    | exact mute_accounts_balances_step _ _ _ _
    | exact mute_accounts_frontiers_step _ _ _ _
    | exact mute_accounts_pending_step _ _ _ _ _ _ _ _
    | exact mute_blocks_step _ _ _
    | exact mute_blocks_info_step _ _ _ _ _
    | exact mute_wallet_add_watch_step _ _ _ _ _
    | exact mute_payment_begin_loop _ _ _
    | exact mute_sign_hash _ _ _
    | exact mute_sign_key _ _
    | exact mute_account_history_start _ _
    | apply rpc_m.mute_for_each
    | apply rpc_m.once_bind
    | apply rpc_m.mute_bind
    | intro _
    | split
    | dsimp only

theorem once_accounts_pending (node : node) (request : ptree) :
    rpc_m.once (rpc_handler.accounts_pending node request) := by
  unfold rpc_handler.accounts_pending
  repeat' with_reducible first
    | exact rpc_m.once_response_errors _
    | exact rpc_m.once_raise _
    | exact rpc_m.once_respond _
    | exact rpc_m.once_respond_with_response_l
    | exact rpc_m.mute_pure _
    | exact rpc_m.mute_raise _
    | exact rpc_m.mute_no_error
    | exact rpc_m.mute_response_empty
    | exact rpc_m.mute_set_ec _
    | exact rpc_m.mute_put _ _
    | exact rpc_m.mute_add_child _ _
    | exact rpc_m.mute_add_children _ _
    | exact rpc_m.mute_add_nested _ _
    | exact rpc_m.mute_modify_response _
    | exact rpc_m.mute_perform _
    | exact rpc_m.mute_request_get _ _
    | exact rpc_m.mute_request_get_child _ _
    | exact mute_rpc_control_impl _
    | exact mute_wallet_impl _ _
    | exact mute_wallet_locked_impl _ _
    | exact mute_wallet_account_impl _ _ _
    | exact mute_account_impl _ _ _
    | exact mute_amount_impl _ _
    | exact mute_block_impl _ _
    | exact mute_hash_impl _ _ _
    | exact mute_work_optional_impl _ _
    | exact mute_count_impl _ _
    | exact mute_count_optional_impl _ _ _
    | exact mute_offset_optional_impl _ _ _
    | exact mute_threshold_optional_impl _ _
    | exact mute_block_impl_unsigned _ _
    | exact mute_account_create_insert _ _ _ _
    | exact mute_accounts_balances_step _ _ _ _
    | exact mute_accounts_frontiers_step _ _ _ _
    | exact mute_accounts_pending_step _ _ _ _ _ _ _ _
    | exact mute_blocks_step _ _ _
    | exact mute_blocks_info_step _ _ _ _ _
    | exact mute_wallet_add_watch_step _ _ _ _ _
    | exact mute_payment_begin_loop _ _ _
    | exact mute_sign_hash _ _ _
    | exact mute_sign_key _ _
    | exact mute_account_history_start _ _
    | apply rpc_m.mute_for_each
    | apply rpc_m.once_bind
    | apply rpc_m.mute_bind
    | intro _
    | split
    | dsimp only

theorem once_available_supply (node : node) :
    rpc_m.once (rpc_handler.available_supply node) := by
  unfold rpc_handler.available_supply
  repeat' with_reducible first
    | exact rpc_m.once_response_errors _
    | exact rpc_m.once_raise _
    | exact rpc_m.once_respond _
    | exact rpc_m.once_respond_with_response_l
    | exact rpc_m.mute_pure _
    | exact rpc_m.mute_raise _
    | exact rpc_m.mute_no_error
    | exact rpc_m.mute_response_empty
    | exact rpc_m.mute_set_ec _
    | exact rpc_m.mute_put _ _
    | exact rpc_m.mute_add_child _ _
    | exact rpc_m.mute_add_children _ _
    | exact rpc_m.mute_add_nested _ _
    | exact rpc_m.mute_modify_response _
    | exact rpc_m.mute_perform _
    | exact rpc_m.mute_request_get _ _
    | exact rpc_m.mute_request_get_child _ _
    | exact mute_rpc_control_impl _
    | exact mute_wallet_impl _ _
    | exact mute_wallet_locked_impl _ _
    | exact mute_wallet_account_impl _ _ _
    | exact mute_account_impl _ _ _
    | exact mute_amount_impl _ _
    | exact mute_block_impl _ _
    | exact mute_hash_impl _ _ _
    | exact mute_work_optional_impl _ _
    | exact mute_count_impl _ _
    | exact mute_count_optional_impl _ _ _
    | exact mute_offset_optional_impl _ _ _
    | exact mute_threshold_optional_impl _ _
    | exact mute_block_impl_unsigned _ _
    | exact mute_account_create_insert _ _ _ _
    | exact mute_accounts_balances_step _ _ _ _
    | exact mute_accounts_frontiers_step _ _ _ _
    | exact mute_accounts_pending_step _ _ _ _ _ _ _ _
    | exact mute_blocks_step _ _ _
    | exact mute_blocks_info_step _ _ _ _ _
    | exact mute_wallet_add_watch_step _ _ _ _ _
    | exact mute_payment_begin_loop _ _ _
    | exact mute_sign_hash _ _ _
    | exact mute_sign_key _ _
    | exact mute_account_history_start _ _
    | apply rpc_m.mute_for_each
    | apply rpc_m.once_bind
    | apply rpc_m.mute_bind
    | intro _
    | split
    | dsimp only

theorem once_block_info (node : node) (request : ptree) :
    rpc_m.once (rpc_handler.block_info node request) := by
  unfold rpc_handler.block_info
  repeat' with_reducible first
    | exact rpc_m.once_response_errors _
    | exact rpc_m.once_raise _
    | exact rpc_m.once_respond _
    | exact rpc_m.once_respond_with_response_l
    | exact rpc_m.mute_pure _
    | exact rpc_m.mute_raise _
    | exact rpc_m.mute_no_error
    | exact rpc_m.mute_response_empty
    | exact rpc_m.mute_set_ec _
    | exact rpc_m.mute_put _ _
    | exact rpc_m.mute_add_child _ _
    | exact rpc_m.mute_add_children _ _
    | exact rpc_m.mute_add_nested _ _
    | exact rpc_m.mute_modify_response _
    | exact rpc_m.mute_perform _
    | exact rpc_m.mute_request_get _ _
    | exact rpc_m.mute_request_get_child _ _
    | exact mute_rpc_control_impl _
    | exact mute_wallet_impl _ _
    | exact mute_wallet_locked_impl _ _
    | exact mute_wallet_account_impl _ _ _
    | exact mute_account_impl _ _ _
    | exact mute_amount_impl _ _
    | exact mute_block_impl _ _
    | exact mute_hash_impl _ _ _
    | exact mute_work_optional_impl _ _
    | exact mute_count_impl _ _
    | exact mute_count_optional_impl _ _ _
    | exact mute_offset_optional_impl _ _ _
    | exact mute_threshold_optional_impl _ _
    | exact mute_block_impl_unsigned _ _
    | exact mute_account_create_insert _ _ _ _
    | exact mute_accounts_balances_step _ _ _ _
    | exact mute_accounts_frontiers_step _ _ _ _
    | exact mute_accounts_pending_step _ _ _ _ _ _ _ _
    | exact mute_blocks_step _ _ _
    | exact mute_blocks_info_step _ _ _ _ _
    | exact mute_wallet_add_watch_step _ _ _ _ _
    | exact mute_payment_begin_loop _ _ _
    | exact mute_sign_hash _ _ _
    | exact mute_sign_key _ _
    | exact mute_account_history_start _ _
    | apply rpc_m.mute_for_each
    | apply rpc_m.once_bind
    | apply rpc_m.mute_bind
    | intro _
    | split
    | dsimp only

theorem once_blocks (node : node) (request : ptree) :
    rpc_m.once (rpc_handler.blocks node request) := by
  unfold rpc_handler.blocks
  repeat' with_reducible first
    | exact rpc_m.once_response_errors _
    | exact rpc_m.once_raise _
    | exact rpc_m.once_respond _
    | exact rpc_m.once_respond_with_response_l
    | exact rpc_m.mute_pure _
    | exact rpc_m.mute_raise _
    | exact rpc_m.mute_no_error
    | exact rpc_m.mute_response_empty
    | exact rpc_m.mute_set_ec _
    | exact rpc_m.mute_put _ _
    | exact rpc_m.mute_add_child _ _
    | exact rpc_m.mute_add_children _ _
    | exact rpc_m.mute_add_nested _ _
    | exact rpc_m.mute_modify_response _
    | exact rpc_m.mute_perform _
    | exact rpc_m.mute_request_get _ _
    | exact rpc_m.mute_request_get_child _ _
    | exact mute_rpc_control_impl _
    | exact mute_wallet_impl _ _
    | exact mute_wallet_locked_impl _ _
    | exact mute_wallet_account_impl _ _ _
    | exact mute_account_impl _ _ _
    | exact mute_amount_impl _ _
    | exact mute_block_impl _ _
    | exact mute_hash_impl _ _ _
    | exact mute_work_optional_impl _ _
    | exact mute_count_impl _ _
    | exact mute_count_optional_impl _ _ _
    | exact mute_offset_optional_impl _ _ _
    | exact mute_threshold_optional_impl _ _
    | exact mute_block_impl_unsigned _ _
    | exact mute_account_create_insert _ _ _ _
    | exact mute_accounts_balances_step _ _ _ _
    | exact mute_accounts_frontiers_step _ _ _ _
    | exact mute_accounts_pending_step _ _ _ _ _ _ _ _
    | exact mute_blocks_step _ _ _
    | exact mute_blocks_info_step _ _ _ _ _
    | exact mute_wallet_add_watch_step _ _ _ _ _
    | exact mute_payment_begin_loop _ _ _
    | exact mute_sign_hash _ _ _
    | exact mute_sign_key _ _
    | exact mute_account_history_start _ _
    | apply rpc_m.mute_for_each
    | apply rpc_m.once_bind
    | apply rpc_m.mute_bind
    | intro _
    | split
    | dsimp only

theorem once_blocks_info (node : node) (request : ptree) :
    rpc_m.once (rpc_handler.blocks_info node request) := by
  unfold rpc_handler.blocks_info
  repeat' with_reducible first
    | exact rpc_m.once_response_errors _
    | exact rpc_m.once_raise _
    | exact rpc_m.once_respond _
    | exact rpc_m.once_respond_with_response_l
    | exact rpc_m.mute_pure _
    | exact rpc_m.mute_raise _
    | exact rpc_m.mute_no_error
    | exact rpc_m.mute_response_empty
    | exact rpc_m.mute_set_ec _
    | exact rpc_m.mute_put _ _
    | exact rpc_m.mute_add_child _ _
    | exact rpc_m.mute_add_children _ _
    | exact rpc_m.mute_add_nested _ _
    | exact rpc_m.mute_modify_response _
    | exact rpc_m.mute_perform _
    | exact rpc_m.mute_request_get _ _
    | exact rpc_m.mute_request_get_child _ _
    | exact mute_rpc_control_impl _
    | exact mute_wallet_impl _ _
    | exact mute_wallet_locked_impl _ _
    | exact mute_wallet_account_impl _ _ _
    | exact mute_account_impl _ _ _
    | exact mute_amount_impl _ _
    | exact mute_block_impl _ _
    | exact mute_hash_impl _ _ _
    | exact mute_work_optional_impl _ _
    | exact mute_count_impl _ _
    | exact mute_count_optional_impl _ _ _
    | exact mute_offset_optional_impl _ _ _
    | exact mute_threshold_optional_impl _ _
    | exact mute_block_impl_unsigned _ _
    | exact mute_account_create_insert _ _ _ _
    | exact mute_accounts_balances_step _ _ _ _
    | exact mute_accounts_frontiers_step _ _ _ _
    | exact mute_accounts_pending_step _ _ _ _ _ _ _ _
    | exact mute_blocks_step _ _ _
    | exact mute_blocks_info_step _ _ _ _ _
    | exact mute_wallet_add_watch_step _ _ _ _ _
    | exact mute_payment_begin_loop _ _ _
    | exact mute_sign_hash _ _ _
    | exact mute_sign_key _ _
    | exact mute_account_history_start _ _
    | apply rpc_m.mute_for_each
    | apply rpc_m.once_bind
    | apply rpc_m.mute_bind
    | intro _
    | split
    | dsimp only

theorem once_block_account (node : node) (request : ptree) :
    rpc_m.once (rpc_handler.block_account node request) := by
  unfold rpc_handler.block_account
  repeat' with_reducible first
    | exact rpc_m.once_response_errors _
    | exact rpc_m.once_raise _
    | exact rpc_m.once_respond _
    | exact rpc_m.once_respond_with_response_l
    | exact rpc_m.mute_pure _
    | exact rpc_m.mute_raise _
    | exact rpc_m.mute_no_error
    | exact rpc_m.mute_response_empty
    | exact rpc_m.mute_set_ec _
    | exact rpc_m.mute_put _ _
    | exact rpc_m.mute_add_child _ _
    | exact rpc_m.mute_add_children _ _
    | exact rpc_m.mute_add_nested _ _
    | exact rpc_m.mute_modify_response _
    | exact rpc_m.mute_perform _
    | exact rpc_m.mute_request_get _ _
    | exact rpc_m.mute_request_get_child _ _
    | exact mute_rpc_control_impl _
    | exact mute_wallet_impl _ _
    | exact mute_wallet_locked_impl _ _
    | exact mute_wallet_account_impl _ _ _
    | exact mute_account_impl _ _ _
    | exact mute_amount_impl _ _
    | exact mute_block_impl _ _
    | exact mute_hash_impl _ _ _
    | exact mute_work_optional_impl _ _
    | exact mute_count_impl _ _
    | exact mute_count_optional_impl _ _ _
    | exact mute_offset_optional_impl _ _ _
    | exact mute_threshold_optional_impl _ _
    | exact mute_block_impl_unsigned _ _
    | exact mute_account_create_insert _ _ _ _
    | exact mute_accounts_balances_step _ _ _ _
    | exact mute_accounts_frontiers_step _ _ _ _
    | exact mute_accounts_pending_step _ _ _ _ _ _ _ _
    | exact mute_blocks_step _ _ _
    | exact mute_blocks_info_step _ _ _ _ _
    | exact mute_wallet_add_watch_step _ _ _ _ _
    | exact mute_payment_begin_loop _ _ _
    | exact mute_sign_hash _ _ _
    | exact mute_sign_key _ _
    | exact mute_account_history_start _ _
    | apply rpc_m.mute_for_each
    | apply rpc_m.once_bind
    | apply rpc_m.mute_bind
    | intro _
    | split
    | dsimp only

theorem once_block_count (node : node) :
    rpc_m.once (rpc_handler.block_count node) := by
  unfold rpc_handler.block_count
  repeat' with_reducible first
    | exact rpc_m.once_response_errors _
    | exact rpc_m.once_raise _
    | exact rpc_m.once_respond _
    | exact rpc_m.once_respond_with_response_l
    | exact rpc_m.mute_pure _
    | exact rpc_m.mute_raise _
    | exact rpc_m.mute_no_error
    | exact rpc_m.mute_response_empty
    | exact rpc_m.mute_set_ec _
    | exact rpc_m.mute_put _ _
    | exact rpc_m.mute_add_child _ _
    | exact rpc_m.mute_add_children _ _
    | exact rpc_m.mute_add_nested _ _
    | exact rpc_m.mute_modify_response _
    | exact rpc_m.mute_perform _
    | exact rpc_m.mute_request_get _ _
    | exact rpc_m.mute_request_get_child _ _
    | exact mute_rpc_control_impl _
    | exact mute_wallet_impl _ _
    | exact mute_wallet_locked_impl _ _
    | exact mute_wallet_account_impl _ _ _
    | exact mute_account_impl _ _ _
    | exact mute_amount_impl _ _
    | exact mute_block_impl _ _
    | exact mute_hash_impl _ _ _
    | exact mute_work_optional_impl _ _
    | exact mute_count_impl _ _
    | exact mute_count_optional_impl _ _ _
    | exact mute_offset_optional_impl _ _ _
    | exact mute_threshold_optional_impl _ _
    | exact mute_block_impl_unsigned _ _
    | exact mute_account_create_insert _ _ _ _
    | exact mute_accounts_balances_step _ _ _ _
    | exact mute_accounts_frontiers_step _ _ _ _
    | exact mute_accounts_pending_step _ _ _ _ _ _ _ _
    | exact mute_blocks_step _ _ _
    | exact mute_blocks_info_step _ _ _ _ _
    | exact mute_wallet_add_watch_step _ _ _ _ _
    | exact mute_payment_begin_loop _ _ _
    | exact mute_sign_hash _ _ _
    | exact mute_sign_key _ _
    | exact mute_account_history_start _ _
    | apply rpc_m.mute_for_each
    | apply rpc_m.once_bind
    | apply rpc_m.mute_bind
    | intro _
    | split
    | dsimp only

theorem once_block_count_type (node : node) :
    rpc_m.once (rpc_handler.block_count_type node) := by
  unfold rpc_handler.block_count_type
  repeat' with_reducible first
    | exact rpc_m.once_response_errors _
    | exact rpc_m.once_raise _
    | exact rpc_m.once_respond _
    | exact rpc_m.once_respond_with_response_l
    | exact rpc_m.mute_pure _
    | exact rpc_m.mute_raise _
    | exact rpc_m.mute_no_error
    | exact rpc_m.mute_response_empty
    | exact rpc_m.mute_set_ec _
    | exact rpc_m.mute_put _ _
    | exact rpc_m.mute_add_child _ _
    | exact rpc_m.mute_add_children _ _
    | exact rpc_m.mute_add_nested _ _
    | exact rpc_m.mute_modify_response _
    | exact rpc_m.mute_perform _
    | exact rpc_m.mute_request_get _ _
    | exact rpc_m.mute_request_get_child _ _
    | exact mute_rpc_control_impl _
    | exact mute_wallet_impl _ _
    | exact mute_wallet_locked_impl _ _
    | exact mute_wallet_account_impl _ _ _
    | exact mute_account_impl _ _ _
    | exact mute_amount_impl _ _
    | exact mute_block_impl _ _
    | exact mute_hash_impl _ _ _
    | exact mute_work_optional_impl _ _
    | exact mute_count_impl _ _
    | exact mute_count_optional_impl _ _ _
    | exact mute_offset_optional_impl _ _ _
    | exact mute_threshold_optional_impl _ _
    | exact mute_block_impl_unsigned _ _
    | exact mute_account_create_insert _ _ _ _
    | exact mute_accounts_balances_step _ _ _ _
    | exact mute_accounts_frontiers_step _ _ _ _
    | exact mute_accounts_pending_step _ _ _ _ _ _ _ _
    | exact mute_blocks_step _ _ _
    | exact mute_blocks_info_step _ _ _ _ _
    | exact mute_wallet_add_watch_step _ _ _ _ _
    | exact mute_payment_begin_loop _ _ _
    | exact mute_sign_hash _ _ _
    | exact mute_sign_key _ _
    | exact mute_account_history_start _ _
    | apply rpc_m.mute_for_each
    | apply rpc_m.once_bind
    | apply rpc_m.mute_bind
    | intro _
    | split
    | dsimp only

theorem once_block_hash (node : node) (request : ptree) :
    rpc_m.once (rpc_handler.block_hash node request) := by
  unfold rpc_handler.block_hash
  repeat' with_reducible first
    | exact rpc_m.once_response_errors _
    | exact rpc_m.once_raise _
    | exact rpc_m.once_respond _
    | exact rpc_m.once_respond_with_response_l
    | exact rpc_m.mute_pure _
    | exact rpc_m.mute_raise _
    | exact rpc_m.mute_no_error
    | exact rpc_m.mute_response_empty
    | exact rpc_m.mute_set_ec _
    | exact rpc_m.mute_put _ _
    | exact rpc_m.mute_add_child _ _
    | exact rpc_m.mute_add_children _ _
    | exact rpc_m.mute_add_nested _ _
    | exact rpc_m.mute_modify_response _
    | exact rpc_m.mute_perform _
    | exact rpc_m.mute_request_get _ _
    | exact rpc_m.mute_request_get_child _ _
    | exact mute_rpc_control_impl _
    | exact mute_wallet_impl _ _
    | exact mute_wallet_locked_impl _ _
    | exact mute_wallet_account_impl _ _ _
    | exact mute_account_impl _ _ _
    | exact mute_amount_impl _ _
    | exact mute_block_impl _ _
    | exact mute_hash_impl _ _ _
    | exact mute_work_optional_impl _ _
    | exact mute_count_impl _ _
    | exact mute_count_optional_impl _ _ _
    | exact mute_offset_optional_impl _ _ _
    | exact mute_threshold_optional_impl _ _
    | exact mute_block_impl_unsigned _ _
    | exact mute_account_create_insert _ _ _ _
    | exact mute_accounts_balances_step _ _ _ _
    | exact mute_accounts_frontiers_step _ _ _ _
    | exact mute_accounts_pending_step _ _ _ _ _ _ _ _
    | exact mute_blocks_step _ _ _
    | exact mute_blocks_info_step _ _ _ _ _
    | exact mute_wallet_add_watch_step _ _ _ _ _
    | exact mute_payment_begin_loop _ _ _
    | exact mute_sign_hash _ _ _
    | exact mute_sign_key _ _
    | exact mute_account_history_start _ _
    | apply rpc_m.mute_for_each
    | apply rpc_m.once_bind
    | apply rpc_m.mute_bind
    | intro _
    | split
    | dsimp only

theorem once_bootstrap_status (node : node) :
    rpc_m.once (rpc_handler.bootstrap_status node) := by
  unfold rpc_handler.bootstrap_status
  repeat' with_reducible first
    | exact rpc_m.once_response_errors _
    | exact rpc_m.once_raise _
    | exact rpc_m.once_respond _
    | exact rpc_m.once_respond_with_response_l
    | exact rpc_m.mute_pure _
    | exact rpc_m.mute_raise _
    | exact rpc_m.mute_no_error
    | exact rpc_m.mute_response_empty
    | exact rpc_m.mute_set_ec _
    | exact rpc_m.mute_put _ _
    | exact rpc_m.mute_add_child _ _
    | exact rpc_m.mute_add_children _ _
    | exact rpc_m.mute_add_nested _ _
    | exact rpc_m.mute_modify_response _
    | exact rpc_m.mute_perform _
    | exact rpc_m.mute_request_get _ _
    | exact rpc_m.mute_request_get_child _ _
    | exact mute_rpc_control_impl _
    | exact mute_wallet_impl _ _
    | exact mute_wallet_locked_impl _ _
    | exact mute_wallet_account_impl _ _ _
    | exact mute_account_impl _ _ _
    | exact mute_amount_impl _ _
    | exact mute_block_impl _ _
    | exact mute_hash_impl _ _ _
    | exact mute_work_optional_impl _ _
    | exact mute_count_impl _ _
    | exact mute_count_optional_impl _ _ _
    | exact mute_offset_optional_impl _ _ _
    | exact mute_threshold_optional_impl _ _
    | exact mute_block_impl_unsigned _ _
    | exact mute_account_create_insert _ _ _ _
    | exact mute_accounts_balances_step _ _ _ _
    | exact mute_accounts_frontiers_step _ _ _ _
    | exact mute_accounts_pending_step _ _ _ _ _ _ _ _
    | exact mute_blocks_step _ _ _
    | exact mute_blocks_info_step _ _ _ _ _
    | exact mute_wallet_add_watch_step _ _ _ _ _
    | exact mute_payment_begin_loop _ _ _
    | exact mute_sign_hash _ _ _
    | exact mute_sign_key _ _
    | exact mute_account_history_start _ _
    | apply rpc_m.mute_for_each
    | apply rpc_m.once_bind
    | apply rpc_m.mute_bind
    | intro _
    | split
    | dsimp only

theorem once_deterministic_key (node : node) (request : ptree) :
    rpc_m.once (rpc_handler.deterministic_key node request) := by
  unfold rpc_handler.deterministic_key
  repeat' with_reducible first
    | exact rpc_m.once_response_errors _
    | exact rpc_m.once_raise _
    | exact rpc_m.once_respond _
    | exact rpc_m.once_respond_with_response_l
    | exact rpc_m.mute_pure _
    | exact rpc_m.mute_raise _
    | exact rpc_m.mute_no_error
    | exact rpc_m.mute_response_empty
    | exact rpc_m.mute_set_ec _
    | exact rpc_m.mute_put _ _
    | exact rpc_m.mute_add_child _ _
    | exact rpc_m.mute_add_children _ _
    | exact rpc_m.mute_add_nested _ _
    | exact rpc_m.mute_modify_response _
    | exact rpc_m.mute_perform _
    | exact rpc_m.mute_request_get _ _
    | exact rpc_m.mute_request_get_child _ _
    | exact mute_rpc_control_impl _
    | exact mute_wallet_impl _ _
    | exact mute_wallet_locked_impl _ _
    | exact mute_wallet_account_impl _ _ _
    | exact mute_account_impl _ _ _
    | exact mute_amount_impl _ _
    | exact mute_block_impl _ _
    | exact mute_hash_impl _ _ _
    | exact mute_work_optional_impl _ _
    | exact mute_count_impl _ _
    | exact mute_count_optional_impl _ _ _
    | exact mute_offset_optional_impl _ _ _
    | exact mute_threshold_optional_impl _ _
    | exact mute_block_impl_unsigned _ _
    | exact mute_account_create_insert _ _ _ _
    | exact mute_accounts_balances_step _ _ _ _
    | exact mute_accounts_frontiers_step _ _ _ _
    | exact mute_accounts_pending_step _ _ _ _ _ _ _ _
    | exact mute_blocks_step _ _ _
    | exact mute_blocks_info_step _ _ _ _ _
    | exact mute_wallet_add_watch_step _ _ _ _ _
    | exact mute_payment_begin_loop _ _ _
    | exact mute_sign_hash _ _ _
    | exact mute_sign_key _ _
    | exact mute_account_history_start _ _
    | apply rpc_m.mute_for_each
    | apply rpc_m.once_bind
    | apply rpc_m.mute_bind
    | intro _
    | split
    | dsimp only

theorem once_confirmation_active (node : node) (request : ptree) :
    rpc_m.once (rpc_handler.confirmation_active node request) := by
  unfold rpc_handler.confirmation_active
  repeat' with_reducible first
    | exact rpc_m.once_response_errors _
    | exact rpc_m.once_raise _
    | exact rpc_m.once_respond _
    | exact rpc_m.once_respond_with_response_l
    | exact rpc_m.mute_pure _
    | exact rpc_m.mute_raise _
    | exact rpc_m.mute_no_error
    | exact rpc_m.mute_response_empty
    | exact rpc_m.mute_set_ec _
    | exact rpc_m.mute_put _ _
    | exact rpc_m.mute_add_child _ _
    | exact rpc_m.mute_add_children _ _
    | exact rpc_m.mute_add_nested _ _
    | exact rpc_m.mute_modify_response _
    | exact rpc_m.mute_perform _
    | exact rpc_m.mute_request_get _ _
    | exact rpc_m.mute_request_get_child _ _
    | exact mute_rpc_control_impl _
    | exact mute_wallet_impl _ _
    | exact mute_wallet_locked_impl _ _
    | exact mute_wallet_account_impl _ _ _
    | exact mute_account_impl _ _ _
    | exact mute_amount_impl _ _
    | exact mute_block_impl _ _
    | exact mute_hash_impl _ _ _
    | exact mute_work_optional_impl _ _
    | exact mute_count_impl _ _
    | exact mute_count_optional_impl _ _ _
    | exact mute_offset_optional_impl _ _ _
    | exact mute_threshold_optional_impl _ _
    | exact mute_block_impl_unsigned _ _
    | exact mute_account_create_insert _ _ _ _
    | exact mute_accounts_balances_step _ _ _ _
    | exact mute_accounts_frontiers_step _ _ _ _
    | exact mute_accounts_pending_step _ _ _ _ _ _ _ _
    | exact mute_blocks_step _ _ _
    | exact mute_blocks_info_step _ _ _ _ _
    | exact mute_wallet_add_watch_step _ _ _ _ _
    | exact mute_payment_begin_loop _ _ _
    | exact mute_sign_hash _ _ _
    | exact mute_sign_key _ _
    | exact mute_account_history_start _ _
    | apply rpc_m.mute_for_each
    | apply rpc_m.once_bind
    | apply rpc_m.mute_bind
    | intro _
    | split
    | dsimp only

theorem once_confirmation_history (node : node) (request : ptree) :
    rpc_m.once (rpc_handler.confirmation_history node request) := by
  unfold rpc_handler.confirmation_history
  repeat' with_reducible first
    | exact rpc_m.once_response_errors _
    | exact rpc_m.once_raise _
    | exact rpc_m.once_respond _
    | exact rpc_m.once_respond_with_response_l
    | exact rpc_m.mute_pure _
    | exact rpc_m.mute_raise _
    | exact rpc_m.mute_no_error
    | exact rpc_m.mute_response_empty
    | exact rpc_m.mute_set_ec _
    | exact rpc_m.mute_put _ _
    | exact rpc_m.mute_add_child _ _
    | exact rpc_m.mute_add_children _ _
    | exact rpc_m.mute_add_nested _ _
    | exact rpc_m.mute_modify_response _
    | exact rpc_m.mute_perform _
    | exact rpc_m.mute_request_get _ _
    | exact rpc_m.mute_request_get_child _ _
    | exact mute_rpc_control_impl _
    | exact mute_wallet_impl _ _
    | exact mute_wallet_locked_impl _ _
    | exact mute_wallet_account_impl _ _ _
    | exact mute_account_impl _ _ _
    | exact mute_amount_impl _ _
    | exact mute_block_impl _ _
    | exact mute_hash_impl _ _ _
    | exact mute_work_optional_impl _ _
    | exact mute_count_impl _ _
    | exact mute_count_optional_impl _ _ _
    | exact mute_offset_optional_impl _ _ _
    | exact mute_threshold_optional_impl _ _
    | exact mute_block_impl_unsigned _ _
    | exact mute_account_create_insert _ _ _ _
    | exact mute_accounts_balances_step _ _ _ _
    | exact mute_accounts_frontiers_step _ _ _ _
    | exact mute_accounts_pending_step _ _ _ _ _ _ _ _
    | exact mute_blocks_step _ _ _
    | exact mute_blocks_info_step _ _ _ _ _
    | exact mute_wallet_add_watch_step _ _ _ _ _
    | exact mute_payment_begin_loop _ _ _
    | exact mute_sign_hash _ _ _
    | exact mute_sign_key _ _
    | exact mute_account_history_start _ _
    | apply rpc_m.mute_for_each
    | apply rpc_m.once_bind
    | apply rpc_m.mute_bind
    | intro _
    | split
    | dsimp only

theorem once_confirmation_info (node : node) (request : ptree) :
    rpc_m.once (rpc_handler.confirmation_info node request) := by
  unfold rpc_handler.confirmation_info
  repeat' with_reducible first
    | exact rpc_m.once_response_errors _
    | exact rpc_m.once_raise _
    | exact rpc_m.once_respond _
    | exact rpc_m.once_respond_with_response_l
    | exact rpc_m.mute_pure _
    | exact rpc_m.mute_raise _
    | exact rpc_m.mute_no_error
    | exact rpc_m.mute_response_empty
    | exact rpc_m.mute_set_ec _
    | exact rpc_m.mute_put _ _
    | exact rpc_m.mute_add_child _ _
    | exact rpc_m.mute_add_children _ _
    | exact rpc_m.mute_add_nested _ _
    | exact rpc_m.mute_modify_response _
    | exact rpc_m.mute_perform _
    | exact rpc_m.mute_request_get _ _
    | exact rpc_m.mute_request_get_child _ _
    | exact mute_rpc_control_impl _
    | exact mute_wallet_impl _ _
    | exact mute_wallet_locked_impl _ _
    | exact mute_wallet_account_impl _ _ _
    | exact mute_account_impl _ _ _
    | exact mute_amount_impl _ _
    | exact mute_block_impl _ _
    | exact mute_hash_impl _ _ _
    | exact mute_work_optional_impl _ _
    | exact mute_count_impl _ _
    | exact mute_count_optional_impl _ _ _
    | exact mute_offset_optional_impl _ _ _
    | exact mute_threshold_optional_impl _ _
    | exact mute_block_impl_unsigned _ _
    | exact mute_account_create_insert _ _ _ _
    | exact mute_accounts_balances_step _ _ _ _
    | exact mute_accounts_frontiers_step _ _ _ _
    | exact mute_accounts_pending_step _ _ _ _ _ _ _ _
    | exact mute_blocks_step _ _ _
    | exact mute_blocks_info_step _ _ _ _ _
    | exact mute_wallet_add_watch_step _ _ _ _ _
    | exact mute_payment_begin_loop _ _ _
    | exact mute_sign_hash _ _ _
    | exact mute_sign_key _ _
    | exact mute_account_history_start _ _
    | apply rpc_m.mute_for_each
    | apply rpc_m.once_bind
    | apply rpc_m.mute_bind
    | intro _
    | split
    | dsimp only

theorem once_confirmation_quorum (node : node) (request : ptree) :
    rpc_m.once (rpc_handler.confirmation_quorum node request) := by
  unfold rpc_handler.confirmation_quorum
  repeat' with_reducible first
    | exact rpc_m.once_response_errors _
    | exact rpc_m.once_raise _
    | exact rpc_m.once_respond _
    | exact rpc_m.once_respond_with_response_l
    | exact rpc_m.mute_pure _
    | exact rpc_m.mute_raise _
    | exact rpc_m.mute_no_error
    | exact rpc_m.mute_response_empty
    | exact rpc_m.mute_set_ec _
    | exact rpc_m.mute_put _ _
    | exact rpc_m.mute_add_child _ _
    | exact rpc_m.mute_add_children _ _
    | exact rpc_m.mute_add_nested _ _
    | exact rpc_m.mute_modify_response _
    | exact rpc_m.mute_perform _
    | exact rpc_m.mute_request_get _ _
    | exact rpc_m.mute_request_get_child _ _
    | exact mute_rpc_control_impl _
    | exact mute_wallet_impl _ _
    | exact mute_wallet_locked_impl _ _
    | exact mute_wallet_account_impl _ _ _
    | exact mute_account_impl _ _ _
    | exact mute_amount_impl _ _
    | exact mute_block_impl _ _
    | exact mute_hash_impl _ _ _
    | exact mute_work_optional_impl _ _
    | exact mute_count_impl _ _
    | exact mute_count_optional_impl _ _ _
    | exact mute_offset_optional_impl _ _ _
    | exact mute_threshold_optional_impl _ _
    | exact mute_block_impl_unsigned _ _
    | exact mute_account_create_insert _ _ _ _
    | exact mute_accounts_balances_step _ _ _ _
    | exact mute_accounts_frontiers_step _ _ _ _
    | exact mute_accounts_pending_step _ _ _ _ _ _ _ _
    | exact mute_blocks_step _ _ _
    | exact mute_blocks_info_step _ _ _ _ _
    | exact mute_wallet_add_watch_step _ _ _ _ _
    | exact mute_payment_begin_loop _ _ _
    | exact mute_sign_hash _ _ _
    | exact mute_sign_key _ _
    | exact mute_account_history_start _ _
    | apply rpc_m.mute_for_each
    | apply rpc_m.once_bind
    | apply rpc_m.mute_bind
    | intro _
    | split
    | dsimp only

theorem once_frontiers (node : node) (request : ptree) :
    rpc_m.once (rpc_handler.frontiers node request) := by
  unfold rpc_handler.frontiers
  repeat' with_reducible first
    | exact rpc_m.once_response_errors _
    | exact rpc_m.once_raise _
    | exact rpc_m.once_respond _
    | exact rpc_m.once_respond_with_response_l
    | exact rpc_m.mute_pure _
    | exact rpc_m.mute_raise _
    | exact rpc_m.mute_no_error
    | exact rpc_m.mute_response_empty
    | exact rpc_m.mute_set_ec _
    | exact rpc_m.mute_put _ _
    | exact rpc_m.mute_add_child _ _
    | exact rpc_m.mute_add_children _ _
    | exact rpc_m.mute_add_nested _ _
    | exact rpc_m.mute_modify_response _
    | exact rpc_m.mute_perform _
    | exact rpc_m.mute_request_get _ _
    | exact rpc_m.mute_request_get_child _ _
    | exact mute_rpc_control_impl _
    | exact mute_wallet_impl _ _
    | exact mute_wallet_locked_impl _ _
    | exact mute_wallet_account_impl _ _ _
    | exact mute_account_impl _ _ _
    | exact mute_amount_impl _ _
    | exact mute_block_impl _ _
    | exact mute_hash_impl _ _ _
    | exact mute_work_optional_impl _ _
    | exact mute_count_impl _ _
    | exact mute_count_optional_impl _ _ _
    | exact mute_offset_optional_impl _ _ _
    | exact mute_threshold_optional_impl _ _
    | exact mute_block_impl_unsigned _ _
    | exact mute_account_create_insert _ _ _ _
    | exact mute_accounts_balances_step _ _ _ _
    | exact mute_accounts_frontiers_step _ _ _ _
    | exact mute_accounts_pending_step _ _ _ _ _ _ _ _
    | exact mute_blocks_step _ _ _
    | exact mute_blocks_info_step _ _ _ _ _
    | exact mute_wallet_add_watch_step _ _ _ _ _
    | exact mute_payment_begin_loop _ _ _
    | exact mute_sign_hash _ _ _
    | exact mute_sign_key _ _
    | exact mute_account_history_start _ _
    | apply rpc_m.mute_for_each
    | apply rpc_m.once_bind
    | apply rpc_m.mute_bind
    | intro _
    | split
    | dsimp only

theorem once_key_create (node : node) :
    rpc_m.once (rpc_handler.key_create node) := by
  unfold rpc_handler.key_create
  repeat' with_reducible first
    | exact rpc_m.once_response_errors _
    | exact rpc_m.once_raise _
    | exact rpc_m.once_respond _
    | exact rpc_m.once_respond_with_response_l
    | exact rpc_m.mute_pure _
    | exact rpc_m.mute_raise _
    | exact rpc_m.mute_no_error
    | exact rpc_m.mute_response_empty
    | exact rpc_m.mute_set_ec _
    | exact rpc_m.mute_put _ _
    | exact rpc_m.mute_add_child _ _
    | exact rpc_m.mute_add_children _ _
    | exact rpc_m.mute_add_nested _ _
    | exact rpc_m.mute_modify_response _
    | exact rpc_m.mute_perform _
    | exact rpc_m.mute_request_get _ _
    | exact rpc_m.mute_request_get_child _ _
    | exact mute_rpc_control_impl _
    | exact mute_wallet_impl _ _
    | exact mute_wallet_locked_impl _ _
    | exact mute_wallet_account_impl _ _ _
    | exact mute_account_impl _ _ _
    | exact mute_amount_impl _ _
    | exact mute_block_impl _ _
    | exact mute_hash_impl _ _ _
    | exact mute_work_optional_impl _ _
    | exact mute_count_impl _ _
    | exact mute_count_optional_impl _ _ _
    | exact mute_offset_optional_impl _ _ _
    | exact mute_threshold_optional_impl _ _
    | exact mute_block_impl_unsigned _ _
    | exact mute_account_create_insert _ _ _ _
    | exact mute_accounts_balances_step _ _ _ _
    | exact mute_accounts_frontiers_step _ _ _ _
    | exact mute_accounts_pending_step _ _ _ _ _ _ _ _
    | exact mute_blocks_step _ _ _
    | exact mute_blocks_info_step _ _ _ _ _
    | exact mute_wallet_add_watch_step _ _ _ _ _
    | exact mute_payment_begin_loop _ _ _
    | exact mute_sign_hash _ _ _
    | exact mute_sign_key _ _
    | exact mute_account_history_start _ _
    | apply rpc_m.mute_for_each
    | apply rpc_m.once_bind
    | apply rpc_m.mute_bind
    | intro _
    | split
    | dsimp only

theorem once_key_expand (node : node) (request : ptree) :
    rpc_m.once (rpc_handler.key_expand node request) := by
  unfold rpc_handler.key_expand
  repeat' with_reducible first
    | exact rpc_m.once_response_errors _
    | exact rpc_m.once_raise _
    | exact rpc_m.once_respond _
    | exact rpc_m.once_respond_with_response_l
    | exact rpc_m.mute_pure _
    | exact rpc_m.mute_raise _
    | exact rpc_m.mute_no_error
    | exact rpc_m.mute_response_empty
    | exact rpc_m.mute_set_ec _
    | exact rpc_m.mute_put _ _
    | exact rpc_m.mute_add_child _ _
    | exact rpc_m.mute_add_children _ _
    | exact rpc_m.mute_add_nested _ _
    | exact rpc_m.mute_modify_response _
    | exact rpc_m.mute_perform _
    | exact rpc_m.mute_request_get _ _
    | exact rpc_m.mute_request_get_child _ _
    | exact mute_rpc_control_impl _
    | exact mute_wallet_impl _ _
    | exact mute_wallet_locked_impl _ _
    | exact mute_wallet_account_impl _ _ _
    | exact mute_account_impl _ _ _
    | exact mute_amount_impl _ _
    | exact mute_block_impl _ _
    | exact mute_hash_impl _ _ _
    | exact mute_work_optional_impl _ _
    | exact mute_count_impl _ _
    | exact mute_count_optional_impl _ _ _
    | exact mute_offset_optional_impl _ _ _
    | exact mute_threshold_optional_impl _ _
    | exact mute_block_impl_unsigned _ _
    | exact mute_account_create_insert _ _ _ _
    | exact mute_accounts_balances_step _ _ _ _
    | exact mute_accounts_frontiers_step _ _ _ _
    | exact mute_accounts_pending_step _ _ _ _ _ _ _ _
    | exact mute_blocks_step _ _ _
    | exact mute_blocks_info_step _ _ _ _ _
    | exact mute_wallet_add_watch_step _ _ _ _ _
    | exact mute_payment_begin_loop _ _ _
    | exact mute_sign_hash _ _ _
    | exact mute_sign_key _ _
    | exact mute_account_history_start _ _
    | apply rpc_m.mute_for_each
    | apply rpc_m.once_bind
    | apply rpc_m.mute_bind
    | intro _
    | split
    | dsimp only

theorem once_node_id (rpc : rpc) (node : node) :
    rpc_m.once (rpc_handler.node_id rpc node) := by
  unfold rpc_handler.node_id
  repeat' with_reducible first
    | exact rpc_m.once_response_errors _
    | exact rpc_m.once_raise _
    | exact rpc_m.once_respond _
    | exact rpc_m.once_respond_with_response_l
    | exact rpc_m.mute_pure _
    | exact rpc_m.mute_raise _
    | exact rpc_m.mute_no_error
    | exact rpc_m.mute_response_empty
    | exact rpc_m.mute_set_ec _
    | exact rpc_m.mute_put _ _
    | exact rpc_m.mute_add_child _ _
    | exact rpc_m.mute_add_children _ _
    | exact rpc_m.mute_add_nested _ _
    | exact rpc_m.mute_modify_response _
    | exact rpc_m.mute_perform _
    | exact rpc_m.mute_request_get _ _
    | exact rpc_m.mute_request_get_child _ _
    | exact mute_rpc_control_impl _
    | exact mute_wallet_impl _ _
    | exact mute_wallet_locked_impl _ _
    | exact mute_wallet_account_impl _ _ _
    | exact mute_account_impl _ _ _
    | exact mute_amount_impl _ _
    | exact mute_block_impl _ _
    | exact mute_hash_impl _ _ _
    | exact mute_work_optional_impl _ _
    | exact mute_count_impl _ _
    | exact mute_count_optional_impl _ _ _
    | exact mute_offset_optional_impl _ _ _
    | exact mute_threshold_optional_impl _ _
    | exact mute_block_impl_unsigned _ _
    | exact mute_account_create_insert _ _ _ _
    | exact mute_accounts_balances_step _ _ _ _
    | exact mute_accounts_frontiers_step _ _ _ _
    | exact mute_accounts_pending_step _ _ _ _ _ _ _ _
    | exact mute_blocks_step _ _ _
    | exact mute_blocks_info_step _ _ _ _ _
    | exact mute_wallet_add_watch_step _ _ _ _ _
    | exact mute_payment_begin_loop _ _ _
    | exact mute_sign_hash _ _ _
    | exact mute_sign_key _ _
    | exact mute_account_history_start _ _
    | apply rpc_m.mute_for_each
    | apply rpc_m.once_bind
    | apply rpc_m.mute_bind
    | intro _
    | split
    | dsimp only

theorem once_password_change (rpc : rpc) (node : node) (request : ptree) :
    rpc_m.once (rpc_handler.password_change rpc node request) := by
  unfold rpc_handler.password_change
  repeat' with_reducible first
    | exact rpc_m.once_response_errors _
    | exact rpc_m.once_raise _
    | exact rpc_m.once_respond _
    | exact rpc_m.once_respond_with_response_l
    | exact rpc_m.mute_pure _
    | exact rpc_m.mute_raise _
    | exact rpc_m.mute_no_error
    | exact rpc_m.mute_response_empty
    | exact rpc_m.mute_set_ec _
    | exact rpc_m.mute_put _ _
    | exact rpc_m.mute_add_child _ _
    | exact rpc_m.mute_add_children _ _
    | exact rpc_m.mute_add_nested _ _
    | exact rpc_m.mute_modify_response _
    | exact rpc_m.mute_perform _
    | exact rpc_m.mute_request_get _ _
    | exact rpc_m.mute_request_get_child _ _
    | exact mute_rpc_control_impl _
    | exact mute_wallet_impl _ _
    | exact mute_wallet_locked_impl _ _
    | exact mute_wallet_account_impl _ _ _
    | exact mute_account_impl _ _ _
    | exact mute_amount_impl _ _
    | exact mute_block_impl _ _
    | exact mute_hash_impl _ _ _
    | exact mute_work_optional_impl _ _
    | exact mute_count_impl _ _
    | exact mute_count_optional_impl _ _ _
    | exact mute_offset_optional_impl _ _ _
    | exact mute_threshold_optional_impl _ _
    | exact mute_block_impl_unsigned _ _
    | exact mute_account_create_insert _ _ _ _
    | exact mute_accounts_balances_step _ _ _ _
    | exact mute_accounts_frontiers_step _ _ _ _
    | exact mute_accounts_pending_step _ _ _ _ _ _ _ _
    | exact mute_blocks_step _ _ _
    | exact mute_blocks_info_step _ _ _ _ _
    | exact mute_wallet_add_watch_step _ _ _ _ _
    | exact mute_payment_begin_loop _ _ _
    | exact mute_sign_hash _ _ _
    | exact mute_sign_key _ _
    | exact mute_account_history_start _ _
    | apply rpc_m.mute_for_each
    | apply rpc_m.once_bind
    | apply rpc_m.mute_bind
    | intro _
    | split
    | dsimp only

theorem once_password_enter (node : node) (request : ptree) :
    rpc_m.once (rpc_handler.password_enter node request) := by
  unfold rpc_handler.password_enter
  repeat' with_reducible first
    | exact rpc_m.once_response_errors _
    | exact rpc_m.once_raise _
    | exact rpc_m.once_respond _
    | exact rpc_m.once_respond_with_response_l
    | exact rpc_m.mute_pure _
    | exact rpc_m.mute_raise _
    | exact rpc_m.mute_no_error
    | exact rpc_m.mute_response_empty
    | exact rpc_m.mute_set_ec _
    | exact rpc_m.mute_put _ _
    | exact rpc_m.mute_add_child _ _
    | exact rpc_m.mute_add_children _ _
    | exact rpc_m.mute_add_nested _ _
    | exact rpc_m.mute_modify_response _
    | exact rpc_m.mute_perform _
    | exact rpc_m.mute_request_get _ _
    | exact rpc_m.mute_request_get_child _ _
    | exact mute_rpc_control_impl _
    | exact mute_wallet_impl _ _
    | exact mute_wallet_locked_impl _ _
    | exact mute_wallet_account_impl _ _ _
    | exact mute_account_impl _ _ _
    | exact mute_amount_impl _ _
    | exact mute_block_impl _ _
    | exact mute_hash_impl _ _ _
    | exact mute_work_optional_impl _ _
    | exact mute_count_impl _ _
    | exact mute_count_optional_impl _ _ _
    | exact mute_offset_optional_impl _ _ _
    | exact mute_threshold_optional_impl _ _
    | exact mute_block_impl_unsigned _ _
    | exact mute_account_create_insert _ _ _ _
    | exact mute_accounts_balances_step _ _ _ _
    | exact mute_accounts_frontiers_step _ _ _ _
    | exact mute_accounts_pending_step _ _ _ _ _ _ _ _
    | exact mute_blocks_step _ _ _
    | exact mute_blocks_info_step _ _ _ _ _
    | exact mute_wallet_add_watch_step _ _ _ _ _
    | exact mute_payment_begin_loop _ _ _
    | exact mute_sign_hash _ _ _
    | exact mute_sign_key _ _
    | exact mute_account_history_start _ _
    | apply rpc_m.mute_for_each
    | apply rpc_m.once_bind
    | apply rpc_m.mute_bind
    | intro _
    | split
    | dsimp only

theorem once_password_valid (node : node) (request : ptree) (wallet_locked : Bool) :
    rpc_m.once (rpc_handler.password_valid node request wallet_locked) := by
  unfold rpc_handler.password_valid
  repeat' with_reducible first
    | exact rpc_m.once_response_errors _
    | exact rpc_m.once_raise _
    | exact rpc_m.once_respond _
    | exact rpc_m.once_respond_with_response_l
    | exact rpc_m.mute_pure _
    | exact rpc_m.mute_raise _
    | exact rpc_m.mute_no_error
    | exact rpc_m.mute_response_empty
    | exact rpc_m.mute_set_ec _
    | exact rpc_m.mute_put _ _
    | exact rpc_m.mute_add_child _ _
    | exact rpc_m.mute_add_children _ _
    | exact rpc_m.mute_add_nested _ _
    | exact rpc_m.mute_modify_response _
    | exact rpc_m.mute_perform _
    | exact rpc_m.mute_request_get _ _
    | exact rpc_m.mute_request_get_child _ _
    | exact mute_rpc_control_impl _
    | exact mute_wallet_impl _ _
    | exact mute_wallet_locked_impl _ _
    | exact mute_wallet_account_impl _ _ _
    | exact mute_account_impl _ _ _
    | exact mute_amount_impl _ _
    | exact mute_block_impl _ _
    | exact mute_hash_impl _ _ _
    | exact mute_work_optional_impl _ _
    | exact mute_count_impl _ _
    | exact mute_count_optional_impl _ _ _
    | exact mute_offset_optional_impl _ _ _
    | exact mute_threshold_optional_impl _ _
    | exact mute_block_impl_unsigned _ _
    | exact mute_account_create_insert _ _ _ _
    | exact mute_accounts_balances_step _ _ _ _
    | exact mute_accounts_frontiers_step _ _ _ _
    | exact mute_accounts_pending_step _ _ _ _ _ _ _ _
    | exact mute_blocks_step _ _ _
    | exact mute_blocks_info_step _ _ _ _ _
    | exact mute_wallet_add_watch_step _ _ _ _ _
    | exact mute_payment_begin_loop _ _ _
    | exact mute_sign_hash _ _ _
    | exact mute_sign_key _ _
    | exact mute_account_history_start _ _
    | apply rpc_m.mute_for_each
    | apply rpc_m.once_bind
    | apply rpc_m.mute_bind
    | intro _
    | split
    | dsimp only

theorem once_payment_begin (node : node) (request : ptree) :
    rpc_m.once (rpc_handler.payment_begin node request) := by
  unfold rpc_handler.payment_begin
  repeat' with_reducible first
    | exact rpc_m.once_response_errors _
    | exact rpc_m.once_raise _
    | exact rpc_m.once_respond _
    | exact rpc_m.once_respond_with_response_l
    | exact rpc_m.mute_pure _
    | exact rpc_m.mute_raise _
    | exact rpc_m.mute_no_error
    | exact rpc_m.mute_response_empty
    | exact rpc_m.mute_set_ec _
    | exact rpc_m.mute_put _ _
    | exact rpc_m.mute_add_child _ _
    | exact rpc_m.mute_add_children _ _
    | exact rpc_m.mute_add_nested _ _
    | exact rpc_m.mute_modify_response _
    | exact rpc_m.mute_perform _
    | exact rpc_m.mute_request_get _ _
    | exact rpc_m.mute_request_get_child _ _
    | exact mute_rpc_control_impl _
    | exact mute_wallet_impl _ _
    | exact mute_wallet_locked_impl _ _
    | exact mute_wallet_account_impl _ _ _
    | exact mute_account_impl _ _ _
    | exact mute_amount_impl _ _
    | exact mute_block_impl _ _
    | exact mute_hash_impl _ _ _
    | exact mute_work_optional_impl _ _
    | exact mute_count_impl _ _
    | exact mute_count_optional_impl _ _ _
    | exact mute_offset_optional_impl _ _ _
    | exact mute_threshold_optional_impl _ _
    | exact mute_block_impl_unsigned _ _
    | exact mute_account_create_insert _ _ _ _
    | exact mute_accounts_balances_step _ _ _ _
    | exact mute_accounts_frontiers_step _ _ _ _
    | exact mute_accounts_pending_step _ _ _ _ _ _ _ _
    | exact mute_blocks_step _ _ _
    | exact mute_blocks_info_step _ _ _ _ _
    | exact mute_wallet_add_watch_step _ _ _ _ _
    | exact mute_payment_begin_loop _ _ _
    | exact mute_sign_hash _ _ _
    | exact mute_sign_key _ _
    | exact mute_account_history_start _ _
    | apply rpc_m.mute_for_each
    | apply rpc_m.once_bind
    | apply rpc_m.mute_bind
    | intro _
    | split
    | dsimp only

theorem once_payment_init (node : node) (request : ptree) :
    rpc_m.once (rpc_handler.payment_init node request) := by
  unfold rpc_handler.payment_init
  repeat' with_reducible first
    | exact rpc_m.once_response_errors _
    | exact rpc_m.once_raise _
    | exact rpc_m.once_respond _
    | exact rpc_m.once_respond_with_response_l
    | exact rpc_m.mute_pure _
    | exact rpc_m.mute_raise _
    | exact rpc_m.mute_no_error
    | exact rpc_m.mute_response_empty
    | exact rpc_m.mute_set_ec _
    | exact rpc_m.mute_put _ _
    | exact rpc_m.mute_add_child _ _
    | exact rpc_m.mute_add_children _ _
    | exact rpc_m.mute_add_nested _ _
    | exact rpc_m.mute_modify_response _
    | exact rpc_m.mute_perform _
    | exact rpc_m.mute_request_get _ _
    | exact rpc_m.mute_request_get_child _ _
    | exact mute_rpc_control_impl _
    | exact mute_wallet_impl _ _
    | exact mute_wallet_locked_impl _ _
    | exact mute_wallet_account_impl _ _ _
    | exact mute_account_impl _ _ _
    | exact mute_amount_impl _ _
    | exact mute_block_impl _ _
    | exact mute_hash_impl _ _ _
    | exact mute_work_optional_impl _ _
    | exact mute_count_impl _ _
    | exact mute_count_optional_impl _ _ _
    | exact mute_offset_optional_impl _ _ _
    | exact mute_threshold_optional_impl _ _
    | exact mute_block_impl_unsigned _ _
    | exact mute_account_create_insert _ _ _ _
    | exact mute_accounts_balances_step _ _ _ _
    | exact mute_accounts_frontiers_step _ _ _ _
    | exact mute_accounts_pending_step _ _ _ _ _ _ _ _
    | exact mute_blocks_step _ _ _
    | exact mute_blocks_info_step _ _ _ _ _
    | exact mute_wallet_add_watch_step _ _ _ _ _
    | exact mute_payment_begin_loop _ _ _
    | exact mute_sign_hash _ _ _
    | exact mute_sign_key _ _
    | exact mute_account_history_start _ _
    | apply rpc_m.mute_for_each
    | apply rpc_m.once_bind
    | apply rpc_m.mute_bind
    | intro _
    | split
    | dsimp only

theorem once_payment_end (node : node) (request : ptree) :
    rpc_m.once (rpc_handler.payment_end node request) := by
  unfold rpc_handler.payment_end
  repeat' with_reducible first
    | exact rpc_m.once_response_errors _
    | exact rpc_m.once_raise _
    | exact rpc_m.once_respond _
    | exact rpc_m.once_respond_with_response_l
    | exact rpc_m.mute_pure _
    | exact rpc_m.mute_raise _
    | exact rpc_m.mute_no_error
    | exact rpc_m.mute_response_empty
    | exact rpc_m.mute_set_ec _
    | exact rpc_m.mute_put _ _
    | exact rpc_m.mute_add_child _ _
    | exact rpc_m.mute_add_children _ _
    | exact rpc_m.mute_add_nested _ _
    | exact rpc_m.mute_modify_response _
    | exact rpc_m.mute_perform _
    | exact rpc_m.mute_request_get _ _
    | exact rpc_m.mute_request_get_child _ _
    | exact mute_rpc_control_impl _
    | exact mute_wallet_impl _ _
    | exact mute_wallet_locked_impl _ _
    | exact mute_wallet_account_impl _ _ _
    | exact mute_account_impl _ _ _
    | exact mute_amount_impl _ _
    | exact mute_block_impl _ _
    | exact mute_hash_impl _ _ _
    | exact mute_work_optional_impl _ _
    | exact mute_count_impl _ _
    | exact mute_count_optional_impl _ _ _
    | exact mute_offset_optional_impl _ _ _
    | exact mute_threshold_optional_impl _ _
    | exact mute_block_impl_unsigned _ _
    | exact mute_account_create_insert _ _ _ _
    | exact mute_accounts_balances_step _ _ _ _
    | exact mute_accounts_frontiers_step _ _ _ _
    | exact mute_accounts_pending_step _ _ _ _ _ _ _ _
    | exact mute_blocks_step _ _ _
    | exact mute_blocks_info_step _ _ _ _ _
    | exact mute_wallet_add_watch_step _ _ _ _ _
    | exact mute_payment_begin_loop _ _ _
    | exact mute_sign_hash _ _ _
    | exact mute_sign_key _ _
    | exact mute_account_history_start _ _
    | apply rpc_m.mute_for_each
    | apply rpc_m.once_bind
    | apply rpc_m.mute_bind
    | intro _
    | split
    | dsimp only

theorem once_peers (node : node) (request : ptree) :
    rpc_m.once (rpc_handler.peers node request) := by
  unfold rpc_handler.peers
  repeat' with_reducible first
    | exact rpc_m.once_response_errors _
    | exact rpc_m.once_raise _
    | exact rpc_m.once_respond _
    | exact rpc_m.once_respond_with_response_l
    | exact rpc_m.mute_pure _
    | exact rpc_m.mute_raise _
    | exact rpc_m.mute_no_error
    | exact rpc_m.mute_response_empty
    | exact rpc_m.mute_set_ec _
    | exact rpc_m.mute_put _ _
    | exact rpc_m.mute_add_child _ _
    | exact rpc_m.mute_add_children _ _
    | exact rpc_m.mute_add_nested _ _
    | exact rpc_m.mute_modify_response _
    | exact rpc_m.mute_perform _
    | exact rpc_m.mute_request_get _ _
    | exact rpc_m.mute_request_get_child _ _
    | exact mute_rpc_control_impl _
    | exact mute_wallet_impl _ _
    | exact mute_wallet_locked_impl _ _
    | exact mute_wallet_account_impl _ _ _
    | exact mute_account_impl _ _ _
    | exact mute_amount_impl _ _
    | exact mute_block_impl _ _
    | exact mute_hash_impl _ _ _
    | exact mute_work_optional_impl _ _
    | exact mute_count_impl _ _
    | exact mute_count_optional_impl _ _ _
    | exact mute_offset_optional_impl _ _ _
    | exact mute_threshold_optional_impl _ _
    | exact mute_block_impl_unsigned _ _
    | exact mute_account_create_insert _ _ _ _
    | exact mute_accounts_balances_step _ _ _ _
    | exact mute_accounts_frontiers_step _ _ _ _
    | exact mute_accounts_pending_step _ _ _ _ _ _ _ _
    | exact mute_blocks_step _ _ _
    | exact mute_blocks_info_step _ _ _ _ _
    | exact mute_wallet_add_watch_step _ _ _ _ _
    | exact mute_payment_begin_loop _ _ _
    | exact mute_sign_hash _ _ _
    | exact mute_sign_key _ _
    | exact mute_account_history_start _ _
    | apply rpc_m.mute_for_each
    | apply rpc_m.once_bind
    | apply rpc_m.mute_bind
    | intro _
    | split
    | dsimp only

theorem once_pending (node : node) (request : ptree) (count_default : Nat) :
    rpc_m.once (rpc_handler.pending node request count_default) := by
  unfold rpc_handler.pending
  repeat' with_reducible first
    | exact rpc_m.once_response_errors _
    | exact rpc_m.once_raise _
    | exact rpc_m.once_respond _
    | exact rpc_m.once_respond_with_response_l
    | exact rpc_m.mute_pure _
    | exact rpc_m.mute_raise _
    | exact rpc_m.mute_no_error
    | exact rpc_m.mute_response_empty
    | exact rpc_m.mute_set_ec _
    | exact rpc_m.mute_put _ _
    | exact rpc_m.mute_add_child _ _
    | exact rpc_m.mute_add_children _ _
    | exact rpc_m.mute_add_nested _ _
    | exact rpc_m.mute_modify_response _
    | exact rpc_m.mute_perform _
    | exact rpc_m.mute_request_get _ _
    | exact rpc_m.mute_request_get_child _ _
    | exact mute_rpc_control_impl _
    | exact mute_wallet_impl _ _
    | exact mute_wallet_locked_impl _ _
    | exact mute_wallet_account_impl _ _ _
    | exact mute_account_impl _ _ _
    | exact mute_amount_impl _ _
    | exact mute_block_impl _ _
    | exact mute_hash_impl _ _ _
    | exact mute_work_optional_impl _ _
    | exact mute_count_impl _ _
    | exact mute_count_optional_impl _ _ _
    | exact mute_offset_optional_impl _ _ _
    | exact mute_threshold_optional_impl _ _
    | exact mute_block_impl_unsigned _ _
    | exact mute_account_create_insert _ _ _ _
    | exact mute_accounts_balances_step _ _ _ _
    | exact mute_accounts_frontiers_step _ _ _ _
    | exact mute_accounts_pending_step _ _ _ _ _ _ _ _
    | exact mute_blocks_step _ _ _
    | exact mute_blocks_info_step _ _ _ _ _
    | exact mute_wallet_add_watch_step _ _ _ _ _
    | exact mute_payment_begin_loop _ _ _
    | exact mute_sign_hash _ _ _
    | exact mute_sign_key _ _
    | exact mute_account_history_start _ _
    | apply rpc_m.mute_for_each
    | apply rpc_m.once_bind
    | apply rpc_m.mute_bind
    | intro _
    | split
    | dsimp only

theorem once_pending_exists (node : node) (request : ptree) :
    rpc_m.once (rpc_handler.pending_exists node request) := by
  unfold rpc_handler.pending_exists
  repeat' with_reducible first
    | exact rpc_m.once_response_errors _
    | exact rpc_m.once_raise _
    | exact rpc_m.once_respond _
    | exact rpc_m.once_respond_with_response_l
    | exact rpc_m.mute_pure _
    | exact rpc_m.mute_raise _
    | exact rpc_m.mute_no_error
    | exact rpc_m.mute_response_empty
    | exact rpc_m.mute_set_ec _
    | exact rpc_m.mute_put _ _
    | exact rpc_m.mute_add_child _ _
    | exact rpc_m.mute_add_children _ _
    | exact rpc_m.mute_add_nested _ _
    | exact rpc_m.mute_modify_response _
    | exact rpc_m.mute_perform _
    | exact rpc_m.mute_request_get _ _
    | exact rpc_m.mute_request_get_child _ _
    | exact mute_rpc_control_impl _
    | exact mute_wallet_impl _ _
    | exact mute_wallet_locked_impl _ _
    | exact mute_wallet_account_impl _ _ _
    | exact mute_account_impl _ _ _
    | exact mute_amount_impl _ _
    | exact mute_block_impl _ _
    | exact mute_hash_impl _ _ _
    | exact mute_work_optional_impl _ _
    | exact mute_count_impl _ _
    | exact mute_count_optional_impl _ _ _
    | exact mute_offset_optional_impl _ _ _
    | exact mute_threshold_optional_impl _ _
    | exact mute_block_impl_unsigned _ _
    | exact mute_account_create_insert _ _ _ _
    | exact mute_accounts_balances_step _ _ _ _
    | exact mute_accounts_frontiers_step _ _ _ _
    | exact mute_accounts_pending_step _ _ _ _ _ _ _ _
    | exact mute_blocks_step _ _ _
    | exact mute_blocks_info_step _ _ _ _ _
    | exact mute_wallet_add_watch_step _ _ _ _ _
    | exact mute_payment_begin_loop _ _ _
    | exact mute_sign_hash _ _ _
    | exact mute_sign_key _ _
    | exact mute_account_history_start _ _
    | apply rpc_m.mute_for_each
    | apply rpc_m.once_bind
    | apply rpc_m.mute_bind
    | intro _
    | split
    | dsimp only

theorem once_receive_minimum (rpc : rpc) (node : node) :
    rpc_m.once (rpc_handler.receive_minimum rpc node) := by
  unfold rpc_handler.receive_minimum
  repeat' with_reducible first
    | exact rpc_m.once_response_errors _
    | exact rpc_m.once_raise _
    | exact rpc_m.once_respond _
    | exact rpc_m.once_respond_with_response_l
    | exact rpc_m.mute_pure _
    | exact rpc_m.mute_raise _
    | exact rpc_m.mute_no_error
    | exact rpc_m.mute_response_empty
    | exact rpc_m.mute_set_ec _
    | exact rpc_m.mute_put _ _
    | exact rpc_m.mute_add_child _ _
    | exact rpc_m.mute_add_children _ _
    | exact rpc_m.mute_add_nested _ _
    | exact rpc_m.mute_modify_response _
    | exact rpc_m.mute_perform _
    | exact rpc_m.mute_request_get _ _
    | exact rpc_m.mute_request_get_child _ _
    | exact mute_rpc_control_impl _
    | exact mute_wallet_impl _ _
    | exact mute_wallet_locked_impl _ _
    | exact mute_wallet_account_impl _ _ _
    | exact mute_account_impl _ _ _
    | exact mute_amount_impl _ _
    | exact mute_block_impl _ _
    | exact mute_hash_impl _ _ _
    | exact mute_work_optional_impl _ _
    | exact mute_count_impl _ _
    | exact mute_count_optional_impl _ _ _
    | exact mute_offset_optional_impl _ _ _
    | exact mute_threshold_optional_impl _ _
    | exact mute_block_impl_unsigned _ _
    | exact mute_account_create_insert _ _ _ _
    | exact mute_accounts_balances_step _ _ _ _
    | exact mute_accounts_frontiers_step _ _ _ _
    | exact mute_accounts_pending_step _ _ _ _ _ _ _ _
    | exact mute_blocks_step _ _ _
    | exact mute_blocks_info_step _ _ _ _ _
    | exact mute_wallet_add_watch_step _ _ _ _ _
    | exact mute_payment_begin_loop _ _ _
    | exact mute_sign_hash _ _ _
    | exact mute_sign_key _ _
    | exact mute_account_history_start _ _
    | apply rpc_m.mute_for_each
    | apply rpc_m.once_bind
    | apply rpc_m.mute_bind
    | intro _
    | split
    | dsimp only

theorem once_representatives (node : node) (request : ptree) :
    rpc_m.once (rpc_handler.representatives node request) := by
  unfold rpc_handler.representatives
  repeat' with_reducible first
    | exact rpc_m.once_response_errors _
    | exact rpc_m.once_raise _
    | exact rpc_m.once_respond _
    | exact rpc_m.once_respond_with_response_l
    | exact rpc_m.mute_pure _
    | exact rpc_m.mute_raise _
    | exact rpc_m.mute_no_error
    | exact rpc_m.mute_response_empty
    | exact rpc_m.mute_set_ec _
    | exact rpc_m.mute_put _ _
    | exact rpc_m.mute_add_child _ _
    | exact rpc_m.mute_add_children _ _
    | exact rpc_m.mute_add_nested _ _
    | exact rpc_m.mute_modify_response _
    | exact rpc_m.mute_perform _
    | exact rpc_m.mute_request_get _ _
    | exact rpc_m.mute_request_get_child _ _
    | exact mute_rpc_control_impl _
    | exact mute_wallet_impl _ _
    | exact mute_wallet_locked_impl _ _
    | exact mute_wallet_account_impl _ _ _
    | exact mute_account_impl _ _ _
    | exact mute_amount_impl _ _
    | exact mute_block_impl _ _
    | exact mute_hash_impl _ _ _
    | exact mute_work_optional_impl _ _
    | exact mute_count_impl _ _
    | exact mute_count_optional_impl _ _ _
    | exact mute_offset_optional_impl _ _ _
    | exact mute_threshold_optional_impl _ _
    | exact mute_block_impl_unsigned _ _
    | exact mute_account_create_insert _ _ _ _
    | exact mute_accounts_balances_step _ _ _ _
    | exact mute_accounts_frontiers_step _ _ _ _
    | exact mute_accounts_pending_step _ _ _ _ _ _ _ _
    | exact mute_blocks_step _ _ _
    | exact mute_blocks_info_step _ _ _ _ _
    | exact mute_wallet_add_watch_step _ _ _ _ _
    | exact mute_payment_begin_loop _ _ _
    | exact mute_sign_hash _ _ _
    | exact mute_sign_key _ _
    | exact mute_account_history_start _ _
    | apply rpc_m.mute_for_each
    | apply rpc_m.once_bind
    | apply rpc_m.mute_bind
    | intro _
    | split
    | dsimp only

theorem once_representatives_online (node : node) (request : ptree) :
    rpc_m.once (rpc_handler.representatives_online node request) := by
  unfold rpc_handler.representatives_online
  repeat' with_reducible first
    | exact rpc_m.once_response_errors _
    | exact rpc_m.once_raise _
    | exact rpc_m.once_respond _
    | exact rpc_m.once_respond_with_response_l
    | exact rpc_m.mute_pure _
    | exact rpc_m.mute_raise _
    | exact rpc_m.mute_no_error
    | exact rpc_m.mute_response_empty
    | exact rpc_m.mute_set_ec _
    | exact rpc_m.mute_put _ _
    | exact rpc_m.mute_add_child _ _
    | exact rpc_m.mute_add_children _ _
    | exact rpc_m.mute_add_nested _ _
    | exact rpc_m.mute_modify_response _
    | exact rpc_m.mute_perform _
    | exact rpc_m.mute_request_get _ _
    | exact rpc_m.mute_request_get_child _ _
    | exact mute_rpc_control_impl _
    | exact mute_wallet_impl _ _
    | exact mute_wallet_locked_impl _ _
    | exact mute_wallet_account_impl _ _ _
    | exact mute_account_impl _ _ _
    | exact mute_amount_impl _ _
    | exact mute_block_impl _ _
    | exact mute_hash_impl _ _ _
    | exact mute_work_optional_impl _ _
    | exact mute_count_impl _ _
    | exact mute_count_optional_impl _ _ _
    | exact mute_offset_optional_impl _ _ _
    | exact mute_threshold_optional_impl _ _
    | exact mute_block_impl_unsigned _ _
    | exact mute_account_create_insert _ _ _ _
    | exact mute_accounts_balances_step _ _ _ _
    | exact mute_accounts_frontiers_step _ _ _ _
    | exact mute_accounts_pending_step _ _ _ _ _ _ _ _
    | exact mute_blocks_step _ _ _
    | exact mute_blocks_info_step _ _ _ _ _
    | exact mute_wallet_add_watch_step _ _ _ _ _
    | exact mute_payment_begin_loop _ _ _
    | exact mute_sign_hash _ _ _
    | exact mute_sign_key _ _
    | exact mute_account_history_start _ _
    | apply rpc_m.mute_for_each
    | apply rpc_m.once_bind
    | apply rpc_m.mute_bind
    | intro _
    | split
    | dsimp only

theorem once_sign (rpc : rpc) (node : node) (request : ptree) :
    rpc_m.once (rpc_handler.sign rpc node request) := by
  unfold rpc_handler.sign
  repeat' with_reducible first
    | exact rpc_m.once_response_errors _
    | exact rpc_m.once_raise _
    | exact rpc_m.once_respond _
    | exact rpc_m.once_respond_with_response_l
    | exact rpc_m.mute_pure _
    | exact rpc_m.mute_raise _
    | exact rpc_m.mute_no_error
    | exact rpc_m.mute_response_empty
    | exact rpc_m.mute_set_ec _
    | exact rpc_m.mute_put _ _
    | exact rpc_m.mute_add_child _ _
    | exact rpc_m.mute_add_children _ _
    | exact rpc_m.mute_add_nested _ _
    | exact rpc_m.mute_modify_response _
    | exact rpc_m.mute_perform _
    | exact rpc_m.mute_request_get _ _
    | exact rpc_m.mute_request_get_child _ _
    | exact mute_rpc_control_impl _
    | exact mute_wallet_impl _ _
    | exact mute_wallet_locked_impl _ _
    | exact mute_wallet_account_impl _ _ _
    | exact mute_account_impl _ _ _
    | exact mute_amount_impl _ _
    | exact mute_block_impl _ _
    | exact mute_hash_impl _ _ _
    | exact mute_work_optional_impl _ _
    | exact mute_count_impl _ _
    | exact mute_count_optional_impl _ _ _
    | exact mute_offset_optional_impl _ _ _
    | exact mute_threshold_optional_impl _ _
    | exact mute_block_impl_unsigned _ _
    | exact mute_account_create_insert _ _ _ _
    | exact mute_accounts_balances_step _ _ _ _
    | exact mute_accounts_frontiers_step _ _ _ _
    | exact mute_accounts_pending_step _ _ _ _ _ _ _ _
    | exact mute_blocks_step _ _ _
    | exact mute_blocks_info_step _ _ _ _ _
    | exact mute_wallet_add_watch_step _ _ _ _ _
    | exact mute_payment_begin_loop _ _ _
    | exact mute_sign_hash _ _ _
    | exact mute_sign_key _ _
    | exact mute_account_history_start _ _
    | apply rpc_m.mute_for_each
    | apply rpc_m.once_bind
    | apply rpc_m.mute_bind
    | intro _
    | split
    | dsimp only

theorem once_unchecked (node : node) (request : ptree) :
    rpc_m.once (rpc_handler.unchecked node request) := by
  unfold rpc_handler.unchecked
  repeat' with_reducible first
    | exact rpc_m.once_response_errors _
    | exact rpc_m.once_raise _
    | exact rpc_m.once_respond _
    | exact rpc_m.once_respond_with_response_l
    | exact rpc_m.mute_pure _
    | exact rpc_m.mute_raise _
    | exact rpc_m.mute_no_error
    | exact rpc_m.mute_response_empty
    | exact rpc_m.mute_set_ec _
    | exact rpc_m.mute_put _ _
    | exact rpc_m.mute_add_child _ _
    | exact rpc_m.mute_add_children _ _
    | exact rpc_m.mute_add_nested _ _
    | exact rpc_m.mute_modify_response _
    | exact rpc_m.mute_perform _
    | exact rpc_m.mute_request_get _ _
    | exact rpc_m.mute_request_get_child _ _
    | exact mute_rpc_control_impl _
    | exact mute_wallet_impl _ _
    | exact mute_wallet_locked_impl _ _
    | exact mute_wallet_account_impl _ _ _
    | exact mute_account_impl _ _ _
    | exact mute_amount_impl _ _
    | exact mute_block_impl _ _
    | exact mute_hash_impl _ _ _
    | exact mute_work_optional_impl _ _
    | exact mute_count_impl _ _
    | exact mute_count_optional_impl _ _ _
    | exact mute_offset_optional_impl _ _ _
    | exact mute_threshold_optional_impl _ _
    | exact mute_block_impl_unsigned _ _
    | exact mute_account_create_insert _ _ _ _
    | exact mute_accounts_balances_step _ _ _ _
    | exact mute_accounts_frontiers_step _ _ _ _
    | exact mute_accounts_pending_step _ _ _ _ _ _ _ _
    | exact mute_blocks_step _ _ _
    | exact mute_blocks_info_step _ _ _ _ _
    | exact mute_wallet_add_watch_step _ _ _ _ _
    | exact mute_payment_begin_loop _ _ _
    | exact mute_sign_hash _ _ _
    | exact mute_sign_key _ _
    | exact mute_account_history_start _ _
    | apply rpc_m.mute_for_each
    | apply rpc_m.once_bind
    | apply rpc_m.mute_bind
    | intro _
    | split
    | dsimp only

theorem once_unchecked_get (node : node) (request : ptree) :
    rpc_m.once (rpc_handler.unchecked_get node request) := by
  unfold rpc_handler.unchecked_get
  repeat' with_reducible first
    | exact rpc_m.once_response_errors _
    | exact rpc_m.once_raise _
    | exact rpc_m.once_respond _
    | exact rpc_m.once_respond_with_response_l
    | exact rpc_m.mute_pure _
    | exact rpc_m.mute_raise _
    | exact rpc_m.mute_no_error
    | exact rpc_m.mute_response_empty
    | exact rpc_m.mute_set_ec _
    | exact rpc_m.mute_put _ _
    | exact rpc_m.mute_add_child _ _
    | exact rpc_m.mute_add_children _ _
    | exact rpc_m.mute_add_nested _ _
    | exact rpc_m.mute_modify_response _
    | exact rpc_m.mute_perform _
    | exact rpc_m.mute_request_get _ _
    | exact rpc_m.mute_request_get_child _ _
    | exact mute_rpc_control_impl _
    | exact mute_wallet_impl _ _
    | exact mute_wallet_locked_impl _ _
    | exact mute_wallet_account_impl _ _ _
    | exact mute_account_impl _ _ _
    | exact mute_amount_impl _ _
    | exact mute_block_impl _ _
    | exact mute_hash_impl _ _ _
    | exact mute_work_optional_impl _ _
    | exact mute_count_impl _ _
    | exact mute_count_optional_impl _ _ _
    | exact mute_offset_optional_impl _ _ _
    | exact mute_threshold_optional_impl _ _
    | exact mute_block_impl_unsigned _ _
    | exact mute_account_create_insert _ _ _ _
    | exact mute_accounts_balances_step _ _ _ _
    | exact mute_accounts_frontiers_step _ _ _ _
    | exact mute_accounts_pending_step _ _ _ _ _ _ _ _
    | exact mute_blocks_step _ _ _
    | exact mute_blocks_info_step _ _ _ _ _
    | exact mute_wallet_add_watch_step _ _ _ _ _
    | exact mute_payment_begin_loop _ _ _
    | exact mute_sign_hash _ _ _
    | exact mute_sign_key _ _
    | exact mute_account_history_start _ _
    | apply rpc_m.mute_for_each
    | apply rpc_m.once_bind
    | apply rpc_m.mute_bind
    | intro _
    | split
    | dsimp only

theorem once_unchecked_keys (node : node) (request : ptree) :
    rpc_m.once (rpc_handler.unchecked_keys node request) := by
  unfold rpc_handler.unchecked_keys
  repeat' with_reducible first
    | exact rpc_m.once_response_errors _
    | exact rpc_m.once_raise _
    | exact rpc_m.once_respond _
    | exact rpc_m.once_respond_with_response_l
    | exact rpc_m.mute_pure _
    | exact rpc_m.mute_raise _
    | exact rpc_m.mute_no_error
    | exact rpc_m.mute_response_empty
    | exact rpc_m.mute_set_ec _
    | exact rpc_m.mute_put _ _
    | exact rpc_m.mute_add_child _ _
    | exact rpc_m.mute_add_children _ _
    | exact rpc_m.mute_add_nested _ _
    | exact rpc_m.mute_modify_response _
    | exact rpc_m.mute_perform _
    | exact rpc_m.mute_request_get _ _
    | exact rpc_m.mute_request_get_child _ _
    | exact mute_rpc_control_impl _
    | exact mute_wallet_impl _ _
    | exact mute_wallet_locked_impl _ _
    | exact mute_wallet_account_impl _ _ _
    | exact mute_account_impl _ _ _
    | exact mute_amount_impl _ _
    | exact mute_block_impl _ _
    | exact mute_hash_impl _ _ _
    | exact mute_work_optional_impl _ _
    | exact mute_count_impl _ _
    | exact mute_count_optional_impl _ _ _
    | exact mute_offset_optional_impl _ _ _
    | exact mute_threshold_optional_impl _ _
    | exact mute_block_impl_unsigned _ _
    | exact mute_account_create_insert _ _ _ _
    | exact mute_accounts_balances_step _ _ _ _
    | exact mute_accounts_frontiers_step _ _ _ _
    | exact mute_accounts_pending_step _ _ _ _ _ _ _ _
    | exact mute_blocks_step _ _ _
    | exact mute_blocks_info_step _ _ _ _ _
    | exact mute_wallet_add_watch_step _ _ _ _ _
    | exact mute_payment_begin_loop _ _ _
    | exact mute_sign_hash _ _ _
    | exact mute_sign_key _ _
    | exact mute_account_history_start _ _
    | apply rpc_m.mute_for_each
    | apply rpc_m.once_bind
    | apply rpc_m.mute_bind
    | intro _
    | split
    | dsimp only

theorem once_uptime (node : node) :
    rpc_m.once (rpc_handler.uptime node) := by
  unfold rpc_handler.uptime
  repeat' with_reducible first
    | exact rpc_m.once_response_errors _
    | exact rpc_m.once_raise _
    | exact rpc_m.once_respond _
    | exact rpc_m.once_respond_with_response_l
    | exact rpc_m.mute_pure _
    | exact rpc_m.mute_raise _
    | exact rpc_m.mute_no_error
    | exact rpc_m.mute_response_empty
    | exact rpc_m.mute_set_ec _
    | exact rpc_m.mute_put _ _
    | exact rpc_m.mute_add_child _ _
    | exact rpc_m.mute_add_children _ _
    | exact rpc_m.mute_add_nested _ _
    | exact rpc_m.mute_modify_response _
    | exact rpc_m.mute_perform _
    | exact rpc_m.mute_request_get _ _
    | exact rpc_m.mute_request_get_child _ _
    | exact mute_rpc_control_impl _
    | exact mute_wallet_impl _ _
    | exact mute_wallet_locked_impl _ _
    | exact mute_wallet_account_impl _ _ _
    | exact mute_account_impl _ _ _
    | exact mute_amount_impl _ _
    | exact mute_block_impl _ _
    | exact mute_hash_impl _ _ _
    | exact mute_work_optional_impl _ _
    | exact mute_count_impl _ _
    | exact mute_count_optional_impl _ _ _
    | exact mute_offset_optional_impl _ _ _
    | exact mute_threshold_optional_impl _ _
    | exact mute_block_impl_unsigned _ _
    | exact mute_account_create_insert _ _ _ _
    | exact mute_accounts_balances_step _ _ _ _
    | exact mute_accounts_frontiers_step _ _ _ _
    | exact mute_accounts_pending_step _ _ _ _ _ _ _ _
    | exact mute_blocks_step _ _ _
    | exact mute_blocks_info_step _ _ _ _ _
    | exact mute_wallet_add_watch_step _ _ _ _ _
    | exact mute_payment_begin_loop _ _ _
    | exact mute_sign_hash _ _ _
    | exact mute_sign_key _ _
    | exact mute_account_history_start _ _
    | apply rpc_m.mute_for_each
    | apply rpc_m.once_bind
    | apply rpc_m.mute_bind
    | intro _
    | split
    | dsimp only

theorem once_validate_account_number (node : node) (request : ptree) :
    rpc_m.once (rpc_handler.validate_account_number node request) := by
  unfold rpc_handler.validate_account_number
  repeat' with_reducible first
    | exact rpc_m.once_response_errors _
    | exact rpc_m.once_raise _
    | exact rpc_m.once_respond _
    | exact rpc_m.once_respond_with_response_l
    | exact rpc_m.mute_pure _
    | exact rpc_m.mute_raise _
    | exact rpc_m.mute_no_error
    | exact rpc_m.mute_response_empty
    | exact rpc_m.mute_set_ec _
    | exact rpc_m.mute_put _ _
    | exact rpc_m.mute_add_child _ _
    | exact rpc_m.mute_add_children _ _
    | exact rpc_m.mute_add_nested _ _
    | exact rpc_m.mute_modify_response _
    | exact rpc_m.mute_perform _
    | exact rpc_m.mute_request_get _ _
    | exact rpc_m.mute_request_get_child _ _
    | exact mute_rpc_control_impl _
    | exact mute_wallet_impl _ _
    | exact mute_wallet_locked_impl _ _
    | exact mute_wallet_account_impl _ _ _
    | exact mute_account_impl _ _ _
    | exact mute_amount_impl _ _
    | exact mute_block_impl _ _
    | exact mute_hash_impl _ _ _
    | exact mute_work_optional_impl _ _
    | exact mute_count_impl _ _
    | exact mute_count_optional_impl _ _ _
    | exact mute_offset_optional_impl _ _ _
    | exact mute_threshold_optional_impl _ _
    | exact mute_block_impl_unsigned _ _
    | exact mute_account_create_insert _ _ _ _
    | exact mute_accounts_balances_step _ _ _ _
    | exact mute_accounts_frontiers_step _ _ _ _
    | exact mute_accounts_pending_step _ _ _ _ _ _ _ _
    | exact mute_blocks_step _ _ _
    | exact mute_blocks_info_step _ _ _ _ _
    | exact mute_wallet_add_watch_step _ _ _ _ _
    | exact mute_payment_begin_loop _ _ _
    | exact mute_sign_hash _ _ _
    | exact mute_sign_key _ _
    | exact mute_account_history_start _ _
    | apply rpc_m.mute_for_each
    | apply rpc_m.once_bind
    | apply rpc_m.mute_bind
    | intro _
    | split
    | dsimp only

theorem once_version (node : node) :
    rpc_m.once (rpc_handler.version node) := by
  unfold rpc_handler.version
  repeat' with_reducible first
    | exact rpc_m.once_response_errors _
    | exact rpc_m.once_raise _
    | exact rpc_m.once_respond _
    | exact rpc_m.once_respond_with_response_l
    | exact rpc_m.mute_pure _
    | exact rpc_m.mute_raise _
    | exact rpc_m.mute_no_error
    | exact rpc_m.mute_response_empty
    | exact rpc_m.mute_set_ec _
    | exact rpc_m.mute_put _ _
    | exact rpc_m.mute_add_child _ _
    | exact rpc_m.mute_add_children _ _
    | exact rpc_m.mute_add_nested _ _
    | exact rpc_m.mute_modify_response _
    | exact rpc_m.mute_perform _
    | exact rpc_m.mute_request_get _ _
    | exact rpc_m.mute_request_get_child _ _
    | exact mute_rpc_control_impl _
    | exact mute_wallet_impl _ _
    | exact mute_wallet_locked_impl _ _
    | exact mute_wallet_account_impl _ _ _
    | exact mute_account_impl _ _ _
    | exact mute_amount_impl _ _
    | exact mute_block_impl _ _
    | exact mute_hash_impl _ _ _
    | exact mute_work_optional_impl _ _
    | exact mute_count_impl _ _
    | exact mute_count_optional_impl _ _ _
    | exact mute_offset_optional_impl _ _ _
    | exact mute_threshold_optional_impl _ _
    | exact mute_block_impl_unsigned _ _
    | exact mute_account_create_insert _ _ _ _
    | exact mute_accounts_balances_step _ _ _ _
    | exact mute_accounts_frontiers_step _ _ _ _
    | exact mute_accounts_pending_step _ _ _ _ _ _ _ _
    | exact mute_blocks_step _ _ _
    | exact mute_blocks_info_step _ _ _ _ _
    | exact mute_wallet_add_watch_step _ _ _ _ _
    | exact mute_payment_begin_loop _ _ _
    | exact mute_sign_hash _ _ _
    | exact mute_sign_key _ _
    | exact mute_account_history_start _ _
    | apply rpc_m.mute_for_each
    | apply rpc_m.once_bind
    | apply rpc_m.mute_bind
    | intro _
    | split
    | dsimp only

theorem once_wallet_add (rpc : rpc) (node : node) (request : ptree) :
    rpc_m.once (rpc_handler.wallet_add rpc node request) := by
  unfold rpc_handler.wallet_add
  repeat' with_reducible first
    | exact rpc_m.once_response_errors _
    | exact rpc_m.once_raise _
    | exact rpc_m.once_respond _
    | exact rpc_m.once_respond_with_response_l
    | exact rpc_m.mute_pure _
    | exact rpc_m.mute_raise _
    | exact rpc_m.mute_no_error
    | exact rpc_m.mute_response_empty
    | exact rpc_m.mute_set_ec _
    | exact rpc_m.mute_put _ _
    | exact rpc_m.mute_add_child _ _
    | exact rpc_m.mute_add_children _ _
    | exact rpc_m.mute_add_nested _ _
    | exact rpc_m.mute_modify_response _
    | exact rpc_m.mute_perform _
    | exact rpc_m.mute_request_get _ _
    | exact rpc_m.mute_request_get_child _ _
    | exact mute_rpc_control_impl _
    | exact mute_wallet_impl _ _
    | exact mute_wallet_locked_impl _ _
    | exact mute_wallet_account_impl _ _ _
    | exact mute_account_impl _ _ _
    | exact mute_amount_impl _ _
    | exact mute_block_impl _ _
    | exact mute_hash_impl _ _ _
    | exact mute_work_optional_impl _ _
    | exact mute_count_impl _ _
    | exact mute_count_optional_impl _ _ _
    | exact mute_offset_optional_impl _ _ _
    | exact mute_threshold_optional_impl _ _
    | exact mute_block_impl_unsigned _ _
    | exact mute_account_create_insert _ _ _ _
    | exact mute_accounts_balances_step _ _ _ _
    | exact mute_accounts_frontiers_step _ _ _ _
    | exact mute_accounts_pending_step _ _ _ _ _ _ _ _
    | exact mute_blocks_step _ _ _
    | exact mute_blocks_info_step _ _ _ _ _
    | exact mute_wallet_add_watch_step _ _ _ _ _
    | exact mute_payment_begin_loop _ _ _
    | exact mute_sign_hash _ _ _
    | exact mute_sign_key _ _
    | exact mute_account_history_start _ _
    | apply rpc_m.mute_for_each
    | apply rpc_m.once_bind
    | apply rpc_m.mute_bind
    | intro _
    | split
    | dsimp only

theorem once_wallet_add_watch (rpc : rpc) (node : node) (request : ptree) :
    rpc_m.once (rpc_handler.wallet_add_watch rpc node request) := by
  unfold rpc_handler.wallet_add_watch
  repeat' with_reducible first
    | exact rpc_m.once_response_errors _
    | exact rpc_m.once_raise _
    | exact rpc_m.once_respond _
    | exact rpc_m.once_respond_with_response_l
    | exact rpc_m.mute_pure _
    | exact rpc_m.mute_raise _
    | exact rpc_m.mute_no_error
    | exact rpc_m.mute_response_empty
    | exact rpc_m.mute_set_ec _
    | exact rpc_m.mute_put _ _
    | exact rpc_m.mute_add_child _ _
    | exact rpc_m.mute_add_children _ _
    | exact rpc_m.mute_add_nested _ _
    | exact rpc_m.mute_modify_response _
    | exact rpc_m.mute_perform _
    | exact rpc_m.mute_request_get _ _
    | exact rpc_m.mute_request_get_child _ _
    | exact mute_rpc_control_impl _
    | exact mute_wallet_impl _ _
    | exact mute_wallet_locked_impl _ _
    | exact mute_wallet_account_impl _ _ _
    | exact mute_account_impl _ _ _
    | exact mute_amount_impl _ _
    | exact mute_block_impl _ _
    | exact mute_hash_impl _ _ _
    | exact mute_work_optional_impl _ _
    | exact mute_count_impl _ _
    | exact mute_count_optional_impl _ _ _
    | exact mute_offset_optional_impl _ _ _
    | exact mute_threshold_optional_impl _ _
    | exact mute_block_impl_unsigned _ _
    | exact mute_account_create_insert _ _ _ _
    | exact mute_accounts_balances_step _ _ _ _
    | exact mute_accounts_frontiers_step _ _ _ _
    | exact mute_accounts_pending_step _ _ _ _ _ _ _ _
    | exact mute_blocks_step _ _ _
    | exact mute_blocks_info_step _ _ _ _ _
    | exact mute_wallet_add_watch_step _ _ _ _ _
    | exact mute_payment_begin_loop _ _ _
    | exact mute_sign_hash _ _ _
    | exact mute_sign_key _ _
    | exact mute_account_history_start _ _
    | apply rpc_m.mute_for_each
    | apply rpc_m.once_bind
    | apply rpc_m.mute_bind
    | intro _
    | split
    | dsimp only

theorem once_wallet_info (node : node) (request : ptree) :
    rpc_m.once (rpc_handler.wallet_info node request) := by
  unfold rpc_handler.wallet_info
  repeat' with_reducible first
    | exact rpc_m.once_response_errors _
    | exact rpc_m.once_raise _
    | exact rpc_m.once_respond _
    | exact rpc_m.once_respond_with_response_l
    | exact rpc_m.mute_pure _
    | exact rpc_m.mute_raise _
    | exact rpc_m.mute_no_error
    | exact rpc_m.mute_response_empty
    | exact rpc_m.mute_set_ec _
    | exact rpc_m.mute_put _ _
    | exact rpc_m.mute_add_child _ _
    | exact rpc_m.mute_add_children _ _
    | exact rpc_m.mute_add_nested _ _
    | exact rpc_m.mute_modify_response _
    | exact rpc_m.mute_perform _
    | exact rpc_m.mute_request_get _ _
    | exact rpc_m.mute_request_get_child _ _
    | exact mute_rpc_control_impl _
    | exact mute_wallet_impl _ _
    | exact mute_wallet_locked_impl _ _
    | exact mute_wallet_account_impl _ _ _
    | exact mute_account_impl _ _ _
    | exact mute_amount_impl _ _
    | exact mute_block_impl _ _
    | exact mute_hash_impl _ _ _
    | exact mute_work_optional_impl _ _
    | exact mute_count_impl _ _
    | exact mute_count_optional_impl _ _ _
    | exact mute_offset_optional_impl _ _ _
    | exact mute_threshold_optional_impl _ _
    | exact mute_block_impl_unsigned _ _
    | exact mute_account_create_insert _ _ _ _
    | exact mute_accounts_balances_step _ _ _ _
    | exact mute_accounts_frontiers_step _ _ _ _
    | exact mute_accounts_pending_step _ _ _ _ _ _ _ _
    | exact mute_blocks_step _ _ _
    | exact mute_blocks_info_step _ _ _ _ _
    | exact mute_wallet_add_watch_step _ _ _ _ _
    | exact mute_payment_begin_loop _ _ _
    | exact mute_sign_hash _ _ _
    | exact mute_sign_key _ _
    | exact mute_account_history_start _ _
    | apply rpc_m.mute_for_each
    | apply rpc_m.once_bind
    | apply rpc_m.mute_bind
    | intro _
    | split
    | dsimp only

theorem once_wallet_balances (node : node) (request : ptree) :
    rpc_m.once (rpc_handler.wallet_balances node request) := by
  unfold rpc_handler.wallet_balances
  repeat' with_reducible first
    | exact rpc_m.once_response_errors _
    | exact rpc_m.once_raise _
    | exact rpc_m.once_respond _
    | exact rpc_m.once_respond_with_response_l
    | exact rpc_m.mute_pure _
    | exact rpc_m.mute_raise _
    | exact rpc_m.mute_no_error
    | exact rpc_m.mute_response_empty
    | exact rpc_m.mute_set_ec _
    | exact rpc_m.mute_put _ _
    | exact rpc_m.mute_add_child _ _
    | exact rpc_m.mute_add_children _ _
    | exact rpc_m.mute_add_nested _ _
    | exact rpc_m.mute_modify_response _
    | exact rpc_m.mute_perform _
    | exact rpc_m.mute_request_get _ _
    | exact rpc_m.mute_request_get_child _ _
    | exact mute_rpc_control_impl _
    | exact mute_wallet_impl _ _
    | exact mute_wallet_locked_impl _ _
    | exact mute_wallet_account_impl _ _ _
    | exact mute_account_impl _ _ _
    | exact mute_amount_impl _ _
    | exact mute_block_impl _ _
    | exact mute_hash_impl _ _ _
    | exact mute_work_optional_impl _ _
    | exact mute_count_impl _ _
    | exact mute_count_optional_impl _ _ _
    | exact mute_offset_optional_impl _ _ _
    | exact mute_threshold_optional_impl _ _
    | exact mute_block_impl_unsigned _ _
    | exact mute_account_create_insert _ _ _ _
    | exact mute_accounts_balances_step _ _ _ _
    | exact mute_accounts_frontiers_step _ _ _ _
    | exact mute_accounts_pending_step _ _ _ _ _ _ _ _
    | exact mute_blocks_step _ _ _
    | exact mute_blocks_info_step _ _ _ _ _
    | exact mute_wallet_add_watch_step _ _ _ _ _
    | exact mute_payment_begin_loop _ _ _
    | exact mute_sign_hash _ _ _
    | exact mute_sign_key _ _
    | exact mute_account_history_start _ _
    | apply rpc_m.mute_for_each
    | apply rpc_m.once_bind
    | apply rpc_m.mute_bind
    | intro _
    | split
    | dsimp only

theorem once_wallet_change_seed (rpc : rpc) (node : node) (request : ptree) :
    rpc_m.once (rpc_handler.wallet_change_seed rpc node request) := by
  unfold rpc_handler.wallet_change_seed
  repeat' with_reducible first
    | exact rpc_m.once_response_errors _
    | exact rpc_m.once_raise _
    | exact rpc_m.once_respond _
    | exact rpc_m.once_respond_with_response_l
    | exact rpc_m.mute_pure _
    | exact rpc_m.mute_raise _
    | exact rpc_m.mute_no_error
    | exact rpc_m.mute_response_empty
    | exact rpc_m.mute_set_ec _
    | exact rpc_m.mute_put _ _
    | exact rpc_m.mute_add_child _ _
    | exact rpc_m.mute_add_children _ _
    | exact rpc_m.mute_add_nested _ _
    | exact rpc_m.mute_modify_response _
    | exact rpc_m.mute_perform _
    | exact rpc_m.mute_request_get _ _
    | exact rpc_m.mute_request_get_child _ _
    | exact mute_rpc_control_impl _
    | exact mute_wallet_impl _ _
    | exact mute_wallet_locked_impl _ _
    | exact mute_wallet_account_impl _ _ _
    | exact mute_account_impl _ _ _
    | exact mute_amount_impl _ _
    | exact mute_block_impl _ _
    | exact mute_hash_impl _ _ _
    | exact mute_work_optional_impl _ _
    | exact mute_count_impl _ _
    | exact mute_count_optional_impl _ _ _
    | exact mute_offset_optional_impl _ _ _
    | exact mute_threshold_optional_impl _ _
    | exact mute_block_impl_unsigned _ _
    | exact mute_account_create_insert _ _ _ _
    | exact mute_accounts_balances_step _ _ _ _
    | exact mute_accounts_frontiers_step _ _ _ _
    | exact mute_accounts_pending_step _ _ _ _ _ _ _ _
    | exact mute_blocks_step _ _ _
    | exact mute_blocks_info_step _ _ _ _ _
    | exact mute_wallet_add_watch_step _ _ _ _ _
    | exact mute_payment_begin_loop _ _ _
    | exact mute_sign_hash _ _ _
    | exact mute_sign_key _ _
    | exact mute_account_history_start _ _
    | apply rpc_m.mute_for_each
    | apply rpc_m.once_bind
    | apply rpc_m.mute_bind
    | intro _
    | split
    | dsimp only

theorem once_wallet_contains (node : node) (request : ptree) :
    rpc_m.once (rpc_handler.wallet_contains node request) := by
  unfold rpc_handler.wallet_contains
  repeat' with_reducible first
    | exact rpc_m.once_response_errors _
    | exact rpc_m.once_raise _
    | exact rpc_m.once_respond _
    | exact rpc_m.once_respond_with_response_l
    | exact rpc_m.mute_pure _
    | exact rpc_m.mute_raise _
    | exact rpc_m.mute_no_error
    | exact rpc_m.mute_response_empty
    | exact rpc_m.mute_set_ec _
    | exact rpc_m.mute_put _ _
    | exact rpc_m.mute_add_child _ _
    | exact rpc_m.mute_add_children _ _
    | exact rpc_m.mute_add_nested _ _
    | exact rpc_m.mute_modify_response _
    | exact rpc_m.mute_perform _
    | exact rpc_m.mute_request_get _ _
    | exact rpc_m.mute_request_get_child _ _
    | exact mute_rpc_control_impl _
    | exact mute_wallet_impl _ _
    | exact mute_wallet_locked_impl _ _
    | exact mute_wallet_account_impl _ _ _
    | exact mute_account_impl _ _ _
    | exact mute_amount_impl _ _
    | exact mute_block_impl _ _
    | exact mute_hash_impl _ _ _
    | exact mute_work_optional_impl _ _
    | exact mute_count_impl _ _
    | exact mute_count_optional_impl _ _ _
    | exact mute_offset_optional_impl _ _ _
    | exact mute_threshold_optional_impl _ _
    | exact mute_block_impl_unsigned _ _
    | exact mute_account_create_insert _ _ _ _
    | exact mute_accounts_balances_step _ _ _ _
    | exact mute_accounts_frontiers_step _ _ _ _
    | exact mute_accounts_pending_step _ _ _ _ _ _ _ _
    | exact mute_blocks_step _ _ _
    | exact mute_blocks_info_step _ _ _ _ _
    | exact mute_wallet_add_watch_step _ _ _ _ _
    | exact mute_payment_begin_loop _ _ _
    | exact mute_sign_hash _ _ _
    | exact mute_sign_key _ _
    | exact mute_account_history_start _ _
    | apply rpc_m.mute_for_each
    | apply rpc_m.once_bind
    | apply rpc_m.mute_bind
    | intro _
    | split
    | dsimp only

theorem once_wallet_create (rpc : rpc) (node : node) (request : ptree) :
    rpc_m.once (rpc_handler.wallet_create rpc node request) := by
  unfold rpc_handler.wallet_create
  repeat' with_reducible first
    | exact rpc_m.once_response_errors _
    | exact rpc_m.once_raise _
    | exact rpc_m.once_respond _
    | exact rpc_m.once_respond_with_response_l
    | exact rpc_m.mute_pure _
    | exact rpc_m.mute_raise _
    | exact rpc_m.mute_no_error
    | exact rpc_m.mute_response_empty
    | exact rpc_m.mute_set_ec _
    | exact rpc_m.mute_put _ _
    | exact rpc_m.mute_add_child _ _
    | exact rpc_m.mute_add_children _ _
    | exact rpc_m.mute_add_nested _ _
    | exact rpc_m.mute_modify_response _
    | exact rpc_m.mute_perform _
    | exact rpc_m.mute_request_get _ _
    | exact rpc_m.mute_request_get_child _ _
    | exact mute_rpc_control_impl _
    | exact mute_wallet_impl _ _
    | exact mute_wallet_locked_impl _ _
    | exact mute_wallet_account_impl _ _ _
    | exact mute_account_impl _ _ _
    | exact mute_amount_impl _ _
    | exact mute_block_impl _ _
    | exact mute_hash_impl _ _ _
    | exact mute_work_optional_impl _ _
    | exact mute_count_impl _ _
    | exact mute_count_optional_impl _ _ _
    | exact mute_offset_optional_impl _ _ _
    | exact mute_threshold_optional_impl _ _
    | exact mute_block_impl_unsigned _ _
    | exact mute_account_create_insert _ _ _ _
    | exact mute_accounts_balances_step _ _ _ _
    | exact mute_accounts_frontiers_step _ _ _ _
    | exact mute_accounts_pending_step _ _ _ _ _ _ _ _
    | exact mute_blocks_step _ _ _
    | exact mute_blocks_info_step _ _ _ _ _
    | exact mute_wallet_add_watch_step _ _ _ _ _
    | exact mute_payment_begin_loop _ _ _
    | exact mute_sign_hash _ _ _
    | exact mute_sign_key _ _
    | exact mute_account_history_start _ _
    | apply rpc_m.mute_for_each
    | apply rpc_m.once_bind
    | apply rpc_m.mute_bind
    | intro _
    | split
    | dsimp only

theorem once_wallet_destroy (rpc : rpc) (node : node) (request : ptree) :
    rpc_m.once (rpc_handler.wallet_destroy rpc node request) := by
  unfold rpc_handler.wallet_destroy
  repeat' with_reducible first
    | exact rpc_m.once_response_errors _
    | exact rpc_m.once_raise _
    | exact rpc_m.once_respond _
    | exact rpc_m.once_respond_with_response_l
    | exact rpc_m.mute_pure _
    | exact rpc_m.mute_raise _
    | exact rpc_m.mute_no_error
    | exact rpc_m.mute_response_empty
    | exact rpc_m.mute_set_ec _
    | exact rpc_m.mute_put _ _
    | exact rpc_m.mute_add_child _ _
    | exact rpc_m.mute_add_children _ _
    | exact rpc_m.mute_add_nested _ _
    | exact rpc_m.mute_modify_response _
    | exact rpc_m.mute_perform _
    | exact rpc_m.mute_request_get _ _
    | exact rpc_m.mute_request_get_child _ _
    | exact mute_rpc_control_impl _
    | exact mute_wallet_impl _ _
    | exact mute_wallet_locked_impl _ _
    | exact mute_wallet_account_impl _ _ _
    | exact mute_account_impl _ _ _
    | exact mute_amount_impl _ _
    | exact mute_block_impl _ _
    | exact mute_hash_impl _ _ _
    | exact mute_work_optional_impl _ _
    | exact mute_count_impl _ _
    | exact mute_count_optional_impl _ _ _
    | exact mute_offset_optional_impl _ _ _
    | exact mute_threshold_optional_impl _ _
    | exact mute_block_impl_unsigned _ _
    | exact mute_account_create_insert _ _ _ _
    | exact mute_accounts_balances_step _ _ _ _
    | exact mute_accounts_frontiers_step _ _ _ _
    | exact mute_accounts_pending_step _ _ _ _ _ _ _ _
    | exact mute_blocks_step _ _ _
    | exact mute_blocks_info_step _ _ _ _ _
    | exact mute_wallet_add_watch_step _ _ _ _ _
    | exact mute_payment_begin_loop _ _ _
    | exact mute_sign_hash _ _ _
    | exact mute_sign_key _ _
    | exact mute_account_history_start _ _
    | apply rpc_m.mute_for_each
    | apply rpc_m.once_bind
    | apply rpc_m.mute_bind
    | intro _
    | split
    | dsimp only

theorem once_wallet_export (node : node) (request : ptree) :
    rpc_m.once (rpc_handler.wallet_export node request) := by
  unfold rpc_handler.wallet_export
  repeat' with_reducible first
    | exact rpc_m.once_response_errors _
    | exact rpc_m.once_raise _
    | exact rpc_m.once_respond _
    | exact rpc_m.once_respond_with_response_l
    | exact rpc_m.mute_pure _
    | exact rpc_m.mute_raise _
    | exact rpc_m.mute_no_error
    | exact rpc_m.mute_response_empty
    | exact rpc_m.mute_set_ec _
    | exact rpc_m.mute_put _ _
    | exact rpc_m.mute_add_child _ _
    | exact rpc_m.mute_add_children _ _
    | exact rpc_m.mute_add_nested _ _
    | exact rpc_m.mute_modify_response _
    | exact rpc_m.mute_perform _
    | exact rpc_m.mute_request_get _ _
    | exact rpc_m.mute_request_get_child _ _
    | exact mute_rpc_control_impl _
    | exact mute_wallet_impl _ _
    | exact mute_wallet_locked_impl _ _
    | exact mute_wallet_account_impl _ _ _
    | exact mute_account_impl _ _ _
    | exact mute_amount_impl _ _
    | exact mute_block_impl _ _
    | exact mute_hash_impl _ _ _
    | exact mute_work_optional_impl _ _
    | exact mute_count_impl _ _
    | exact mute_count_optional_impl _ _ _
    | exact mute_offset_optional_impl _ _ _
    | exact mute_threshold_optional_impl _ _
    | exact mute_block_impl_unsigned _ _
    | exact mute_account_create_insert _ _ _ _
    | exact mute_accounts_balances_step _ _ _ _
    | exact mute_accounts_frontiers_step _ _ _ _
    | exact mute_accounts_pending_step _ _ _ _ _ _ _ _
    | exact mute_blocks_step _ _ _
    | exact mute_blocks_info_step _ _ _ _ _
    | exact mute_wallet_add_watch_step _ _ _ _ _
    | exact mute_payment_begin_loop _ _ _
    | exact mute_sign_hash _ _ _
    | exact mute_sign_key _ _
    | exact mute_account_history_start _ _
    | apply rpc_m.mute_for_each
    | apply rpc_m.once_bind
    | apply rpc_m.mute_bind
    | intro _
    | split
    | dsimp only

theorem once_wallet_frontiers (node : node) (request : ptree) :
    rpc_m.once (rpc_handler.wallet_frontiers node request) := by
  unfold rpc_handler.wallet_frontiers
  repeat' with_reducible first
    | exact rpc_m.once_response_errors _
    | exact rpc_m.once_raise _
    | exact rpc_m.once_respond _
    | exact rpc_m.once_respond_with_response_l
    | exact rpc_m.mute_pure _
    | exact rpc_m.mute_raise _
    | exact rpc_m.mute_no_error
    | exact rpc_m.mute_response_empty
    | exact rpc_m.mute_set_ec _
    | exact rpc_m.mute_put _ _
    | exact rpc_m.mute_add_child _ _
    | exact rpc_m.mute_add_children _ _
    | exact rpc_m.mute_add_nested _ _
    | exact rpc_m.mute_modify_response _
    | exact rpc_m.mute_perform _
    | exact rpc_m.mute_request_get _ _
    | exact rpc_m.mute_request_get_child _ _
    | exact mute_rpc_control_impl _
    | exact mute_wallet_impl _ _
    | exact mute_wallet_locked_impl _ _
    | exact mute_wallet_account_impl _ _ _
    | exact mute_account_impl _ _ _
    | exact mute_amount_impl _ _
    | exact mute_block_impl _ _
    | exact mute_hash_impl _ _ _
    | exact mute_work_optional_impl _ _
    | exact mute_count_impl _ _
    | exact mute_count_optional_impl _ _ _
    | exact mute_offset_optional_impl _ _ _
    | exact mute_threshold_optional_impl _ _
    | exact mute_block_impl_unsigned _ _
    | exact mute_account_create_insert _ _ _ _
    | exact mute_accounts_balances_step _ _ _ _
    | exact mute_accounts_frontiers_step _ _ _ _
    | exact mute_accounts_pending_step _ _ _ _ _ _ _ _
    | exact mute_blocks_step _ _ _
    | exact mute_blocks_info_step _ _ _ _ _
    | exact mute_wallet_add_watch_step _ _ _ _ _
    | exact mute_payment_begin_loop _ _ _
    | exact mute_sign_hash _ _ _
    | exact mute_sign_key _ _
    | exact mute_account_history_start _ _
    | apply rpc_m.mute_for_each
    | apply rpc_m.once_bind
    | apply rpc_m.mute_bind
    | intro _
    | split
    | dsimp only

theorem once_wallet_key_valid (node : node) (request : ptree) :
    rpc_m.once (rpc_handler.wallet_key_valid node request) := by
  unfold rpc_handler.wallet_key_valid
  repeat' with_reducible first
    | exact rpc_m.once_response_errors _
    | exact rpc_m.once_raise _
    | exact rpc_m.once_respond _
    | exact rpc_m.once_respond_with_response_l
    | exact rpc_m.mute_pure _
    | exact rpc_m.mute_raise _
    | exact rpc_m.mute_no_error
    | exact rpc_m.mute_response_empty
    | exact rpc_m.mute_set_ec _
    | exact rpc_m.mute_put _ _
    | exact rpc_m.mute_add_child _ _
    | exact rpc_m.mute_add_children _ _
    | exact rpc_m.mute_add_nested _ _
    | exact rpc_m.mute_modify_response _
    | exact rpc_m.mute_perform _
    | exact rpc_m.mute_request_get _ _
    | exact rpc_m.mute_request_get_child _ _
    | exact mute_rpc_control_impl _
    | exact mute_wallet_impl _ _
    | exact mute_wallet_locked_impl _ _
    | exact mute_wallet_account_impl _ _ _
    | exact mute_account_impl _ _ _
    | exact mute_amount_impl _ _
    | exact mute_block_impl _ _
    | exact mute_hash_impl _ _ _
    | exact mute_work_optional_impl _ _
    | exact mute_count_impl _ _
    | exact mute_count_optional_impl _ _ _
    | exact mute_offset_optional_impl _ _ _
    | exact mute_threshold_optional_impl _ _
    | exact mute_block_impl_unsigned _ _
    | exact mute_account_create_insert _ _ _ _
    | exact mute_accounts_balances_step _ _ _ _
    | exact mute_accounts_frontiers_step _ _ _ _
    | exact mute_accounts_pending_step _ _ _ _ _ _ _ _
    | exact mute_blocks_step _ _ _
    | exact mute_blocks_info_step _ _ _ _ _
    | exact mute_wallet_add_watch_step _ _ _ _ _
    | exact mute_payment_begin_loop _ _ _
    | exact mute_sign_hash _ _ _
    | exact mute_sign_key _ _
    | exact mute_account_history_start _ _
    | apply rpc_m.mute_for_each
    | apply rpc_m.once_bind
    | apply rpc_m.mute_bind
    | intro _
    | split
    | dsimp only

theorem once_wallet_lock (rpc : rpc) (node : node) (request : ptree) :
    rpc_m.once (rpc_handler.wallet_lock rpc node request) := by
  unfold rpc_handler.wallet_lock
  repeat' with_reducible first
    | exact rpc_m.once_response_errors _
    | exact rpc_m.once_raise _
    | exact rpc_m.once_respond _
    | exact rpc_m.once_respond_with_response_l
    | exact rpc_m.mute_pure _
    | exact rpc_m.mute_raise _
    | exact rpc_m.mute_no_error
    | exact rpc_m.mute_response_empty
    | exact rpc_m.mute_set_ec _
    | exact rpc_m.mute_put _ _
    | exact rpc_m.mute_add_child _ _
    | exact rpc_m.mute_add_children _ _
    | exact rpc_m.mute_add_nested _ _
    | exact rpc_m.mute_modify_response _
    | exact rpc_m.mute_perform _
    | exact rpc_m.mute_request_get _ _
    | exact rpc_m.mute_request_get_child _ _
    | exact mute_rpc_control_impl _
    | exact mute_wallet_impl _ _
    | exact mute_wallet_locked_impl _ _
    | exact mute_wallet_account_impl _ _ _
    | exact mute_account_impl _ _ _
    | exact mute_amount_impl _ _
    | exact mute_block_impl _ _
    | exact mute_hash_impl _ _ _
    | exact mute_work_optional_impl _ _
    | exact mute_count_impl _ _
    | exact mute_count_optional_impl _ _ _
    | exact mute_offset_optional_impl _ _ _
    | exact mute_threshold_optional_impl _ _
    | exact mute_block_impl_unsigned _ _
    | exact mute_account_create_insert _ _ _ _
    | exact mute_accounts_balances_step _ _ _ _
    | exact mute_accounts_frontiers_step _ _ _ _
    | exact mute_accounts_pending_step _ _ _ _ _ _ _ _
    | exact mute_blocks_step _ _ _
    | exact mute_blocks_info_step _ _ _ _ _
    | exact mute_wallet_add_watch_step _ _ _ _ _
    | exact mute_payment_begin_loop _ _ _
    | exact mute_sign_hash _ _ _
    | exact mute_sign_key _ _
    | exact mute_account_history_start _ _
    | apply rpc_m.mute_for_each
    | apply rpc_m.once_bind
    | apply rpc_m.mute_bind
    | intro _
    | split
    | dsimp only

theorem once_wallet_pending (node : node) (request : ptree) :
    rpc_m.once (rpc_handler.wallet_pending node request) := by
  unfold rpc_handler.wallet_pending
  repeat' with_reducible first
    | exact rpc_m.once_response_errors _
    | exact rpc_m.once_raise _
    | exact rpc_m.once_respond _
    | exact rpc_m.once_respond_with_response_l
    | exact rpc_m.mute_pure _
    | exact rpc_m.mute_raise _
    | exact rpc_m.mute_no_error
    | exact rpc_m.mute_response_empty
    | exact rpc_m.mute_set_ec _
    | exact rpc_m.mute_put _ _
    | exact rpc_m.mute_add_child _ _
    | exact rpc_m.mute_add_children _ _
    | exact rpc_m.mute_add_nested _ _
    | exact rpc_m.mute_modify_response _
    | exact rpc_m.mute_perform _
    | exact rpc_m.mute_request_get _ _
    | exact rpc_m.mute_request_get_child _ _
    | exact mute_rpc_control_impl _
    | exact mute_wallet_impl _ _
    | exact mute_wallet_locked_impl _ _
    | exact mute_wallet_account_impl _ _ _
    | exact mute_account_impl _ _ _
    | exact mute_amount_impl _ _
    | exact mute_block_impl _ _
    | exact mute_hash_impl _ _ _
    | exact mute_work_optional_impl _ _
    | exact mute_count_impl _ _
    | exact mute_count_optional_impl _ _ _
    | exact mute_offset_optional_impl _ _ _
    | exact mute_threshold_optional_impl _ _
    | exact mute_block_impl_unsigned _ _
    | exact mute_account_create_insert _ _ _ _
    | exact mute_accounts_balances_step _ _ _ _
    | exact mute_accounts_frontiers_step _ _ _ _
    | exact mute_accounts_pending_step _ _ _ _ _ _ _ _
    | exact mute_blocks_step _ _ _
    | exact mute_blocks_info_step _ _ _ _ _
    | exact mute_wallet_add_watch_step _ _ _ _ _
    | exact mute_payment_begin_loop _ _ _
    | exact mute_sign_hash _ _ _
    | exact mute_sign_key _ _
    | exact mute_account_history_start _ _
    | apply rpc_m.mute_for_each
    | apply rpc_m.once_bind
    | apply rpc_m.mute_bind
    | intro _
    | split
    | dsimp only

theorem once_wallet_representative (node : node) (request : ptree) :
    rpc_m.once (rpc_handler.wallet_representative node request) := by
  unfold rpc_handler.wallet_representative
  repeat' with_reducible first
    | exact rpc_m.once_response_errors _
    | exact rpc_m.once_raise _
    | exact rpc_m.once_respond _
    | exact rpc_m.once_respond_with_response_l
    | exact rpc_m.mute_pure _
    | exact rpc_m.mute_raise _
    | exact rpc_m.mute_no_error
    | exact rpc_m.mute_response_empty
    | exact rpc_m.mute_set_ec _
    | exact rpc_m.mute_put _ _
    | exact rpc_m.mute_add_child _ _
    | exact rpc_m.mute_add_children _ _
    | exact rpc_m.mute_add_nested _ _
    | exact rpc_m.mute_modify_response _
    | exact rpc_m.mute_perform _
    | exact rpc_m.mute_request_get _ _
    | exact rpc_m.mute_request_get_child _ _
    | exact mute_rpc_control_impl _
    | exact mute_wallet_impl _ _
    | exact mute_wallet_locked_impl _ _
    | exact mute_wallet_account_impl _ _ _
    | exact mute_account_impl _ _ _
    | exact mute_amount_impl _ _
    | exact mute_block_impl _ _
    | exact mute_hash_impl _ _ _
    | exact mute_work_optional_impl _ _
    | exact mute_count_impl _ _
    | exact mute_count_optional_impl _ _ _
    | exact mute_offset_optional_impl _ _ _
    | exact mute_threshold_optional_impl _ _
    | exact mute_block_impl_unsigned _ _
    | exact mute_account_create_insert _ _ _ _
    | exact mute_accounts_balances_step _ _ _ _
    | exact mute_accounts_frontiers_step _ _ _ _
    | exact mute_accounts_pending_step _ _ _ _ _ _ _ _
    | exact mute_blocks_step _ _ _
    | exact mute_blocks_info_step _ _ _ _ _
    | exact mute_wallet_add_watch_step _ _ _ _ _
    | exact mute_payment_begin_loop _ _ _
    | exact mute_sign_hash _ _ _
    | exact mute_sign_key _ _
    | exact mute_account_history_start _ _
    | apply rpc_m.mute_for_each
    | apply rpc_m.once_bind
    | apply rpc_m.mute_bind
    | intro _
    | split
    | dsimp only

theorem once_wallet_work_get (rpc : rpc) (node : node) (request : ptree) :
    rpc_m.once (rpc_handler.wallet_work_get rpc node request) := by
  unfold rpc_handler.wallet_work_get
  repeat' with_reducible first
    | exact rpc_m.once_response_errors _
    | exact rpc_m.once_raise _
    | exact rpc_m.once_respond _
    | exact rpc_m.once_respond_with_response_l
    | exact rpc_m.mute_pure _
    | exact rpc_m.mute_raise _
    | exact rpc_m.mute_no_error
    | exact rpc_m.mute_response_empty
    | exact rpc_m.mute_set_ec _
    | exact rpc_m.mute_put _ _
    | exact rpc_m.mute_add_child _ _
    | exact rpc_m.mute_add_children _ _
    | exact rpc_m.mute_add_nested _ _
    | exact rpc_m.mute_modify_response _
    | exact rpc_m.mute_perform _
    | exact rpc_m.mute_request_get _ _
    | exact rpc_m.mute_request_get_child _ _
    | exact mute_rpc_control_impl _
    | exact mute_wallet_impl _ _
    | exact mute_wallet_locked_impl _ _
    | exact mute_wallet_account_impl _ _ _
    | exact mute_account_impl _ _ _
    | exact mute_amount_impl _ _
    | exact mute_block_impl _ _
    | exact mute_hash_impl _ _ _
    | exact mute_work_optional_impl _ _
    | exact mute_count_impl _ _
    | exact mute_count_optional_impl _ _ _
    | exact mute_offset_optional_impl _ _ _
    | exact mute_threshold_optional_impl _ _
    | exact mute_block_impl_unsigned _ _
    | exact mute_account_create_insert _ _ _ _
    | exact mute_accounts_balances_step _ _ _ _
    | exact mute_accounts_frontiers_step _ _ _ _
    | exact mute_accounts_pending_step _ _ _ _ _ _ _ _
    | exact mute_blocks_step _ _ _
    | exact mute_blocks_info_step _ _ _ _ _
    | exact mute_wallet_add_watch_step _ _ _ _ _
    | exact mute_payment_begin_loop _ _ _
    | exact mute_sign_hash _ _ _
    | exact mute_sign_key _ _
    | exact mute_account_history_start _ _
    | apply rpc_m.mute_for_each
    | apply rpc_m.once_bind
    | apply rpc_m.mute_bind
    | intro _
    | split
    | dsimp only

theorem once_work_cancel (rpc : rpc) (node : node) (request : ptree) :
    rpc_m.once (rpc_handler.work_cancel rpc node request) := by
  unfold rpc_handler.work_cancel
  repeat' with_reducible first
    | exact rpc_m.once_response_errors _
    | exact rpc_m.once_raise _
    | exact rpc_m.once_respond _
    | exact rpc_m.once_respond_with_response_l
    | exact rpc_m.mute_pure _
    | exact rpc_m.mute_raise _
    | exact rpc_m.mute_no_error
    | exact rpc_m.mute_response_empty
    | exact rpc_m.mute_set_ec _
    | exact rpc_m.mute_put _ _
    | exact rpc_m.mute_add_child _ _
    | exact rpc_m.mute_add_children _ _
    | exact rpc_m.mute_add_nested _ _
    | exact rpc_m.mute_modify_response _
    | exact rpc_m.mute_perform _
    | exact rpc_m.mute_request_get _ _
    | exact rpc_m.mute_request_get_child _ _
    | exact mute_rpc_control_impl _
    | exact mute_wallet_impl _ _
    | exact mute_wallet_locked_impl _ _
    | exact mute_wallet_account_impl _ _ _
    | exact mute_account_impl _ _ _
    | exact mute_amount_impl _ _
    | exact mute_block_impl _ _
    | exact mute_hash_impl _ _ _
    | exact mute_work_optional_impl _ _
    | exact mute_count_impl _ _
    | exact mute_count_optional_impl _ _ _
    | exact mute_offset_optional_impl _ _ _
    | exact mute_threshold_optional_impl _ _
    | exact mute_block_impl_unsigned _ _
    | exact mute_account_create_insert _ _ _ _
    | exact mute_accounts_balances_step _ _ _ _
    | exact mute_accounts_frontiers_step _ _ _ _
    | exact mute_accounts_pending_step _ _ _ _ _ _ _ _
    | exact mute_blocks_step _ _ _
    | exact mute_blocks_info_step _ _ _ _ _
    | exact mute_wallet_add_watch_step _ _ _ _ _
    | exact mute_payment_begin_loop _ _ _
    | exact mute_sign_hash _ _ _
    | exact mute_sign_key _ _
    | exact mute_account_history_start _ _
    | apply rpc_m.mute_for_each
    | apply rpc_m.once_bind
    | apply rpc_m.mute_bind
    | intro _
    | split
    | dsimp only

theorem once_work_get (rpc : rpc) (node : node) (request : ptree) :
    rpc_m.once (rpc_handler.work_get rpc node request) := by
  unfold rpc_handler.work_get
  repeat' with_reducible first
    | exact rpc_m.once_response_errors _
    | exact rpc_m.once_raise _
    | exact rpc_m.once_respond _
    | exact rpc_m.once_respond_with_response_l
    | exact rpc_m.mute_pure _
    | exact rpc_m.mute_raise _
    | exact rpc_m.mute_no_error
    | exact rpc_m.mute_response_empty
    | exact rpc_m.mute_set_ec _
    | exact rpc_m.mute_put _ _
    | exact rpc_m.mute_add_child _ _
    | exact rpc_m.mute_add_children _ _
    | exact rpc_m.mute_add_nested _ _
    | exact rpc_m.mute_modify_response _
    | exact rpc_m.mute_perform _
    | exact rpc_m.mute_request_get _ _
    | exact rpc_m.mute_request_get_child _ _
    | exact mute_rpc_control_impl _
    | exact mute_wallet_impl _ _
    | exact mute_wallet_locked_impl _ _
    | exact mute_wallet_account_impl _ _ _
    | exact mute_account_impl _ _ _
    | exact mute_amount_impl _ _
    | exact mute_block_impl _ _
    | exact mute_hash_impl _ _ _
    | exact mute_work_optional_impl _ _
    | exact mute_count_impl _ _
    | exact mute_count_optional_impl _ _ _
    | exact mute_offset_optional_impl _ _ _
    | exact mute_threshold_optional_impl _ _
    | exact mute_block_impl_unsigned _ _
    | exact mute_account_create_insert _ _ _ _
    | exact mute_accounts_balances_step _ _ _ _
    | exact mute_accounts_frontiers_step _ _ _ _
    | exact mute_accounts_pending_step _ _ _ _ _ _ _ _
    | exact mute_blocks_step _ _ _
    | exact mute_blocks_info_step _ _ _ _ _
    | exact mute_wallet_add_watch_step _ _ _ _ _
    | exact mute_payment_begin_loop _ _ _
    | exact mute_sign_hash _ _ _
    | exact mute_sign_key _ _
    | exact mute_account_history_start _ _
    | apply rpc_m.mute_for_each
    | apply rpc_m.once_bind
    | apply rpc_m.mute_bind
    | intro _
    | split
    | dsimp only

theorem once_work_set (rpc : rpc) (node : node) (request : ptree) :
    rpc_m.once (rpc_handler.work_set rpc node request) := by
  unfold rpc_handler.work_set
  repeat' with_reducible first
    | exact rpc_m.once_response_errors _
    | exact rpc_m.once_raise _
    | exact rpc_m.once_respond _
    | exact rpc_m.once_respond_with_response_l
    | exact rpc_m.mute_pure _
    | exact rpc_m.mute_raise _
    | exact rpc_m.mute_no_error
    | exact rpc_m.mute_response_empty
    | exact rpc_m.mute_set_ec _
    | exact rpc_m.mute_put _ _
    | exact rpc_m.mute_add_child _ _
    | exact rpc_m.mute_add_children _ _
    | exact rpc_m.mute_add_nested _ _
    | exact rpc_m.mute_modify_response _
    | exact rpc_m.mute_perform _
    | exact rpc_m.mute_request_get _ _
    | exact rpc_m.mute_request_get_child _ _
    | exact mute_rpc_control_impl _
    | exact mute_wallet_impl _ _
    | exact mute_wallet_locked_impl _ _
    | exact mute_wallet_account_impl _ _ _
    | exact mute_account_impl _ _ _
    | exact mute_amount_impl _ _
    | exact mute_block_impl _ _
    | exact mute_hash_impl _ _ _
    | exact mute_work_optional_impl _ _
    | exact mute_count_impl _ _
    | exact mute_count_optional_impl _ _ _
    | exact mute_offset_optional_impl _ _ _
    | exact mute_threshold_optional_impl _ _
    | exact mute_block_impl_unsigned _ _
    | exact mute_account_create_insert _ _ _ _
    | exact mute_accounts_balances_step _ _ _ _
    | exact mute_accounts_frontiers_step _ _ _ _
    | exact mute_accounts_pending_step _ _ _ _ _ _ _ _
    | exact mute_blocks_step _ _ _
    | exact mute_blocks_info_step _ _ _ _ _
    | exact mute_wallet_add_watch_step _ _ _ _ _
    | exact mute_payment_begin_loop _ _ _
    | exact mute_sign_hash _ _ _
    | exact mute_sign_key _ _
    | exact mute_account_history_start _ _
    | apply rpc_m.mute_for_each
    | apply rpc_m.once_bind
    | apply rpc_m.mute_bind
    | intro _
    | split
    | dsimp only

theorem once_work_validate (node : node) (request : ptree) :
    rpc_m.once (rpc_handler.work_validate node request) := by
  unfold rpc_handler.work_validate
  repeat' with_reducible first
    | exact rpc_m.once_response_errors _
    | exact rpc_m.once_raise _
    | exact rpc_m.once_respond _
    | exact rpc_m.once_respond_with_response_l
    | exact rpc_m.mute_pure _
    | exact rpc_m.mute_raise _
    | exact rpc_m.mute_no_error
    | exact rpc_m.mute_response_empty
    | exact rpc_m.mute_set_ec _
    | exact rpc_m.mute_put _ _
    | exact rpc_m.mute_add_child _ _
    | exact rpc_m.mute_add_children _ _
    | exact rpc_m.mute_add_nested _ _
    | exact rpc_m.mute_modify_response _
    | exact rpc_m.mute_perform _
    | exact rpc_m.mute_request_get _ _
    | exact rpc_m.mute_request_get_child _ _
    | exact mute_rpc_control_impl _
    | exact mute_wallet_impl _ _
    | exact mute_wallet_locked_impl _ _
    | exact mute_wallet_account_impl _ _ _
    | exact mute_account_impl _ _ _
    | exact mute_amount_impl _ _
    | exact mute_block_impl _ _
    | exact mute_hash_impl _ _ _
    | exact mute_work_optional_impl _ _
    | exact mute_count_impl _ _
    | exact mute_count_optional_impl _ _ _
    | exact mute_offset_optional_impl _ _ _
    | exact mute_threshold_optional_impl _ _
    | exact mute_block_impl_unsigned _ _
    | exact mute_account_create_insert _ _ _ _
    | exact mute_accounts_balances_step _ _ _ _
    | exact mute_accounts_frontiers_step _ _ _ _
    | exact mute_accounts_pending_step _ _ _ _ _ _ _ _
    | exact mute_blocks_step _ _ _
    | exact mute_blocks_info_step _ _ _ _ _
    | exact mute_wallet_add_watch_step _ _ _ _ _
    | exact mute_payment_begin_loop _ _ _
    | exact mute_sign_hash _ _ _
    | exact mute_sign_key _ _
    | exact mute_account_history_start _ _
    | apply rpc_m.mute_for_each
    | apply rpc_m.once_bind
    | apply rpc_m.mute_bind
    | intro _
    | split
    | dsimp only

theorem once_work_peer_add (rpc : rpc) (node : node) (request : ptree) :
    rpc_m.once (rpc_handler.work_peer_add rpc node request) := by
  unfold rpc_handler.work_peer_add
  repeat' with_reducible first
    | exact rpc_m.once_response_errors _
    | exact rpc_m.once_raise _
    | exact rpc_m.once_respond _
    | exact rpc_m.once_respond_with_response_l
    | exact rpc_m.mute_pure _
    | exact rpc_m.mute_raise _
    | exact rpc_m.mute_no_error
    | exact rpc_m.mute_response_empty
    | exact rpc_m.mute_set_ec _
    | exact rpc_m.mute_put _ _
    | exact rpc_m.mute_add_child _ _
    | exact rpc_m.mute_add_children _ _
    | exact rpc_m.mute_add_nested _ _
    | exact rpc_m.mute_modify_response _
    | exact rpc_m.mute_perform _
    | exact rpc_m.mute_request_get _ _
    | exact rpc_m.mute_request_get_child _ _
    | exact mute_rpc_control_impl _
    | exact mute_wallet_impl _ _
    | exact mute_wallet_locked_impl _ _
    | exact mute_wallet_account_impl _ _ _
    | exact mute_account_impl _ _ _
    | exact mute_amount_impl _ _
    | exact mute_block_impl _ _
    | exact mute_hash_impl _ _ _
    | exact mute_work_optional_impl _ _
    | exact mute_count_impl _ _
    | exact mute_count_optional_impl _ _ _
    | exact mute_offset_optional_impl _ _ _
    | exact mute_threshold_optional_impl _ _
    | exact mute_block_impl_unsigned _ _
    | exact mute_account_create_insert _ _ _ _
    | exact mute_accounts_balances_step _ _ _ _
    | exact mute_accounts_frontiers_step _ _ _ _
    | exact mute_accounts_pending_step _ _ _ _ _ _ _ _
    | exact mute_blocks_step _ _ _
    | exact mute_blocks_info_step _ _ _ _ _
    | exact mute_wallet_add_watch_step _ _ _ _ _
    | exact mute_payment_begin_loop _ _ _
    | exact mute_sign_hash _ _ _
    | exact mute_sign_key _ _
    | exact mute_account_history_start _ _
    | apply rpc_m.mute_for_each
    | apply rpc_m.once_bind
    | apply rpc_m.mute_bind
    | intro _
    | split
    | dsimp only

theorem once_work_peers (rpc : rpc) (node : node) :
    rpc_m.once (rpc_handler.work_peers rpc node) := by
  unfold rpc_handler.work_peers
  repeat' with_reducible first
    | exact rpc_m.once_response_errors _
    | exact rpc_m.once_raise _
    | exact rpc_m.once_respond _
    | exact rpc_m.once_respond_with_response_l
    | exact rpc_m.mute_pure _
    | exact rpc_m.mute_raise _
    | exact rpc_m.mute_no_error
    | exact rpc_m.mute_response_empty
    | exact rpc_m.mute_set_ec _
    | exact rpc_m.mute_put _ _
    | exact rpc_m.mute_add_child _ _
    | exact rpc_m.mute_add_children _ _
    | exact rpc_m.mute_add_nested _ _
    | exact rpc_m.mute_modify_response _
    | exact rpc_m.mute_perform _
    | exact rpc_m.mute_request_get _ _
    | exact rpc_m.mute_request_get_child _ _
    | exact mute_rpc_control_impl _
    | exact mute_wallet_impl _ _
    | exact mute_wallet_locked_impl _ _
    | exact mute_wallet_account_impl _ _ _
    | exact mute_account_impl _ _ _
    | exact mute_amount_impl _ _
    | exact mute_block_impl _ _
    | exact mute_hash_impl _ _ _
    | exact mute_work_optional_impl _ _
    | exact mute_count_impl _ _
    | exact mute_count_optional_impl _ _ _
    | exact mute_offset_optional_impl _ _ _
    | exact mute_threshold_optional_impl _ _
    | exact mute_block_impl_unsigned _ _
    | exact mute_account_create_insert _ _ _ _
    | exact mute_accounts_balances_step _ _ _ _
    | exact mute_accounts_frontiers_step _ _ _ _
    | exact mute_accounts_pending_step _ _ _ _ _ _ _ _
    | exact mute_blocks_step _ _ _
    | exact mute_blocks_info_step _ _ _ _ _
    | exact mute_wallet_add_watch_step _ _ _ _ _
    | exact mute_payment_begin_loop _ _ _
    | exact mute_sign_hash _ _ _
    | exact mute_sign_key _ _
    | exact mute_account_history_start _ _
    | apply rpc_m.mute_for_each
    | apply rpc_m.once_bind
    | apply rpc_m.mute_bind
    | intro _
    | split
    | dsimp only

theorem once_work_peers_clear (rpc : rpc) (node : node) :
    rpc_m.once (rpc_handler.work_peers_clear rpc node) := by
  unfold rpc_handler.work_peers_clear
  repeat' with_reducible first
    | exact rpc_m.once_response_errors _
    | exact rpc_m.once_raise _
    | exact rpc_m.once_respond _
    | exact rpc_m.once_respond_with_response_l
    | exact rpc_m.mute_pure _
    | exact rpc_m.mute_raise _
    | exact rpc_m.mute_no_error
    | exact rpc_m.mute_response_empty
    | exact rpc_m.mute_set_ec _
    | exact rpc_m.mute_put _ _
    | exact rpc_m.mute_add_child _ _
    | exact rpc_m.mute_add_children _ _
    | exact rpc_m.mute_add_nested _ _
    | exact rpc_m.mute_modify_response _
    | exact rpc_m.mute_perform _
    | exact rpc_m.mute_request_get _ _
    | exact rpc_m.mute_request_get_child _ _
    | exact mute_rpc_control_impl _
    | exact mute_wallet_impl _ _
    | exact mute_wallet_locked_impl _ _
    | exact mute_wallet_account_impl _ _ _
    | exact mute_account_impl _ _ _
    | exact mute_amount_impl _ _
    | exact mute_block_impl _ _
    | exact mute_hash_impl _ _ _
    | exact mute_work_optional_impl _ _
    | exact mute_count_impl _ _
    | exact mute_count_optional_impl _ _ _
    | exact mute_offset_optional_impl _ _ _
    | exact mute_threshold_optional_impl _ _
    | exact mute_block_impl_unsigned _ _
    | exact mute_account_create_insert _ _ _ _
    | exact mute_accounts_balances_step _ _ _ _
    | exact mute_accounts_frontiers_step _ _ _ _
    | exact mute_accounts_pending_step _ _ _ _ _ _ _ _
    | exact mute_blocks_step _ _ _
    | exact mute_blocks_info_step _ _ _ _ _
    | exact mute_wallet_add_watch_step _ _ _ _ _
    | exact mute_payment_begin_loop _ _ _
    | exact mute_sign_hash _ _ _
    | exact mute_sign_key _ _
    | exact mute_account_history_start _ _
    | apply rpc_m.mute_for_each
    | apply rpc_m.once_bind
    | apply rpc_m.mute_bind
    | intro _
    | split
    | dsimp only

theorem once_account_info (node : node) (request : ptree) (fuel : Nat) (hstore : rpc_handler.store_coherent node fuel) :
    rpc_m.once (rpc_handler.account_info node request) := by
  unfold rpc_handler.account_info
  repeat' with_reducible first
    | exact rpc_m.once_response_errors _
    | exact rpc_m.once_raise _
    | exact rpc_m.once_respond _
    | exact rpc_m.once_respond_with_response_l
    | exact rpc_m.mute_pure _
    | exact rpc_m.mute_raise _
    | exact rpc_m.mute_no_error
    | exact rpc_m.mute_response_empty
    | exact rpc_m.mute_set_ec _
    | exact rpc_m.mute_put _ _
    | exact rpc_m.mute_add_child _ _
    | exact rpc_m.mute_add_children _ _
    | exact rpc_m.mute_add_nested _ _
    | exact rpc_m.mute_modify_response _
    | exact rpc_m.mute_perform _
    | exact rpc_m.mute_request_get _ _
    | exact rpc_m.mute_request_get_child _ _
    | exact mute_rpc_control_impl _
    | exact mute_wallet_impl _ _
    | exact mute_wallet_locked_impl _ _
    | exact mute_wallet_account_impl _ _ _
    | exact mute_account_impl _ _ _
    | exact mute_amount_impl _ _
    | exact mute_block_impl _ _
    | exact mute_hash_impl _ _ _
    | exact mute_work_optional_impl _ _
    | exact mute_count_impl _ _
    | exact mute_count_optional_impl _ _ _
    | exact mute_offset_optional_impl _ _ _
    | exact mute_threshold_optional_impl _ _
    | exact mute_block_impl_unsigned _ _
    | exact mute_account_create_insert _ _ _ _
    | exact mute_accounts_balances_step _ _ _ _
    | exact mute_accounts_frontiers_step _ _ _ _
    | exact mute_accounts_pending_step _ _ _ _ _ _ _ _
    | exact mute_blocks_step _ _ _
    | exact mute_blocks_info_step _ _ _ _ _
    | exact mute_wallet_add_watch_step _ _ _ _ _
    | exact mute_payment_begin_loop _ _ _
    | exact mute_sign_hash _ _ _
    | exact mute_sign_key _ _
    | exact mute_account_history_start _ _
    | exact (rep_block_stored hstore ‹node.account_get _ = some _› ‹node.block_get _ = none›).elim
    | apply rpc_m.mute_for_each
    | apply rpc_m.once_bind
    | apply rpc_m.mute_bind
    | intro _
    | split
    | dsimp only

theorem once_account_representative (node : node) (request : ptree) (fuel : Nat) (hstore : rpc_handler.store_coherent node fuel) :
    rpc_m.once (rpc_handler.account_representative node request) := by
  unfold rpc_handler.account_representative
  repeat' with_reducible first
    | exact rpc_m.once_response_errors _
    | exact rpc_m.once_raise _
    | exact rpc_m.once_respond _
    | exact rpc_m.once_respond_with_response_l
    | exact rpc_m.mute_pure _
    | exact rpc_m.mute_raise _
    | exact rpc_m.mute_no_error
    | exact rpc_m.mute_response_empty
    | exact rpc_m.mute_set_ec _
    | exact rpc_m.mute_put _ _
    | exact rpc_m.mute_add_child _ _
    | exact rpc_m.mute_add_children _ _
    | exact rpc_m.mute_add_nested _ _
    | exact rpc_m.mute_modify_response _
    | exact rpc_m.mute_perform _
    | exact rpc_m.mute_request_get _ _
    | exact rpc_m.mute_request_get_child _ _
    | exact mute_rpc_control_impl _
    | exact mute_wallet_impl _ _
    | exact mute_wallet_locked_impl _ _
    | exact mute_wallet_account_impl _ _ _
    | exact mute_account_impl _ _ _
    | exact mute_amount_impl _ _
    | exact mute_block_impl _ _
    | exact mute_hash_impl _ _ _
    | exact mute_work_optional_impl _ _
    | exact mute_count_impl _ _
    | exact mute_count_optional_impl _ _ _
    | exact mute_offset_optional_impl _ _ _
    | exact mute_threshold_optional_impl _ _
    | exact mute_block_impl_unsigned _ _
    | exact mute_account_create_insert _ _ _ _
    | exact mute_accounts_balances_step _ _ _ _
    | exact mute_accounts_frontiers_step _ _ _ _
    | exact mute_accounts_pending_step _ _ _ _ _ _ _ _
    | exact mute_blocks_step _ _ _
    | exact mute_blocks_info_step _ _ _ _ _
    | exact mute_wallet_add_watch_step _ _ _ _ _
    | exact mute_payment_begin_loop _ _ _
    | exact mute_sign_hash _ _ _
    | exact mute_sign_key _ _
    | exact mute_account_history_start _ _
    | exact (rep_block_stored hstore ‹node.account_get _ = some _› ‹node.block_get _ = none›).elim
    | apply rpc_m.mute_for_each
    | apply rpc_m.once_bind
    | apply rpc_m.mute_bind
    | intro _
    | split
    | dsimp only

theorem once_delegators (node : node) (request : ptree) (fuel : Nat) (hstore : rpc_handler.store_coherent node fuel) :
    rpc_m.once (rpc_handler.delegators node request) := by
  unfold rpc_handler.delegators
  repeat' with_reducible first
    | exact rpc_m.once_response_errors _
    | exact rpc_m.once_raise _
    | exact rpc_m.once_respond _
    | exact rpc_m.once_respond_with_response_l
    | exact rpc_m.mute_pure _
    | exact rpc_m.mute_raise _
    | exact rpc_m.mute_no_error
    | exact rpc_m.mute_response_empty
    | exact rpc_m.mute_set_ec _
    | exact rpc_m.mute_put _ _
    | exact rpc_m.mute_add_child _ _
    | exact rpc_m.mute_add_children _ _
    | exact rpc_m.mute_add_nested _ _
    | exact rpc_m.mute_modify_response _
    | exact rpc_m.mute_perform _
    | exact rpc_m.mute_request_get _ _
    | exact rpc_m.mute_request_get_child _ _
    | exact mute_rpc_control_impl _
    | exact mute_wallet_impl _ _
    | exact mute_wallet_locked_impl _ _
    | exact mute_wallet_account_impl _ _ _
    | exact mute_account_impl _ _ _
    | exact mute_amount_impl _ _
    | exact mute_block_impl _ _
    | exact mute_hash_impl _ _ _
    | exact mute_work_optional_impl _ _
    | exact mute_count_impl _ _
    | exact mute_count_optional_impl _ _ _
    | exact mute_offset_optional_impl _ _ _
    | exact mute_threshold_optional_impl _ _
    | exact mute_block_impl_unsigned _ _
    | exact mute_account_create_insert _ _ _ _
    | exact mute_accounts_balances_step _ _ _ _
    | exact mute_accounts_frontiers_step _ _ _ _
    | exact mute_accounts_pending_step _ _ _ _ _ _ _ _
    | exact mute_blocks_step _ _ _
    | exact mute_blocks_info_step _ _ _ _ _
    | exact mute_wallet_add_watch_step _ _ _ _ _
    | exact mute_payment_begin_loop _ _ _
    | exact mute_sign_hash _ _ _
    | exact mute_sign_key _ _
    | exact mute_account_history_start _ _
    | exact absurd ‹rpc_handler.delegators_loop _ _ _ _ = none›
        (delegators_loop_ne_none _ _ _ _ (latest_begin_rep_block hstore _))
    | apply rpc_m.mute_for_each
    | apply rpc_m.once_bind
    | apply rpc_m.mute_bind
    | intro _
    | split
    | dsimp only

theorem once_delegators_count (node : node) (request : ptree) (fuel : Nat) (hstore : rpc_handler.store_coherent node fuel) :
    rpc_m.once (rpc_handler.delegators_count node request) := by
  unfold rpc_handler.delegators_count
  repeat' with_reducible first
    | exact rpc_m.once_response_errors _
    | exact rpc_m.once_raise _
    | exact rpc_m.once_respond _
    | exact rpc_m.once_respond_with_response_l
    | exact rpc_m.mute_pure _
    | exact rpc_m.mute_raise _
    | exact rpc_m.mute_no_error
    | exact rpc_m.mute_response_empty
    | exact rpc_m.mute_set_ec _
    | exact rpc_m.mute_put _ _
    | exact rpc_m.mute_add_child _ _
    | exact rpc_m.mute_add_children _ _
    | exact rpc_m.mute_add_nested _ _
    | exact rpc_m.mute_modify_response _
    | exact rpc_m.mute_perform _
    | exact rpc_m.mute_request_get _ _
    | exact rpc_m.mute_request_get_child _ _
    | exact mute_rpc_control_impl _
    | exact mute_wallet_impl _ _
    | exact mute_wallet_locked_impl _ _
    | exact mute_wallet_account_impl _ _ _
    | exact mute_account_impl _ _ _
    | exact mute_amount_impl _ _
    | exact mute_block_impl _ _
    | exact mute_hash_impl _ _ _
    | exact mute_work_optional_impl _ _
    | exact mute_count_impl _ _
    | exact mute_count_optional_impl _ _ _
    | exact mute_offset_optional_impl _ _ _
    | exact mute_threshold_optional_impl _ _
    | exact mute_block_impl_unsigned _ _
    | exact mute_account_create_insert _ _ _ _
    | exact mute_accounts_balances_step _ _ _ _
    | exact mute_accounts_frontiers_step _ _ _ _
    | exact mute_accounts_pending_step _ _ _ _ _ _ _ _
    | exact mute_blocks_step _ _ _
    | exact mute_blocks_info_step _ _ _ _ _
    | exact mute_wallet_add_watch_step _ _ _ _ _
    | exact mute_payment_begin_loop _ _ _
    | exact mute_sign_hash _ _ _
    | exact mute_sign_key _ _
    | exact mute_account_history_start _ _
    | exact absurd ‹rpc_handler.delegators_count_loop _ _ _ _ = none›
        (delegators_count_loop_ne_none _ _ _ _ (latest_begin_rep_block hstore _))
    | apply rpc_m.mute_for_each
    | apply rpc_m.once_bind
    | apply rpc_m.mute_bind
    | intro _
    | split
    | dsimp only

theorem once_ledger (rpc : rpc) (node : node) (request : ptree) (count_default : Nat) (fuel : Nat) (hstore : rpc_handler.store_coherent node fuel) :
    rpc_m.once (rpc_handler.ledger rpc node request count_default) := by
  unfold rpc_handler.ledger
  repeat' with_reducible first
    | exact rpc_m.once_response_errors _
    | exact rpc_m.once_raise _
    | exact rpc_m.once_respond _
    | exact rpc_m.once_respond_with_response_l
    | exact rpc_m.mute_pure _
    | exact rpc_m.mute_raise _
    | exact rpc_m.mute_no_error
    | exact rpc_m.mute_response_empty
    | exact rpc_m.mute_set_ec _
    | exact rpc_m.mute_put _ _
    | exact rpc_m.mute_add_child _ _
    | exact rpc_m.mute_add_children _ _
    | exact rpc_m.mute_add_nested _ _
    | exact rpc_m.mute_modify_response _
    | exact rpc_m.mute_perform _
    | exact rpc_m.mute_request_get _ _
    | exact rpc_m.mute_request_get_child _ _
    | exact mute_rpc_control_impl _
    | exact mute_wallet_impl _ _
    | exact mute_wallet_locked_impl _ _
    | exact mute_wallet_account_impl _ _ _
    | exact mute_account_impl _ _ _
    | exact mute_amount_impl _ _
    | exact mute_block_impl _ _
    | exact mute_hash_impl _ _ _
    | exact mute_work_optional_impl _ _
    | exact mute_count_impl _ _
    | exact mute_count_optional_impl _ _ _
    | exact mute_offset_optional_impl _ _ _
    | exact mute_threshold_optional_impl _ _
    | exact mute_block_impl_unsigned _ _
    | exact mute_account_create_insert _ _ _ _
    | exact mute_accounts_balances_step _ _ _ _
    | exact mute_accounts_frontiers_step _ _ _ _
    | exact mute_accounts_pending_step _ _ _ _ _ _ _ _
    | exact mute_blocks_step _ _ _
    | exact mute_blocks_info_step _ _ _ _ _
    | exact mute_wallet_add_watch_step _ _ _ _ _
    | exact mute_payment_begin_loop _ _ _
    | exact mute_sign_hash _ _ _
    | exact mute_sign_key _ _
    | exact mute_account_history_start _ _
    | exact absurd ‹rpc_handler.ledger_simple_loop _ _ _ _ _ _ _ _ = none›
        (ledger_simple_loop_ne_none _ _ _ _ _ _ _ _ (latest_begin_rep_block hstore _))
    | exact absurd ‹rpc_handler.ledger_sorted_loop _ _ _ _ _ _ _ _ = none›
        (ledger_sorted_loop_ne_none _ _ _ _ _ _ _ _ (ledger_l_account_get hstore _ _))
    | apply rpc_m.mute_for_each
    | apply rpc_m.once_bind
    | apply rpc_m.mute_bind
    | intro _
    | split
    | dsimp only

theorem once_wallet_ledger (node : node) (request : ptree) (fuel : Nat) (hstore : rpc_handler.store_coherent node fuel) :
    rpc_m.once (rpc_handler.wallet_ledger node request) := by
  unfold rpc_handler.wallet_ledger
  repeat' with_reducible first
    | exact rpc_m.once_response_errors _
    | exact rpc_m.once_raise _
    | exact rpc_m.once_respond _
    | exact rpc_m.once_respond_with_response_l
    | exact rpc_m.mute_pure _
    | exact rpc_m.mute_raise _
    | exact rpc_m.mute_no_error
    | exact rpc_m.mute_response_empty
    | exact rpc_m.mute_set_ec _
    | exact rpc_m.mute_put _ _
    | exact rpc_m.mute_add_child _ _
    | exact rpc_m.mute_add_children _ _
    | exact rpc_m.mute_add_nested _ _
    | exact rpc_m.mute_modify_response _
    | exact rpc_m.mute_perform _
    | exact rpc_m.mute_request_get _ _
    | exact rpc_m.mute_request_get_child _ _
    | exact mute_rpc_control_impl _
    | exact mute_wallet_impl _ _
    | exact mute_wallet_locked_impl _ _
    | exact mute_wallet_account_impl _ _ _
    | exact mute_account_impl _ _ _
    | exact mute_amount_impl _ _
    | exact mute_block_impl _ _
    | exact mute_hash_impl _ _ _
    | exact mute_work_optional_impl _ _
    | exact mute_count_impl _ _
    | exact mute_count_optional_impl _ _ _
    | exact mute_offset_optional_impl _ _ _
    | exact mute_threshold_optional_impl _ _
    | exact mute_block_impl_unsigned _ _
    | exact mute_account_create_insert _ _ _ _
    | exact mute_accounts_balances_step _ _ _ _
    | exact mute_accounts_frontiers_step _ _ _ _
    | exact mute_accounts_pending_step _ _ _ _ _ _ _ _
    | exact mute_blocks_step _ _ _
    | exact mute_blocks_info_step _ _ _ _ _
    | exact mute_wallet_add_watch_step _ _ _ _ _
    | exact mute_payment_begin_loop _ _ _
    | exact mute_sign_hash _ _ _
    | exact mute_sign_key _ _
    | exact mute_account_history_start _ _
    | exact absurd ‹rpc_handler.wallet_ledger_loop _ _ _ _ _ _ _ = none›
        (wallet_ledger_loop_ne_none _ _ hstore _ _ _ _ _ _)
    | apply rpc_m.mute_for_each
    | apply rpc_m.once_bind
    | apply rpc_m.mute_bind
    | intro _
    | split
    | dsimp only

theorem once_wallet_representative_set (rpc : rpc) (node : node) (request : ptree) (fuel : Nat) (hstore : rpc_handler.store_coherent node fuel) :
    rpc_m.once (rpc_handler.wallet_representative_set rpc node request) := by
  unfold rpc_handler.wallet_representative_set
  repeat' with_reducible first
    | exact rpc_m.once_response_errors _
    | exact rpc_m.once_raise _
    | exact rpc_m.once_respond _
    | exact rpc_m.once_respond_with_response_l
    | exact rpc_m.mute_pure _
    | exact rpc_m.mute_raise _
    | exact rpc_m.mute_no_error
    | exact rpc_m.mute_response_empty
    | exact rpc_m.mute_set_ec _
    | exact rpc_m.mute_put _ _
    | exact rpc_m.mute_add_child _ _
    | exact rpc_m.mute_add_children _ _
    | exact rpc_m.mute_add_nested _ _
    | exact rpc_m.mute_modify_response _
    | exact rpc_m.mute_perform _
    | exact rpc_m.mute_request_get _ _
    | exact rpc_m.mute_request_get_child _ _
    | exact mute_rpc_control_impl _
    | exact mute_wallet_impl _ _
    | exact mute_wallet_locked_impl _ _
    | exact mute_wallet_account_impl _ _ _
    | exact mute_account_impl _ _ _
    | exact mute_amount_impl _ _
    | exact mute_block_impl _ _
    | exact mute_hash_impl _ _ _
    | exact mute_work_optional_impl _ _
    | exact mute_count_impl _ _
    | exact mute_count_optional_impl _ _ _
    | exact mute_offset_optional_impl _ _ _
    | exact mute_threshold_optional_impl _ _
    | exact mute_block_impl_unsigned _ _
    | exact mute_account_create_insert _ _ _ _
    | exact mute_accounts_balances_step _ _ _ _
    | exact mute_accounts_frontiers_step _ _ _ _
    | exact mute_accounts_pending_step _ _ _ _ _ _ _ _
    | exact mute_blocks_step _ _ _
    | exact mute_blocks_info_step _ _ _ _ _
    | exact mute_wallet_add_watch_step _ _ _ _ _
    | exact mute_payment_begin_loop _ _ _
    | exact mute_sign_hash _ _ _
    | exact mute_sign_key _ _
    | exact mute_account_history_start _ _
    | exact absurd ‹rpc_handler.wallet_representative_set_loop _ _ _ _ = none›
        (wallet_representative_set_loop_ne_none _ _ hstore _ _ _)
    | apply rpc_m.mute_for_each
    | apply rpc_m.once_bind
    | apply rpc_m.mute_bind
    | intro _
    | split
    | dsimp only

theorem once_wallet_republish (rpc : rpc) (node : node) (request : ptree) (fuel : Nat) (hstore : rpc_handler.store_coherent node fuel) :
    rpc_m.once (rpc_handler.wallet_republish rpc node request) := by
  unfold rpc_handler.wallet_republish
  repeat' with_reducible first
    | exact rpc_m.once_response_errors _
    | exact rpc_m.once_raise _
    | exact rpc_m.once_respond _
    | exact rpc_m.once_respond_with_response_l
    | exact rpc_m.mute_pure _
    | exact rpc_m.mute_raise _
    | exact rpc_m.mute_no_error
    | exact rpc_m.mute_response_empty
    | exact rpc_m.mute_set_ec _
    | exact rpc_m.mute_put _ _
    | exact rpc_m.mute_add_child _ _
    | exact rpc_m.mute_add_children _ _
    | exact rpc_m.mute_add_nested _ _
    | exact rpc_m.mute_modify_response _
    | exact rpc_m.mute_perform _
    | exact rpc_m.mute_request_get _ _
    | exact rpc_m.mute_request_get_child _ _
    | exact mute_rpc_control_impl _
    | exact mute_wallet_impl _ _
    | exact mute_wallet_locked_impl _ _
    | exact mute_wallet_account_impl _ _ _
    | exact mute_account_impl _ _ _
    | exact mute_amount_impl _ _
    | exact mute_block_impl _ _
    | exact mute_hash_impl _ _ _
    | exact mute_work_optional_impl _ _
    | exact mute_count_impl _ _
    | exact mute_count_optional_impl _ _ _
    | exact mute_offset_optional_impl _ _ _
    | exact mute_threshold_optional_impl _ _
    | exact mute_block_impl_unsigned _ _
    | exact mute_account_create_insert _ _ _ _
    | exact mute_accounts_balances_step _ _ _ _
    | exact mute_accounts_frontiers_step _ _ _ _
    | exact mute_accounts_pending_step _ _ _ _ _ _ _ _
    | exact mute_blocks_step _ _ _
    | exact mute_blocks_info_step _ _ _ _ _
    | exact mute_wallet_add_watch_step _ _ _ _ _
    | exact mute_payment_begin_loop _ _ _
    | exact mute_sign_hash _ _ _
    | exact mute_sign_key _ _
    | exact mute_account_history_start _ _
    | exact absurd ‹rpc_handler.wallet_republish_loop _ _ _ _ = none›
        (wallet_republish_loop_ne_none _ _ hstore _ _ _)
    | apply rpc_m.mute_for_each
    | apply rpc_m.once_bind
    | apply rpc_m.mute_bind
    | intro _
    | split
    | dsimp only

theorem once_account_history (node : node) (request : ptree) (fuel : Nat) (hstore : rpc_handler.store_coherent node fuel) :
    rpc_m.once (rpc_handler.account_history node request fuel) := by
  unfold rpc_handler.account_history
  repeat' with_reducible first
    | exact rpc_m.once_response_errors _
    | exact rpc_m.once_raise _
    | exact rpc_m.once_respond _
    | exact rpc_m.once_respond_with_response_l
    | exact rpc_m.mute_pure _
    | exact rpc_m.mute_raise _
    | exact rpc_m.mute_no_error
    | exact rpc_m.mute_response_empty
    | exact rpc_m.mute_set_ec _
    | exact rpc_m.mute_put _ _
    | exact rpc_m.mute_add_child _ _
    | exact rpc_m.mute_add_children _ _
    | exact rpc_m.mute_add_nested _ _
    | exact rpc_m.mute_modify_response _
    | exact rpc_m.mute_perform _
    | exact rpc_m.mute_request_get _ _
    | exact rpc_m.mute_request_get_child _ _
    | exact mute_rpc_control_impl _
    | exact mute_wallet_impl _ _
    | exact mute_wallet_locked_impl _ _
    | exact mute_wallet_account_impl _ _ _
    | exact mute_account_impl _ _ _
    | exact mute_amount_impl _ _
    | exact mute_block_impl _ _
    | exact mute_hash_impl _ _ _
    | exact mute_work_optional_impl _ _
    | exact mute_count_impl _ _
    | exact mute_count_optional_impl _ _ _
    | exact mute_offset_optional_impl _ _ _
    | exact mute_threshold_optional_impl _ _
    | exact mute_block_impl_unsigned _ _
    | exact mute_account_create_insert _ _ _ _
    | exact mute_accounts_balances_step _ _ _ _
    | exact mute_accounts_frontiers_step _ _ _ _
    | exact mute_accounts_pending_step _ _ _ _ _ _ _ _
    | exact mute_blocks_step _ _ _
    | exact mute_blocks_info_step _ _ _ _ _
    | exact mute_wallet_add_watch_step _ _ _ _ _
    | exact mute_payment_begin_loop _ _ _
    | exact mute_sign_hash _ _ _
    | exact mute_sign_key _ _
    | exact mute_account_history_start _ _
    | exact absurd ‹rpc_handler.account_history_loop _ _ _ _ _ _ _ = none›
        (account_history_loop_coherent hstore _ _ _ _ _)
    | apply rpc_m.mute_for_each
    | apply rpc_m.once_bind
    | apply rpc_m.mute_bind
    | intro _
    | split
    | dsimp only

theorem once_wallet_history (node : node) (request : ptree) (fuel : Nat) (hstore : rpc_handler.store_coherent node fuel) :
    rpc_m.once (rpc_handler.wallet_history node request fuel) := by
  unfold rpc_handler.wallet_history
  repeat' with_reducible first
    | exact rpc_m.once_response_errors _
    | exact rpc_m.once_raise _
    | exact rpc_m.once_respond _
    | exact rpc_m.once_respond_with_response_l
    | exact rpc_m.mute_pure _
    | exact rpc_m.mute_raise _
    | exact rpc_m.mute_no_error
    | exact rpc_m.mute_response_empty
    | exact rpc_m.mute_set_ec _
    | exact rpc_m.mute_put _ _
    | exact rpc_m.mute_add_child _ _
    | exact rpc_m.mute_add_children _ _
    | exact rpc_m.mute_add_nested _ _
    | exact rpc_m.mute_modify_response _
    | exact rpc_m.mute_perform _
    | exact rpc_m.mute_request_get _ _
    | exact rpc_m.mute_request_get_child _ _
    | exact mute_rpc_control_impl _
    | exact mute_wallet_impl _ _
    | exact mute_wallet_locked_impl _ _
    | exact mute_wallet_account_impl _ _ _
    | exact mute_account_impl _ _ _
    | exact mute_amount_impl _ _
    | exact mute_block_impl _ _
    | exact mute_hash_impl _ _ _
    | exact mute_work_optional_impl _ _
    | exact mute_count_impl _ _
    | exact mute_count_optional_impl _ _ _
    | exact mute_offset_optional_impl _ _ _
    | exact mute_threshold_optional_impl _ _
    | exact mute_block_impl_unsigned _ _
    | exact mute_account_create_insert _ _ _ _
    | exact mute_accounts_balances_step _ _ _ _
    | exact mute_accounts_frontiers_step _ _ _ _
    | exact mute_accounts_pending_step _ _ _ _ _ _ _ _
    | exact mute_blocks_step _ _ _
    | exact mute_blocks_info_step _ _ _ _ _
    | exact mute_wallet_add_watch_step _ _ _ _ _
    | exact mute_payment_begin_loop _ _ _
    | exact mute_sign_hash _ _ _
    | exact mute_sign_key _ _
    | exact mute_account_history_start _ _
    | exact absurd ‹rpc_handler.wallet_history_loop _ _ _ _ _ = none›
        (wallet_history_loop_ne_none _ _ hstore _ _ _)
    | apply rpc_m.mute_for_each
    | apply rpc_m.once_bind
    | apply rpc_m.mute_bind
    | intro _
    | split
    | dsimp only

theorem rpc_m.once_then_calm (m f : rpc_m Unit) (hm : rpc_m.once m) (hf : rpc_m.calm f) :
    rpc_m.once (m >>= fun _ => f) := by
  constructor
  intro s hs
  have h1 := hm.holds s hs
  rw [rpc_m.bind_run]
  cases hr : m s with
  | done a s' =>
    rw [hr] at h1
    obtain ⟨s'', h2, h3⟩ := hf.holds s'
    show (f s').answers_once
    rw [h2]
    simp only [run.answers_once] at h1 ⊢
    rw [h3]
    exact h1
  | raised e s' => rw [hr] at h1; exact h1
  | stuck s' => rw [hr] at h1; exact h1

theorem calm_stop_node (node : node) (hstop : node.stop_throws = none) :
    rpc_m.calm (rpc_handler.stop_node node) := by
  constructor
  intro s
  cases hec : s.ec <;>
    simp [rpc_handler.stop_node, rpc_m.bind_run, rpc_m.pure_run, no_error, perform, hec, hstop]

theorem once_stop (rpc : rpc) (node : node) (hstop : node.stop_throws = none) :
    rpc_m.once (rpc_handler.stop rpc node) := by
  unfold rpc_handler.stop
  repeat' with_reducible first
    | exact rpc_m.once_then_calm _ _ (rpc_m.once_response_errors _) (calm_stop_node _ hstop)
    | exact rpc_m.mute_pure _
    | exact rpc_m.mute_no_error
    | exact rpc_m.mute_put _ _
    | exact mute_rpc_control_impl _
    | apply rpc_m.once_bind
    | apply rpc_m.mute_bind
    | intro _
    | split
    | dsimp only

/-- The loop of `chain` never uses up the fuel the handler gives it. -/
theorem chain_loop_ne_none (node : node) (successors : Bool) (count : Nat) :
    ∀ (fuel hash size offset : Nat), offset + (count - size) < fuel →
      rpc_handler.chain_loop node successors count fuel hash size offset ≠ none := by
  intro fuel
  induction fuel with
  | zero => intro hash size offset h; exact absurd h (Nat.not_lt_zero _)
  | succ fuel ih =>
    intro hash size offset hfuel
    by_cases hz : hash = 0
    · subst hz
      rw [chain_loop_zero]
      simp
    by_cases hs : size < count
    · cases hb : node.block_get hash with
      | none => simp [rpc_handler.chain_loop, hz, hs, hb, chain_loop_zero]
      | some block_l =>
        by_cases ho : offset > 0
        · have := ih (if successors then node.block_successor hash else block_l.previous) size
            (offset - 1) (by omega)
          simpa [rpc_handler.chain_loop, hz, hs, hb, ho] using this
        · have ho0 : offset = 0 := by omega
          subst ho0
          have := ih (if successors then node.block_successor hash else block_l.previous)
            (size + 1) 0 (by omega)
          simpa [rpc_handler.chain_loop, hz, hs, hb] using this
    · rw [chain_loop_full node successors count _ hash size offset (Nat.le_of_not_lt hs)]
      simp

theorem once_chain (node : node) (request : ptree) (successors : Bool) :
    rpc_m.once (rpc_handler.chain node request successors) := by
  unfold rpc_handler.chain
  repeat' with_reducible first
    | exact rpc_m.once_response_errors _
    | exact rpc_m.mute_pure _
    | exact rpc_m.mute_no_error
    | exact rpc_m.mute_add_child _ _
    | exact mute_hash_impl _ _ _
    | exact mute_count_impl _ _
    | exact mute_offset_optional_impl _ _ _
    | exact absurd ‹rpc_handler.chain_loop _ _ _ _ _ _ _ = none›
        (chain_loop_ne_none _ _ _ _ _ _ _ (by omega))
    | apply rpc_m.once_bind
    | apply rpc_m.mute_bind
    | intro _
    | split
    | dsimp only

theorem republish_destinations_ne_none (node : node) (hash : Nat) :
    ∀ (fuel previous source : Nat), rpc_handler.previous_walk_ends node fuel previous = true →
      rpc_handler.republish_destinations node hash fuel previous source ≠ none := by
  intro fuel
  induction fuel with
  | zero =>
    intro previous source h
    unfold rpc_handler.previous_walk_ends at h
    unfold rpc_handler.republish_destinations
    cases hb : node.block_get previous with
    | none => simp
    | some block_d => simp [hb] at h
  | succ fuel ih =>
    intro previous source h
    unfold rpc_handler.previous_walk_ends at h
    unfold rpc_handler.republish_destinations
    cases hb : node.block_get previous with
    | none => simp
    | some block_d =>
      simp only [hb] at h
      have := ih block_d.previous (node.block_source block_d) h
      by_cases hs : hash = source
      · simp [hs]
      · simp [hs]
        exact this

theorem republish_loop_ne_none (node : node) (sources destinations source_0 fuel : Nat)
    (hstore : rpc_handler.store_coherent node fuel) :
    ∀ (left hash : Nat), hash = 0 ∨ (node.block_get hash).isSome →
      rpc_handler.republish_loop node sources destinations source_0 fuel left hash ≠ none := by
  intro left
  induction left with
  | zero => intro hash _; simp [rpc_handler.republish_loop]
  | succ left ih =>
    intro hash hhash
    by_cases hz : hash = 0
    · simp [rpc_handler.republish_loop, hz]
    · rcases hhash with h0 | hsome
      · exact absurd h0 hz
      · obtain ⟨block, hb⟩ := Option.isSome_iff_exists.mp hsome
        have hrest := ih (node.block_successor hash) (hstore.2.1 hash)
        have hdest := republish_destinations_ne_none node hash fuel
          (node.latest (node.block_destination block)) source_0 (hstore.1 _)
        obtain ⟨rest, hrest'⟩ := Option.ne_none_iff_exists'.mp hrest
        obtain ⟨ds, hds⟩ := Option.ne_none_iff_exists'.mp hdest
        simp only [rpc_handler.republish_loop, hz, if_false, hb, hrest', hds]
        split_ifs <;> simp

theorem once_republish (node : node) (request : ptree) (source_0 fuel : Nat)
    (hstore : rpc_handler.store_coherent node fuel) :
    rpc_m.once (rpc_handler.republish node request source_0 fuel) := by
  unfold rpc_handler.republish
  repeat' with_reducible first
    | exact rpc_m.once_response_errors _
    | exact rpc_m.mute_pure _
    | exact rpc_m.mute_no_error
    | exact rpc_m.mute_set_ec _
    | exact rpc_m.mute_put _ _
    | exact rpc_m.mute_add_child _ _
    | exact rpc_m.mute_perform _
    | exact mute_hash_impl _ _ _
    | exact mute_count_optional_impl _ _ _
    | exact absurd ‹rpc_handler.republish_loop _ _ _ _ _ _ _ = none›
        (republish_loop_ne_none _ _ _ _ _ hstore _ _
          (Or.inr (by simp [‹node.block_get _ = some _›])))
    | apply rpc_m.once_bind
    | apply rpc_m.mute_bind
    | intro _
    | split
    | dsimp only

theorem once_history (node : node) (request : ptree) (fuel : Nat)
    (hstore : rpc_handler.store_coherent node fuel) :
    rpc_m.once (do
      let hash_text ← request_get request "hash"
      rpc_handler.account_history node (request.put "head" hash_text) fuel) := by
  apply rpc_m.once_bind
  · exact rpc_m.mute_request_get _ _
  · intro _
    exact once_account_history _ _ _ hstore

set_option maxHeartbeats 4000000 in
theorem actions_once (rpc : rpc) (node : node) (request : ptree) (source_0 fuel : Nat)
    (hstop : node.stop_throws = none) (hstore : rpc_handler.store_coherent node fuel) :
    ∀ p ∈ rpc_handler.actions rpc node request source_0 fuel,
      p.1 ∉ rpc_handler.asynchronous_verbs → p.1 ≠ "accounts_create" → rpc_m.once p.2 := by
  intro p hp hsync hverb
  simp only [rpc_handler.actions, List.mem_cons, List.mem_singleton, List.not_mem_nil,
    or_false] at hp
  repeat' first
    | (rcases hp with rfl | hp)
    | subst hp
  all_goals dsimp only at hsync hverb ⊢
  all_goals with_reducible first
    | exact once_keepalive _ _ _
    | exact once_bootstrap_lazy _ _ _
    | exact once_search_pending _ _ _
    | exact once_search_pending_all _ _
    | exact once_unchecked_clear _ _
    | exact once_node_id_delete _ _
    | exact once_receive_minimum_set _ _ _
    | exact once_block_create _ _ _
    | exact once_process _ _ _
    | exact once_bootstrap _ _
    | exact once_bootstrap_any _
    | exact once_block_confirm _ _
    | exact once_mFLR_from_raw _ _ _
    | exact once_mFLR_to_raw _ _ _
    | exact once_stats _ _ _
    | exact once_stats_clear
    | exact once_chain _ _ _
    | exact once_stop _ _ hstop
    | exact once_republish _ _ _ _ hstore
    | exact once_history _ _ _ hstore
    | exact once_account_balance _ _
    | exact once_account_block_count _ _
    | exact once_account_count _
    | exact once_account_create _ _ _
    | exact once_account_get _ _
    | exact once_account_key _ _
    | exact once_account_list _ _
    | exact once_account_move _ _ _
    | exact once_account_remove _ _ _
    | exact once_account_weight _ _
    | exact once_accounts_balances _ _
    | exact once_accounts_frontiers _ _
    | exact once_accounts_pending _ _
    | exact once_available_supply _
    | exact once_block_info _ _
    | exact once_blocks _ _
    | exact once_blocks_info _ _
    | exact once_block_account _ _
    | exact once_block_count _
    | exact once_block_count_type _
    | exact once_block_hash _ _
    | exact once_bootstrap_status _
    | exact once_deterministic_key _ _
    | exact once_confirmation_active _ _
    | exact once_confirmation_history _ _
    | exact once_confirmation_info _ _
    | exact once_confirmation_quorum _ _
    | exact once_frontiers _ _
    | exact once_key_create _
    | exact once_key_expand _ _
    | exact once_node_id _ _
    | exact once_password_change _ _ _
    | exact once_password_enter _ _
    | exact once_password_valid _ _ _
    | exact once_payment_begin _ _
    | exact once_payment_init _ _
    | exact once_payment_end _ _
    | exact once_peers _ _
    | exact once_pending _ _ _
    | exact once_pending_exists _ _
    | exact once_receive_minimum _ _
    | exact once_representatives _ _
    | exact once_representatives_online _ _
    | exact once_sign _ _ _
    | exact once_unchecked _ _
    | exact once_unchecked_get _ _
    | exact once_unchecked_keys _ _
    | exact once_uptime _
    | exact once_validate_account_number _ _
    | exact once_version _
    | exact once_wallet_add _ _ _
    | exact once_wallet_add_watch _ _ _
    | exact once_wallet_info _ _
    | exact once_wallet_balances _ _
    | exact once_wallet_change_seed _ _ _
    | exact once_wallet_contains _ _
    | exact once_wallet_create _ _ _
    | exact once_wallet_destroy _ _ _
    | exact once_wallet_export _ _
    | exact once_wallet_frontiers _ _
    | exact once_wallet_key_valid _ _
    | exact once_wallet_lock _ _ _
    | exact once_wallet_pending _ _
    | exact once_wallet_representative _ _
    | exact once_wallet_work_get _ _ _
    | exact once_work_cancel _ _ _
    | exact once_work_get _ _ _
    | exact once_work_set _ _ _
    | exact once_work_validate _ _
    | exact once_work_peer_add _ _ _
    | exact once_work_peers _ _
    | exact once_work_peers_clear _ _
    | exact once_account_info _ _ _ hstore
    | exact once_account_representative _ _ _ hstore
    | exact once_delegators _ _ _ hstore
    | exact once_delegators_count _ _ _ hstore
    | exact once_ledger _ _ _ _ _ hstore
    | exact once_wallet_ledger _ _ _ hstore
    | exact once_wallet_representative_set _ _ _ _ hstore
    | exact once_wallet_republish _ _ _ _ hstore
    | exact once_account_history _ _ _ hstore
    | exact once_wallet_history _ _ _ hstore
    | exact absurd rfl hverb
    | exact absurd (by simp [rpc_handler.asynchronous_verbs]) hsync

theorem lookup_mem {α : Type} (key : String) (value : α) :
    ∀ (table : List (String × α)), table.lookup key = some value → (key, value) ∈ table := by
  intro table
  induction table with
  | nil => intro h; simp at h
  | cons head rest ih =>
    intro h
    obtain ⟨k, v⟩ := head
    by_cases hk : key = k
    · subst hk
      simp [List.lookup] at h
      simp [h]
    · have hk' : (key == k) = false := by simpa using hk
      simp only [List.lookup, hk'] at h
      exact List.mem_cons_of_mem _ (ih h)

theorem catch_all_once (m : rpc_m Unit) (hm : rpc_m.once m) :
    ∃ s, rpc_handler.catch_all m rpc_handler.init = .done () s ∧ s.sent.length = 1 := by
  have h := hm.holds rpc_handler.init rfl
  unfold rpc_handler.catch_all
  cases hr : m rpc_handler.init with
  | done a s => rw [hr] at h; exact ⟨s, rfl, h⟩
  | raised e s =>
    rw [hr] at h
    simp only [run.answers_once] at h
    cases e <;> simp [error_response, respond, h]
  | stuck s => rw [hr] at h; exact absurd h id

/-- For every request body (malformed JSON, no `action`, an unknown action and a body over
the depth limit included) whose verb is neither one of the five that answer from a
completion callback nor `accounts_create`, `process_request` returns with the `response`
callback invoked exactly once, provided `rpc.stop ()` and `node.stop ()`, the calls made
after the response was sent, do not throw, and the store is coherent, so that the chain
walks come to an end and the assertions on stored blocks hold. -/
theorem process_request_answers_once_otherwise (rpc : rpc) (node : node) (body : String)
    (source_0 fuel : Nat)
    (hsync : ∀ request action, node.read_json body = some request →
      request.get_optional "action" = some action →
      action ∉ rpc_handler.asynchronous_verbs ∧ action ≠ "accounts_create")
    (hstop : node.stop_throws = none) (hstore : rpc_handler.store_coherent node fuel) :
    ∃ s, rpc_handler.process_request rpc node body source_0 fuel rpc_handler.init
        = .done () s ∧ s.sent.length = 1 := by
  unfold rpc_handler.process_request
  apply catch_all_once
  split
  · exact rpc_m.once_error_response _
  · unfold rpc_handler.dispatch
    cases hjson : node.read_json body with
    | none => exact rpc_m.once_raise _
    | some request =>
      have key : ∀ action, request.get_optional "action" = some action →
          rpc_m.once (match (rpc_handler.actions rpc node request source_0 fuel).lookup
            action with
            | some call => call
            | none => error_response "Unknown command") := by
        intro action haction
        cases hl : (rpc_handler.actions rpc node request source_0 fuel).lookup action with
        | none => exact rpc_m.once_error_response _
        | some call =>
          exact actions_once rpc node request source_0 fuel hstop hstore (action, call)
            (lookup_mem action call _ hl) (hsync request action hjson haction).1
            (hsync request action hjson haction).2
      constructor
      intro s hs
      show run.answers_once ((request_get request "action" >>= _) s)
      rw [rpc_m.bind_run]
      unfold request_get
      cases hget : request.get_optional "action" with
      | none => exact hs
      | some action => exact (key action hget).holds s hs

theorem sample_store_coherent : rpc_handler.store_coherent sample_node 8 := by
  refine ⟨?_, ?_, ?_, ?_, ?_, ?_⟩
  · intro hash
    by_cases h : 1 ≤ hash ∧ hash ≤ 3
    · obtain ⟨h1, h3⟩ := h
      interval_cases hash <;> decide
    · simp [rpc_handler.previous_walk_ends, sample_node, h]
  · intro hash
    by_cases h : 1 ≤ hash ∧ hash ≤ 2
    · obtain ⟨h1, h2⟩ := h
      interval_cases hash <;> decide
    · simp [sample_node, h]
  · intro account info hinfo
    by_cases h : 7 ≤ account ∧ account ≤ 9
    · obtain ⟨h1, h2⟩ := h
      interval_cases account
      all_goals
        have hval := Option.some.inj hinfo
        subst hval
        decide
    · exfalso
      have hne : sample_node.account_get account = none := by
        have h7 : (account == 7) = false := by
          have : account ≠ 7 := fun e => h (by omega)
          simpa using this
        have h8 : (account == 8) = false := by
          have : account ≠ 8 := fun e => h (by omega)
          simpa using this
        have h9 : (account == 9) = false := by
          have : account ≠ 9 := fun e => h (by omega)
          simpa using this
        simp only [sample_node, List.lookup, h7, h8, h9]
      rw [hne] at hinfo
      cases hinfo
  · intro start item hitem
    simp only [sample_node, List.mem_filter, List.mem_cons, List.mem_singleton,
      List.not_mem_nil, or_false] at hitem
    rcases hitem.1 with rfl | rfl | rfl <;> decide
  · intro account
    by_cases h : account = 7
    · subst h
      right
      decide
    · left
      simp [sample_node, h]
  · intro hash block_l hblock
    by_cases h : 1 ≤ hash ∧ hash ≤ 3
    · obtain ⟨h1, h3⟩ := h
      interval_cases hash
      all_goals
        have hval := Option.some.inj hblock
        subst hval
        decide
    · exfalso
      simp [sample_node, h] at hblock

/-- At the sample node with control enabled the body `stop` is answered once. -/
theorem process_request_stop_answers_once :
    ∃ s, rpc_handler.process_request sample_rpc_enabled sample_node "stop" 0 8
        rpc_handler.init = .done () s ∧ s.sent.length = 1 := by
  have hsync : ∀ request action, sample_node.read_json "stop" = some request →
      request.get_optional "action" = some action →
      action ∉ rpc_handler.asynchronous_verbs ∧ action ≠ "accounts_create" := by
    intro request action hjson haction
    have hrequest : request = [("action", .data "stop")] := by
      have : sample_node.read_json "stop" = some [("action", .data "stop")] := by decide
      rw [this] at hjson
      exact (Option.some.inj hjson).symm
    subst hrequest
    have : action = "stop" := by
      have h : ptree.get_optional [("action", .data "stop")] "action" = some "stop" := by
        decide
      rw [h] at haction
      exact (Option.some.inj haction).symm
    subst this
    decide
  exact process_request_answers_once_otherwise sample_rpc_enabled sample_node "stop" 0 8
    hsync rfl sample_store_coherent

/-- The loop of `accounts_create` on a wallet whose `deterministic_insert` returns the zero
key at every call: while accounts are still asked for it is running after any number of
turns, and nothing was sent meanwhile. -/
theorem accounts_create_loop_zero_keys (node : node) (wallet : Nat) (generate_work : Bool)
    (count : Nat) (hzero : ∀ i, node.deterministic_insert wallet i = 0) :
    ∀ (fuel i : Nat) (accounts : List String) (s : rpc_handler), accounts.length < count →
      ∃ s', rpc_handler.accounts_create_loop node wallet generate_work count fuel i accounts s
          = .stuck s' ∧ s'.sent = s.sent := by
  intro fuel
  induction fuel with
  | zero =>
    intro i accounts s hlt
    refine ⟨s, ?_, rfl⟩
    unfold rpc_handler.accounts_create_loop
    simp [hlt, get_stuck]
  | succ fuel ih =>
    intro i accounts s hlt
    obtain ⟨s', hs', hsent⟩ := ih (i + 1) accounts { s with ops := s.ops ++
      [.deterministic_insert wallet none (some generate_work)] } hlt
    refine ⟨s', ?_, hsent⟩
    rw [← hs']
    conv_lhs => unfold rpc_handler.accounts_create_loop
    simp only [hlt, if_true, hzero]
    rfl

/-- The handler `accounts_create` with control enabled, a wallet that exists, a count of at
least one and a wallet whose `deterministic_insert` returns the zero key at every call:
the handler is still in its loop after any number of turns and has sent nothing. -/
theorem accounts_create_zero_keys (rpc : rpc) (node : node) (request : ptree) (fuel : Nat)
    (wallet_text count_text : String) (wallet count : Nat)
    (hcontrol : rpc.config.enable_control = true)
    (hwallet_text : request.get_optional "wallet" = some wallet_text)
    (hwallet : node.decode_hex wallet_text = some wallet)
    (hexists : node.wallet_exists wallet = true)
    (hcount_text : request.get_optional "count" = some count_text)
    (hcount : decode_unsigned node count_text 0 = (false, count)) (hpos : 0 < count)
    (hzero : ∀ i, node.deterministic_insert wallet i = 0) :
    ∃ s, rpc_handler.accounts_create rpc node request fuel rpc_handler.init = .stuck s
      ∧ s.sent = [] := by
  obtain ⟨s', hs', hsent⟩ := accounts_create_loop_zero_keys node wallet
    (request.get_bool "work" false) count hzero fuel 0 [] rpc_handler.init
    (by simpa using hpos)
  refine ⟨s', ?_, by simpa [rpc_handler.init] using hsent⟩
  have hne : (count == 0) = false := by
    have : count ≠ 0 := by omega
    simpa using this
  unfold rpc_handler.accounts_create
  simp only [bind, rpc_m.bind, rpc_handler.rpc_control_impl, rpc_handler.wallet_impl,
    rpc_handler.count_impl, no_error, request_get, rpc_handler.init, hcontrol, hwallet_text,
    hwallet, hexists, hcount_text, hcount, hne, pure, rpc_m.pure, Option.isNone_none,
    if_true, Bool.not_true, Bool.false_eq_true, if_false, Bool.or_self, Option.getD_some]
  simp only [rpc_handler.init] at hs'
  rw [hs']

/-- A request for `accounts_create` that `process_request` dispatches, under the
conditions of `accounts_create_zero_keys`: `process_request` does not return and the
`response` callback is not invoked. -/
theorem process_request_accounts_create_zero_keys (rpc : rpc) (node : node) (body : String)
    (request : ptree) (source_0 fuel : Nat) (wallet_text count_text : String)
    (wallet count : Nat)
    (hdepth : rpc_handler.max_depth_exceeded rpc.config.max_json_depth body.toList 0 = false)
    (hjson : node.read_json body = some request)
    (haction : request.get_optional "action" = some "accounts_create")
    (hcontrol : rpc.config.enable_control = true)
    (hwallet_text : request.get_optional "wallet" = some wallet_text)
    (hwallet : node.decode_hex wallet_text = some wallet)
    (hexists : node.wallet_exists wallet = true)
    (hcount_text : request.get_optional "count" = some count_text)
    (hcount : decode_unsigned node count_text 0 = (false, count)) (hpos : 0 < count)
    (hzero : ∀ i, node.deterministic_insert wallet i = 0) :
    ∃ s, rpc_handler.process_request rpc node body source_0 fuel rpc_handler.init
        = .stuck s ∧ s.sent = [] := by
  obtain ⟨s, hs, hsent⟩ := accounts_create_zero_keys rpc node request fuel wallet_text
    count_text wallet count hcontrol hwallet_text hwallet hexists hcount_text hcount hpos
    hzero
  refine ⟨s, ?_, hsent⟩
  have hlookup : (rpc_handler.actions rpc node request source_0 fuel).lookup
      "accounts_create" = some (rpc_handler.accounts_create rpc node request fuel) := rfl
  unfold rpc_handler.process_request rpc_handler.catch_all
  simp only [hdepth, Bool.false_eq_true, if_false]
  unfold rpc_handler.dispatch
  simp only [hjson, bind, rpc_m.bind, request_get, haction, pure, rpc_m.pure, hlookup, hs]

/-- Without the assumption on the calls behind the response the count is two: when
`node.stop ()` throws, the `catch` clause of `process_request` answers a second time. -/
theorem stop_throwing_answers_twice :
    (rpc_handler.process_request sample_rpc_enabled
        { sample_node with stop_throws := some .runtime_error } "stop" 0 8
        rpc_handler.init).state.sent
      = [[("success", .data "")], [("error", .data "Unable to parse JSON")]] := by
  decide

/-- C9, at the request on which the code does not answer. Control is enabled and the
request asks `accounts_create` for one account of wallet 1 of the sample node, which is
locked, so that `deterministic_insert` returns the zero key as in the test
`insert_deterministic_locked`. The loop `for (auto i (0); accounts.size () < count; ++i)`
then adds nothing at any turn: however many turns it is given, `process_request` has not
returned and the `response` callback has not been invoked, where C9 asks for one
invocation. The sibling `account_create` on the same wallet is answered once, with
`wallet_locked`, and the same `accounts_create` request on the unlocked wallet is
answered once, with one account. -/
theorem accounts_create_locked_never_answers :
    (∀ fuel, ∃ s, rpc_handler.process_request sample_rpc_enabled sample_node_locked
        "accounts_create" 0 fuel rpc_handler.init = .stuck s ∧ s.sent = [])
    ∧ rpc_handler.process_request sample_rpc_enabled sample_node_locked "account_create" 0 8
        rpc_handler.init
      = .done ()
          { ec := some (.common .wallet_locked),
            response_l := [],
            sent := [[("error", .data "Error")]],
            ops := [.deterministic_insert 1 none (some true)] }
    ∧ rpc_handler.process_request sample_rpc_enabled sample_node "accounts_create" 0 8
        rpc_handler.init
      = .done ()
          { ec := none,
            response_l := [("accounts", .array ["100"])],
            sent := [[("accounts", .array ["100"])]],
            ops := [.deterministic_insert 1 none (some false)] } := by
  refine ⟨fun fuel => ?_, by decide, by decide⟩
  exact process_request_accounts_create_zero_keys sample_rpc_enabled sample_node_locked
    "accounts_create"
    [("action", .data "accounts_create"), ("wallet", .data "1"), ("count", .data "1")]
    0 fuel "1" "1" 1 1 (by decide) (by decide) (by decide) (by decide) (by decide)
    (by decide) (by decide) (by decide) (by decide) (by decide) (fun _ => rfl)

end nano
